import Mathlib

/-! # YANG-to-XML binding (clixon, `lib/src/clixon_xml_bind.c`)

A shallow embedding of the binding engine of `clixon_xml_bind.c` and theorems about it.

* C pointers to XML objects are modelled by values: a `cxobj` carries the address it
  lives at (`addr`), and the `xml_parent` chain of a node is passed explicitly as the list
  of its ancestors, innermost first (`up`).
* C pointers to YANG statements are indices into a store of statements (`List yang_stmt`),
  so that `yang_anydata_add`, which grows the schema tree, can be followed.
* The two file-level statics live in `clixon_state`, next to the YANG store.
* Every function returns a `bind_result`: the C return value, the updated XML object, the
  updated state, the errors written to `*xerr` and a trace of the calls it made.
* Allocation failures (`cbuf_new`, `netconf_*_xml` returning `-1`) are not modelled.
-/

set_option linter.unusedVariables false

/-! ## YANG statements -/

/-- The statement keywords of `enum rfc_6020` that the binder distinguishes. -/
inductive rfc_6020 where
  | Y_ACTION | Y_ANYDATA | Y_ANYXML | Y_CASE | Y_CHOICE | Y_CONTAINER | Y_INPUT
  | Y_LEAF | Y_LEAF_LIST | Y_LIST | Y_MODULE | Y_NAMESPACE | Y_NOTIFICATION
  | Y_OUTPUT | Y_RPC | Y_SUBMODULE | Y_SPEC | Y_UNKNOWN
  deriving DecidableEq, Repr

open rfc_6020

/-- Modelled from the spec: the YANG statement record (`yang_stmt` of `clixon_yang.c`, which
is not among the sources): keyword, argument (the name), parent and child statements.
Pointers are indices into the store. -/
structure yang_stmt where
  ys_keyword : rfc_6020
  ys_argument : Option String
  ys_parent : Option Nat
  ys_stmt : List Nat
  deriving DecidableEq, Repr

/-- Modelled from the spec: `yang_keyword_get`, the keyword of a statement. -/
def yang_keyword_get (Y : List yang_stmt) (y : Nat) : rfc_6020 :=
  match Y[y]? with
  | some c => c.ys_keyword
  | none => Y_UNKNOWN

/-- Modelled from the spec: `yang_argument_get`, the argument (name) of a statement. -/
def yang_argument_get (Y : List yang_stmt) (y : Nat) : Option String :=
  match Y[y]? with
  | some c => c.ys_argument
  | none => none

/-- The child statements of a statement. -/
def yang_children (Y : List yang_stmt) (y : Nat) : List Nat :=
  match Y[y]? with
  | some c => c.ys_stmt
  | none => []

/-- Modelled from the spec: `yang_find(yn, keyword, argument)`, "find child by
keyword+name"; a `NULL` argument matches every argument. -/
def yang_find (Y : List yang_stmt) (yn : Nat) (keyword : rfc_6020) (argument : Option String) :
    Option Nat :=
  (yang_children Y yn).find? (fun c =>
    decide (yang_keyword_get Y c = keyword) &&
      (argument.isNone || decide (yang_argument_get Y c = argument)))

/-- Modelled from the spec: the data-node keywords (RFC 7950, section 3). -/
def yang_datanode (keyword : rfc_6020) : Bool :=
  match keyword with
  | Y_ANYDATA | Y_ANYXML | Y_CONTAINER | Y_LEAF | Y_LEAF_LIST | Y_LIST => true
  | _ => false

/-- Modelled from the spec: `yang_find_datanode(yn, name)`, "find data-node child by name". -/
def yang_find_datanode (Y : List yang_stmt) (yn : Nat) (name : String) : Option Nat :=
  (yang_children Y yn).find? (fun c =>
    yang_datanode (yang_keyword_get Y c) && decide (yang_argument_get Y c = some name))

/-- The lookup of lines 194-195 of `populate_self_parent`: the action statement of that
name under `yparent` ("special case since action is not a datanode"), else the data node
of that name. -/
def yang_find_child (Y : List yang_stmt) (yparent : Nat) (name : String) : Option Nat :=
  match yang_find Y yparent Y_ACTION (some name) with
  | some y => some y
  | none => yang_find_datanode Y yparent name

/-- Modelled from the spec: `yang_find_schemanode(ymod, name)`, the search among "that
module's data nodes, rpc statements, and notification statements". -/
def yang_find_schemanode (Y : List yang_stmt) (yn : Nat) (name : String) : Option Nat :=
  (yang_children Y yn).find? (fun c =>
    (yang_datanode (yang_keyword_get Y c) || decide (yang_keyword_get Y c = Y_RPC) ||
        decide (yang_keyword_get Y c = Y_NOTIFICATION)) &&
      decide (yang_argument_get Y c = some name))

/-- Walk up the parent pointers of `y` to the enclosing (sub)module, at most `fuel` steps. -/
def ys_module_walk (Y : List yang_stmt) : Nat → Nat → Option Nat
  | 0, _ => none
  | fuel + 1, y =>
    match Y[y]? with
    | none => none
    | some c =>
      if c.ys_keyword = Y_MODULE ∨ c.ys_keyword = Y_SUBMODULE then some y
      else
        match c.ys_parent with
        | none => none
        | some p => ys_module_walk Y fuel p

/-- Modelled from the spec: `ys_module(ys)`, "get owning module". A parent chain in a store
of `n` statements has at most `n` links. -/
def ys_module (Y : List yang_stmt) (y : Nat) : Option Nat :=
  ys_module_walk Y (Y.length + 1) y

/-- Modelled from the spec: `yang_find_mynamespace(ys)`, "get declared namespace": the
argument of the namespace statement of the owning module. -/
def yang_find_mynamespace (Y : List yang_stmt) (y : Nat) : Option String :=
  match ys_module Y y with
  | none => none
  | some ymod =>
    match yang_find Y ymod Y_NAMESPACE none with
    | none => none
    | some yns => yang_argument_get Y yns

/-- Modelled from the spec: `yang_find_module_by_namespace(yspec, ns)`, the module of the
spec "whose namespace matches". -/
def yang_find_module_by_namespace (Y : List yang_stmt) (yspec : Nat) (ns : String) :
    Option Nat :=
  (yang_children Y yspec).find? (fun c =>
    decide (yang_keyword_get Y c = Y_MODULE) && (yang_find Y c Y_NAMESPACE (some ns)).isSome)

/-- Modelled from the spec: `yang_anydata_add(yp, name)`: "synthesize an anydata schema node
under" `yp`. The new statement gets the next free index and is appended to the children
of `yp`. -/
def yang_anydata_add (Y : List yang_stmt) (yp : Nat) (name : String) : Nat × List yang_stmt :=
  let ys : yang_stmt :=
    { ys_keyword := Y_ANYDATA, ys_argument := some name, ys_parent := some yp, ys_stmt := [] }
  match Y[yp]? with
  | some c => (Y.length, Y.set yp { c with ys_stmt := c.ys_stmt ++ [Y.length] } ++ [ys])
  | none => (Y.length, Y ++ [ys])

/-! ## XML objects -/

/-- The object types of `enum cxobj_type`. -/
inductive cxobj_type where
  | CX_ELMNT | CX_ATTR | CX_BODY
  deriving DecidableEq, Repr

open cxobj_type

/-- Modelled from the spec: the XML object (`cxobj` of `clixon_xml.c`, which is not among
the sources): "name, optional namespace prefix, ordered children (elements, attributes,
at most one text body) ... optional bound schema reference ... a flag marking a body as a
preserved key-body". `addr` is the address of the object, its identity in C; the parent
back-reference is the `up` list passed to the functions. -/
structure cxobj where
  addr : Nat
  x_type : cxobj_type
  x_name : String
  x_pfx : Option String
  x_value : String
  x_bodykey : Bool
  x_spec : Option Nat
  x_childvec : List cxobj

/-- Model of `xml_name`. -/
def xml_name (x : cxobj) : String := x.x_name

/-- Model of `xml_prefix`. -/
def xml_prefix (x : cxobj) : Option String := x.x_pfx

/-- Model of `xml_type`. -/
def xml_type (x : cxobj) : cxobj_type := x.x_type

/-- Model of `xml_spec`: the bound schema reference. -/
def xml_spec (x : cxobj) : Option Nat := x.x_spec

/-- Model of `xml_spec_set`. -/
def xml_spec_set (x : cxobj) (y : Option Nat) : cxobj := { x with x_spec := y }

/-- Model of `xml_flag(x, XML_FLAG_BODYKEY)`. -/
def xml_flag_bodykey (x : cxobj) : Bool := x.x_bodykey

/-- The view that the descendants of `x` have of it through `xml_parent`: the object with
its attribute children only. The binder reads the name, the schema reference and the
namespace declarations of an ancestor and nothing else, and the other children of an
ancestor change while the pass runs. The parent chains `up` are lists of such views. -/
def xml_up (x : cxobj) : cxobj :=
  { x with x_childvec := x.x_childvec.filter (fun c => decide (c.x_type = CX_ATTR)) }

/-- Model of `xml_parent`: the innermost ancestor. -/
def xml_parent (up : List cxobj) : Option cxobj := up.head?

/-- Model of `xml_child_nr_type`: number of children of one type. -/
def xml_child_nr_type (x : cxobj) (type : cxobj_type) : Nat :=
  (x.x_childvec.filter (fun c => decide (c.x_type = type))).length

/-- Model of `xml_child_i_type`: the `i`-th child of one type. -/
def xml_child_i_type (x : cxobj) (i : Nat) (type : cxobj_type) : Option cxobj :=
  (x.x_childvec.filter (fun c => decide (c.x_type = type)))[i]?

/-- Modelled from the spec: `xml_find_type(xt, prefix, name, type)`: the first child of the
given type with that name; a `NULL` prefix matches every prefix. -/
def xml_find_type (xt : cxobj) (pfx : Option String) (name : String) (type : cxobj_type) :
    Option cxobj :=
  xt.x_childvec.find? (fun c =>
    decide (c.x_type = type) &&
      (match pfx with
        | some p => decide (c.x_pfx = some p)
        | none => true) &&
      decide (c.x_name = name))

/-- Model of `xml_find_type_value`: the value of the child found by `xml_find_type`. -/
def xml_find_type_value (xt : cxobj) (pfx : Option String) (name : String)
    (type : cxobj_type) : Option String :=
  (xml_find_type xt pfx name type).map (fun c => c.x_value)

/-- The namespace declared on `x` itself for a prefix: `xmlns:<prefix>="uri"`, or
`xmlns="uri"` for the default namespace. -/
def xml2ns_self (x : cxobj) (pfx : Option String) : Option String :=
  match pfx with
  | some p => xml_find_type_value x (some "xmlns") p CX_ATTR
  | none => xml_find_type_value x none "xmlns" CX_ATTR

/-- The namespace of a prefix, searched from the innermost object outwards. -/
def xml2ns_recurse : List cxobj → Option String → Option String
  | [], _ => none
  | x :: up, pfx =>
    match xml2ns_self x pfx with
    | some ns => some ns
    | none => xml2ns_recurse up pfx

/-- Modelled from the spec: `xml2ns(x, prefix, &ns)`, which "resolves an element's effective
namespace from in-scope declarations". -/
def xml2ns (up : List cxobj) (x : cxobj) (pfx : Option String) : Option String :=
  xml2ns_recurse (x :: up) pfx

/-- Modelled from the spec: `ys_module_by_xml(yspec, xt, &ymod)`: "finds the module whose
namespace matches the node's namespace"; no module without a namespace or a spec. -/
def ys_module_by_xml (Y : List yang_stmt) (yspec : Option Nat) (up : List cxobj) (xt : cxobj) :
    Option Nat :=
  match yspec, xml2ns up xt ( xml_prefix xt) with
  | some ysp, some ns => yang_find_module_by_namespace Y ysp ns
  | _, _ => none

/-! ## Errors, state and results -/

/-- Modelled from the spec: the protocol error ("error-layer, error-tag, offending element
name, human-readable message") built by the `netconf_*_xml` functions of
`clixon_netconf_lib.c`, which is not among the sources. -/
structure rpc_error where
  error_type : String
  error_tag : String
  error_info : Option String
  error_message : String
  deriving DecidableEq, Repr

/-- Model of `netconf_bad_element_xml(xerr, type, element, message)`. -/
def netconf_bad_element_xml (type element message : String) : rpc_error :=
  { error_type := type, error_tag := "bad-element", error_info := some element,
    error_message := message }

/-- Model of `netconf_unknown_element_xml(xerr, type, element, message)`. -/
def netconf_unknown_element_xml (type element message : String) : rpc_error :=
  { error_type := type, error_tag := "unknown-element", error_info := some element,
    error_message := message }

/-- Model of `netconf_missing_attribute_xml(xerr, type, attribute, message)`. -/
def netconf_missing_attribute_xml (type attr message : String) : rpc_error :=
  { error_type := type, error_tag := "missing-attribute", error_info := some attr,
    error_message := message }

/-- Model of `netconf_operation_failed_xml(xerr, type, message)`. -/
def netconf_operation_failed_xml (type message : String) : rpc_error :=
  { error_type := type, error_tag := "operation-failed", error_info := none,
    error_message := message }

/-- The state the binder reads and writes besides the XML tree: the YANG statements and the
two file-level statics `_yang_unknown_anydata` and `_netconf_message_id_optional`. -/
structure clixon_state where
  yang : List yang_stmt
  _yang_unknown_anydata : Int
  _netconf_message_id_optional : Int

/-- Model of `xml_bind_yang_unknown_anydata(val)`. -/
def xml_bind_yang_unknown_anydata (st : clixon_state) (val : Int) : clixon_state :=
  { st with _yang_unknown_anydata := val }

/-- Model of `xml_bind_netconf_message_id_optional(val)`. -/
def xml_bind_netconf_message_id_optional (st : clixon_state) (val : Int) : clixon_state :=
  { st with _netconf_message_id_optional := val }

/-- What a call does besides changing the tree, in the order it happens: the self-binder
is called on an object and returns `ret`, `xml_spec_set` is called on an object, a warning
is logged, the mount collaborator is asked or told to load. Objects are named by their
address. Within one call of the self-binder the `populate` event comes first. -/
inductive bind_event where
  | populate (addr : Nat) (ret : Int)
  | spec_set (addr : Nat) (y : Option Nat)
  | log_warning (name : String)
  | mount_get (addr : Nat)
  | parse_mount (addr : Nat)
  deriving DecidableEq, Repr

/-- The outcome of a binder function: the C return value (`1` assignment made, `0` failed
with `xerr` set, `2` treated as anydata, `-1` error), the updated object(s), the updated
state, the errors appended to `*xerr` and the trace of the call. -/
structure bind_result (α : Type) where
  retval : Int
  xt : α
  st : clixon_state
  xerr : List rpc_error
  trace : List bind_event

/-- The values of `yang_bind` the binder dispatches on; `YB_RPC` stands for every other
value. -/
inductive yang_bind where
  | YB_NONE | YB_MODULE | YB_PARENT | YB_RPC
  deriving DecidableEq, Repr

open yang_bind

/-- Modelled from the spec: the clixon handle as far as the binder uses it: the option
`CLICON_YANG_SCHEMA_MOUNT` and the schema-mount collaborator ("given a bound node, return
the currently resolved mount schema (or none); trigger a one-time load of mount modules
for that node"). `xml_yang_mount_get` returns its return value and `yspec1`;
`yang_schema_yanglib_parse_mount` returns its return value and the state after the load. -/
structure clicon_handle where
  CLICON_YANG_SCHEMA_MOUNT : Bool
  xml_yang_mount_get : clixon_state → List cxobj → cxobj → Int × Option Nat
  yang_schema_yanglib_parse_mount : clixon_state → List cxobj → cxobj → Int × clixon_state

/-! ## `strip_body_objects` -/

/-- The loop of `strip_body_objects` on the child vector: as long as the first body child
is not marked `XML_FLAG_BODYKEY` it is purged; the loop stops at the first marked body. -/
def strip_body_loop : List cxobj → List cxobj
  | [] => []
  | c :: cs =>
    if c.x_type = CX_BODY ∧ c.x_name = "body" then
      if xml_flag_bodykey c then c :: cs else strip_body_loop cs
    else c :: strip_body_loop cs

/-- Model of `strip_body_objects` (lines 117-137). -/
def strip_body_objects (Y : List yang_stmt) (xt : cxobj) : cxobj :=
  match xml_spec xt with
  | none => xt
  | some yt =>
    if yang_keyword_get Y yt = Y_LIST ∨ yang_keyword_get Y yt = Y_CONTAINER then
      { xt with x_childvec := strip_body_loop xt.x_childvec }
    else xt

/-! ## The self-binder -/

/-- The message of the unknown-element error of the self-binder (the three `cprintf`). -/
def unknown_element_message (name : String) (xp : Option cxobj) (ns : Option String) : String :=
  "Failed to find YANG spec of XML node: " ++ name ++
    (match xp with
      | some p => " with parent: " ++ xml_name p
      | none => "") ++
    (match ns with
      | some n => " in namespace: " ++ n
      | none => "")

/-- The `fail` exit of the self-binder: nothing assigned, one error. -/
def populate_fail (st : clixon_state) (xt : cxobj) (e : rpc_error) : bind_result cxobj :=
  { retval := 0, xt := xt, st := st, xerr := [e], trace := [bind_event.populate xt.addr 0] }

/-- The `set` exit of the self-binder (lines 234-240 and 343-344). -/
def populate_set (st : clixon_state) (xt : cxobj) (y : Option Nat) : bind_result cxobj :=
  { retval := 1, xt := xml_spec_set xt y, st := st, xerr := [],
    trace := [bind_event.populate xt.addr 1, bind_event.spec_set xt.addr y] }

/-- The anydata fallback of the self-binder (lines 196-206 and 304-314): a new anydata
statement under `yp` is assigned, a warning is logged and `2` is returned. -/
def populate_anydata (st : clixon_state) (xt : cxobj) (yp : Nat) : bind_result cxobj :=
  { retval := 2, xt := xml_spec_set xt (some (yang_anydata_add st.yang yp (xml_name xt)).1),
    st := { st with yang := (yang_anydata_add st.yang yp (xml_name xt)).2 }, xerr := [],
    trace := [bind_event.populate xt.addr 2,
      bind_event.spec_set xt.addr (some (yang_anydata_add st.yang yp (xml_name xt)).1),
      bind_event.log_warning (xml_name xt)] }

/-- The namespace check shared by both modes (lines 220-233 and 329-342): the schema is
assigned only if both namespaces exist and are equal. -/
def populate_check_ns (st : clixon_state) (xt : cxobj) (ns : Option String) (y : Nat) :
    bind_result cxobj :=
  match ns, yang_find_mynamespace st.yang y with
  | some n, some nsy =>
    if n ≠ nsy then
      populate_fail st xt (netconf_bad_element_xml "application" (xml_name xt) "Namespace mismatch")
    else populate_set st xt (some y)
  | _, _ =>
    populate_fail st xt (netconf_bad_element_xml "application" (xml_name xt) "Missing namespace")

/-- Model of `populate_self_parent` from line 174 on: the derivation from the parent. -/
def populate_self_parent_slow (st : clixon_state) (up : List cxobj) (xt : cxobj) :
    bind_result cxobj :=
  match xml_parent up with
  | none =>
    populate_fail st xt (netconf_bad_element_xml "application" (xml_name xt) "Missing parent")
  | some xp =>
    match xml_spec xp with
    | none =>
      populate_fail st xt
        (netconf_bad_element_xml "application" (xml_name xt) "Missing parent yang node")
    | some yparent =>
      if yang_keyword_get st.yang yparent = Y_ANYXML ∨
          yang_keyword_get st.yang yparent = Y_ANYDATA then
        { retval := 2, xt := xt, st := st, xerr := [],
          trace := [bind_event.populate xt.addr 2] }
      else
        match yang_find_child st.yang yparent (xml_name xt) with
        | some y => populate_check_ns st xt (xml2ns up xt ( xml_prefix xt)) y
        | none =>
          if st._yang_unknown_anydata ≠ 0 then populate_anydata st xt yparent
          else
            populate_fail st xt
              (netconf_unknown_element_xml "application" (xml_name xt)
                (unknown_element_message (xml_name xt) (some xp)
                  (xml2ns up xt ( xml_prefix xt))))

/-- Model of `populate_self_parent` (lines 152-248). With a sibling and no attribute on
`xt` the schema of the sibling is assigned at once (lines 169-173). -/
def populate_self_parent (st : clixon_state) (up : List cxobj) (xt : cxobj)
    (xsibling : Option cxobj) (yspec : Option Nat) : bind_result cxobj :=
  match xsibling with
  | some xs =>
    if xml_child_nr_type xt CX_ATTR = 0 then populate_set st xt (xml_spec xs)
    else populate_self_parent_slow st up xt
  | none => populate_self_parent_slow st up xt

/-- Model of `populate_self_top` (lines 260-352). -/
def populate_self_top (st : clixon_state) (up : List cxobj) (xt : cxobj) (yspec : Option Nat) :
    bind_result cxobj :=
  match yspec with
  | none =>
    populate_fail st xt (netconf_bad_element_xml "application" (xml_name xt) "Missing yang spec")
  | some ysp =>
    match ys_module_by_xml st.yang (some ysp) up xt with
    | none =>
      populate_fail st xt
        (netconf_unknown_element_xml "application" (xml_name xt)
          (unknown_element_message (xml_name xt) (xml_parent up)
            (xml2ns up xt ( xml_prefix xt))))
    | some ymod =>
      match yang_find_schemanode st.yang ymod (xml_name xt) with
      | none =>
        if st._yang_unknown_anydata ≠ 0 then populate_anydata st xt ymod
        else
          populate_fail st xt
            (netconf_unknown_element_xml "application" (xml_name xt)
              (unknown_element_message (xml_name xt) (xml_parent up)
                (xml2ns up xt ( xml_prefix xt))))
      | some y => populate_check_ns st xt (xml2ns up xt ( xml_prefix xt)) y

/-! ## The recursive driver -/

/-- How lines 455-483 of `xml_bind_yang0_opt` leave: to `done` with `-1`, to `ok` without
visiting the children, or on to the loop over the children with `ybc` and `yspec1`. -/
inductive mount_next where
  | done
  | ok
  | children (ybc : yang_bind) (yspec1 : Option Nat)

/-- Model of lines 455-483 of `xml_bind_yang0_opt`: the schema-mount switch. Returns how
to go on, the state and the trace of the collaborator calls. -/
def xml_bind_yang0_opt_mount (h : Option clicon_handle) (st : clixon_state) (up : List cxobj)
    (xt : cxobj) (yspec : Option Nat) : mount_next × clixon_state × List bind_event :=
  match h with
  | none => (mount_next.children YB_PARENT yspec, st, [])
  | some hh =>
    if hh.CLICON_YANG_SCHEMA_MOUNT = true then
      if (hh.xml_yang_mount_get st up xt).1 < 0 then
        (mount_next.done, st, [bind_event.mount_get xt.addr])
      else if (hh.xml_yang_mount_get st up xt).1 = 0 then
        (mount_next.children YB_PARENT yspec, st, [bind_event.mount_get xt.addr])
      else
        match (hh.xml_yang_mount_get st up xt).2 with
        | some y1 => (mount_next.children YB_MODULE (some y1), st, [bind_event.mount_get xt.addr])
        | none =>
          if (hh.yang_schema_yanglib_parse_mount st up xt).1 < 0 then
            (mount_next.done, (hh.yang_schema_yanglib_parse_mount st up xt).2,
              [bind_event.mount_get xt.addr, bind_event.parse_mount xt.addr])
          else if (hh.yang_schema_yanglib_parse_mount st up xt).1 = 0 then
            (mount_next.ok, (hh.yang_schema_yanglib_parse_mount st up xt).2,
              [bind_event.mount_get xt.addr, bind_event.parse_mount xt.addr])
          else if (hh.xml_yang_mount_get (hh.yang_schema_yanglib_parse_mount st up xt).2
              up xt).1 < 0 then
            (mount_next.done, (hh.yang_schema_yanglib_parse_mount st up xt).2,
              [bind_event.mount_get xt.addr, bind_event.parse_mount xt.addr,
                bind_event.mount_get xt.addr])
          else
            match (hh.xml_yang_mount_get (hh.yang_schema_yanglib_parse_mount st up xt).2
                up xt).2 with
            | some y1 =>
              (mount_next.children YB_MODULE (some y1),
                (hh.yang_schema_yanglib_parse_mount st up xt).2,
                [bind_event.mount_get xt.addr, bind_event.parse_mount xt.addr,
                  bind_event.mount_get xt.addr])
            | none =>
              (mount_next.ok, (hh.yang_schema_yanglib_parse_mount st up xt).2,
                [bind_event.mount_get xt.addr, bind_event.parse_mount xt.addr,
                  bind_event.mount_get xt.addr])
    else (mount_next.children YB_PARENT yspec, st, [])

/-- The sibling handed to the binding of child `xc` (lines 490-501): the previous child
`xc0` when it is bound (`yc0 != NULL`) and has the same name and prefix, else the child
of `xsibling` found by `xml_find_type`, else none. -/
def xml_bind_yang0_opt_sibling (xc0 xsibling : Option cxobj) (xc : cxobj) : Option cxobj :=
  match xc0 with
  | some x0 =>
    if xml_spec x0 ≠ none ∧ xml_name x0 = xml_name xc ∧ xml_prefix x0 = xml_prefix xc then
      some x0
    else
      match xsibling with
      | some xs => xml_find_type xs ( xml_prefix xc) (xml_name xc) CX_ELMNT
      | none => none
  | none =>
    match xsibling with
    | some xs => xml_find_type xs ( xml_prefix xc) (xml_name xc) CX_ELMNT
    | none => none

mutual
/-- Model of `xml_bind_yang0_opt` (lines 415-517). The loop over the children is
`xml_bind_yang0_opt_children`; it runs over the child vector as it was on entry, which
has the same elements in the same order as the vector after `strip_body_objects` (only
bodies are purged, and the loop passes over bodies), and the purge is applied to the
result. -/
def xml_bind_yang0_opt (h : Option clicon_handle) (st : clixon_state) (up : List cxobj)
    (xt : cxobj) (yb : yang_bind) (yspec : Option Nat) (xsibling : Option cxobj) :
    bind_result cxobj :=
  match xt with
  | cxobj.mk addr ty name pfx value bodykey spec childvec =>
    let xt0 := cxobj.mk addr ty name pfx value bodykey spec childvec
    let r0 : Option (bind_result cxobj) :=
      match yb with
      | YB_MODULE => some (populate_self_top st up xt0 yspec)
      | YB_PARENT => some (populate_self_parent st up xt0 xsibling yspec)
      | _ => none
    match r0 with
    | none => { retval := -1, xt := xt0, st := st, xerr := [], trace := [] }
    | some r =>
      if r.retval < 0 then r
      else if r.retval = 0 then r
      else if r.retval = 2 then { r with retval := 1 }
      else
        let xt1 := strip_body_objects r.st.yang r.xt
        match xml_bind_yang0_opt_mount h r.st up xt1 yspec with
        | (mount_next.done, st1, tr) =>
          { retval := -1, xt := xt1, st := st1, xerr := r.xerr, trace := r.trace ++ tr }
        | (mount_next.ok, st1, tr) =>
          { retval := 1, xt := xt1, st := st1, xerr := r.xerr, trace := r.trace ++ tr }
        | (mount_next.children ybc yspec1, st1, tr) =>
          let rc := xml_bind_yang0_opt_children h st1 (xml_up xt1 :: up) childvec ybc yspec1
            none xsibling
          { retval := rc.retval,
            xt := strip_body_objects r.st.yang { r.xt with x_childvec := rc.xt },
            st := rc.st, xerr := r.xerr ++ rc.xerr, trace := r.trace ++ tr ++ rc.trace }
/-- The loop of `xml_bind_yang0_opt` over the element children (lines 484-509). `xc0` is
the child bound in the previous iteration; `yc0`, `name0` and `prefix0` are read off it.
The result holds the whole child vector: the children before the failing one as bound,
the others as they were. A callee returns no negative value but `-1`. -/
def xml_bind_yang0_opt_children (h : Option clicon_handle) (st : clixon_state)
    (up : List cxobj) (cs : List cxobj) (ybc : yang_bind) (yspec1 : Option Nat)
    (xc0 : Option cxobj) (xsibling : Option cxobj) : bind_result (List cxobj) :=
  match cs with
  | [] => { retval := 1, xt := [], st := st, xerr := [], trace := [] }
  | xc :: rest =>
    if xml_type xc ≠ CX_ELMNT then
      let rs := xml_bind_yang0_opt_children h st up rest ybc yspec1 xc0 xsibling
      { rs with xt := xc :: rs.xt }
    else
      let r := xml_bind_yang0_opt h st up xc ybc yspec1
        (xml_bind_yang0_opt_sibling xc0 xsibling xc)
      if r.retval < 0 ∨ r.retval = 0 then
        { retval := r.retval, xt := r.xt :: rest, st := r.st, xerr := r.xerr,
          trace := r.trace }
      else
        let rs := xml_bind_yang0_opt_children h r.st up rest ybc yspec1 (some r.xt) xsibling
        { retval := rs.retval, xt := r.xt :: rs.xt, st := rs.st, xerr := r.xerr ++ rs.xerr,
          trace := r.trace ++ rs.trace }
end

/-- The loop `while ((xc = xml_child_each(xt, xc, CX_ELMNT)) != NULL)` with a body `f` that
binds one child and leaves the loop when the result is negative or `0` (lines 389-394
and 566-571). `f` gets the state, the child bound in the previous iteration and the
child. The result holds the whole child vector. -/
def xml_bind_loop (f : clixon_state → Option cxobj → cxobj → bind_result cxobj) :
    clixon_state → Option cxobj → List cxobj → bind_result (List cxobj)
  | st, _, [] => { retval := 1, xt := [], st := st, xerr := [], trace := [] }
  | st, xc0, xc :: rest =>
    if xml_type xc ≠ CX_ELMNT then
      let rs := xml_bind_loop f st xc0 rest
      { rs with xt := xc :: rs.xt }
    else
      let r := f st xc0 xc
      if r.retval < 0 ∨ r.retval = 0 then
        { retval := r.retval, xt := r.xt :: rest, st := r.st, xerr := r.xerr,
          trace := r.trace }
      else
        let rs := xml_bind_loop f r.st (some r.xt) rest
        { retval := rs.retval, xt := r.xt :: rs.xt, st := rs.st, xerr := r.xerr ++ rs.xerr,
          trace := r.trace ++ rs.trace }

/-- Model of `xml_bind_yang0` (lines 532-579). Every child is bound by
`xml_bind_yang0_opt` in parent mode without sibling. -/
def xml_bind_yang0 (h : Option clicon_handle) (st : clixon_state) (up : List cxobj)
    (xt : cxobj) (yb : yang_bind) (yspec : Option Nat) : bind_result cxobj :=
  let r0 : Option (bind_result cxobj) :=
    match yb with
    | YB_MODULE => some (populate_self_top st up xt yspec)
    | YB_PARENT => some (populate_self_parent st up xt none yspec)
    | YB_NONE => some { retval := 1, xt := xt, st := st, xerr := [], trace := [] }
    | _ => none
  match r0 with
  | none => { retval := -1, xt := xt, st := st, xerr := [], trace := [] }
  | some r =>
    if r.retval < 0 then r
    else if r.retval = 0 then r
    else if r.retval = 2 then { r with retval := 1 }
    else
      let xt1 := strip_body_objects r.st.yang r.xt
      let rc := xml_bind_loop
        (fun s _ xc => xml_bind_yang0_opt h s (xml_up xt1 :: up) xc YB_PARENT yspec none)
        r.st none xt1.x_childvec
      { retval := rc.retval, xt := { xt1 with x_childvec := rc.xt }, st := rc.st,
        xerr := r.xerr ++ rc.xerr, trace := r.trace ++ rc.trace }

/-- Model of `xml_bind_yang` (lines 376-401): `xt` itself is not bound, every child is
bound by `xml_bind_yang0`. -/
def xml_bind_yang (h : Option clicon_handle) (st : clixon_state) (up : List cxobj)
    (xt : cxobj) (yb : yang_bind) (yspec : Option Nat) : bind_result cxobj :=
  let xt1 := strip_body_objects st.yang xt
  let rc := xml_bind_loop (fun s _ xc => xml_bind_yang0 h s (xml_up xt1 :: up) xc yb yspec)
    st none xt1.x_childvec
  { retval := rc.retval, xt := { xt1 with x_childvec := rc.xt }, st := rc.st,
    xerr := rc.xerr, trace := rc.trace }

/-! ## The RPC envelope -/

/-- Model of `xml_bind_yang_rpc_rpc` (lines 591-640). `up` is the parent chain of the
operation element `x`. -/
def xml_bind_yang_rpc_rpc (h : Option clicon_handle) (st : clixon_state) (up : List cxobj)
    (x : cxobj) (yrpc : Nat) (rpcname : String) : bind_result cxobj :=
  let x1 := xml_spec_set x (some yrpc)
  match yang_find st.yang yrpc Y_INPUT none with
  | none =>
    match xml_child_i_type x1 0 CX_ELMNT with
    | some xc =>
      { retval := 0, xt := x1, st := st,
        xerr := [netconf_unknown_element_xml "application" (xml_name xc)
          ("Unrecognized parameter: " ++ xml_name xc ++ " in rpc: " ++ rpcname)],
        trace := [bind_event.spec_set x.addr (some yrpc)] }
    | none =>
      { retval := 1, xt := x1, st := st, xerr := [],
        trace := [bind_event.spec_set x.addr (some yrpc)] }
  | some yi =>
    let x2 := xml_spec_set x1 (some yi)
    let r := xml_bind_yang h st up x2 YB_PARENT none
    { retval := r.retval, xt := r.xt, st := r.st, xerr := r.xerr,
      trace := [bind_event.spec_set x.addr (some yrpc), bind_event.spec_set x.addr (some yi)] ++
        r.trace }

/-- Model of `xml_bind_yang_rpc_action` (lines 656-682). -/
def xml_bind_yang_rpc_action (h : Option clicon_handle) (st : clixon_state) (up : List cxobj)
    (xn : cxobj) (yspec : Option Nat) : bind_result cxobj :=
  let r := xml_bind_yang h st up xn YB_MODULE yspec
  if r.retval < 0 ∨ r.retval = 0 then r
  else
    match (xml_child_i_type r.xt 0 CX_ELMNT).bind xml_spec with
    | some yi =>
      { retval := 1, xt := xml_spec_set r.xt (ys_module r.st.yang yi), st := r.st,
        xerr := r.xerr,
        trace := r.trace ++ [bind_event.spec_set xn.addr (ys_module r.st.yang yi)] }
    | none => { r with retval := 1 }

/-- The check of a `hello` message (lines 726-751): the first element child of `hello`
other than `session-id` and `capabilities`, or the first element child of a
`capabilities` other than `capability`, gives the error. -/
def xml_bind_yang_rpc_hello : List cxobj → Option rpc_error
  | [] => none
  | x :: rest =>
    if xml_type x ≠ CX_ELMNT then xml_bind_yang_rpc_hello rest
    else if xml_name x = "session-id" then xml_bind_yang_rpc_hello rest
    else if xml_name x = "capabilities" then
      match x.x_childvec.find? (fun xc =>
        decide (xml_type xc = CX_ELMNT) && decide (xml_name xc ≠ "capability")) with
      | some xc =>
        some (netconf_unknown_element_xml "protocol" (xml_name xc)
          "Unrecognized hello/capabilities element")
      | none => xml_bind_yang_rpc_hello rest
    else some (netconf_unknown_element_xml "protocol" (xml_name x) "Unrecognized hello element")

/-- The loop of `xml_bind_yang_rpc` over the operations (lines 775-804).
`xml_rpc_isaction` is the action predicate of `clixon_xml_map.c`, which is not among the
sources; it is a parameter. An action ends the loop (`goto ok`). -/
def xml_bind_yang_rpc_children (xml_rpc_isaction : List cxobj → cxobj → Int)
    (h : Option clicon_handle) (st : clixon_state) (up : List cxobj) (yspec : Option Nat) :
    List cxobj → bind_result (List cxobj)
  | [] => { retval := 1, xt := [], st := st, xerr := [], trace := [] }
  | x :: rest =>
    if xml_type x ≠ CX_ELMNT then
      let rs := xml_bind_yang_rpc_children xml_rpc_isaction h st up yspec rest
      { rs with xt := x :: rs.xt }
    else if xml_rpc_isaction up x < 0 then
      { retval := -1, xt := x :: rest, st := st, xerr := [], trace := [] }
    else if xml_rpc_isaction up x = 1 then
      let r := xml_bind_yang_rpc_action h st up x yspec
      { retval := r.retval, xt := r.xt :: rest, st := r.st, xerr := r.xerr, trace := r.trace }
    else
      match ys_module_by_xml st.yang yspec up x with
      | none =>
        { retval := 0, xt := x :: rest, st := st,
          xerr := [netconf_unknown_element_xml "application" (xml_name x)
            "Unrecognized RPC (wrong namespace?)"],
          trace := [] }
      | some ymod =>
        match yang_find st.yang ymod Y_RPC (some (xml_name x)) with
        | none =>
          { retval := 0, xt := x :: rest, st := st,
            xerr := [netconf_unknown_element_xml "application" (xml_name x) "Unrecognized RPC"],
            trace := [] }
        | some yrpc =>
          let r := xml_bind_yang_rpc_rpc h st up x yrpc (xml_name x)
          if r.retval < 0 ∨ r.retval = 0 then
            { retval := r.retval, xt := r.xt :: rest, st := r.st, xerr := r.xerr,
              trace := r.trace }
          else
            let rs := xml_bind_yang_rpc_children xml_rpc_isaction h r.st up yspec rest
            { retval := rs.retval, xt := r.xt :: rs.xt, st := rs.st, xerr := r.xerr ++ rs.xerr,
              trace := r.trace ++ rs.trace }

/-- Model of `xml_bind_yang_rpc` (lines 702-812). -/
def xml_bind_yang_rpc (xml_rpc_isaction : List cxobj → cxobj → Int)
    (h : Option clicon_handle) (st : clixon_state) (up : List cxobj) (xrpc : cxobj)
    (yspec : Option Nat) : bind_result cxobj :=
  if xml_name xrpc = "hello" then
    match xml_bind_yang_rpc_hello xrpc.x_childvec with
    | some e => { retval := 0, xt := xrpc, st := st, xerr := [e], trace := [] }
    | none => { retval := 1, xt := xrpc, st := st, xerr := [], trace := [] }
  else if xml_name xrpc = "notification" then
    { retval := 1, xt := xrpc, st := st, xerr := [], trace := [] }
  else if xml_name xrpc = "rpc" then
    if st._netconf_message_id_optional = 0 ∧
        (xml_find_type xrpc none "message-id" CX_ATTR).isNone = true then
      { retval := 0, xt := xrpc, st := st,
        xerr := [netconf_missing_attribute_xml "rpc" "message-id" "Incoming rpc"],
        trace := [] }
    else
      let rc := xml_bind_yang_rpc_children xml_rpc_isaction h st (xml_up xrpc :: up) yspec
        xrpc.x_childvec
      { retval := rc.retval, xt := { xrpc with x_childvec := rc.xt }, st := rc.st,
        xerr := rc.xerr, trace := rc.trace }
  else
    { retval := 0, xt := xrpc, st := st,
      xerr := [netconf_unknown_element_xml "protocol" (xml_name xrpc)
        "Unrecognized netconf operation"],
      trace := [] }

/-- The search of `xml_bind_yang_rpc_reply` for the output statement (lines 861-876): the
first element child whose namespace selects a module that has the rpc `name` with an
output statement gives it. -/
def xml_bind_yang_rpc_reply_output (Y : List yang_stmt) (yspec : Option Nat) (up : List cxobj)
    (name : String) : List cxobj → Option Nat
  | [] => none
  | x :: rest =>
    if xml_type x ≠ CX_ELMNT then xml_bind_yang_rpc_reply_output Y yspec up name rest
    else
      match ys_module_by_xml Y yspec up x with
      | none => xml_bind_yang_rpc_reply_output Y yspec up name rest
      | some ymod =>
        match yang_find Y ymod Y_RPC (some name) with
        | none => xml_bind_yang_rpc_reply_output Y yspec up name rest
        | some yrpc =>
          match yang_find Y yrpc Y_OUTPUT none with
          | none => xml_bind_yang_rpc_reply_output Y yspec up name rest
          | some yo => some yo

/-- Model of `xml_bind_yang_rpc_reply` (lines 832-913). `netconf_err2cb`, which turns the
errors of the nested binding into text, is a function of `clixon_netconf_lib.c`, which
is not among the sources; it is a parameter. -/
def xml_bind_yang_rpc_reply (netconf_err2cb : List rpc_error → String)
    (h : Option clicon_handle) (st : clixon_state) (up : List cxobj) (xrpc : cxobj)
    (name : String) (yspec : Option Nat) : bind_result cxobj :=
  if xml_name xrpc ≠ "rpc-reply" then
    { retval := 0, xt := xrpc, st := st,
      xerr := [netconf_operation_failed_xml "application"
        ("Internal error, unrecognized netconf operation in backend reply, " ++
          "expected rpc-reply but received: " ++ xml_name xrpc)],
      trace := [] }
  else
    match xml_bind_yang_rpc_reply_output st.yang yspec (xml_up xrpc :: up) name
        xrpc.x_childvec with
    | none => { retval := 1, xt := xrpc, st := st, xerr := [], trace := [] }
    | some yo =>
      let x1 := xml_spec_set xrpc (some yo)
      if (match xml_child_i_type x1 0 CX_ELMNT with
          | some xc => decide (xml_name xc = "rpc-error" ∨ xml_name xc = "ok")
          | none => false) = true then
        { retval := 1, xt := x1, st := st, xerr := [],
          trace := [bind_event.spec_set xrpc.addr (some yo)] }
      else
        let r := xml_bind_yang h st up x1 YB_PARENT none
        if r.retval < 0 then
          { retval := -1, xt := r.xt, st := r.st, xerr := [],
            trace := [bind_event.spec_set xrpc.addr (some yo)] ++ r.trace }
        else if r.retval = 0 then
          { retval := 0, xt := r.xt, st := r.st,
            xerr := [netconf_operation_failed_xml "application"
              ("Internal error in backend reply: " ++ netconf_err2cb r.xerr)],
            trace := [bind_event.spec_set xrpc.addr (some yo)] ++ r.trace }
        else
          { retval := 1, xt := r.xt, st := r.st, xerr := [],
            trace := [bind_event.spec_set xrpc.addr (some yo)] ++ r.trace }

/-! ## Notions used in the statements -/

/-- Schema mount is off: no handle, or `CLICON_YANG_SCHEMA_MOUNT` is false. -/
def mount_disabled (h : Option clicon_handle) : Prop :=
  ∀ hh, h = some hh → hh.CLICON_YANG_SCHEMA_MOUNT = false

/-- The four ways the self-binder returns: failed with one error and nothing assigned, a
schema assigned, the anydata fallback, or opaque below anyxml/anydata. -/
def populate_shape (st : clixon_state) (xt : cxobj) (r : bind_result cxobj) : Prop :=
  (∃ e, r = populate_fail st xt e) ∨ (∃ y, r = populate_set st xt y) ∨
    (st._yang_unknown_anydata ≠ 0 ∧ ∃ yp, r = populate_anydata st xt yp) ∨
    r = { retval := 2, xt := xt, st := st, xerr := [],
          trace := [bind_event.populate xt.addr 2] }

/-- The self-binder returns in the same way on two objects. -/
def populate_rel (st : clixon_state) (xt xt' : cxobj) (r r' : bind_result cxobj) : Prop :=
  (∃ e, r = populate_fail st xt e ∧ r' = populate_fail st xt' e) ∨
    (∃ y, r = populate_set st xt y ∧ r' = populate_set st xt' y) ∨
    (∃ yp, r = populate_anydata st xt yp ∧ r' = populate_anydata st xt' yp) ∨
    (r = { retval := 2, xt := xt, st := st, xerr := [],
           trace := [bind_event.populate xt.addr 2] } ∧
      r' = { retval := 2, xt := xt', st := st, xerr := [],
             trace := [bind_event.populate xt'.addr 2] })

/-- The attribute children of an object. -/
def xml_attrs (x : cxobj) : List cxobj :=
  x.x_childvec.filter (fun c => decide (c.x_type = CX_ATTR))

/-- Two objects that differ at most in their schema reference and in their children that
are not attributes. -/
def xml_same_head (x x' : cxobj) : Prop :=
  x'.addr = x.addr ∧ x'.x_type = x.x_type ∧ x'.x_name = x.x_name ∧ x'.x_pfx = x.x_pfx ∧
    xml_attrs x' = xml_attrs x ∧ x'.x_value = x.x_value ∧ x'.x_bodykey = x.x_bodykey

/-- The body of the loop of `xml_bind_yang0_opt` over the children of `xt1` (lines
488-502) in parent mode: the child is bound with the sibling chosen for it. -/
def xml_bind_yang0_opt_body (h : Option clicon_handle) (up : List cxobj) (yspec : Option Nat)
    (xsibling : Option cxobj) (xt1 : cxobj) :
    clixon_state → Option cxobj → cxobj → bind_result cxobj :=
  fun s x0 xc => xml_bind_yang0_opt h s (xml_up xt1 :: up) xc YB_PARENT yspec
    (xml_bind_yang0_opt_sibling x0 xsibling xc)

mutual
/-- The addresses of an object and of all objects below it, in document order. -/
def xml_addrs : cxobj → List Nat
  | cxobj.mk addr _ _ _ _ _ _ childvec => addr :: xml_addrs_list childvec
/-- The addresses of the objects of a child vector and below, in document order. -/
def xml_addrs_list : List cxobj → List Nat
  | [] => []
  | c :: cs => xml_addrs c ++ xml_addrs_list cs
end

/-- The address an event is about, if any. -/
def bind_event.addr? : bind_event → Option Nat
  | bind_event.populate a _ => some a
  | bind_event.spec_set a _ => some a
  | bind_event.log_warning _ => none
  | bind_event.mount_get a => some a
  | bind_event.parse_mount a => some a

/-- The addresses of the objects on which a trace calls `xml_spec_set`, in order. -/
def trace_spec_set : List bind_event → List Nat
  | [] => []
  | bind_event.spec_set a _ :: tr => a :: trace_spec_set tr
  | _ :: tr => trace_spec_set tr

/-- The addresses of the objects on which a trace calls the self-binder, in order. -/
def trace_populate : List bind_event → List Nat
  | [] => []
  | bind_event.populate a _ :: tr => a :: trace_populate tr
  | _ :: tr => trace_populate tr

/-- The self-binder call of `xml_bind_yang0_opt` (the `switch (yb)` of lines 436-449);
none for a mode that is neither `YB_MODULE` nor `YB_PARENT`. -/
def xml_bind_yang0_opt_self (st : clixon_state) (up : List cxobj) (xt : cxobj) (yb : yang_bind)
    (yspec : Option Nat) (xsibling : Option cxobj) : Option (bind_result cxobj) :=
  match yb with
  | YB_MODULE => some (populate_self_top st up xt yspec)
  | YB_PARENT => some (populate_self_parent st up xt xsibling yspec)
  | _ => none

/-- What `xml_bind_yang0_opt` does after a self-binder call `r` that assigned a schema
(lines 454-509). -/
def xml_bind_yang0_opt_descend (h : Option clicon_handle) (up : List cxobj) (yspec : Option Nat)
    (xsibling : Option cxobj) (r : bind_result cxobj) : bind_result cxobj :=
  match xml_bind_yang0_opt_mount h r.st up (strip_body_objects r.st.yang r.xt) yspec with
  | (mount_next.done, st1, tr) =>
    { retval := -1, xt := strip_body_objects r.st.yang r.xt, st := st1, xerr := r.xerr,
      trace := r.trace ++ tr }
  | (mount_next.ok, st1, tr) =>
    { retval := 1, xt := strip_body_objects r.st.yang r.xt, st := st1, xerr := r.xerr,
      trace := r.trace ++ tr }
  | (mount_next.children ybc yspec1, st1, tr) =>
    let rc := xml_bind_loop (fun s x0 xc => xml_bind_yang0_opt h s
        (xml_up (strip_body_objects r.st.yang r.xt) :: up) xc ybc yspec1
        (xml_bind_yang0_opt_sibling x0 xsibling xc)) st1 none r.xt.x_childvec
    { retval := rc.retval,
      xt := strip_body_objects r.st.yang { r.xt with x_childvec := rc.xt },
      st := rc.st, xerr := r.xerr ++ rc.xerr, trace := r.trace ++ tr ++ rc.trace }

/-! ## Example data -/

/-- An element without schema reference. -/
def xml_elmnt (addr : Nat) (pfx : Option String) (name : String) (childvec : List cxobj) :
    cxobj :=
  { addr := addr, x_type := CX_ELMNT, x_name := name, x_pfx := pfx, x_value := "",
    x_bodykey := false, x_spec := none, x_childvec := childvec }

/-- An attribute. -/
def xml_attr (addr : Nat) (pfx : Option String) (name value : String) : cxobj :=
  { addr := addr, x_type := CX_ATTR, x_name := name, x_pfx := pfx, x_value := value,
    x_bodykey := false, x_spec := none, x_childvec := [] }

/-- A body. -/
def xml_body (addr : Nat) (value : String) (bodykey : Bool) : cxobj :=
  { addr := addr, x_type := CX_BODY, x_name := "body", x_pfx := none, x_value := value,
    x_bodykey := bodykey, x_spec := none, x_childvec := [] }

/-- An example schema: statement `0` is the spec, `1` the module

    module m { namespace "urn:n";
      container c { container p { list a; } }
      rpc get-config { input { container source { leaf running; } } }
      rpc reset; }
-/
def example_yang : List yang_stmt :=
  [ { ys_keyword := Y_SPEC, ys_argument := none, ys_parent := none, ys_stmt := [1] },
    { ys_keyword := Y_MODULE, ys_argument := some "m", ys_parent := some 0,
      ys_stmt := [2, 3, 6, 10] },
    { ys_keyword := Y_NAMESPACE, ys_argument := some "urn:n", ys_parent := some 1, ys_stmt := [] },
    { ys_keyword := Y_CONTAINER, ys_argument := some "c", ys_parent := some 1, ys_stmt := [4] },
    { ys_keyword := Y_CONTAINER, ys_argument := some "p", ys_parent := some 3, ys_stmt := [5] },
    { ys_keyword := Y_LIST, ys_argument := some "a", ys_parent := some 4, ys_stmt := [] },
    { ys_keyword := Y_RPC, ys_argument := some "get-config", ys_parent := some 1,
      ys_stmt := [7] },
    { ys_keyword := Y_INPUT, ys_argument := none, ys_parent := some 6, ys_stmt := [8] },
    { ys_keyword := Y_CONTAINER, ys_argument := some "source", ys_parent := some 7,
      ys_stmt := [9] },
    { ys_keyword := Y_LEAF, ys_argument := some "running", ys_parent := some 8, ys_stmt := [] },
    { ys_keyword := Y_RPC, ys_argument := some "reset", ys_parent := some 1, ys_stmt := [] } ]

/-- The example schema with the anydata fallback off and `message-id` required. -/
def example_state : clixon_state :=
  { yang := example_yang, _yang_unknown_anydata := 0, _netconf_message_id_optional := 0 }

/-- The document `<foo xmlns="urn:unknown"/>`. -/
def example_foo : cxobj :=
  xml_elmnt 1 none "foo" [xml_attr 2 none "xmlns" "urn:unknown"]

/-- The document `<foo xmlns="urn:n"/>`: the namespace of module `m`, which has no `foo`. -/
def example_foo_m : cxobj :=
  xml_elmnt 1 none "foo" [xml_attr 2 none "xmlns" "urn:n"]

/-- The example schema with the anydata fallback on. -/
def example_state_anydata : clixon_state := xml_bind_yang_unknown_anydata example_state 1

/-- The document `<foo xmlns="urn:n"><bar><baz/></bar></foo>`. -/
def example_foo_bar : cxobj :=
  xml_elmnt 1 none "foo"
    [xml_attr 2 none "xmlns" "urn:n", xml_elmnt 3 none "bar" [xml_elmnt 4 none "baz" []]]

/-- No element is an action: an action predicate for documents without actions. -/
def example_isaction (up : List cxobj) (x : cxobj) : Int := 0

/-- The parameter `<source/>`. -/
def example_source : cxobj := xml_elmnt 5 none "source" []

/-- The operation `<get-config xmlns="urn:n"><source/></get-config>`. -/
def example_get_config : cxobj :=
  xml_elmnt 3 none "get-config" [xml_attr 4 none "xmlns" "urn:n", example_source]

/-- The document
`<rpc message-id="1"><get-config xmlns="urn:n"><source/></get-config></rpc>`. -/
def example_rpc : cxobj :=
  xml_elmnt 1 none "rpc" [xml_attr 2 none "message-id" "1", example_get_config]

/-- The parameter `<source><bogus/></source>`: `source` is declared, its child `bogus` is
not. -/
def example_source_bogus : cxobj := xml_elmnt 5 none "source" [xml_elmnt 6 none "bogus" []]

/-- The operation `<get-config xmlns="urn:n"><source><bogus/></source></get-config>`. -/
def example_get_config_bogus : cxobj :=
  xml_elmnt 3 none "get-config" [xml_attr 4 none "xmlns" "urn:n", example_source_bogus]

/-- The document
`<rpc message-id="1"><get-config xmlns="urn:n"><source><bogus/></source></get-config></rpc>`. -/
def example_rpc_bogus : cxobj :=
  xml_elmnt 1 none "rpc" [xml_attr 2 none "message-id" "1", example_get_config_bogus]

/-- The first list entry `<a xmlns="urn:n"/>`: it declares its own default namespace. -/
def example_a1 : cxobj := xml_elmnt 13 none "a" [xml_attr 14 none "xmlns" "urn:n"]

/-- The second list entry `<a/>`: no attribute; its default namespace is the one in scope
at its parent. -/
def example_a2 : cxobj := xml_elmnt 15 none "a" []

/-- The element `<n:p xmlns:n="urn:n" xmlns="urn:other"> <a xmlns="urn:n"/> <a/> </n:p>`:
`p` is in namespace `urn:n` by its prefix and sets the default namespace of its content
to `urn:other`. -/
def example_p : cxobj :=
  xml_elmnt 10 (some "n") "p"
    [xml_attr 11 (some "xmlns") "n" "urn:n", xml_attr 12 none "xmlns" "urn:other",
     example_a1, example_a2]

/-- The document
`<c xmlns="urn:n"><n:p xmlns:n="urn:n" xmlns="urn:other"><a xmlns="urn:n"/><a/></n:p></c>`. -/
def example_c : cxobj := xml_elmnt 9 none "c" [xml_attr 8 none "xmlns" "urn:n", example_p]

/-- The element `<zzz xmlns="urn:zzz"/>`. -/
def example_zzz : cxobj := xml_elmnt 20 none "zzz" [xml_attr 21 none "xmlns" "urn:zzz"]

/-- The self-binder call of `xml_bind_yang0` (the `switch (yb)` of lines 543-559); with
`YB_NONE` there is no call and the result is `1`. -/
def xml_bind_yang0_self (st : clixon_state) (up : List cxobj) (xt : cxobj) (yb : yang_bind)
    (yspec : Option Nat) : Option (bind_result cxobj) :=
  match yb with
  | YB_MODULE => some (populate_self_top st up xt yspec)
  | YB_PARENT => some (populate_self_parent st up xt none yspec)
  | YB_NONE => some { retval := 1, xt := xt, st := st, xerr := [], trace := [] }
  | _ => none

/-- The addresses of the operation elements of `<rpc>`: its element children. -/
def rpc_op_addrs (xrpc : cxobj) : List Nat :=
  (xrpc.x_childvec.filter (fun x => decide (xml_type x = CX_ELMNT))).map (fun x => x.addr)

/-! ## Notions used in the statements on a second pass and on an aborted pass -/

/-- The body of the child loop of `xml_bind_yang0` (lines 565-574) below the object
`xt1`. -/
def xml_bind_yang0_body (h : Option clicon_handle) (up : List cxobj) (yspec : Option Nat)
    (xt1 : cxobj) : clixon_state → Option cxobj → cxobj → bind_result cxobj :=
  fun s _ xc => xml_bind_yang0_opt h s (xml_up xt1 :: up) xc YB_PARENT yspec none

/-- The part of `xml_bind_yang0` after the self-binder returned `r` with `1` (lines
561-574): bodies are purged and the children bound. -/
def xml_bind_yang0_descend (h : Option clicon_handle) (up : List cxobj) (yspec : Option Nat)
    (r : bind_result cxobj) : bind_result cxobj :=
  { retval := (xml_bind_loop (xml_bind_yang0_body h up yspec (strip_body_objects r.st.yang r.xt))
        r.st none (strip_body_objects r.st.yang r.xt).x_childvec).retval,
    xt := { strip_body_objects r.st.yang r.xt with
      x_childvec := (xml_bind_loop (xml_bind_yang0_body h up yspec
        (strip_body_objects r.st.yang r.xt)) r.st none
        (strip_body_objects r.st.yang r.xt).x_childvec).xt },
    st := (xml_bind_loop (xml_bind_yang0_body h up yspec (strip_body_objects r.st.yang r.xt))
        r.st none (strip_body_objects r.st.yang r.xt).x_childvec).st,
    xerr := r.xerr ++ (xml_bind_loop (xml_bind_yang0_body h up yspec
        (strip_body_objects r.st.yang r.xt)) r.st none
        (strip_body_objects r.st.yang r.xt).x_childvec).xerr,
    trace := r.trace ++ (xml_bind_loop (xml_bind_yang0_body h up yspec
        (strip_body_objects r.st.yang r.xt)) r.st none
        (strip_body_objects r.st.yang r.xt).x_childvec).trace }

mutual
/-- The elements the binder can reach in a tree, in document order (depth first), each
with its address and its schema reference: the object itself and, recursively, its
element children (`xml_child_each(x, xc, CX_ELMNT)`). -/
def xml_specs : cxobj → List (Nat × Option Nat)
  | cxobj.mk addr _ _ _ _ _ spec childvec => (addr, spec) :: xml_specs_list childvec
/-- The elements of a child vector and below, in document order. -/
def xml_specs_list : List cxobj → List (Nat × Option Nat)
  | [] => []
  | c :: cs =>
    match c.x_type with
    | CX_ELMNT => xml_specs c ++ xml_specs_list cs
    | _ => xml_specs_list cs
end

/-- The calls of `xml_spec_set` of a trace, in order: address and schema reference. -/
def trace_specs : List bind_event → List (Nat × Option Nat)
  | [] => []
  | bind_event.spec_set a y :: tr => (a, y) :: trace_specs tr
  | _ :: tr => trace_specs tr

/-- The object `x` is `t` or lies below `t`. -/
inductive xml_below : cxobj → cxobj → Prop where
  | self (x : cxobj) : xml_below x x
  | child {x c t : cxobj} : c ∈ t.x_childvec → xml_below x c → xml_below x t

/-- The self-binder, called on `xc`, failed with the error `e`. -/
def populate_failed (xc : cxobj) (e : rpc_error) : Prop :=
  ∃ st up xsibling yspec,
    populate_self_top st up xc yspec = populate_fail st xc e ∨
      populate_self_parent st up xc xsibling yspec = populate_fail st xc e

/-- A pass aborted at the element with address `c`: `s0` and `s1` are the elements before
and after the pass, `tr` and `xerr` the trace and the errors of the pass. The last event
is the failed self-binder call on `c`; the calls before it are on elements before `c`; the
assignments of the pass are found, in order, among the elements before `c` after the
pass; `c` and the elements after it are as before the pass; `xerr` is the one error
`e`. -/
def bind_abort (s0 s1 : List (Nat × Option Nat)) (tr : List bind_event)
    (xerr : List rpc_error) (c : Nat) (e : rpc_error) : Prop :=
  ∃ sc pre pre1 post tr0,
    s0 = pre ++ (c, sc) :: post ∧ s1 = pre1 ++ (c, sc) :: post ∧
    pre1.map Prod.fst = pre.map Prod.fst ∧
    tr = tr0 ++ [bind_event.populate c 0] ∧
    List.Sublist (trace_populate tr0) (pre.map Prod.fst) ∧
    List.Sublist (trace_specs tr0) pre1 ∧
    xerr = [e]

/-- What holds of every pass over elements `s0` that `B` describes, with elements `s1`
after the pass: the addresses are the same, the assignments of the pass are in `s1`, the
self-binder was called on elements of `s0` in document order, there is no error unless the
pass returns `0`, and a pass that returns `0` aborted at an element that `B` describes. -/
def bind_inv (B : cxobj → Prop) (s0 s1 : List (Nat × Option Nat)) (retval : Int)
    (xerr : List rpc_error) (tr : List bind_event) : Prop :=
  s1.map Prod.fst = s0.map Prod.fst ∧
  List.Sublist (trace_specs tr) s1 ∧
  List.Sublist (trace_populate tr) (s0.map Prod.fst) ∧
  (retval ≠ 0 → xerr = []) ∧
  (retval = 0 → ∃ xc e, B xc ∧ populate_failed xc e ∧ bind_abort s0 s1 tr xerr xc.addr e)

/-- The document `<c xmlns="urn:n"><p><a/><bogus/><a/></p><p/></c>`: no schema node
`bogus` exists under `container p`. -/
def example_abort : cxobj :=
  xml_elmnt 30 none "c"
    [xml_attr 31 none "xmlns" "urn:n",
     xml_elmnt 32 none "p"
       [xml_elmnt 33 none "a" [], xml_elmnt 34 none "bogus" [], xml_elmnt 35 none "a" []],
     xml_elmnt 36 none "p" []]

/-! ## Notions used in the statements on the errors and on the RPC envelope -/

/-- The error slot after a call that was given an empty slot: one error when the call
returns `0`, no error otherwise. -/
def xerr_one (retval : Int) (xerr : List rpc_error) : Prop :=
  (retval = 0 → ∃ e, xerr = [e]) ∧ (retval ≠ 0 → xerr = [])

/-- A schema with an anyxml node in a list: statement `0` is the spec, `1` the module

    module m { namespace "urn:n";
      container c { container p { list l { anyxml data; } } } }
-/
def example_yang_any : List yang_stmt :=
  [ { ys_keyword := Y_SPEC, ys_argument := none, ys_parent := none, ys_stmt := [1] },
    { ys_keyword := Y_MODULE, ys_argument := some "m", ys_parent := some 0, ys_stmt := [2, 3] },
    { ys_keyword := Y_NAMESPACE, ys_argument := some "urn:n", ys_parent := some 1, ys_stmt := [] },
    { ys_keyword := Y_CONTAINER, ys_argument := some "c", ys_parent := some 1, ys_stmt := [4] },
    { ys_keyword := Y_CONTAINER, ys_argument := some "p", ys_parent := some 3, ys_stmt := [5] },
    { ys_keyword := Y_LIST, ys_argument := some "l", ys_parent := some 4, ys_stmt := [6] },
    { ys_keyword := Y_ANYXML, ys_argument := some "data", ys_parent := some 5, ys_stmt := [] } ]

/-- The schema `example_yang_any` with the anydata fallback off. -/
def example_state_any : clixon_state :=
  { yang := example_yang_any, _yang_unknown_anydata := 0, _netconf_message_id_optional := 0 }

/-- The element `<u/>` below the anyxml node of the first list entry. -/
def example_u1 : cxobj := xml_elmnt 45 none "u" []

/-- The element `<v/>` below `<u>` in the second list entry. -/
def example_v : cxobj := xml_elmnt 50 none "v" []

/-- The element `<u><v/></u>` below the anyxml node of the second list entry. -/
def example_u2 : cxobj := xml_elmnt 49 none "u" [example_v]

/-- The first list entry `<l><data><u/></data></l>`. -/
def example_l1 : cxobj := xml_elmnt 43 none "l" [xml_elmnt 44 none "data" [example_u1]]

/-- The second list entry `<l><data><u><v/></u></data></l>`. -/
def example_l2 : cxobj := xml_elmnt 47 none "l" [xml_elmnt 48 none "data" [example_u2]]

/-- The document
`<c xmlns="urn:n"><p><l><data><u/></data></l><l><data><u><v/></u></data></l></p></c>`:
two list entries with different content below the anyxml node `data`. -/
def example_any : cxobj :=
  xml_elmnt 40 none "c"
    [xml_attr 41 none "xmlns" "urn:n", xml_elmnt 42 none "p" [example_l1, example_l2]]

/-- The document `<c xmlns="urn:n"><p><l><data><u><v/></u></data></l></p></c>`: the second
list entry of `example_any` alone. -/
def example_any_single : cxobj :=
  xml_elmnt 40 none "c" [xml_attr 41 none "xmlns" "urn:n", xml_elmnt 42 none "p" [example_l2]]

/-- The operation `<reset xmlns="urn:n"><source/></reset>`: `rpc reset` declares no
input. -/
def example_reset_source : cxobj :=
  xml_elmnt 63 none "reset" [xml_attr 64 none "xmlns" "urn:n", xml_elmnt 65 none "source" []]

/-- The document `<rpc message-id="1"><reset xmlns="urn:n"><source/></reset></rpc>`. -/
def example_rpc_reset_source : cxobj :=
  xml_elmnt 61 none "rpc" [xml_attr 62 none "message-id" "1", example_reset_source]

/-- The operation `<reset xmlns="urn:n"/>`. -/
def example_reset : cxobj := xml_elmnt 63 none "reset" [xml_attr 64 none "xmlns" "urn:n"]

/-- The document `<rpc message-id="1"><reset xmlns="urn:n"/></rpc>`. -/
def example_rpc_reset : cxobj :=
  xml_elmnt 61 none "rpc" [xml_attr 62 none "message-id" "1", example_reset]

/-- The document `<rpc><reset xmlns="urn:n"/></rpc>`: no `message-id`. -/
def example_rpc_nomsg : cxobj := xml_elmnt 61 none "rpc" [example_reset]

/-- The example schema with `message-id` optional. -/
def example_state_optional : clixon_state := xml_bind_netconf_message_id_optional example_state 1

/-- The operation `<reset xmlns="urn:other"/>`: no module has the namespace `urn:other`. -/
def example_reset_other : cxobj :=
  xml_elmnt 63 none "reset" [xml_attr 64 none "xmlns" "urn:other"]

/-- The document `<rpc message-id="1"><reset xmlns="urn:other"/></rpc>`. -/
def example_rpc_other : cxobj :=
  xml_elmnt 61 none "rpc" [xml_attr 62 none "message-id" "1", example_reset_other]

/-- The operation `<restart xmlns="urn:n"/>`: module `m` has no rpc `restart`. -/
def example_restart : cxobj := xml_elmnt 63 none "restart" [xml_attr 64 none "xmlns" "urn:n"]

/-- The document `<rpc message-id="1"><restart xmlns="urn:n"/></rpc>`. -/
def example_rpc_restart : cxobj :=
  xml_elmnt 61 none "rpc" [xml_attr 62 none "message-id" "1", example_restart]

/-- What a `hello` message may hold, in the words of the specification: every element
child of the root is named `session-id` or `capabilities`, and every element child of a
`capabilities` element is named `capability`. -/
def hello_permitted (xrpc : cxobj) : Prop :=
  ∀ x ∈ xrpc.x_childvec, xml_type x = CX_ELMNT →
    xml_name x = "session-id" ∨
    (xml_name x = "capabilities" ∧
      ∀ xc ∈ x.x_childvec, xml_type xc = CX_ELMNT → xml_name xc = "capability")

/-- The errors for the offending elements of one child `x` of `hello`, in document order:
none if `x` is no element or is named `session-id`; for a `capabilities` element one
error "Unrecognized hello/capabilities element" for each element child not named
`capability`; else the error "Unrecognized hello element" for `x`. -/
def hello_offenders_of (x : cxobj) : List rpc_error :=
  if xml_type x ≠ CX_ELMNT then []
  else if xml_name x = "session-id" then []
  else if xml_name x = "capabilities" then
    (x.x_childvec.filter (fun xc =>
      decide (xml_type xc = CX_ELMNT) && decide (xml_name xc ≠ "capability"))).map
      (fun xc => netconf_unknown_element_xml "protocol" (xml_name xc)
        "Unrecognized hello/capabilities element")
  else [netconf_unknown_element_xml "protocol" (xml_name x) "Unrecognized hello element"]

/-- The errors for all offending elements of a `hello` message with children `cs`, in
document order. -/
def hello_offenders (cs : List cxobj) : List rpc_error :=
  (cs.map hello_offenders_of).flatten

/-- The document `<hello><bogus/></hello>`. -/
def example_hello_bogus : cxobj := xml_elmnt 70 none "hello" [xml_elmnt 71 none "bogus" []]

/-- The document
`<hello><capabilities><capability/><extra/></capabilities><session-id/><bogus/></hello>`. -/
def example_hello_extra : cxobj :=
  xml_elmnt 70 none "hello"
    [xml_elmnt 71 none "capabilities"
       [xml_elmnt 72 none "capability" [], xml_elmnt 73 none "extra" []],
     xml_elmnt 74 none "session-id" [], xml_elmnt 75 none "bogus" []]

/-- The document `<hello><capabilities><capability/></capabilities><session-id/></hello>`. -/
def example_hello : cxobj :=
  xml_elmnt 70 none "hello"
    [xml_elmnt 71 none "capabilities" [xml_elmnt 72 none "capability" []],
     xml_elmnt 74 none "session-id" []]

/-- The document `<notification><bogus/></notification>`. -/
def example_notification : cxobj :=
  xml_elmnt 76 none "notification" [xml_elmnt 77 none "bogus" []]

/-- The document `<rpc-reply xmlns="urn:n"><ok/></rpc-reply>`. -/
def example_reply_ok : cxobj :=
  xml_elmnt 80 none "rpc-reply" [xml_attr 81 none "xmlns" "urn:n", xml_elmnt 82 none "ok" []]

/-- An action predicate for the examples: an element named `action` is an action. -/
def example_isaction_name (up : List cxobj) (x : cxobj) : Int :=
  if xml_name x = "action" then 1 else 0

/-- The operation `<action xmlns="urn:ietf:params:xml:ns:yang:1"/>`: an action without
content. -/
def example_action_empty : cxobj :=
  xml_elmnt 92 none "action" [xml_attr 93 none "xmlns" "urn:ietf:params:xml:ns:yang:1"]

/-- The document
`<rpc message-id="1"><action xmlns="urn:ietf:params:xml:ns:yang:1"/></rpc>`. -/
def example_rpc_action_empty : cxobj :=
  xml_elmnt 90 none "rpc" [xml_attr 91 none "message-id" "1", example_action_empty]

/-- The operation
`<action xmlns="urn:ietf:params:xml:ns:yang:1"><c xmlns="urn:n"><p/></c></action>`. -/
def example_action : cxobj :=
  xml_elmnt 92 none "action"
    [xml_attr 93 none "xmlns" "urn:ietf:params:xml:ns:yang:1",
     xml_elmnt 94 none "c" [xml_attr 95 none "xmlns" "urn:n", xml_elmnt 96 none "p" []]]

/-- The document `<rpc message-id="1"><action xmlns="urn:ietf:params:xml:ns:yang:1">
<c xmlns="urn:n"><p/></c></action></rpc>`. -/
def example_rpc_action : cxobj :=
  xml_elmnt 90 none "rpc" [xml_attr 91 none "message-id" "1", example_action]

/-- A schema with an rpc that declares an output: statement `0` is the spec, `1` the module

    module m { namespace "urn:n";
      rpc get-config { output { container data; } } }
-/
def example_yang_out : List yang_stmt :=
  [ { ys_keyword := Y_SPEC, ys_argument := none, ys_parent := none, ys_stmt := [1] },
    { ys_keyword := Y_MODULE, ys_argument := some "m", ys_parent := some 0, ys_stmt := [2, 3] },
    { ys_keyword := Y_NAMESPACE, ys_argument := some "urn:n", ys_parent := some 1, ys_stmt := [] },
    { ys_keyword := Y_RPC, ys_argument := some "get-config", ys_parent := some 1,
      ys_stmt := [4] },
    { ys_keyword := Y_OUTPUT, ys_argument := none, ys_parent := some 3, ys_stmt := [5] },
    { ys_keyword := Y_CONTAINER, ys_argument := some "data", ys_parent := some 4,
      ys_stmt := [] } ]

/-- The schema `example_yang_out` with the anydata fallback off. -/
def example_state_out : clixon_state :=
  { yang := example_yang_out, _yang_unknown_anydata := 0, _netconf_message_id_optional := 0 }

/-! ## Notions and examples for the statements on replies, mounts, lookups and frames -/

/-- A rendering of nested errors for the examples: the message of the first error. -/
def example_err2cb (es : List rpc_error) : String :=
  match es with
  | e :: _ => e.error_message
  | [] => ""

/-- The document `<rpc-reply xmlns="urn:n"><bogus/></rpc-reply>`. -/
def example_reply_bogus : cxobj :=
  xml_elmnt 80 none "rpc-reply" [xml_attr 81 none "xmlns" "urn:n", xml_elmnt 82 none "bogus" []]

/-- The element `<a/>` bound to statement `9` (`leaf running` of `example_yang`): a sibling
hint whose schema has another name and another parent than the list `a`. -/
def example_hint : cxobj := xml_spec_set (xml_elmnt 16 none "a" []) (some 9)

/-- A schema in which a container has a data node and an action of the same name, the
data node first: statement `0` is the spec, `1` the module

    module m { namespace "urn:n";
      container c { leaf ping; action ping; leaf pong; } }
-/
def example_yang_act : List yang_stmt :=
  [ { ys_keyword := Y_SPEC, ys_argument := none, ys_parent := none, ys_stmt := [1] },
    { ys_keyword := Y_MODULE, ys_argument := some "m", ys_parent := some 0, ys_stmt := [2, 3] },
    { ys_keyword := Y_NAMESPACE, ys_argument := some "urn:n", ys_parent := some 1, ys_stmt := [] },
    { ys_keyword := Y_CONTAINER, ys_argument := some "c", ys_parent := some 1,
      ys_stmt := [4, 5, 6] },
    { ys_keyword := Y_LEAF, ys_argument := some "ping", ys_parent := some 3, ys_stmt := [] },
    { ys_keyword := Y_ACTION, ys_argument := some "ping", ys_parent := some 3, ys_stmt := [] },
    { ys_keyword := Y_LEAF, ys_argument := some "pong", ys_parent := some 3, ys_stmt := [] } ]

/-- The schema `example_yang_act` with the anydata fallback off. -/
def example_state_act : clixon_state :=
  { yang := example_yang_act, _yang_unknown_anydata := 0, _netconf_message_id_optional := 0 }

/-- The parent chain of the children of `<c xmlns="urn:n">` bound to `container c`
(statement `3`). -/
def example_up_c : List cxobj :=
  [xml_spec_set (xml_elmnt 100 none "c" [xml_attr 101 none "xmlns" "urn:n"]) (some 3)]

/-- The element `<ping/>`. -/
def example_ping : cxobj := xml_elmnt 102 none "ping" []

/-- The element `<pong/>`. -/
def example_pong : cxobj := xml_elmnt 103 none "pong" []

/-- A schema with a list below two containers: statement `0` is the spec, `1` the module

    module m { namespace "urn:n";
      container c { container p { list l { leaf k; } } } }
-/
def example_yang_list : List yang_stmt :=
  [ { ys_keyword := Y_SPEC, ys_argument := none, ys_parent := none, ys_stmt := [1] },
    { ys_keyword := Y_MODULE, ys_argument := some "m", ys_parent := some 0, ys_stmt := [2, 3] },
    { ys_keyword := Y_NAMESPACE, ys_argument := some "urn:n", ys_parent := some 1, ys_stmt := [] },
    { ys_keyword := Y_CONTAINER, ys_argument := some "c", ys_parent := some 1, ys_stmt := [4] },
    { ys_keyword := Y_CONTAINER, ys_argument := some "p", ys_parent := some 3, ys_stmt := [5] },
    { ys_keyword := Y_LIST, ys_argument := some "l", ys_parent := some 4, ys_stmt := [6] },
    { ys_keyword := Y_LEAF, ys_argument := some "k", ys_parent := some 5, ys_stmt := [] } ]

/-- The schema `example_yang_list` with the anydata fallback off. -/
def example_state_list : clixon_state :=
  { yang := example_yang_list, _yang_unknown_anydata := 0, _netconf_message_id_optional := 0 }

/-- The leaf `<n:k/>` of the first list entry. -/
def example_nk : cxobj := xml_elmnt 113 (some "n") "k" []

/-- The first list entry `<n:l><n:k/></n:l>`. -/
def example_nl1 : cxobj := xml_elmnt 112 (some "n") "l" [example_nk]

/-- The first list entry as the pass leaves it: bound to `list l` (statement `5`), its
child to `leaf k` (statement `6`). -/
def example_nl1_bound : cxobj :=
  xml_spec_set (xml_elmnt 112 (some "n") "l" [xml_spec_set example_nk (some 6)]) (some 5)

/-- The leaf `<k/>` of the second list entry: no prefix and no attribute; its namespace is
the default namespace `urn:other` set by the second entry. -/
def example_k_other : cxobj := xml_elmnt 116 none "k" []

/-- The second list entry `<n:l xmlns="urn:other"><k/></n:l>`. -/
def example_nl2 : cxobj :=
  xml_elmnt 114 (some "n") "l" [xml_attr 115 none "xmlns" "urn:other", example_k_other]

/-- The element `<p><n:l><n:k/></n:l><n:l xmlns="urn:other"><k/></n:l></p>`. -/
def example_p_pfx : cxobj := xml_elmnt 118 none "p" [example_nl1, example_nl2]

/-- The document `<c xmlns="urn:n" xmlns:n="urn:n"><p><n:l><n:k/></n:l>
<n:l xmlns="urn:other"><k/></n:l></p></c>`. -/
def example_c_pfx : cxobj :=
  xml_elmnt 110 none "c"
    [xml_attr 111 none "xmlns" "urn:n", xml_attr 117 (some "xmlns") "n" "urn:n", example_p_pfx]

/-- The document `<c/>`: an element named like `container c` with no namespace in scope. -/
def example_c_nons : cxobj := xml_elmnt 120 none "c" []

/-- The document `<c xmlns="urn:unknown"/>`: an element named like `container c` in a
namespace of no module. -/
def example_c_unknown : cxobj := xml_elmnt 120 none "c" [xml_attr 121 none "xmlns" "urn:unknown"]

/-- What `xml_find_type(xt, NULL, "body", CX_BODY)` of `strip_body_objects` matches: a body
child. -/
def xml_is_body (c : cxobj) : Bool := decide (c.x_type = CX_BODY ∧ c.x_name = "body")

/-- Body normalisation in the words of the specification: every unmarked body child is
removed, every other child is retained. -/
def strip_body_all (cs : List cxobj) : List cxobj :=
  cs.filter (fun c => !(xml_is_body c) || xml_flag_bodykey c)

/-- The document `<c xmlns="urn:n">` with a marked body followed by an unmarked body. -/
def example_c_bodies : cxobj :=
  xml_elmnt 130 none "c"
    [xml_attr 131 none "xmlns" "urn:n", xml_body 132 "k" true, xml_body 133 "text" false]

/-- The document `<c xmlns="urn:n">` with an unmarked body followed by a marked body. -/
def example_c_bodies_rev : cxobj :=
  xml_elmnt 130 none "c"
    [xml_attr 131 none "xmlns" "urn:n", xml_body 133 "text" false, xml_body 132 "k" true]

/-- A schema with a mount point: statement `0` is the spec, `1` the module

    module m { namespace "urn:n"; container root; }

with nothing mounted yet. -/
def example_yang_outer : List yang_stmt :=
  [ { ys_keyword := Y_SPEC, ys_argument := none, ys_parent := none, ys_stmt := [1] },
    { ys_keyword := Y_MODULE, ys_argument := some "m", ys_parent := some 0, ys_stmt := [2, 3] },
    { ys_keyword := Y_NAMESPACE, ys_argument := some "urn:n", ys_parent := some 1, ys_stmt := [] },
    { ys_keyword := Y_CONTAINER, ys_argument := some "root", ys_parent := some 1,
      ys_stmt := [] } ]

/-- The schema `example_yang_outer` after the load of the mounted modules: statement `4` is
the mounted spec, `5` its module

    module mm { namespace "urn:mm"; container sys; }
-/
def example_yang_mounted : List yang_stmt :=
  example_yang_outer ++
  [ { ys_keyword := Y_SPEC, ys_argument := none, ys_parent := none, ys_stmt := [5] },
    { ys_keyword := Y_MODULE, ys_argument := some "mm", ys_parent := some 4, ys_stmt := [6, 7] },
    { ys_keyword := Y_NAMESPACE, ys_argument := some "urn:mm", ys_parent := some 5,
      ys_stmt := [] },
    { ys_keyword := Y_CONTAINER, ys_argument := some "sys", ys_parent := some 5,
      ys_stmt := [] } ]

/-- The state before the load of the mounted modules. -/
def example_state_outer : clixon_state :=
  { yang := example_yang_outer, _yang_unknown_anydata := 0, _netconf_message_id_optional := 0 }

/-- A mount collaborator for the examples: an element named `root` is a mount point, and
its mounted spec is statement `4` once that is loaded. -/
def example_mount_get (st : clixon_state) (up : List cxobj) (xt : cxobj) : Int × Option Nat :=
  if xml_name xt = "root" then (1, if 4 < st.yang.length then some 4 else none) else (0, none)

/-- A handle with schema mount enabled whose load brings the mounted modules. -/
def example_handle_load : clicon_handle :=
  { CLICON_YANG_SCHEMA_MOUNT := true,
    xml_yang_mount_get := example_mount_get,
    yang_schema_yanglib_parse_mount := fun st _ _ => (1, { st with yang := example_yang_mounted }) }

/-- A handle with schema mount enabled whose load finds nothing to load. -/
def example_handle_nothing : clicon_handle :=
  { CLICON_YANG_SCHEMA_MOUNT := true,
    xml_yang_mount_get := example_mount_get,
    yang_schema_yanglib_parse_mount := fun st _ _ => (0, st) }

/-- A handle with schema mount enabled whose load reports success without bringing the
mounted spec. -/
def example_handle_unresolved : clicon_handle :=
  { CLICON_YANG_SCHEMA_MOUNT := true,
    xml_yang_mount_get := example_mount_get,
    yang_schema_yanglib_parse_mount := fun st _ _ => (1, st) }

/-- The document `<root xmlns="urn:n"><sys xmlns="urn:mm"/></root>`. -/
def example_root : cxobj :=
  xml_elmnt 140 none "root"
    [xml_attr 141 none "xmlns" "urn:n",
     xml_elmnt 142 none "sys" [xml_attr 143 none "xmlns" "urn:mm"]]

/-! ## The frame of a binding pass -/

/-- The test of `strip_body_objects` (lines 125-126) on a bound object: its schema
reference is a list or a container. -/
def xml_bound_cl (Y : List yang_stmt) (x : cxobj) : Bool :=
  match xml_spec x with
  | some yt => decide (yang_keyword_get Y yt = Y_LIST ∨ yang_keyword_get Y yt = Y_CONTAINER)
  | none => false

/-- Two objects with the same address, type, name, prefix, value and key-body mark: they
differ at most in their schema reference and their children. -/
def xml_same_node (x x' : cxobj) : Prop :=
  x'.addr = x.addr ∧ x'.x_type = x.x_type ∧ x'.x_name = x.x_name ∧ x'.x_pfx = x.x_pfx ∧
    x'.x_value = x.x_value ∧ x'.x_bodykey = x.x_bodykey

mutual
/-- The frame of a binding pass in the words of the specification: `x'` is `x` up to the
schema references of elements and the removal of unmarked body children directly under
elements bound (in `x'`, with the statements `Y`) to a container or list. Address, type,
name, prefix, value and key-body mark are the same, at every level. -/
inductive xml_frame (Y : List yang_stmt) : cxobj → cxobj → Prop where
  | node (x x' : cxobj) : xml_same_node x x' →
      xml_frame_list Y (xml_bound_cl Y x') x.x_childvec x'.x_childvec →
      xml_frame Y x x'
/-- A child vector `cs` and what a pass may leave of it: an unmarked body may be gone when
`b` holds (the parent is bound to a container or list), every other child that is not an
element is there unchanged, and an element is there up to its frame; nothing is added and
the order is kept. -/
inductive xml_frame_list (Y : List yang_stmt) : Bool → List cxobj → List cxobj → Prop where
  | nil (b : Bool) : xml_frame_list Y b [] []
  | purge (b : Bool) (c : cxobj) (cs cs' : List cxobj) : b = true → c.x_type = CX_BODY →
      c.x_bodykey = false → xml_frame_list Y b cs cs' → xml_frame_list Y b (c :: cs) cs'
  | keep (b : Bool) (c : cxobj) (cs cs' : List cxobj) : c.x_type ≠ CX_ELMNT →
      xml_frame_list Y b cs cs' → xml_frame_list Y b (c :: cs) (c :: cs')
  | elmnt (b : Bool) (c c' : cxobj) (cs cs' : List cxobj) : c.x_type = CX_ELMNT →
      xml_frame Y c c' → xml_frame_list Y b cs cs' →
      xml_frame_list Y b (c :: cs) (c' :: cs')
end

/-- The statements that are a list or a container in `Y` are so in `Y'`. -/
def yang_keeps (Y Y' : List yang_stmt) : Prop :=
  ∀ y, (yang_keyword_get Y y = Y_LIST ∨ yang_keyword_get Y y = Y_CONTAINER) →
    (yang_keyword_get Y' y = Y_LIST ∨ yang_keyword_get Y' y = Y_CONTAINER)

/-- A load of mount modules keeps the lists and containers there are. -/
def mount_keeps (h : Option clicon_handle) : Prop :=
  ∀ hh, h = some hh → ∀ st up xt,
    yang_keeps st.yang (hh.yang_schema_yanglib_parse_mount st up xt).2.yang

/-- What identifies a child in its vector: address, type, name and prefix. -/
def xml_ident (c : cxobj) : Nat × cxobj_type × String × Option String :=
  (c.addr, c.x_type, c.x_name, c.x_pfx)

/-- The document `<c xmlns="urn:n">x<p><l>y<k>v</k></l></p></c>`: text directly under the
container `c`, under the list entry `l` and in the leaf `k`. -/
def example_c_text : cxobj :=
  xml_elmnt 150 none "c"
    [xml_attr 151 none "xmlns" "urn:n", xml_body 152 "x" false,
     xml_elmnt 153 none "p"
       [xml_elmnt 154 none "l"
          [xml_body 155 "y" false, xml_elmnt 156 none "k" [xml_body 157 "v" false]]]]

/-! ## Completeness of a successful pass -/

/-- A schema reference to an anyxml or anydata statement, the test of line 187. -/
def yang_is_any (Y : List yang_stmt) (ps : Option Nat) : Bool :=
  match ps with
  | some y => decide (yang_keyword_get Y y = Y_ANYXML ∨ yang_keyword_get Y y = Y_ANYDATA)
  | none => false

mutual
/-- No element of the tree carries a schema reference. -/
def xml_unbound : cxobj → Prop
  | cxobj.mk _ _ _ _ _ _ spec childvec => spec = none ∧ xml_unbound_list childvec
/-- No element of the child vector or below carries a schema reference. -/
def xml_unbound_list : List cxobj → Prop
  | [] => True
  | c :: cs => (c.x_type = CX_ELMNT → xml_unbound c) ∧ xml_unbound_list cs
end

mutual
/-- Completeness in the words of the specification: every element of the tree carries a
schema reference whose name is the name of the element, or has a proper ancestor bound to
an anyxml or anydata statement. `under` tells that there is such an ancestor above the
object. With `strict` an element that has such an ancestor carries no schema reference. -/
def xml_complete (Y : List yang_stmt) (strict under : Bool) : cxobj → Prop
  | cxobj.mk _ _ name _ _ _ spec childvec =>
    (under = false → ∃ y, spec = some y ∧ yang_argument_get Y y = some name) ∧
    (under = true → strict = true → spec = none) ∧
    xml_complete_list Y strict (under || yang_is_any Y spec) childvec
/-- Completeness of the elements of a child vector. -/
def xml_complete_list (Y : List yang_stmt) (strict under : Bool) : List cxobj → Prop
  | [] => True
  | c :: cs => (c.x_type = CX_ELMNT → xml_complete Y strict under c) ∧
      xml_complete_list Y strict under cs
end

mutual
/-- The invariant behind completeness, for an object below a parent with the schema
reference `ps`. Below a parent bound to a statement that is neither anyxml nor anydata,
the object is bound to the statement that the lookup of lines 194-195 finds for its name
under the statement of the parent, and so are its children below it. Below any other
parent nothing is said, except with `strict`: then no element of the tree carries a schema
reference. -/
def xml_wf (Y : List yang_stmt) (strict : Bool) (ps : Option Nat) : cxobj → Prop
  | cxobj.mk _ _ name _ _ _ spec childvec =>
    match ps with
    | some yp =>
      if yang_is_any Y (some yp) = true then
        strict = true → spec = none ∧ xml_wf_list Y strict none childvec
      else
        ∃ y, spec = some y ∧ yang_find_child Y yp name = some y ∧
          xml_wf_list Y strict (some y) childvec
    | none => strict = true → spec = none ∧ xml_wf_list Y strict none childvec
/-- The invariant for the elements of a child vector. -/
def xml_wf_list (Y : List yang_stmt) (strict : Bool) (ps : Option Nat) : List cxobj → Prop
  | [] => True
  | c :: cs => (c.x_type = CX_ELMNT → xml_wf Y strict ps c) ∧ xml_wf_list Y strict ps cs
end

/-- The second list entry of `example_any` with a schema reference left on `<u>` by an
earlier binding: statement `3`, `container c`. -/
def example_l2_stale : cxobj :=
  xml_elmnt 47 none "l"
    [xml_elmnt 48 none "data" [xml_spec_set (xml_elmnt 49 none "u" [example_v]) (some 3)]]

/-- The document `<c xmlns="urn:n"><p><l><data><u><v/></u></data></l></p></c>` with a schema
reference left on `<u>`. -/
def example_any_stale : cxobj :=
  xml_elmnt 40 none "c"
    [xml_attr 41 none "xmlns" "urn:n", xml_elmnt 42 none "p" [example_l2_stale]]

mutual
/-- The content of an element is declared, below a parent bound to the statement `yp`:
the element matches, by the lookup of lines 194-195, a child `y` of `yp` whose namespace is
the namespace of the element, and so does every element child below `y`, and so on
downwards. Below an element that matches an anyxml or anydata statement nothing is looked
up; there every element child carries an attribute or has no element child (with other
content the sibling fast path of lines 169-173 can make the pass fail). `up` is the
parent chain of the element. -/
def xml_declared (Y : List yang_stmt) (yp : Nat) : List cxobj → cxobj → Prop
  | up, cxobj.mk addr ty name pfx value bodykey spec childvec =>
    ∃ y ns, yang_find_child Y yp name = some y ∧
      xml2ns up (cxobj.mk addr ty name pfx value bodykey spec childvec) pfx = some ns ∧
      yang_find_mynamespace Y y = some ns ∧
      (if yang_is_any Y (some y) = true then
        ∀ c ∈ childvec, c.x_type = CX_ELMNT →
          xml_child_nr_type c CX_ATTR ≠ 0 ∨ ∀ q ∈ c.x_childvec, q.x_type ≠ CX_ELMNT
      else
        xml_declared_list Y y
          (xml_up (cxobj.mk addr ty name pfx value bodykey spec childvec) :: up) childvec)
/-- The content of every element of a child vector is declared. -/
def xml_declared_list (Y : List yang_stmt) (yp : Nat) : List cxobj → List cxobj → Prop
  | _, [] => True
  | up, c :: cs => (c.x_type = CX_ELMNT → xml_declared Y yp up c) ∧ xml_declared_list Y yp up cs
end

/-- The conditions on a parameter `p` (element child of an operation) below the input
statement `yi`: it matches a child `y` of the input statement in its own namespace, and
its content binds: `y` is an anyxml or anydata statement (then anything may stand below
`p`), or `p` has no element child, or schema mount is off and every element child of `p`
has declared content below `y`. -/
def rpc_param_ok (h : Option clicon_handle) (Y : List yang_stmt) (yi : Nat) (up : List cxobj)
    (p : cxobj) : Prop :=
  ∃ y ns, yang_find_child Y yi (xml_name p) = some y ∧
    xml2ns up p ( xml_prefix p) = some ns ∧
    yang_find_mynamespace Y y = some ns ∧
    (yang_is_any Y (some y) = true ∨
      (∀ q ∈ p.x_childvec, xml_type q ≠ CX_ELMNT) ∨
      (mount_disabled h ∧ yang_is_any Y (some y) = false ∧
        ∀ c ∈ p.x_childvec, c.x_type = CX_ELMNT → xml_declared Y y (xml_up p :: up) c))

/-- After the pass the parameter `p'` is `p` bound to the child of the input statement `yi`
that the lookup of the self-binder finds for its name: the same node, with that schema
reference, and every element below it bound to the statement that the lookup finds under
the statement of its parent, down to anyxml and anydata nodes. A parameter without element
child is `p` with the schema reference set and the bodies purged when that child is a
container or a list. What is not an element is as it was. -/
def rpc_param_bound (Y : List yang_stmt) (yi : Nat) (p p' : cxobj) : Prop :=
  (xml_type p ≠ CX_ELMNT → p' = p) ∧
  (xml_type p = CX_ELMNT → ∃ y, yang_find_child Y yi (xml_name p) = some y ∧
    xml_spec p' = some y ∧ xml_same_node p p' ∧ xml_wf Y false (some yi) p' ∧
    ((∀ q ∈ p.x_childvec, xml_type q ≠ CX_ELMNT) →
      p' = strip_body_objects Y (xml_spec_set p (some y))))

/-- After the pass the operation element `x'` is `x` with the input statement of its rpc
as schema reference and with every parameter bound; what is not an element is as it
was. -/
def rpc_op_bound (Y : List yang_stmt) (yspec : Option Nat) (up : List cxobj) (x x' : cxobj) :
    Prop :=
  (xml_type x ≠ CX_ELMNT → x' = x) ∧
  (xml_type x = CX_ELMNT → ∃ ymod yrpc yi cs,
    ys_module_by_xml Y yspec up x = some ymod ∧
    yang_find Y ymod Y_RPC (some (xml_name x)) = some yrpc ∧
    yang_find Y yrpc Y_INPUT none = some yi ∧
    x' = { xml_spec_set x (some yi) with x_childvec := cs } ∧
    List.Forall₂ (rpc_param_bound Y yi) x.x_childvec cs)

/-- The conditions on an operation child `x` of `<rpc>`: it is not an action, its
namespace selects a module that has an rpc statement of its name, the rpc declares an
input, and every parameter (element child of `x`) matches a child of the input statement
in its own namespace and has content that binds (`rpc_param_ok`). -/
def rpc_op_ok (xml_rpc_isaction : List cxobj → cxobj → Int) (h : Option clicon_handle)
    (Y : List yang_stmt) (yspec : Option Nat) (up : List cxobj) (x : cxobj) : Prop :=
  xml_type x = CX_ELMNT →
    xml_rpc_isaction up x = 0 ∧
    ∃ ymod yrpc yi,
      ys_module_by_xml Y yspec up x = some ymod ∧
      yang_find Y ymod Y_RPC (some (xml_name x)) = some yrpc ∧
      yang_find Y yrpc Y_INPUT none = some yi ∧
      ∀ p ∈ x.x_childvec, xml_type p = CX_ELMNT → rpc_param_ok h Y yi (xml_up x :: up) p

/-- The parameter `<source><running/></source>`. -/
def example_source_running : cxobj := xml_elmnt 5 none "source" [xml_elmnt 6 none "running" []]

/-- The operation `<get-config xmlns="urn:n"><source><running/></source></get-config>`. -/
def example_get_config_running : cxobj :=
  xml_elmnt 3 none "get-config" [xml_attr 4 none "xmlns" "urn:n", example_source_running]

/-- The document
`<rpc message-id="1"><get-config xmlns="urn:n"><source><running/></source></get-config></rpc>`. -/
def example_rpc_running : cxobj :=
  xml_elmnt 1 none "rpc" [xml_attr 2 none "message-id" "1", example_get_config_running]

/-! # Theorems -/

/-! ## Basic facts -/

/-- Induction over XML trees: a property holds of every object if it holds of an object
whenever it holds of all its children. -/
theorem cxobj_induction (P : cxobj → Prop)
    (step : ∀ x : cxobj, (∀ c ∈ x.x_childvec, P c) → P x) : ∀ x, P x := by
  intro x
  refine cxobj.rec (motive_1 := P) (motive_2 := fun cs => ∀ c ∈ cs, P c) ?_ ?_ ?_ x
  · intro a ty n p v b s cs ih
    exact step _ ih
  · intro c hc
    cases hc
  · intro c cs hc hcs d hd
    rcases List.mem_cons.1 hd with rfl | hd
    · exact hc
    · exact hcs d hd

@[simp] theorem cxobj_eta (x : cxobj) :
    ({ addr := x.addr, x_type := x.x_type, x_name := x.x_name, x_pfx := x.x_pfx,
       x_value := x.x_value, x_bodykey := x.x_bodykey, x_spec := x.x_spec,
       x_childvec := x.x_childvec } : cxobj) = x := by
  cases x; rfl

@[simp] theorem xml_spec_set_addr (x : cxobj) (y : Option Nat) : (xml_spec_set x y).addr = x.addr := rfl
@[simp] theorem xml_spec_set_type (x : cxobj) (y : Option Nat) :
    (xml_spec_set x y).x_type = x.x_type := rfl
@[simp] theorem xml_spec_set_name (x : cxobj) (y : Option Nat) :
    (xml_spec_set x y).x_name = x.x_name := rfl
@[simp] theorem xml_spec_set_pfx (x : cxobj) (y : Option Nat) :
    (xml_spec_set x y).x_pfx = x.x_pfx := rfl
@[simp] theorem xml_spec_set_childvec (x : cxobj) (y : Option Nat) :
    (xml_spec_set x y).x_childvec = x.x_childvec := rfl
@[simp] theorem xml_spec_set_spec (x : cxobj) (y : Option Nat) :
    (xml_spec_set x y).x_spec = y := rfl
@[simp] theorem xml_spec_set_set (x : cxobj) (y z : Option Nat) :
    xml_spec_set (xml_spec_set x y) z = xml_spec_set x z := rfl

theorem populate_check_ns_shape (st : clixon_state) (xt : cxobj) (ns : Option String)
    (y : Nat) : populate_shape st xt (populate_check_ns st xt ns y) := by
  unfold populate_check_ns
  split
  · split
    · exact Or.inl ⟨_, rfl⟩
    · exact Or.inr (Or.inl ⟨_, rfl⟩)
  · exact Or.inl ⟨_, rfl⟩

theorem populate_self_parent_slow_shape (st : clixon_state) (up : List cxobj) (xt : cxobj) :
    populate_shape st xt (populate_self_parent_slow st up xt) := by
  unfold populate_self_parent_slow
  split
  · exact Or.inl ⟨_, rfl⟩
  · split
    · exact Or.inl ⟨_, rfl⟩
    · split
      · exact Or.inr (Or.inr (Or.inr rfl))
      · split
        · exact populate_check_ns_shape _ _ _ _
        · split
          · rename_i hf
            exact Or.inr (Or.inr (Or.inl ⟨hf, _, rfl⟩))
          · exact Or.inl ⟨_, rfl⟩

theorem populate_self_parent_shape (st : clixon_state) (up : List cxobj) (xt : cxobj)
    (xsibling : Option cxobj) (yspec : Option Nat) :
    populate_shape st xt (populate_self_parent st up xt xsibling yspec) := by
  unfold populate_self_parent
  split
  · split
    · exact Or.inr (Or.inl ⟨_, rfl⟩)
    · exact populate_self_parent_slow_shape _ _ _
  · exact populate_self_parent_slow_shape _ _ _

theorem populate_self_top_shape (st : clixon_state) (up : List cxobj) (xt : cxobj)
    (yspec : Option Nat) : populate_shape st xt (populate_self_top st up xt yspec) := by
  unfold populate_self_top
  split
  · exact Or.inl ⟨_, rfl⟩
  · split
    · exact Or.inl ⟨_, rfl⟩
    · split
      · split
        · rename_i hf
          exact Or.inr (Or.inr (Or.inl ⟨hf, _, rfl⟩))
        · exact Or.inl ⟨_, rfl⟩
      · exact populate_check_ns_shape _ _ _ _

theorem xml_bind_yang0_opt_children_eq_loop (h : Option clicon_handle) (up : List cxobj)
    (ybc : yang_bind) (yspec1 : Option Nat) (xsibling : Option cxobj) (cs : List cxobj) :
    ∀ (st : clixon_state) (xc0 : Option cxobj),
      xml_bind_yang0_opt_children h st up cs ybc yspec1 xc0 xsibling =
        xml_bind_loop (fun s x0 xc => xml_bind_yang0_opt h s up xc ybc yspec1
          (xml_bind_yang0_opt_sibling x0 xsibling xc)) st xc0 cs := by
  induction cs with
  | nil => intro st xc0; simp [xml_bind_yang0_opt_children, xml_bind_loop]
  | cons c cs ih =>
    intro st xc0
    rw [xml_bind_yang0_opt_children, xml_bind_loop]
    simp only [ih]

theorem populate_shape_childvec {st : clixon_state} {xt : cxobj} {r : bind_result cxobj}
    (hs : populate_shape st xt r) : r.xt.x_childvec = xt.x_childvec := by
  rcases hs with ⟨e, rfl⟩ | ⟨y, rfl⟩ | ⟨_, yp, rfl⟩ | rfl <;> rfl

theorem xml_bind_yang0_opt_self_shape (st : clixon_state) (up : List cxobj) (xt : cxobj)
    (yb : yang_bind) (yspec : Option Nat) (xsibling : Option cxobj) (r : bind_result cxobj)
    (hr : xml_bind_yang0_opt_self st up xt yb yspec xsibling = some r) :
    populate_shape st xt r := by
  unfold xml_bind_yang0_opt_self at hr
  split at hr
  · cases hr; exact populate_self_top_shape _ _ _ _
  · cases hr; exact populate_self_parent_shape _ _ _ _ _
  · cases hr

/-- The unfolding of `xml_bind_yang0_opt`: the self-binder call, the three early exits, and
the descent. -/
theorem xml_bind_yang0_opt_eq (h : Option clicon_handle) (st : clixon_state) (up : List cxobj)
    (xt : cxobj) (yb : yang_bind) (yspec : Option Nat) (xsibling : Option cxobj) :
    xml_bind_yang0_opt h st up xt yb yspec xsibling =
      match xml_bind_yang0_opt_self st up xt yb yspec xsibling with
      | none => { retval := -1, xt := xt, st := st, xerr := [], trace := [] }
      | some r =>
        if r.retval < 0 then r
        else if r.retval = 0 then r
        else if r.retval = 2 then { r with retval := 1 }
        else xml_bind_yang0_opt_descend h up yspec xsibling r := by
  cases hself : xml_bind_yang0_opt_self st up xt yb yspec xsibling with
  | none =>
    cases xt
    cases yb <;> simp [xml_bind_yang0_opt_self] at hself <;> simp [xml_bind_yang0_opt]
  | some r =>
    have hcv := populate_shape_childvec (xml_bind_yang0_opt_self_shape _ _ _ _ _ _ _ hself)
    cases xt
    dsimp only at hcv
    cases yb <;> simp [xml_bind_yang0_opt_self] at hself <;>
      (subst hself
       simp only [xml_bind_yang0_opt, xml_bind_yang0_opt_children_eq_loop,
         xml_bind_yang0_opt_descend, hcv])

/-! ## C9 and C10: an unknown top-level element -/

theorem xml_bind_yang0_fail (h : Option clicon_handle) (st : clixon_state) (up : List cxobj)
    (xt : cxobj) (yspec : Option Nat) (e : rpc_error)
    (hp : populate_self_top st up xt yspec = populate_fail st xt e) :
    xml_bind_yang0 h st up xt YB_MODULE yspec = populate_fail st xt e := by
  simp [xml_bind_yang0, hp, populate_fail]

theorem populate_self_top_unknown (st : clixon_state) (up : List cxobj) (xt : cxobj)
    (ysp : Nat) (hoff : st._yang_unknown_anydata = 0)
    (hno : ys_module_by_xml st.yang (some ysp) up xt = none ∨
      ∃ ymod, ys_module_by_xml st.yang (some ysp) up xt = some ymod ∧
        yang_find_schemanode st.yang ymod (xml_name xt) = none) :
    populate_self_top st up xt (some ysp) =
      populate_fail st xt (netconf_unknown_element_xml "application" (xml_name xt)
        (unknown_element_message (xml_name xt) (xml_parent up)
          (xml2ns up xt ( xml_prefix xt)))) := by
  rcases hno with hno | ⟨ymod, hmod, hno⟩
  · simp [populate_self_top, hno]
  · simp [populate_self_top, hmod, hno, hoff]

/-- C9: with the anydata fallback off, a top-level element whose namespace selects no
module, or whose module has no data node, rpc or notification of its name, is not bound
in module mode: `populate_self_top` and `xml_bind_yang0` with `YB_MODULE` return `0`,
leave the element as it was (no `xml_spec_set`), and produce the one application-layer
`unknown-element` error naming the element, whose message is "Failed to find YANG spec of
XML node: name", then " with parent: parent" exactly when the element has a parent, then
" in namespace: ns" exactly when a namespace was resolved. -/
theorem C9_unknown_element_top (h : Option clicon_handle) (st : clixon_state)
    (up : List cxobj) (xt : cxobj) (ysp : Nat) (hoff : st._yang_unknown_anydata = 0)
    (hno : ys_module_by_xml st.yang (some ysp) up xt = none ∨
      ∃ ymod, ys_module_by_xml st.yang (some ysp) up xt = some ymod ∧
        yang_find_schemanode st.yang ymod (xml_name xt) = none) :
    (populate_self_top st up xt (some ysp)).retval = 0 ∧
    (xml_bind_yang0 h st up xt YB_MODULE (some ysp)).retval = 0 ∧
    (xml_bind_yang0 h st up xt YB_MODULE (some ysp)).xt = xt ∧
    (xml_bind_yang0 h st up xt YB_MODULE (some ysp)).st = st ∧
    trace_spec_set (xml_bind_yang0 h st up xt YB_MODULE (some ysp)).trace = [] ∧
    (xml_bind_yang0 h st up xt YB_MODULE (some ysp)).xerr =
      [{ error_type := "application", error_tag := "unknown-element",
         error_info := some (xml_name xt),
         error_message := "Failed to find YANG spec of XML node: " ++ xml_name xt ++
           (match xml_parent up with
             | some xp => " with parent: " ++ xml_name xp
             | none => "") ++
           (match xml2ns up xt ( xml_prefix xt) with
             | some ns => " in namespace: " ++ ns
             | none => "") }] := by
  have hp := populate_self_top_unknown st up xt ysp hoff hno
  have hb := xml_bind_yang0_fail h st up xt (some ysp) _ hp
  rw [hb, hp]
  simp [populate_fail, trace_spec_set, netconf_unknown_element_xml, unknown_element_message]

/-- C9 at `<foo xmlns="urn:unknown"/>` (no module has that namespace) and at
`<foo xmlns="urn:n"/>` below a parent `top` (module `m` has no `foo`). -/
theorem C9_unknown_element_top_witness :
    (xml_bind_yang0 none example_state [] example_foo YB_MODULE (some 0)).retval = 0 ∧
    (xml_bind_yang0 none example_state [] example_foo YB_MODULE (some 0)).xerr =
      [{ error_type := "application", error_tag := "unknown-element", error_info := some "foo",
         error_message :=
           "Failed to find YANG spec of XML node: foo in namespace: urn:unknown" }] ∧
    (xml_bind_yang0 none example_state [xml_elmnt 0 none "top" []] example_foo_m YB_MODULE
        (some 0)).xerr =
      [{ error_type := "application", error_tag := "unknown-element", error_info := some "foo",
         error_message :=
           "Failed to find YANG spec of XML node: foo with parent: top in namespace: urn:n" }] :=
  ⟨(C9_unknown_element_top none example_state [] example_foo 0 (by decide)
      (Or.inl (by decide))).2.1,
    (C9_unknown_element_top none example_state [] example_foo 0 (by decide)
      (Or.inl (by decide))).2.2.2.2.2,
    (C9_unknown_element_top none example_state [xml_elmnt 0 none "top" []] example_foo_m 0
      (by decide) (Or.inr ⟨1, by decide, by decide⟩)).2.2.2.2.2⟩

theorem yang_anydata_add_fst (Y : List yang_stmt) (yp : Nat) (name : String) :
    (yang_anydata_add Y yp name).1 = Y.length := by
  unfold yang_anydata_add
  split <;> rfl

theorem yang_anydata_add_get (Y : List yang_stmt) (yp : Nat) (name : String) :
    (yang_anydata_add Y yp name).2[(yang_anydata_add Y yp name).1]? =
      some { ys_keyword := Y_ANYDATA, ys_argument := some name, ys_parent := some yp,
             ys_stmt := [] } := by
  unfold yang_anydata_add
  split <;> simp [List.getElem?_append_right]

theorem populate_self_top_anydata (st : clixon_state) (up : List cxobj) (xt : cxobj)
    (ysp ymod : Nat) (hon : st._yang_unknown_anydata ≠ 0)
    (hmod : ys_module_by_xml st.yang (some ysp) up xt = some ymod)
    (hno : yang_find_schemanode st.yang ymod (xml_name xt) = none) :
    populate_self_top st up xt (some ysp) = populate_anydata st xt ymod := by
  simp [populate_self_top, hmod, hno, hon]

/-- C10, as the code has it: with the anydata fallback on, a top-level element whose
namespace selects a module that has no data node, rpc or notification of its name gets
`2` from `populate_self_top` (and `1` from `xml_bind_yang0`, which does not visit its
children), a warning is logged, and its schema reference is a new anydata statement,
child of that module, whose argument is the name of the element. An element whose
namespace selects no module fails with `unknown-element` as without the fallback, and is
left without change. -/
theorem C10_anydata_fallback_top (h : Option clicon_handle) (st : clixon_state)
    (up : List cxobj) (xt : cxobj) (ysp : Nat) (hon : st._yang_unknown_anydata ≠ 0) :
    (∀ ymod, ys_module_by_xml st.yang (some ysp) up xt = some ymod →
      yang_find_schemanode st.yang ymod (xml_name xt) = none →
        (populate_self_top st up xt (some ysp)).retval = 2 ∧
        (xml_bind_yang0 h st up xt YB_MODULE (some ysp)).retval = 1 ∧
        (xml_bind_yang0 h st up xt YB_MODULE (some ysp)).xt =
          (populate_self_top st up xt (some ysp)).xt ∧
        (xml_bind_yang0 h st up xt YB_MODULE (some ysp)).xt.x_childvec = xt.x_childvec ∧
        (xml_bind_yang0 h st up xt YB_MODULE (some ysp)).xerr = [] ∧
        bind_event.log_warning (xml_name xt) ∈
          (xml_bind_yang0 h st up xt YB_MODULE (some ysp)).trace ∧
        ∃ y, xml_spec (xml_bind_yang0 h st up xt YB_MODULE (some ysp)).xt = some y ∧
          (xml_bind_yang0 h st up xt YB_MODULE (some ysp)).st.yang[y]? =
            some { ys_keyword := Y_ANYDATA, ys_argument := some (xml_name xt),
                   ys_parent := some ymod, ys_stmt := [] }) ∧
    (ys_module_by_xml st.yang (some ysp) up xt = none →
      (populate_self_top st up xt (some ysp)).retval = 0 ∧
      (xml_bind_yang0 h st up xt YB_MODULE (some ysp)).retval = 0 ∧
      (xml_bind_yang0 h st up xt YB_MODULE (some ysp)).xt = xt ∧
      (xml_bind_yang0 h st up xt YB_MODULE (some ysp)).xerr =
        [netconf_unknown_element_xml "application" (xml_name xt)
          (unknown_element_message (xml_name xt) (xml_parent up)
            (xml2ns up xt ( xml_prefix xt)))]) := by
  constructor
  · intro ymod hmod hno
    have hp := populate_self_top_anydata st up xt ysp ymod hon hmod hno
    have hb : xml_bind_yang0 h st up xt YB_MODULE (some ysp) =
        { populate_anydata st xt ymod with retval := 1 } := by
      simp [xml_bind_yang0, hp, populate_anydata]
    rw [hb, hp]
    refine ⟨rfl, rfl, rfl, rfl, rfl, ?_, _, rfl, ?_⟩
    · simp [populate_anydata]
    · exact yang_anydata_add_get st.yang ymod (xml_name xt)
  · intro hnone
    have hp : populate_self_top st up xt (some ysp) =
        populate_fail st xt (netconf_unknown_element_xml "application" (xml_name xt)
          (unknown_element_message (xml_name xt) (xml_parent up)
            (xml2ns up xt ( xml_prefix xt)))) := by
      simp [populate_self_top, hnone]
    have hb := xml_bind_yang0_fail h st up xt (some ysp) _ hp
    rw [hb, hp]
    exact ⟨rfl, rfl, rfl, rfl⟩

/-- C10 at `<foo xmlns="urn:n"/>` (bound to the new anydata statement `11` of module `m`)
and at `<foo xmlns="urn:unknown"/>` (failed), both with the fallback on. -/
theorem C10_anydata_fallback_top_witness :
    example_state_anydata._yang_unknown_anydata ≠ 0 ∧
    (xml_bind_yang0 none example_state_anydata [] example_foo_m YB_MODULE (some 0)).retval = 1 ∧
    xml_spec (xml_bind_yang0 none example_state_anydata [] example_foo_m YB_MODULE
      (some 0)).xt = some 11 ∧
    (xml_bind_yang0 none example_state_anydata [] example_foo YB_MODULE (some 0)).retval = 0 :=
  ⟨by decide,
    ((C10_anydata_fallback_top none example_state_anydata [] example_foo_m 0 (by decide)).1 1
      (by decide) (by decide)).2.1,
    by decide,
    ((C10_anydata_fallback_top none example_state_anydata [] example_foo 0 (by decide)).2
      (by decide)).2.1⟩

/-- C10 as stated fails: with the anydata fallback on, `<foo xmlns="urn:unknown"/>`, whose
namespace matches no module, gets `0` (Failed) and not `2` from module-scope binding, and
no schema reference. -/
theorem C10_counterexample :
    example_state_anydata._yang_unknown_anydata = 1 ∧
    ys_module_by_xml example_state_anydata.yang (some 0) [] example_foo = none ∧
    (populate_self_top example_state_anydata [] example_foo (some 0)).retval = 0 ∧
    (xml_bind_yang0 none example_state_anydata [] example_foo YB_MODULE (some 0)).retval = 0 ∧
    xml_spec (xml_bind_yang0 none example_state_anydata [] example_foo YB_MODULE
      (some 0)).xt = none ∧
    (xml_bind_yang0 none example_state_anydata [] example_foo YB_MODULE (some 0)).xerr =
      [netconf_unknown_element_xml "application" "foo"
        "Failed to find YANG spec of XML node: foo in namespace: urn:unknown"] := by
  decide

/-! ## C5: nothing below an opaque element is visited -/

theorem populate_shape_retval2 {st : clixon_state} {xt : cxobj} {r : bind_result cxobj}
    (hs : populate_shape st xt r) (h2 : r.retval = 2) :
    r.xt.x_childvec = xt.x_childvec ∧ trace_populate r.trace = [xt.addr] ∧
      (∀ ev ∈ r.trace, ∀ a, ev.addr? = some a → a = xt.addr) := by
  rcases hs with ⟨e, rfl⟩ | ⟨y, rfl⟩ | ⟨_, yp, rfl⟩ | rfl
  · simp [populate_fail] at h2
  · simp [populate_set] at h2
  · refine ⟨rfl, rfl, ?_⟩
    intro ev hev a ha
    simp only [populate_anydata, List.mem_cons, List.mem_singleton, List.not_mem_nil,
      or_false] at hev
    rcases hev with rfl | rfl | rfl <;> simp_all [bind_event.addr?]
  · refine ⟨rfl, rfl, ?_⟩
    intro ev hev a ha
    simp only [List.mem_singleton] at hev
    subst hev
    simp_all [bind_event.addr?]

theorem xml_bind_yang0_opt_retval2 (h : Option clicon_handle) (st : clixon_state)
    (up : List cxobj) (xt : cxobj) (yb : yang_bind) (yspec : Option Nat)
    (xsibling : Option cxobj) (r0 : bind_result cxobj)
    (hself : xml_bind_yang0_opt_self st up xt yb yspec xsibling = some r0)
    (h2 : r0.retval = 2) :
    xml_bind_yang0_opt h st up xt yb yspec xsibling = { r0 with retval := 1 } := by
  rw [xml_bind_yang0_opt_eq, hself]
  simp [h2]

theorem xml_bind_yang0_retval2 (h : Option clicon_handle) (st : clixon_state)
    (up : List cxobj) (xt : cxobj) (yb : yang_bind) (yspec : Option Nat)
    (r0 : bind_result cxobj)
    (hself : xml_bind_yang0_opt_self st up xt yb yspec none = some r0)
    (h2 : r0.retval = 2) :
    xml_bind_yang0 h st up xt yb yspec = { r0 with retval := 1 } := by
  unfold xml_bind_yang0
  cases yb <;> simp [xml_bind_yang0_opt_self] at hself <;> subst hself <;> simp [h2]

/-- C5: when the self-binder returns `2` (opaque) for an element, the driver
(`xml_bind_yang0_opt`, and `xml_bind_yang0`, whose self-binder call has no sibling)
returns `1` at once: the only self-binder call of the pass on that subtree is the one on
the element itself, every event of the call is about the element itself, and the child
vector, and with it every object below the element at any depth and its schema
reference, is returned as it was. -/
theorem C5_opaque_no_descent (h : Option clicon_handle) (st : clixon_state)
    (up : List cxobj) (xt : cxobj) (yb : yang_bind) (yspec : Option Nat)
    (xsibling : Option cxobj) (r0 : bind_result cxobj)
    (hself : xml_bind_yang0_opt_self st up xt yb yspec xsibling = some r0)
    (h2 : r0.retval = 2) :
    ((xml_bind_yang0_opt h st up xt yb yspec xsibling).retval = 1 ∧
      (xml_bind_yang0_opt h st up xt yb yspec xsibling).xt.x_childvec = xt.x_childvec ∧
      trace_populate (xml_bind_yang0_opt h st up xt yb yspec xsibling).trace = [xt.addr] ∧
      ∀ ev ∈ (xml_bind_yang0_opt h st up xt yb yspec xsibling).trace, ∀ a,
        ev.addr? = some a → a = xt.addr) ∧
    (xsibling = none →
      (xml_bind_yang0 h st up xt yb yspec).retval = 1 ∧
      (xml_bind_yang0 h st up xt yb yspec).xt.x_childvec = xt.x_childvec ∧
      trace_populate (xml_bind_yang0 h st up xt yb yspec).trace = [xt.addr] ∧
      ∀ ev ∈ (xml_bind_yang0 h st up xt yb yspec).trace, ∀ a,
        ev.addr? = some a → a = xt.addr) := by
  have hs := populate_shape_retval2 (xml_bind_yang0_opt_self_shape _ _ _ _ _ _ _ hself) h2
  constructor
  · rw [xml_bind_yang0_opt_retval2 h st up xt yb yspec xsibling r0 hself h2]
    exact ⟨rfl, hs.1, hs.2.1, hs.2.2⟩
  · intro hn
    subst hn
    rw [xml_bind_yang0_retval2 h st up xt yb yspec r0 hself h2]
    exact ⟨rfl, hs.1, hs.2.1, hs.2.2⟩

/-- C5 at `<foo xmlns="urn:n"><bar><baz/></bar></foo>` with the anydata fallback on:
`foo` is opaque, `bar` and `baz` are not visited. -/
theorem C5_opaque_no_descent_witness :
    (populate_self_top example_state_anydata [] example_foo_bar (some 0)).retval = 2 ∧
    (xml_bind_yang0 none example_state_anydata [] example_foo_bar YB_MODULE (some 0)).retval
      = 1 ∧
    (xml_bind_yang0 none example_state_anydata [] example_foo_bar YB_MODULE
      (some 0)).xt.x_childvec = example_foo_bar.x_childvec ∧
    trace_populate (xml_bind_yang0 none example_state_anydata [] example_foo_bar YB_MODULE
      (some 0)).trace = [1] :=
  ⟨by decide,
    ((C5_opaque_no_descent none example_state_anydata [] example_foo_bar YB_MODULE (some 0) none
      _ rfl (by decide)).2 rfl).1,
    ((C5_opaque_no_descent none example_state_anydata [] example_foo_bar YB_MODULE (some 0) none
      _ rfl (by decide)).2 rfl).2.1,
    ((C5_opaque_no_descent none example_state_anydata [] example_foo_bar YB_MODULE (some 0) none
      _ rfl (by decide)).2 rfl).2.2.1⟩

/-! ## Loops over children without elements, purged bodies and namespaces -/

theorem xml_bind_loop_no_elmnt (f : clixon_state → Option cxobj → cxobj → bind_result cxobj)
    (st : clixon_state) (x0 : Option cxobj) (cs : List cxobj)
    (hc : ∀ c ∈ cs, xml_type c ≠ CX_ELMNT) :
    xml_bind_loop f st x0 cs = { retval := 1, xt := cs, st := st, xerr := [], trace := [] } := by
  induction cs with
  | nil => rfl
  | cons c cs ih =>
    have h1 : xml_type c ≠ CX_ELMNT := hc c (List.mem_cons_self _ _)
    have h2 := ih (fun d hd => hc d (List.mem_cons_of_mem _ hd))
    simp [xml_bind_loop, h1, h2]

theorem strip_body_loop_mem {c : cxobj} : ∀ {cs : List cxobj}, c ∈ strip_body_loop cs → c ∈ cs
  | [], hc => by simp [strip_body_loop] at hc
  | d :: cs, hc => by
    unfold strip_body_loop at hc
    split at hc
    · split at hc
      · exact hc
      · exact List.mem_cons_of_mem _ (strip_body_loop_mem hc)
    · rcases List.mem_cons.1 hc with rfl | hc
      · exact List.mem_cons_self _ _
      · exact List.mem_cons_of_mem _ (strip_body_loop_mem hc)

theorem strip_body_objects_childvec_mem {Y : List yang_stmt} {x c : cxobj}
    (hc : c ∈ (strip_body_objects Y x).x_childvec) : c ∈ x.x_childvec := by
  unfold strip_body_objects at hc
  split at hc
  · exact hc
  · split at hc
    · exact strip_body_loop_mem hc
    · exact hc

theorem yang_find_keyword {Y : List yang_stmt} {yn : Nat} {keyword : rfc_6020}
    {argument : Option String} {y : Nat} (hf : yang_find Y yn keyword argument = some y) :
    yang_keyword_get Y y = keyword := by
  have := List.find?_some hf
  simp only [Bool.and_eq_true, decide_eq_true_eq] at this
  exact this.1

theorem xml2ns_self_congr {x x' : cxobj} (hc : x'.x_childvec = x.x_childvec)
    (pfx : Option String) : xml2ns_self x' pfx = xml2ns_self x pfx := by
  unfold xml2ns_self xml_find_type_value xml_find_type
  rw [hc]

theorem populate_self_parent_slow_found (st : clixon_state) (up : List cxobj) (xt xp : cxobj)
    (yparent y : Nat) (ns : String) (hp : xml_parent up = some xp)
    (hs : xml_spec xp = some yparent)
    (hk : ¬ (yang_keyword_get st.yang yparent = Y_ANYXML ∨
      yang_keyword_get st.yang yparent = Y_ANYDATA))
    (hc : yang_find_child st.yang yparent (xml_name xt) = some y)
    (hns : xml2ns up xt ( xml_prefix xt) = some ns)
    (hnsy : yang_find_mynamespace st.yang y = some ns) :
    populate_self_parent_slow st up xt = populate_set st xt (some y) := by
  unfold populate_self_parent_slow
  simp [hp, hs, hk, hc, hns, populate_check_ns, hnsy]

/-- A parameter without element children that matches a child of its parent's schema in
its own namespace is bound to that child by `xml_bind_yang0`. -/
theorem xml_bind_yang0_leaf (h : Option clicon_handle) (st : clixon_state) (up : List cxobj)
    (xt xp : cxobj) (yparent y : Nat) (ns : String) (yspec : Option Nat)
    (hp : xml_parent up = some xp) (hs : xml_spec xp = some yparent)
    (hk : ¬ (yang_keyword_get st.yang yparent = Y_ANYXML ∨
      yang_keyword_get st.yang yparent = Y_ANYDATA))
    (hc : yang_find_child st.yang yparent (xml_name xt) = some y)
    (hns : xml2ns up xt ( xml_prefix xt) = some ns)
    (hnsy : yang_find_mynamespace st.yang y = some ns)
    (hleaf : ∀ q ∈ xt.x_childvec, xml_type q ≠ CX_ELMNT) :
    xml_bind_yang0 h st up xt YB_PARENT yspec =
      { retval := 1, xt := strip_body_objects st.yang (xml_spec_set xt (some y)), st := st,
        xerr := [],
        trace := [bind_event.populate xt.addr 1, bind_event.spec_set xt.addr (some y)] } := by
  have hslow := populate_self_parent_slow_found st up xt xp yparent y ns hp hs hk hc hns hnsy
  have hl : ∀ q ∈ (strip_body_objects st.yang (xml_spec_set xt (some y))).x_childvec,
      xml_type q ≠ CX_ELMNT :=
    fun q hq => hleaf q (strip_body_objects_childvec_mem (x := xml_spec_set xt (some y)) hq)
  unfold xml_bind_yang0
  simp only [populate_self_parent, hslow]
  simp [populate_set, xml_bind_loop_no_elmnt _ _ _ _ hl]

theorem xml2ns_congr_head {a a' : cxobj} (hc : a'.x_childvec = a.x_childvec) (up : List cxobj)
    (p : cxobj) (pfx : Option String) : xml2ns (a' :: up) p pfx = xml2ns (a :: up) p pfx := by
  simp only [xml2ns, xml2ns_recurse, xml2ns_self_congr hc]

theorem strip_body_objects_input (Y : List yang_stmt) (x : cxobj) (yi : Nat)
    (hs : xml_spec x = some yi) (hk : yang_keyword_get Y yi = Y_INPUT) :
    strip_body_objects Y x = x := by
  simp [strip_body_objects, hs, hk]

/-! ## C2, C3, C4: namespaces and the sibling fast path -/

/-- C2 at a failing input: binding
`<c xmlns="urn:n"><n:p xmlns:n="urn:n" xmlns="urn:other"><a xmlns="urn:n"/><a/></n:p></c>`
in module mode (anydata fallback off, no mount) returns `1`; the second `<a/>` was bound
through the sibling fast path and carries the schema reference `5` (`list a` of module
`m`, declared namespace `urn:n`), while its effective namespace is `urn:other`. Bound
without sibling the same element fails with "Namespace mismatch". -/
theorem C2_fast_path_foreign_namespace :
    (xml_bind_yang0 none example_state [] example_c YB_MODULE (some 0)).retval = 1 ∧
    (xml_bind_yang0 none example_state [] example_c YB_MODULE (some 0)).xt =
      { example_c with
        x_spec := some 3,
        x_childvec := [xml_attr 8 none "xmlns" "urn:n",
          { example_p with
            x_spec := some 4,
            x_childvec := [xml_attr 11 (some "xmlns") "n" "urn:n",
              xml_attr 12 none "xmlns" "urn:other",
              xml_spec_set example_a1 (some 5), xml_spec_set example_a2 (some 5)] }] } ∧
    xml2ns [xml_up example_p, xml_up example_c] example_a2 ( xml_prefix example_a2)
      = some "urn:other" ∧
    yang_find_mynamespace example_state.yang 5 = some "urn:n" ∧
    (populate_self_parent example_state
      [xml_up (xml_spec_set example_p (some 4)), xml_up (xml_spec_set example_c (some 3))]
      example_a2 none none).xerr =
      [netconf_bad_element_xml "application" "a" "Namespace mismatch"] :=
  ⟨by decide, rfl, by decide, by decide, by decide⟩

/-- C4 at a failing input: `<a/>` has no attribute, its sibling `<a xmlns="urn:n"/>` has
the same name and prefix and is bound to `list a`; with the sibling as hint
`populate_self_parent` returns `1` and assigns `list a`, without hint it returns `0`
("Namespace mismatch") and assigns nothing. -/
theorem C4_fast_path_differs :
    xml_child_nr_type example_a2 CX_ATTR = 0 ∧
    xml_name example_a1 = xml_name example_a2 ∧
    xml_prefix example_a1 = xml_prefix example_a2 ∧
    (populate_self_parent example_state
      [xml_up (xml_spec_set example_p (some 4)), xml_up (xml_spec_set example_c (some 3))]
      example_a1 none none).xt = xml_spec_set example_a1 (some 5) ∧
    (populate_self_parent example_state
      [xml_up (xml_spec_set example_p (some 4)), xml_up (xml_spec_set example_c (some 3))]
      example_a2 (some (xml_spec_set example_a1 (some 5))) none).retval = 1 ∧
    xml_spec (populate_self_parent example_state
      [xml_up (xml_spec_set example_p (some 4)), xml_up (xml_spec_set example_c (some 3))]
      example_a2 (some (xml_spec_set example_a1 (some 5))) none).xt = some 5 ∧
    (populate_self_parent example_state
      [xml_up (xml_spec_set example_p (some 4)), xml_up (xml_spec_set example_c (some 3))]
      example_a2 none none).retval = 0 ∧
    xml_spec (populate_self_parent example_state
      [xml_up (xml_spec_set example_p (some 4)), xml_up (xml_spec_set example_c (some 3))]
      example_a2 none none).xt = none :=
  ⟨by decide, rfl, rfl, rfl, by decide, by decide, by decide, by decide⟩

theorem populate_check_ns_mismatch (st : clixon_state) (xt : cxobj) (ns : Option String)
    (y : Nat) (hne : ¬ ∃ n, ns = some n ∧ yang_find_mynamespace st.yang y = some n) :
    ∃ msg, populate_check_ns st xt ns y =
      populate_fail st xt (netconf_bad_element_xml "application" (xml_name xt) msg) := by
  unfold populate_check_ns
  cases ns with
  | none => exact ⟨_, rfl⟩
  | some n =>
    cases hy : yang_find_mynamespace st.yang y with
    | none => exact ⟨_, rfl⟩
    | some nsy =>
      by_cases heq : n = nsy
      · exact absurd ⟨n, rfl, by rw [hy, heq]⟩ hne
      · simp only [ne_eq, heq, not_false_eq_true, ↓reduceIte]
        exact ⟨_, rfl⟩

/-- C3, as the code has it: in module mode, and in parent mode without sibling or with an
attribute on the element, when the lookup by name finds a schema node and the namespace
of the element is missing or is not the declared namespace of that node, the
self-binder returns `0`, leaves the element as it was and produces one `bad-element`
error; this holds with the anydata fallback on or off. -/
theorem C3_namespace_mismatch_fails (st : clixon_state) (up : List cxobj) (xt : cxobj) :
    (∀ ysp ymod y, ys_module_by_xml st.yang (some ysp) up xt = some ymod →
      yang_find_schemanode st.yang ymod (xml_name xt) = some y →
      (¬ ∃ n, xml2ns up xt ( xml_prefix xt) = some n ∧
        yang_find_mynamespace st.yang y = some n) →
      (populate_self_top st up xt (some ysp)).retval = 0 ∧
      (populate_self_top st up xt (some ysp)).xt = xt ∧
      ∃ msg, (populate_self_top st up xt (some ysp)).xerr =
        [netconf_bad_element_xml "application" (xml_name xt) msg]) ∧
    (∀ xsibling yspec xp yparent y,
      (xsibling = none ∨ xml_child_nr_type xt CX_ATTR ≠ 0) →
      xml_parent up = some xp → xml_spec xp = some yparent →
      ¬ (yang_keyword_get st.yang yparent = Y_ANYXML ∨
        yang_keyword_get st.yang yparent = Y_ANYDATA) →
      yang_find_child st.yang yparent (xml_name xt) = some y →
      (¬ ∃ n, xml2ns up xt ( xml_prefix xt) = some n ∧
        yang_find_mynamespace st.yang y = some n) →
      (populate_self_parent st up xt xsibling yspec).retval = 0 ∧
      (populate_self_parent st up xt xsibling yspec).xt = xt ∧
      ∃ msg, (populate_self_parent st up xt xsibling yspec).xerr =
        [netconf_bad_element_xml "application" (xml_name xt) msg]) := by
  constructor
  · intro ysp ymod y hmod hy hne
    obtain ⟨msg, hmsg⟩ := populate_check_ns_mismatch st xt _ y hne
    have : populate_self_top st up xt (some ysp) =
        populate_fail st xt (netconf_bad_element_xml "application" (xml_name xt) msg) := by
      simp only [populate_self_top, hmod, hy, hmsg]
    rw [this]
    exact ⟨rfl, rfl, msg, rfl⟩
  · intro xsibling yspec xp yparent y hsib hp hs hk hy hne
    obtain ⟨msg, hmsg⟩ := populate_check_ns_mismatch st xt _ y hne
    have hslow : populate_self_parent_slow st up xt =
        populate_fail st xt (netconf_bad_element_xml "application" (xml_name xt) msg) := by
      simp only [populate_self_parent_slow, hp, hs, hk, hy, hmsg, ↓reduceIte]
    have : populate_self_parent st up xt xsibling yspec =
        populate_fail st xt (netconf_bad_element_xml "application" (xml_name xt) msg) := by
      unfold populate_self_parent
      rcases hsib with rfl | hattr
      · exact hslow
      · cases xsibling with
        | none => exact hslow
        | some xs => simp only [hattr, ↓reduceIte, hslow]
    rw [this]
    exact ⟨rfl, rfl, msg, rfl⟩

/-- C3 at `<a/>` below `<n:p xmlns:n="urn:n" xmlns="urn:other">`, bound without sibling:
`list a` is found by name, the namespaces `urn:other` and `urn:n` differ. -/
theorem C3_namespace_mismatch_fails_witness :
    (populate_self_parent example_state
      [xml_up (xml_spec_set example_p (some 4)), xml_up (xml_spec_set example_c (some 3))]
      example_a2 none none).retval = 0 :=
  ((C3_namespace_mismatch_fails example_state
      [xml_up (xml_spec_set example_p (some 4)), xml_up (xml_spec_set example_c (some 3))]
      example_a2).2 none none (xml_up (xml_spec_set example_p (some 4))) 4 5 (Or.inl rfl) rfl rfl
      (by decide) (by decide) (by decide)).1

/-- C3 as stated fails: with the anydata fallback on, `<zzz xmlns="urn:zzz"/>` below the
bound container `p` of module `m` (namespace `urn:n`) matches no child of `p`; the
self-binder returns `2` (opaque) and assigns the new anydata statement `11`, whose
declared namespace is `urn:n`, although the namespace of the element is `urn:zzz`. -/
theorem C3_counterexample :
    example_state_anydata._yang_unknown_anydata = 1 ∧
    xml2ns [xml_up (xml_spec_set example_p (some 4)), xml_up (xml_spec_set example_c (some 3))]
      example_zzz ( xml_prefix example_zzz) = some "urn:zzz" ∧
    (populate_self_parent example_state_anydata
      [xml_up (xml_spec_set example_p (some 4)), xml_up (xml_spec_set example_c (some 3))]
      example_zzz none none).retval = 2 ∧
    xml_spec (populate_self_parent example_state_anydata
      [xml_up (xml_spec_set example_p (some 4)), xml_up (xml_spec_set example_c (some 3))]
      example_zzz none none).xt = some 11 ∧
    yang_find_mynamespace (populate_self_parent example_state_anydata
      [xml_up (xml_spec_set example_p (some 4)), xml_up (xml_spec_set example_c (some 3))]
      example_zzz none none).st.yang 11 = some "urn:n" := by
  decide

/-! ## C8: how often a schema reference is assigned -/

theorem trace_spec_set_append (a b : List bind_event) :
    trace_spec_set (a ++ b) = trace_spec_set a ++ trace_spec_set b := by
  induction a with
  | nil => rfl
  | cons e a ih => cases e <;> simp [trace_spec_set, ih]

theorem xml_addrs_eq (x : cxobj) : xml_addrs x = x.addr :: xml_addrs_list x.x_childvec := by
  cases x; simp [xml_addrs]

theorem xml_addrs_list_sublist {cs' cs : List cxobj} (hs : List.Sublist cs' cs) :
    List.Sublist (xml_addrs_list cs') (xml_addrs_list cs) := by
  induction hs with
  | slnil => exact List.Sublist.refl _
  | cons a _ ih =>
    simp only [xml_addrs_list]
    exact ih.trans (List.sublist_append_right _ _)
  | cons₂ a _ ih =>
    simp only [xml_addrs_list]
    exact List.Sublist.append (List.Sublist.refl _) ih

theorem strip_body_loop_sublist : ∀ cs : List cxobj, List.Sublist (strip_body_loop cs) cs
  | [] => List.Sublist.refl _
  | c :: cs => by
    unfold strip_body_loop
    split
    · split
      · exact List.Sublist.refl _
      · exact (strip_body_loop_sublist cs).trans (List.sublist_cons_self _ _)
    · exact (strip_body_loop_sublist cs).cons₂ _

theorem strip_body_objects_childvec_sublist (Y : List yang_stmt) (x : cxobj) :
    List.Sublist (strip_body_objects Y x).x_childvec x.x_childvec := by
  unfold strip_body_objects
  split
  · exact List.Sublist.refl _
  · split
    · exact strip_body_loop_sublist _
    · exact List.Sublist.refl _

@[simp] theorem strip_body_objects_addr (Y : List yang_stmt) (x : cxobj) :
    (strip_body_objects Y x).addr = x.addr := by
  unfold strip_body_objects
  split
  · rfl
  · split <;> rfl

theorem populate_shape_sets {st : clixon_state} {xt : cxobj} {r : bind_result cxobj}
    (hs : populate_shape st xt r) : List.Sublist (trace_spec_set r.trace) [xt.addr] := by
  rcases hs with ⟨e, rfl⟩ | ⟨y, rfl⟩ | ⟨_, yp, rfl⟩ | rfl <;>
    simp [populate_fail, populate_set, populate_anydata, trace_spec_set]

theorem xml_bind_yang0_opt_mount_sets (h : Option clicon_handle) (st : clixon_state)
    (up : List cxobj) (xt : cxobj) (yspec : Option Nat) :
    trace_spec_set (xml_bind_yang0_opt_mount h st up xt yspec).2.2 = [] := by
  unfold xml_bind_yang0_opt_mount
  repeat' split
  all_goals rfl

theorem xml_bind_loop_sets (f : clixon_state → Option cxobj → cxobj → bind_result cxobj) :
    ∀ (cs : List cxobj),
      (∀ c ∈ cs, ∀ s x0, List.Sublist (trace_spec_set (f s x0 c).trace) (xml_addrs c)) →
      ∀ st x0, List.Sublist (trace_spec_set (xml_bind_loop f st x0 cs).trace)
        (xml_addrs_list cs) := by
  intro cs
  induction cs with
  | nil => intro _ st x0; simp [xml_bind_loop, trace_spec_set, xml_addrs_list]
  | cons c cs ih =>
    intro hf st x0
    have ih' := ih (fun d hd => hf d (List.mem_cons_of_mem _ hd))
    have hc := hf c (List.mem_cons_self _ _)
    simp only [xml_bind_loop, xml_addrs_list]
    split
    · exact (ih' st x0).trans (List.sublist_append_right _ _)
    · split
      · exact (hc st x0).trans (List.sublist_append_left _ _)
      · simp only [trace_spec_set_append]
        exact List.Sublist.append (hc st x0) (ih' _ _)

theorem xml_bind_yang0_opt_sets (h : Option clicon_handle) :
    ∀ (xt : cxobj) (st : clixon_state) (up : List cxobj) (yb : yang_bind) (yspec : Option Nat)
      (xsibling : Option cxobj),
      List.Sublist (trace_spec_set (xml_bind_yang0_opt h st up xt yb yspec xsibling).trace)
        (xml_addrs xt) := by
  intro xt
  induction xt using cxobj_induction with
  | step xt ih =>
    intro st up yb yspec xsibling
    rw [xml_bind_yang0_opt_eq, xml_addrs_eq]
    cases hself : xml_bind_yang0_opt_self st up xt yb yspec xsibling with
    | none => simp [trace_spec_set]
    | some r =>
      have hshape := xml_bind_yang0_opt_self_shape _ _ _ _ _ _ _ hself
      have hr : List.Sublist (trace_spec_set r.trace) (xt.addr :: xml_addrs_list xt.x_childvec) :=
        (populate_shape_sets hshape).trans
          (List.Sublist.cons₂ _ (List.nil_sublist _))
      dsimp only
      split
      · exact hr
      · split
        · exact hr
        · split
          · exact hr
          · unfold xml_bind_yang0_opt_descend
            have hm := xml_bind_yang0_opt_mount_sets h r.st up
              (strip_body_objects r.st.yang r.xt) yspec
            split
            · rename_i st1 tr heq
              rw [heq] at hm
              simp only [trace_spec_set_append, hm, List.append_nil]
              exact hr
            · rename_i st1 tr heq
              rw [heq] at hm
              simp only [trace_spec_set_append, hm, List.append_nil]
              exact hr
            · rename_i ybc yspec1 st1 tr heq
              rw [heq] at hm
              simp only [trace_spec_set_append, hm, List.append_nil]
              have hl := xml_bind_loop_sets (fun s x0 xc => xml_bind_yang0_opt h s
                (xml_up (strip_body_objects r.st.yang r.xt) :: up) xc ybc yspec1
                (xml_bind_yang0_opt_sibling x0 xsibling xc)) xt.x_childvec
                (fun c hc s x0 => ih c hc _ _ _ _ _) st1 none
              rw [populate_shape_childvec hshape]
              exact List.Sublist.append (populate_shape_sets hshape) hl

theorem xml_bind_yang0_eq (h : Option clicon_handle) (st : clixon_state) (up : List cxobj)
    (xt : cxobj) (yb : yang_bind) (yspec : Option Nat) :
    xml_bind_yang0 h st up xt yb yspec =
      match xml_bind_yang0_self st up xt yb yspec with
      | none => { retval := -1, xt := xt, st := st, xerr := [], trace := [] }
      | some r =>
        if r.retval < 0 then r
        else if r.retval = 0 then r
        else if r.retval = 2 then { r with retval := 1 }
        else
          { retval := (xml_bind_loop (fun s _ xc => xml_bind_yang0_opt h s
                (xml_up (strip_body_objects r.st.yang r.xt) :: up) xc YB_PARENT yspec none)
                r.st none (strip_body_objects r.st.yang r.xt).x_childvec).retval,
            xt := { strip_body_objects r.st.yang r.xt with
              x_childvec := (xml_bind_loop (fun s _ xc => xml_bind_yang0_opt h s
                (xml_up (strip_body_objects r.st.yang r.xt) :: up) xc YB_PARENT yspec none)
                r.st none (strip_body_objects r.st.yang r.xt).x_childvec).xt },
            st := (xml_bind_loop (fun s _ xc => xml_bind_yang0_opt h s
                (xml_up (strip_body_objects r.st.yang r.xt) :: up) xc YB_PARENT yspec none)
                r.st none (strip_body_objects r.st.yang r.xt).x_childvec).st,
            xerr := r.xerr ++ (xml_bind_loop (fun s _ xc => xml_bind_yang0_opt h s
                (xml_up (strip_body_objects r.st.yang r.xt) :: up) xc YB_PARENT yspec none)
                r.st none (strip_body_objects r.st.yang r.xt).x_childvec).xerr,
            trace := r.trace ++ (xml_bind_loop (fun s _ xc => xml_bind_yang0_opt h s
                (xml_up (strip_body_objects r.st.yang r.xt) :: up) xc YB_PARENT yspec none)
                r.st none (strip_body_objects r.st.yang r.xt).x_childvec).trace } := by
  cases yb <;> rfl

/-- The self-binder call of `xml_bind_yang0` returns as the self-binder does, or (with
`YB_NONE`) leaves the object as it is. -/
theorem xml_bind_yang0_self_shape (st : clixon_state) (up : List cxobj) (xt : cxobj)
    (yb : yang_bind) (yspec : Option Nat) (r : bind_result cxobj)
    (hr : xml_bind_yang0_self st up xt yb yspec = some r) :
    populate_shape st xt r ∨ r = { retval := 1, xt := xt, st := st, xerr := [], trace := [] } := by
  unfold xml_bind_yang0_self at hr
  split at hr
  · cases hr; exact Or.inl (populate_self_top_shape _ _ _ _)
  · cases hr; exact Or.inl (populate_self_parent_shape _ _ _ _ _)
  · cases hr; exact Or.inr rfl
  · cases hr

theorem xml_bind_yang0_sets (h : Option clicon_handle) (st : clixon_state) (up : List cxobj)
    (xt : cxobj) (yb : yang_bind) (yspec : Option Nat) :
    List.Sublist (trace_spec_set (xml_bind_yang0 h st up xt yb yspec).trace) (xml_addrs xt) := by
  rw [xml_bind_yang0_eq, xml_addrs_eq]
  cases hself : xml_bind_yang0_self st up xt yb yspec with
  | none => simp [trace_spec_set]
  | some r =>
    have hshape := xml_bind_yang0_self_shape _ _ _ _ _ _ hself
    have hs1 : List.Sublist (trace_spec_set r.trace) [xt.addr] := by
      rcases hshape with hs | rfl
      · exact populate_shape_sets hs
      · simp [trace_spec_set]
    have hcv : r.xt.x_childvec = xt.x_childvec := by
      rcases hshape with hs | rfl
      · exact populate_shape_childvec hs
      · rfl
    have hr : List.Sublist (trace_spec_set r.trace) (xt.addr :: xml_addrs_list xt.x_childvec) :=
      hs1.trans (List.Sublist.cons₂ _ (List.nil_sublist _))
    dsimp only
    split
    · exact hr
    · split
      · exact hr
      · split
        · exact hr
        · simp only [trace_spec_set_append]
          have hl := xml_bind_loop_sets (fun s _ xc => xml_bind_yang0_opt h s
            (xml_up (strip_body_objects r.st.yang r.xt) :: up) xc YB_PARENT yspec none)
            (strip_body_objects r.st.yang r.xt).x_childvec
            (fun c _ s _ => xml_bind_yang0_opt_sets h c _ _ _ _ _) r.st none
          have hsub := xml_addrs_list_sublist
            (strip_body_objects_childvec_sublist r.st.yang r.xt)
          rw [hcv] at hsub
          exact List.Sublist.append hs1 (hl.trans hsub)

theorem xml_bind_yang_sets (h : Option clicon_handle) (st : clixon_state) (up : List cxobj)
    (xt : cxobj) (yb : yang_bind) (yspec : Option Nat) :
    List.Sublist (trace_spec_set (xml_bind_yang h st up xt yb yspec).trace)
      (xml_addrs_list xt.x_childvec) := by
  unfold xml_bind_yang
  have hl := xml_bind_loop_sets (fun s _ xc => xml_bind_yang0 h s
    (xml_up (strip_body_objects st.yang xt) :: up) xc yb yspec)
    (strip_body_objects st.yang xt).x_childvec
    (fun c _ s _ => xml_bind_yang0_sets h _ _ c _ _) st none
  exact hl.trans (xml_addrs_list_sublist (strip_body_objects_childvec_sublist st.yang xt))

theorem xml_bind_yang_rpc_rpc_sets (h : Option clicon_handle) (st : clixon_state)
    (up : List cxobj) (x : cxobj) (yrpc : Nat) (rpcname : String) :
    List.Sublist (trace_spec_set (xml_bind_yang_rpc_rpc h st up x yrpc rpcname).trace)
      (x.addr :: xml_addrs x) := by
  unfold xml_bind_yang_rpc_rpc
  rw [xml_addrs_eq]
  dsimp only
  split
  · split <;> simp [trace_spec_set]
  · simp only [trace_spec_set_append, trace_spec_set, List.cons_append, List.nil_append]
    exact List.Sublist.cons₂ _ (List.Sublist.cons₂ _ (xml_bind_yang_sets h st up _ _ _))

theorem xml_bind_yang_rpc_action_count (h : Option clicon_handle) (st : clixon_state)
    (up : List cxobj) (xn : cxobj) (yspec : Option Nat) (a : Nat) :
    List.count a (trace_spec_set (xml_bind_yang_rpc_action h st up xn yspec).trace) ≤
      List.count a (xn.addr :: xml_addrs xn) := by
  have hy := (xml_bind_yang_sets h st up xn YB_MODULE yspec).count_le a
  have h1 : List.count a (xml_addrs_list xn.x_childvec) ≤
      List.count a (xn.addr :: xml_addrs xn) := by
    rw [xml_addrs_eq]
    exact ((List.sublist_cons_self _ _).trans (List.sublist_cons_self _ _)).count_le a
  unfold xml_bind_yang_rpc_action
  dsimp only
  split
  · exact hy.trans h1
  · split
    · simp only [trace_spec_set_append, trace_spec_set, List.count_append]
      rw [xml_addrs_eq]
      simp only [List.count_cons, List.count_nil]
      split <;> omega
    · exact hy.trans h1

theorem xml_bind_yang_rpc_children_count (isaction : List cxobj → cxobj → Int)
    (h : Option clicon_handle) (up : List cxobj) (yspec : Option Nat) (a : Nat) :
    ∀ (cs : List cxobj) (st : clixon_state),
      List.count a (trace_spec_set (xml_bind_yang_rpc_children isaction h st up yspec cs).trace)
        ≤ List.count a ((cs.filter (fun x => decide (xml_type x = CX_ELMNT))).map
            (fun x => x.addr)) + List.count a (xml_addrs_list cs) := by
  intro cs
  induction cs with
  | nil => intro st; simp [xml_bind_yang_rpc_children, trace_spec_set]
  | cons c cs ih =>
    intro st
    by_cases hty : xml_type c = CX_ELMNT
    · have hrpc := fun yrpc => (xml_bind_yang_rpc_rpc_sets h st up c yrpc (xml_name c)).count_le a
      have hact := xml_bind_yang_rpc_action_count h st up c yspec a
      simp only [List.count_cons] at hrpc hact
      simp only [xml_bind_yang_rpc_children, hty, ne_eq, not_true_eq_false, ↓reduceIte,
        decide_True, List.filter_cons_of_pos, List.map_cons, List.count_cons, xml_addrs_list,
        List.count_append]
      split
      · simp [trace_spec_set]
      · split
        · dsimp only
          omega
        · split
          · simp [trace_spec_set]
          · split
            · simp [trace_spec_set]
            · rename_i yrpc _
              have hr := hrpc yrpc
              split
              · dsimp only
                omega
              · have hi := ih (xml_bind_yang_rpc_rpc h st up c yrpc (xml_name c)).st
                simp only [trace_spec_set_append, List.count_append]
                omega
    · have hi := ih st
      simp only [xml_bind_yang_rpc_children, hty, ne_eq, not_false_eq_true, ↓reduceIte,
        decide_False, Bool.false_eq_true, List.filter_cons_of_neg, xml_addrs_list,
        List.count_append]
      omega

theorem rpc_op_addrs_sublist : ∀ cs : List cxobj,
    List.Sublist ((cs.filter (fun x => decide (xml_type x = CX_ELMNT))).map (fun x => x.addr))
      (xml_addrs_list cs)
  | [] => List.Sublist.refl _
  | c :: cs => by
    simp only [xml_addrs_list, List.filter_cons]
    split
    · rw [xml_addrs_eq]
      exact List.Sublist.cons₂ _
        ((rpc_op_addrs_sublist cs).trans (List.sublist_append_right _ _))
    · exact (rpc_op_addrs_sublist cs).trans (List.sublist_append_right _ _)

theorem xml_bind_yang_rpc_count (isaction : List cxobj → cxobj → Int)
    (h : Option clicon_handle) (st : clixon_state) (up : List cxobj) (xrpc : cxobj)
    (yspec : Option Nat) (a : Nat) :
    List.count a (trace_spec_set (xml_bind_yang_rpc isaction h st up xrpc yspec).trace) ≤
      List.count a (rpc_op_addrs xrpc) + List.count a (xml_addrs_list xrpc.x_childvec) := by
  unfold xml_bind_yang_rpc
  split
  · split <;> simp [trace_spec_set]
  · split
    · simp [trace_spec_set]
    · split
      · split
        · simp [trace_spec_set]
        · exact xml_bind_yang_rpc_children_count isaction h (xml_up xrpc :: up) yspec a _ st
      · simp [trace_spec_set]

theorem xml_bind_yang_rpc_reply_sets (err2cb : List rpc_error → String)
    (h : Option clicon_handle) (st : clixon_state) (up : List cxobj) (xrpc : cxobj)
    (name : String) (yspec : Option Nat) :
    List.Sublist (trace_spec_set (xml_bind_yang_rpc_reply err2cb h st up xrpc name yspec).trace)
      (xml_addrs xrpc) := by
  have hy := fun yo => xml_bind_yang_sets h st up (xml_spec_set xrpc (some yo)) YB_PARENT none
  unfold xml_bind_yang_rpc_reply
  rw [xml_addrs_eq]
  split
  · simp [trace_spec_set]
  · split
    · simp [trace_spec_set]
    · rename_i yo _
      dsimp only
      split
      · simp [trace_spec_set]
      · split
        · simp only [trace_spec_set_append, trace_spec_set, List.cons_append, List.nil_append]
          exact List.Sublist.cons₂ _ (hy yo)
        · split
          · simp only [trace_spec_set_append, trace_spec_set, List.cons_append,
              List.nil_append]
            exact List.Sublist.cons₂ _ (hy yo)
          · simp only [trace_spec_set_append, trace_spec_set, List.cons_append,
              List.nil_append]
            exact List.Sublist.cons₂ _ (hy yo)

/-- C8, as the code has it: in a tree whose objects have distinct addresses, one pass of
`xml_bind_yang0`, `xml_bind_yang` or `xml_bind_yang_rpc_reply` calls `xml_spec_set` at most
once on each object, so no schema reference is set twice. One pass of
`xml_bind_yang_rpc` calls it at most once on each object that is not an operation element
(an element child of `<rpc>`) and at most twice on an operation element: the operation
element of an rpc is set to the rpc statement and then, when the rpc declares an input,
to the input statement. -/
theorem C8_spec_set_once (isaction : List cxobj → cxobj → Int)
    (err2cb : List rpc_error → String) (h : Option clicon_handle) (st : clixon_state)
    (up : List cxobj) (xt : cxobj) (yb : yang_bind) (yspec : Option Nat) (name : String)
    (hnd : (xml_addrs xt).Nodup) :
    (trace_spec_set (xml_bind_yang0 h st up xt yb yspec).trace).Nodup ∧
    (trace_spec_set (xml_bind_yang h st up xt yb yspec).trace).Nodup ∧
    (trace_spec_set (xml_bind_yang_rpc_reply err2cb h st up xt name yspec).trace).Nodup ∧
    (∀ a, a ∉ rpc_op_addrs xt →
      List.count a (trace_spec_set (xml_bind_yang_rpc isaction h st up xt yspec).trace) ≤ 1) ∧
    (∀ a,
      List.count a (trace_spec_set (xml_bind_yang_rpc isaction h st up xt yspec).trace) ≤ 2) := by
  have hnd' : (xml_addrs_list xt.x_childvec).Nodup := by
    rw [xml_addrs_eq] at hnd
    exact (List.nodup_cons.1 hnd).2
  have hc1 : ∀ a, List.count a (xml_addrs_list xt.x_childvec) ≤ 1 :=
    fun a => List.nodup_iff_count_le_one.1 hnd' a
  have hops : ∀ a, List.count a (rpc_op_addrs xt) ≤ List.count a (xml_addrs_list xt.x_childvec) :=
    fun a => (rpc_op_addrs_sublist xt.x_childvec).count_le a
  refine ⟨hnd.sublist (xml_bind_yang0_sets h st up xt yb yspec),
    hnd'.sublist (xml_bind_yang_sets h st up xt yb yspec),
    hnd.sublist (xml_bind_yang_rpc_reply_sets err2cb h st up xt name yspec), ?_, ?_⟩
  · intro a ha
    have := xml_bind_yang_rpc_count isaction h st up xt yspec a
    have h0 : List.count a (rpc_op_addrs xt) = 0 := List.count_eq_zero.2 ha
    have := hc1 a
    omega
  · intro a
    have := xml_bind_yang_rpc_count isaction h st up xt yspec a
    have := hc1 a
    have := hops a
    omega

/-- C8 at `<rpc message-id="1"><get-config xmlns="urn:n"><source/></get-config></rpc>`,
whose five objects have the addresses 1 to 5: `xml_bind_yang_rpc` sets the reference of
`source` (address 5) once. -/
theorem C8_spec_set_once_witness :
    (xml_addrs example_rpc).Nodup ∧
    List.count 5 (trace_spec_set (xml_bind_yang_rpc example_isaction none example_state []
      example_rpc (some 0)).trace) ≤ 1 :=
  ⟨by decide,
    (C8_spec_set_once example_isaction (fun _ => "") none example_state [] example_rpc YB_PARENT
      (some 0) "get-config" (by decide)).2.2.2.1 5 (by decide)⟩

/-- C8 as stated fails: in one call of `xml_bind_yang_rpc` on
`<rpc message-id="1"><get-config xmlns="urn:n"><source/></get-config></rpc>` the schema
reference of `get-config` (address 3) is first set to the rpc statement `6` and then to
its input statement `7`, a different statement. -/
theorem C8_counterexample :
    (xml_bind_yang_rpc example_isaction none example_state [] example_rpc (some 0)).trace =
      [bind_event.spec_set 3 (some 6), bind_event.spec_set 3 (some 7),
       bind_event.populate 5 1, bind_event.spec_set 5 (some 8)] ∧
    (some 6 : Option Nat) ≠ some 7 ∧
    yang_keyword_get example_state.yang 6 = Y_RPC ∧
    yang_keyword_get example_state.yang 7 = Y_INPUT := by
  decide

/-! ## C6: a second pass changes nothing -/

theorem xml_bind_yang0_opt_mount_disabled (h : Option clicon_handle) (hm : mount_disabled h)
    (st : clixon_state) (up : List cxobj) (xt : cxobj) (yspec : Option Nat) :
    xml_bind_yang0_opt_mount h st up xt yspec = (mount_next.children YB_PARENT yspec, st, []) := by
  unfold xml_bind_yang0_opt_mount
  cases h with
  | none => rfl
  | some hh => simp [hm hh rfl]

/-- With schema mount off the descent of `xml_bind_yang0_opt` is the loop over the
children in parent mode. -/
theorem xml_bind_yang0_opt_descend_disabled (h : Option clicon_handle) (hm : mount_disabled h)
    (up : List cxobj) (yspec : Option Nat) (xsibling : Option cxobj) (r : bind_result cxobj) :
    xml_bind_yang0_opt_descend h up yspec xsibling r =
      { retval := (xml_bind_loop (fun s x0 xc => xml_bind_yang0_opt h s
            (xml_up (strip_body_objects r.st.yang r.xt) :: up) xc YB_PARENT yspec
            (xml_bind_yang0_opt_sibling x0 xsibling xc)) r.st none r.xt.x_childvec).retval,
        xt := strip_body_objects r.st.yang
          { r.xt with x_childvec := (xml_bind_loop (fun s x0 xc => xml_bind_yang0_opt h s
            (xml_up (strip_body_objects r.st.yang r.xt) :: up) xc YB_PARENT yspec
            (xml_bind_yang0_opt_sibling x0 xsibling xc)) r.st none r.xt.x_childvec).xt },
        st := (xml_bind_loop (fun s x0 xc => xml_bind_yang0_opt h s
            (xml_up (strip_body_objects r.st.yang r.xt) :: up) xc YB_PARENT yspec
            (xml_bind_yang0_opt_sibling x0 xsibling xc)) r.st none r.xt.x_childvec).st,
        xerr := r.xerr ++ (xml_bind_loop (fun s x0 xc => xml_bind_yang0_opt h s
            (xml_up (strip_body_objects r.st.yang r.xt) :: up) xc YB_PARENT yspec
            (xml_bind_yang0_opt_sibling x0 xsibling xc)) r.st none r.xt.x_childvec).xerr,
        trace := r.trace ++ (xml_bind_loop (fun s x0 xc => xml_bind_yang0_opt h s
            (xml_up (strip_body_objects r.st.yang r.xt) :: up) xc YB_PARENT yspec
            (xml_bind_yang0_opt_sibling x0 xsibling xc)) r.st none r.xt.x_childvec).trace } := by
  unfold xml_bind_yang0_opt_descend
  rw [xml_bind_yang0_opt_mount_disabled h hm]
  simp

@[simp] theorem strip_body_objects_type (Y : List yang_stmt) (x : cxobj) :
    (strip_body_objects Y x).x_type = x.x_type := by
  unfold strip_body_objects
  split
  · rfl
  · split <;> rfl

@[simp] theorem strip_body_objects_name (Y : List yang_stmt) (x : cxobj) :
    (strip_body_objects Y x).x_name = x.x_name := by
  unfold strip_body_objects
  split
  · rfl
  · split <;> rfl

@[simp] theorem strip_body_objects_pfx (Y : List yang_stmt) (x : cxobj) :
    (strip_body_objects Y x).x_pfx = x.x_pfx := by
  unfold strip_body_objects
  split
  · rfl
  · split <;> rfl

@[simp] theorem strip_body_objects_spec (Y : List yang_stmt) (x : cxobj) :
    (strip_body_objects Y x).x_spec = x.x_spec := by
  unfold strip_body_objects
  split
  · rfl
  · split <;> rfl

theorem populate_shape_type {st : clixon_state} {xt : cxobj} {r : bind_result cxobj}
    (hs : populate_shape st xt r) :
    r.xt.addr = xt.addr ∧ r.xt.x_type = xt.x_type ∧ r.xt.x_name = xt.x_name ∧
      r.xt.x_pfx = xt.x_pfx := by
  rcases hs with ⟨e, rfl⟩ | ⟨y, rfl⟩ | ⟨_, yp, rfl⟩ | rfl <;> exact ⟨rfl, rfl, rfl, rfl⟩

/-- `xml_bind_yang0_opt` keeps the address, the type, the name and the prefix. -/
theorem xml_bind_yang0_opt_head (h : Option clicon_handle) (st : clixon_state)
    (up : List cxobj) (xt : cxobj) (yb : yang_bind) (yspec : Option Nat)
    (xsibling : Option cxobj) :
    (xml_bind_yang0_opt h st up xt yb yspec xsibling).xt.addr = xt.addr ∧
    (xml_bind_yang0_opt h st up xt yb yspec xsibling).xt.x_type = xt.x_type ∧
    (xml_bind_yang0_opt h st up xt yb yspec xsibling).xt.x_name = xt.x_name ∧
    (xml_bind_yang0_opt h st up xt yb yspec xsibling).xt.x_pfx = xt.x_pfx := by
  rw [xml_bind_yang0_opt_eq]
  cases hself : xml_bind_yang0_opt_self st up xt yb yspec xsibling with
  | none => exact ⟨rfl, rfl, rfl, rfl⟩
  | some r =>
    have hs := populate_shape_type (xml_bind_yang0_opt_self_shape _ _ _ _ _ _ _ hself)
    dsimp only
    split
    · exact hs
    · split
      · exact hs
      · split
        · exact hs
        · unfold xml_bind_yang0_opt_descend
          split <;> simp [hs]

theorem strip_body_loop_attrs : ∀ cs : List cxobj,
    (strip_body_loop cs).filter (fun c => decide (c.x_type = CX_ATTR)) =
      cs.filter (fun c => decide (c.x_type = CX_ATTR))
  | [] => rfl
  | c :: cs => by
    unfold strip_body_loop
    split
    · rename_i hb
      split
      · rfl
      · rw [strip_body_loop_attrs cs]
        simp [hb.1]
    · simp only [List.filter_cons, strip_body_loop_attrs cs]

theorem strip_body_loop_idem : ∀ cs : List cxobj,
    strip_body_loop (strip_body_loop cs) = strip_body_loop cs
  | [] => rfl
  | c :: cs => by
    by_cases hb : c.x_type = CX_BODY ∧ c.x_name = "body"
    · by_cases hk : xml_flag_bodykey c = true
      · simp [strip_body_loop, hb, hk]
      · simp only [strip_body_loop, hb, and_self, ↓reduceIte, hk, Bool.false_eq_true]
        exact strip_body_loop_idem cs
    · simp only [strip_body_loop, hb, ↓reduceIte]
      rw [strip_body_loop_idem cs]

theorem strip_body_objects_idem (Y : List yang_stmt) (x : cxobj) :
    strip_body_objects Y (strip_body_objects Y x) = strip_body_objects Y x := by
  unfold strip_body_objects
  cases hs : xml_spec x with
  | none => simp [hs]
  | some yt =>
    by_cases hk : yang_keyword_get Y yt = Y_LIST ∨ yang_keyword_get Y yt = Y_CONTAINER
    · have hs' : x.x_spec = some yt := hs
      simp [hk, xml_spec, hs', strip_body_loop_idem]
    · simp [hk, hs]

theorem xml_up_strip (Y : List yang_stmt) (x : cxobj) :
    xml_up (strip_body_objects Y x) = xml_up x := by
  unfold strip_body_objects
  split
  · rfl
  · split
    · simp [xml_up, strip_body_loop_attrs]
    · rfl

theorem xml_bind_loop_attrs (f : clixon_state → Option cxobj → cxobj → bind_result cxobj)
    (hty : ∀ s x0 c, (f s x0 c).xt.x_type = c.x_type) :
    ∀ (cs : List cxobj) (st : clixon_state) (x0 : Option cxobj),
      (xml_bind_loop f st x0 cs).xt.filter (fun c => decide (c.x_type = CX_ATTR)) =
        cs.filter (fun c => decide (c.x_type = CX_ATTR)) := by
  intro cs
  induction cs with
  | nil => intro st x0; rfl
  | cons c cs ih =>
    intro st x0
    by_cases hel : xml_type c = CX_ELMNT
    · have hel' : c.x_type = CX_ELMNT := hel
      simp only [xml_bind_loop, hel, ne_eq, not_true_eq_false, ↓reduceIte]
      split
      · simp [List.filter_cons, hty, hel']
      · simp [List.filter_cons, hty, hel', ih]
    · simp only [xml_bind_loop, hel, ne_eq, not_false_eq_true, ↓reduceIte, List.filter_cons, ih]

/-- The loop over the children and the purge of bodies commute: the loop passes over
bodies, and the purge does not look at elements. So the loop may run over the child
vector as it was before `strip_body_objects`, as it does in `xml_bind_yang0_opt`. -/
theorem xml_bind_loop_strip (f : clixon_state → Option cxobj → cxobj → bind_result cxobj)
    (hty : ∀ s x0 c, (f s x0 c).xt.x_type = c.x_type) :
    ∀ (cs : List cxobj) (st : clixon_state) (x0 : Option cxobj),
      xml_bind_loop f st x0 (strip_body_loop cs) =
        { xml_bind_loop f st x0 cs with xt := strip_body_loop (xml_bind_loop f st x0 cs).xt } := by
  intro cs
  induction cs with
  | nil => intro st x0; rfl
  | cons c cs ih =>
    intro st x0
    by_cases hb : c.x_type = CX_BODY ∧ c.x_name = "body"
    · have hne : xml_type c ≠ CX_ELMNT := by simp [xml_type, hb.1]
      by_cases hk : xml_flag_bodykey c = true
      · simp [strip_body_loop, hb, hk, xml_bind_loop, hne]
      · simp only [strip_body_loop, hb, and_self, ↓reduceIte, hk, Bool.false_eq_true,
          xml_bind_loop, hne, ne_eq, not_false_eq_true]
        exact ih st x0
    · by_cases hel : xml_type c = CX_ELMNT
      · have hb' : ∀ s, ¬ ((f s x0 c).xt.x_type = CX_BODY ∧ (f s x0 c).xt.x_name = "body") := by
          intro s hh
          have := hty s x0 c
          rw [hh.1] at this
          simp [xml_type] at hel
          rw [hel] at this
          cases this
        simp only [strip_body_loop, hb, ↓reduceIte, xml_bind_loop, hel, ne_eq,
          not_true_eq_false]
        split
        · simp only [strip_body_loop, hb', ↓reduceIte]
        · simp only [strip_body_loop, hb', ↓reduceIte, ih]
      · simp only [strip_body_loop, hb, ↓reduceIte, xml_bind_loop, hel, ne_eq,
          not_false_eq_true, ih]

/-- The loop is idempotent when its body is, on states that satisfy an invariant `P` of
the body: run again over its own result, a successful loop gives the same result. -/
theorem xml_bind_loop_idem (f : clixon_state → Option cxobj → cxobj → bind_result cxobj)
    (P : clixon_state → Prop) (hty : ∀ s x0 c, (f s x0 c).xt.x_type = c.x_type) :
    ∀ (cs : List cxobj),
      (∀ c ∈ cs, ∀ s x0, P s → P (f s x0 c).st) →
      (∀ c ∈ cs, ∀ s x0, P s → ¬ ((f s x0 c).retval < 0 ∨ (f s x0 c).retval = 0) →
        f s x0 (f s x0 c).xt = f s x0 c) →
      ∀ (st : clixon_state) (x0 : Option cxobj), P st →
        ¬ ((xml_bind_loop f st x0 cs).retval < 0 ∨ (xml_bind_loop f st x0 cs).retval = 0) →
        xml_bind_loop f st x0 (xml_bind_loop f st x0 cs).xt = xml_bind_loop f st x0 cs := by
  intro cs
  induction cs with
  | nil => intro _ _ st x0 _ _; rfl
  | cons c cs ih =>
    intro hp hf st x0 hst hret
    have ih' := ih (fun d hd => hp d (List.mem_cons_of_mem _ hd))
      (fun d hd => hf d (List.mem_cons_of_mem _ hd))
    have hc := hf c (List.mem_cons_self _ _)
    by_cases hel : xml_type c = CX_ELMNT
    · by_cases hr : (f st x0 c).retval < 0 ∨ (f st x0 c).retval = 0
      · simp only [xml_bind_loop, hel, ne_eq, not_true_eq_false, ↓reduceIte, hr] at hret
      · have hel' : xml_type (f st x0 c).xt = CX_ELMNT := by
          simp only [xml_type] at hel ⊢
          rw [hty, hel]
        have hcc := hc st x0 hst hr
        have hst' := hp c (List.mem_cons_self _ _) st x0 hst
        simp only [xml_bind_loop, hel, ne_eq, not_true_eq_false, ↓reduceIte, hr] at hret ⊢
        simp only [xml_bind_loop, hel', ne_eq, not_true_eq_false, ↓reduceIte, hcc, hr]
        try rw [ih' _ _ hst' hret]
    · simp only [xml_bind_loop, hel, ne_eq, not_false_eq_true, ↓reduceIte] at hret ⊢
      rw [ih' _ _ hst hret]

theorem xml_bind_loop_st (f : clixon_state → Option cxobj → cxobj → bind_result cxobj)
    (P : clixon_state → Prop) :
    ∀ (cs : List cxobj), (∀ c ∈ cs, ∀ s x0, P s → (f s x0 c).st = s) →
      ∀ (st : clixon_state) (x0 : Option cxobj), P st → (xml_bind_loop f st x0 cs).st = st := by
  intro cs
  induction cs with
  | nil => intro _ st x0 _; rfl
  | cons c cs ih =>
    intro hf st x0 hp
    have ih' := ih (fun d hd => hf d (List.mem_cons_of_mem _ hd))
    have hc := hf c (List.mem_cons_self _ _) st x0 hp
    simp only [xml_bind_loop]
    split
    · exact ih' st x0 hp
    · split
      · exact hc
      · dsimp only
        rw [ih' _ _ (by rw [hc]; exact hp), hc]

theorem xml_find_type_attrs (x : cxobj) (pfx : Option String) (name : String) :
    xml_find_type x pfx name CX_ATTR =
      (xml_attrs x).find? (fun c =>
        (match pfx with
          | some p => decide (c.x_pfx = some p)
          | none => true) &&
        decide (c.x_name = name)) := by
  unfold xml_find_type xml_attrs
  rw [List.find?_filter]
  congr 1
  funext c
  simp [Bool.and_assoc]

theorem xml2ns_self_same {x x' : cxobj} (ha : xml_attrs x' = xml_attrs x) (pfx : Option String) :
    xml2ns_self x' pfx = xml2ns_self x pfx := by
  unfold xml2ns_self xml_find_type_value
  cases pfx <;> simp only [xml_find_type_attrs, ha]

theorem xml2ns_same {x x' : cxobj} (hh : xml_same_head x x') (up : List cxobj) :
    xml2ns up x' ( xml_prefix x') = xml2ns up x ( xml_prefix x) := by
  have hp : xml_prefix x' = xml_prefix x := hh.2.2.2.1
  simp only [xml2ns, xml2ns_recurse, hp, xml2ns_self_same hh.2.2.2.2.1]

theorem ys_module_by_xml_same {x x' : cxobj} (hh : xml_same_head x x') (Y : List yang_stmt)
    (yspec : Option Nat) (up : List cxobj) :
    ys_module_by_xml Y yspec up x' = ys_module_by_xml Y yspec up x := by
  unfold ys_module_by_xml
  rw [xml2ns_same hh]

theorem xml_child_nr_type_same {x x' : cxobj} (hh : xml_same_head x x') :
    xml_child_nr_type x' CX_ATTR = xml_child_nr_type x CX_ATTR := by
  have := hh.2.2.2.2.1
  unfold xml_attrs at this
  unfold xml_child_nr_type
  rw [this]

theorem populate_fail_rel (st : clixon_state) (x x' : cxobj) (e : rpc_error) :
    populate_rel st x x' (populate_fail st x e) (populate_fail st x' e) :=
  Or.inl ⟨e, rfl, rfl⟩

theorem populate_set_rel (st : clixon_state) (x x' : cxobj) (y : Option Nat) :
    populate_rel st x x' (populate_set st x y) (populate_set st x' y) :=
  Or.inr (Or.inl ⟨y, rfl, rfl⟩)

theorem populate_check_ns_rel (st : clixon_state) {x x' : cxobj} (hh : xml_same_head x x')
    (ns : Option String) (y : Nat) :
    populate_rel st x x' (populate_check_ns st x ns y) (populate_check_ns st x' ns y) := by
  have hn : xml_name x' = xml_name x := hh.2.2.1
  unfold populate_check_ns
  rw [hn]
  cases ns with
  | none => exact populate_fail_rel _ _ _ _
  | some n =>
    cases yang_find_mynamespace st.yang y with
    | none => exact populate_fail_rel _ _ _ _
    | some nsy =>
      by_cases heq : n = nsy
      · simp only [heq, ne_eq, not_true_eq_false, ↓reduceIte]
        exact populate_set_rel _ _ _ _
      · simp only [ne_eq, heq, not_false_eq_true, ↓reduceIte]
        exact populate_fail_rel _ _ _ _

theorem populate_anydata_rel (st : clixon_state) {x x' : cxobj} (hh : xml_same_head x x')
    (yp : Nat) :
    populate_rel st x x' (populate_anydata st x yp) (populate_anydata st x' yp) :=
  Or.inr (Or.inr (Or.inl ⟨yp, rfl, rfl⟩))

theorem populate_self_parent_slow_rel (st : clixon_state) (up : List cxobj) {x x' : cxobj}
    (hh : xml_same_head x x') :
    populate_rel st x x' (populate_self_parent_slow st up x)
      (populate_self_parent_slow st up x') := by
  have hn : xml_name x' = xml_name x := hh.2.2.1
  have hns := xml2ns_same hh up
  unfold populate_self_parent_slow
  rw [hn, hns]
  cases xml_parent up with
  | none => exact populate_fail_rel _ _ _ _
  | some xp =>
    dsimp only
    cases xml_spec xp with
    | none => exact populate_fail_rel _ _ _ _
    | some yparent =>
      dsimp only
      by_cases hk : yang_keyword_get st.yang yparent = Y_ANYXML ∨
          yang_keyword_get st.yang yparent = Y_ANYDATA
      · simp only [hk, ↓reduceIte]
        exact Or.inr (Or.inr (Or.inr ⟨rfl, rfl⟩))
      · simp only [hk, ↓reduceIte]
        cases yang_find_child st.yang yparent (xml_name x) with
        | some y => exact populate_check_ns_rel st hh _ y
        | none =>
          dsimp only
          split
          · exact populate_anydata_rel st hh _
          · exact populate_fail_rel _ _ _ _

theorem populate_self_parent_rel (st : clixon_state) (up : List cxobj) {x x' : cxobj}
    (hh : xml_same_head x x') (xsibling : Option cxobj) (yspec : Option Nat) :
    populate_rel st x x' (populate_self_parent st up x xsibling yspec)
      (populate_self_parent st up x' xsibling yspec) := by
  unfold populate_self_parent
  rw [xml_child_nr_type_same hh]
  cases xsibling with
  | none => exact populate_self_parent_slow_rel st up hh
  | some xs =>
    dsimp only
    split
    · exact populate_set_rel _ _ _ _
    · exact populate_self_parent_slow_rel st up hh

theorem populate_self_top_rel (st : clixon_state) (up : List cxobj) {x x' : cxobj}
    (hh : xml_same_head x x') (yspec : Option Nat) :
    populate_rel st x x' (populate_self_top st up x yspec) (populate_self_top st up x' yspec) := by
  have hn : xml_name x' = xml_name x := hh.2.2.1
  have hns := xml2ns_same hh up
  unfold populate_self_top
  cases yspec with
  | none => dsimp only; rw [hn]; exact populate_fail_rel _ _ _ _
  | some ysp =>
    dsimp only
    rw [ys_module_by_xml_same hh, hn, hns]
    cases ys_module_by_xml st.yang (some ysp) up x with
    | none => exact populate_fail_rel _ _ _ _
    | some ymod =>
      dsimp only
      cases yang_find_schemanode st.yang ymod (xml_name x) with
      | some y => exact populate_check_ns_rel st hh _ y
      | none =>
        dsimp only
        split
        · exact populate_anydata_rel st hh _
        · exact populate_fail_rel _ _ _ _

theorem populate_shape_st {st : clixon_state} {xt : cxobj} {r : bind_result cxobj}
    (hs : populate_shape st xt r) (hoff : st._yang_unknown_anydata = 0) : r.st = st := by
  rcases hs with ⟨e, rfl⟩ | ⟨y, rfl⟩ | ⟨hon, yp, rfl⟩ | rfl
  · rfl
  · rfl
  · exact absurd hoff hon
  · rfl

/-- With the anydata fallback and schema mount off, binding does not change the state. -/
theorem xml_bind_yang0_opt_st (h : Option clicon_handle) (hm : mount_disabled h) :
    ∀ (xt : cxobj) (st : clixon_state) (up : List cxobj) (yb : yang_bind) (yspec : Option Nat)
      (xsibling : Option cxobj), st._yang_unknown_anydata = 0 →
      (xml_bind_yang0_opt h st up xt yb yspec xsibling).st = st := by
  intro xt
  induction xt using cxobj_induction with
  | step xt ih =>
    intro st up yb yspec xsibling hoff
    rw [xml_bind_yang0_opt_eq]
    cases hself : xml_bind_yang0_opt_self st up xt yb yspec xsibling with
    | none => rfl
    | some r =>
      have hshape := xml_bind_yang0_opt_self_shape _ _ _ _ _ _ _ hself
      have hst := populate_shape_st hshape hoff
      dsimp only
      split
      · exact hst
      · split
        · exact hst
        · split
          · exact hst
          · rw [xml_bind_yang0_opt_descend_disabled h hm]
            dsimp only
            rw [populate_shape_childvec hshape, hst]
            exact xml_bind_loop_st _ (fun s => s._yang_unknown_anydata = 0) xt.x_childvec
              (fun c hc s x0 hs => ih c hc s _ _ _ _ hs) st none hoff

theorem xml_spec_set_self (x : cxobj) (y : Option Nat) (hy : x.x_spec = y) :
    xml_spec_set x y = x := by
  cases x
  simp only [xml_spec_set] at hy ⊢
  subst hy
  rfl

theorem populate_set_inj {st : clixon_state} {x : cxobj} {y y' : Option Nat}
    (he : populate_set st x y = populate_set st x y') : y = y' := by
  have := congrArg (fun r => r.xt.x_spec) he
  simpa [populate_set] using this

/-- If the self-binder assigns `y` to `x`, it assigns `y` to every object with the same
head. -/
theorem populate_rel_set {st : clixon_state} {x x' : cxobj} {r r' : bind_result cxobj}
    (hrel : populate_rel st x x' r r') {y : Option Nat} (hr : r = populate_set st x y) :
    r' = populate_set st x' y := by
  subst hr
  rcases hrel with ⟨e, h1, _⟩ | ⟨y', h1, h2⟩ | ⟨yp, h1, _⟩ | ⟨h1, _⟩
  · have := congrArg bind_result.retval h1
    simp [populate_set, populate_fail] at this
  · rw [h2, populate_set_inj h1]
  · have := congrArg bind_result.retval h1
    simp [populate_set, populate_anydata] at this
  · have := congrArg bind_result.retval h1
    simp [populate_set] at this

theorem xml_bind_yang0_opt_self_rel (st : clixon_state) (up : List cxobj) {x x' : cxobj}
    (hh : xml_same_head x x') (yb : yang_bind) (yspec : Option Nat) (xsibling : Option cxobj)
    {y : Option Nat}
    (hr : xml_bind_yang0_opt_self st up x yb yspec xsibling = some (populate_set st x y)) :
    xml_bind_yang0_opt_self st up x' yb yspec xsibling = some (populate_set st x' y) := by
  unfold xml_bind_yang0_opt_self at hr ⊢
  cases yb with
  | YB_MODULE =>
    simp only [Option.some.injEq] at hr ⊢
    exact populate_rel_set (populate_self_top_rel st up hh yspec) hr
  | YB_PARENT =>
    simp only [Option.some.injEq] at hr ⊢
    exact populate_rel_set (populate_self_parent_rel st up hh xsibling yspec) hr
  | YB_NONE => cases hr
  | YB_RPC => cases hr

theorem xml_up_same {x x' : cxobj} (hh : xml_same_head x x') (hs : x'.x_spec = x.x_spec) :
    xml_up x' = xml_up x := by
  obtain ⟨h1, h2, h3, h4, h5, h6, h7⟩ := hh
  cases x
  cases x'
  simp only [xml_attrs] at h5
  simp only at h1 h2 h3 h4 h6 h7 hs
  simp [xml_up, h1, h2, h3, h4, h5, h6, h7, hs]

theorem strip_body_objects_attrs (Y : List yang_stmt) (x : cxobj) :
    xml_attrs (strip_body_objects Y x) = xml_attrs x := by
  unfold strip_body_objects xml_attrs
  split
  · rfl
  · split
    · exact strip_body_loop_attrs _
    · rfl

/-- The object returned for `xt` when the children `cs` replace its own and bodies are
purged has the head of `xt`, provided `cs` has the attributes of `xt`. -/
theorem xml_same_head_result (Y : List yang_stmt) (xt : cxobj) (y : Option Nat)
    (cs : List cxobj)
    (hattr : cs.filter (fun c => decide (c.x_type = CX_ATTR)) = xml_attrs xt) :
    xml_same_head xt (strip_body_objects Y { xml_spec_set xt y with x_childvec := cs }) := by
  refine ⟨by simp, by simp, by simp, by simp, ?_, ?_, ?_⟩
  · rw [strip_body_objects_attrs]
    exact hattr
  · unfold strip_body_objects
    split
    · rfl
    · split <;> rfl
  · unfold strip_body_objects
    split
    · rfl
    · split <;> rfl

/-- The result of `xml_bind_yang0_opt` when the self-binder assigns `y` and schema mount is
off. -/
theorem xml_bind_yang0_opt_set (h : Option clicon_handle) (hm : mount_disabled h)
    (st : clixon_state) (up : List cxobj) (xt : cxobj) (yb : yang_bind) (yspec : Option Nat)
    (xsibling : Option cxobj) (y : Option Nat)
    (hself : xml_bind_yang0_opt_self st up xt yb yspec xsibling = some (populate_set st xt y)) :
    xml_bind_yang0_opt h st up xt yb yspec xsibling =
      { retval := (xml_bind_loop (xml_bind_yang0_opt_body h up yspec xsibling
            (xml_spec_set xt y)) st none xt.x_childvec).retval,
        xt := strip_body_objects st.yang { xml_spec_set xt y with
          x_childvec := (xml_bind_loop (xml_bind_yang0_opt_body h up yspec xsibling
            (xml_spec_set xt y)) st none xt.x_childvec).xt },
        st := (xml_bind_loop (xml_bind_yang0_opt_body h up yspec xsibling
            (xml_spec_set xt y)) st none xt.x_childvec).st,
        xerr := (xml_bind_loop (xml_bind_yang0_opt_body h up yspec xsibling
            (xml_spec_set xt y)) st none xt.x_childvec).xerr,
        trace := [bind_event.populate xt.addr 1, bind_event.spec_set xt.addr y] ++
          (xml_bind_loop (xml_bind_yang0_opt_body h up yspec xsibling
            (xml_spec_set xt y)) st none xt.x_childvec).trace } := by
  rw [xml_bind_yang0_opt_eq, hself]
  simp only [populate_set, Int.reduceLT, Int.reduceEq, ↓reduceIte,
    xml_bind_yang0_opt_descend_disabled h hm, xml_up_strip, xml_spec_set_childvec,
    List.nil_append, List.cons_append]
  rfl

theorem xml_bind_yang0_opt_sibling_congr (xc0 xsibling : Option cxobj) {xc xc' : cxobj}
    (hn : xc'.x_name = xc.x_name) (hp : xc'.x_pfx = xc.x_pfx) :
    xml_bind_yang0_opt_sibling xc0 xsibling xc' = xml_bind_yang0_opt_sibling xc0 xsibling xc := by
  unfold xml_bind_yang0_opt_sibling xml_name xml_prefix
  rw [hn, hp]

theorem strip_body_objects_childvec_cases (Y : List yang_stmt) (x : cxobj) :
    (strip_body_objects Y x).x_childvec = x.x_childvec ∨
      (strip_body_objects Y x).x_childvec = strip_body_loop x.x_childvec := by
  unfold strip_body_objects
  split
  · exact Or.inl rfl
  · split
    · exact Or.inr rfl
    · exact Or.inl rfl

theorem strip_body_objects_eta (Y : List yang_stmt) (x : cxobj) :
    strip_body_objects Y { x with x_childvec := (strip_body_objects Y x).x_childvec } =
      strip_body_objects Y x := by
  have hi := strip_body_objects_idem Y x
  have : ({ x with x_childvec := (strip_body_objects Y x).x_childvec } : cxobj) =
      strip_body_objects Y x := by
    unfold strip_body_objects
    split
    · simp
    · split
      · rfl
      · simp
  rw [this, hi]

/-- With the anydata fallback and schema mount off, `xml_bind_yang0_opt` is idempotent:
called again on the object it returned, with the same arguments, a call that succeeded
returns the same result. -/
theorem xml_bind_yang0_opt_idem (h : Option clicon_handle) (hm : mount_disabled h) :
    ∀ (xt : cxobj) (st : clixon_state) (up : List cxobj) (yb : yang_bind) (yspec : Option Nat)
      (xsibling : Option cxobj), st._yang_unknown_anydata = 0 →
      ¬ ((xml_bind_yang0_opt h st up xt yb yspec xsibling).retval < 0 ∨
        (xml_bind_yang0_opt h st up xt yb yspec xsibling).retval = 0) →
      xml_bind_yang0_opt h st up (xml_bind_yang0_opt h st up xt yb yspec xsibling).xt yb yspec
        xsibling = xml_bind_yang0_opt h st up xt yb yspec xsibling := by
  intro xt
  induction xt using cxobj_induction with
  | step xt ih =>
    intro st up yb yspec xsibling hoff hret
    cases hself : xml_bind_yang0_opt_self st up xt yb yspec xsibling with
    | none =>
      exfalso
      apply hret
      rw [xml_bind_yang0_opt_eq, hself]
      left
      dsimp only
      omega
    | some r0 =>
      rcases xml_bind_yang0_opt_self_shape _ _ _ _ _ _ _ hself with
        ⟨e, rfl⟩ | ⟨y, rfl⟩ | ⟨hon, _⟩ | rfl
      · exfalso
        apply hret
        rw [xml_bind_yang0_opt_eq, hself]
        simp [populate_fail]
      · have hR := xml_bind_yang0_opt_set h hm st up xt yb yspec xsibling y hself
        have hty : ∀ s x0 c, (xml_bind_yang0_opt_body h up yspec xsibling (xml_spec_set xt y)
            s x0 c).xt.x_type = c.x_type :=
          fun s x0 c => (xml_bind_yang0_opt_head h s _ c _ _ _).2.1
        have hattr := xml_bind_loop_attrs _ hty xt.x_childvec st none
        have hret' : ¬ ((xml_bind_loop (xml_bind_yang0_opt_body h up yspec xsibling
            (xml_spec_set xt y)) st none xt.x_childvec).retval < 0 ∨
            (xml_bind_loop (xml_bind_yang0_opt_body h up yspec xsibling
            (xml_spec_set xt y)) st none xt.x_childvec).retval = 0) := by
          rw [hR] at hret
          exact hret
        have hidem := xml_bind_loop_idem
          (xml_bind_yang0_opt_body h up yspec xsibling (xml_spec_set xt y))
          (fun s => s._yang_unknown_anydata = 0) hty xt.x_childvec
          (fun c _ s x0 hs => by
            unfold xml_bind_yang0_opt_body
            rw [xml_bind_yang0_opt_st h hm c s _ _ _ _ hs]
            exact hs)
          (fun c hc s x0 hs hr => by
            unfold xml_bind_yang0_opt_body at hr ⊢
            have hd := xml_bind_yang0_opt_head h s (xml_up (xml_spec_set xt y) :: up) c YB_PARENT
              yspec (xml_bind_yang0_opt_sibling x0 xsibling c)
            rw [xml_bind_yang0_opt_sibling_congr x0 xsibling hd.2.2.1 hd.2.2.2]
            exact ih c hc s _ _ _ _ hs hr)
          st none hoff hret'
        generalize hrc : xml_bind_loop (xml_bind_yang0_opt_body h up yspec xsibling
          (xml_spec_set xt y)) st none xt.x_childvec = rc at hR hattr hidem
        have hhead := xml_same_head_result st.yang xt y rc.xt hattr
        have hstrip := strip_body_objects_idem st.yang
          { xml_spec_set xt y with x_childvec := rc.xt }
        have hcases := strip_body_objects_childvec_cases st.yang
          { xml_spec_set xt y with x_childvec := rc.xt }
        have hXspec : (strip_body_objects st.yang
          { xml_spec_set xt y with x_childvec := rc.xt }).x_spec = y := by simp
        have hXaddr : (strip_body_objects st.yang
          { xml_spec_set xt y with x_childvec := rc.xt }).addr = xt.addr := by simp
        generalize hX : strip_body_objects st.yang
          { xml_spec_set xt y with x_childvec := rc.xt } = X at hR hhead hstrip hcases hXspec hXaddr
        have hself' := xml_bind_yang0_opt_self_rel st up hhead yb yspec xsibling hself
        have hR' := xml_bind_yang0_opt_set h hm st up X yb yspec xsibling y hself'
        have hset : xml_spec_set X y = X := xml_spec_set_self X y hXspec
        have hup : xml_up X = xml_up (xml_spec_set xt y) :=
          xml_up_same (x := xml_spec_set xt y) hhead (by simp [hXspec])
        have hF : xml_bind_yang0_opt_body h up yspec xsibling X =
            xml_bind_yang0_opt_body h up yspec xsibling (xml_spec_set xt y) :=
          congrArg (fun u => fun s x0 xc => xml_bind_yang0_opt h s (u :: up) xc YB_PARENT
            yspec (xml_bind_yang0_opt_sibling x0 xsibling xc)) hup
        have hloop : xml_bind_loop (xml_bind_yang0_opt_body h up yspec xsibling
            (xml_spec_set xt y)) st none X.x_childvec = { rc with xt := X.x_childvec } := by
          rcases hcases with hc | hc
          · rw [hc]
            dsimp only
            rw [hidem]
          · rw [hc]
            dsimp only
            rw [xml_bind_loop_strip _ hty, hidem]
        have heta : ({ X with x_childvec := X.x_childvec } : cxobj) = X := by simp
        rw [hset, hF, hloop] at hR'
        dsimp only at hR'
        rw [heta, hstrip, hXaddr] at hR'
        rw [hR]
        dsimp only
        exact hR'
      · exact absurd hoff hon
      · have hR : xml_bind_yang0_opt h st up xt yb yspec xsibling =
            { retval := 1, xt := xt, st := st, xerr := [],
              trace := [bind_event.populate xt.addr 2] } := by
          rw [xml_bind_yang0_opt_eq, hself]
          simp
        rw [hR]
        dsimp only
        exact hR

theorem xml_bind_yang0_eq_descend (h : Option clicon_handle) (st : clixon_state)
    (up : List cxobj) (xt : cxobj) (yb : yang_bind) (yspec : Option Nat) :
    xml_bind_yang0 h st up xt yb yspec =
      match xml_bind_yang0_self st up xt yb yspec with
      | none => { retval := -1, xt := xt, st := st, xerr := [], trace := [] }
      | some r =>
        if r.retval < 0 then r
        else if r.retval = 0 then r
        else if r.retval = 2 then { r with retval := 1 }
        else xml_bind_yang0_descend h up yspec r := by
  cases yb <;> rfl

/-- On an object with a given schema reference, the purge of bodies either does nothing
whatever the children are, or purges the children whatever they are. -/
theorem strip_body_objects_replace (Y : List yang_stmt) (x : cxobj) :
    (∀ cs, strip_body_objects Y { x with x_childvec := cs } = { x with x_childvec := cs }) ∨
      (∀ cs, strip_body_objects Y { x with x_childvec := cs } =
        { x with x_childvec := strip_body_loop cs }) := by
  unfold strip_body_objects xml_spec
  dsimp only
  cases x.x_spec with
  | none => exact Or.inl (fun _ => rfl)
  | some yt =>
    dsimp only
    by_cases hk : yang_keyword_get Y yt = Y_LIST ∨ yang_keyword_get Y yt = Y_CONTAINER
    · right
      intro cs
      rw [if_pos hk]
    · left
      intro cs
      rw [if_neg hk]

/-- The object returned by the descent of `xml_bind_yang0` is a fixed point of the
purge of bodies. -/
theorem strip_body_objects_loop_fix (Y : List yang_stmt) (x : cxobj)
    (f : clixon_state → Option cxobj → cxobj → bind_result cxobj)
    (hty : ∀ s x0 c, (f s x0 c).xt.x_type = c.x_type) (st : clixon_state) :
    strip_body_objects Y { strip_body_objects Y x with
        x_childvec := (xml_bind_loop f st none (strip_body_objects Y x).x_childvec).xt } =
      { strip_body_objects Y x with
        x_childvec := (xml_bind_loop f st none (strip_body_objects Y x).x_childvec).xt } := by
  have hx : ({ x with x_childvec := x.x_childvec } : cxobj) = x := by simp
  rcases strip_body_objects_replace Y x with hc | hc
  · have h1 := hc x.x_childvec
    rw [hx] at h1
    rw [h1]
    exact hc _
  · have h1 := hc x.x_childvec
    rw [hx] at h1
    rw [h1]
    dsimp only
    rw [hc, xml_bind_loop_strip f hty]
    dsimp only
    rw [strip_body_loop_idem]

/-- The descent of `xml_bind_yang0` is idempotent: run again on the object it returned,
a descent that succeeded gives the same result. -/
theorem xml_bind_yang0_descend_idem (h : Option clicon_handle) (hm : mount_disabled h)
    (up : List cxobj) (yspec : Option Nat) (r : bind_result cxobj)
    (hoff : r.st._yang_unknown_anydata = 0)
    (hret : ¬ ((xml_bind_yang0_descend h up yspec r).retval < 0 ∨
      (xml_bind_yang0_descend h up yspec r).retval = 0)) :
    xml_bind_yang0_descend h up yspec
        { r with xt := (xml_bind_yang0_descend h up yspec r).xt } =
      xml_bind_yang0_descend h up yspec r := by
  unfold xml_bind_yang0_descend at hret ⊢
  dsimp only at hret ⊢
  have hty : ∀ s x0 c, (xml_bind_yang0_body h up yspec (strip_body_objects r.st.yang r.xt)
      s x0 c).xt.x_type = c.x_type :=
    fun s x0 c => (xml_bind_yang0_opt_head h s _ c _ _ _).2.1
  have hfix := strip_body_objects_loop_fix r.st.yang r.xt _ hty r.st
  have hattr := xml_bind_loop_attrs _ hty (strip_body_objects r.st.yang r.xt).x_childvec
    r.st none
  have hidem := xml_bind_loop_idem
    (xml_bind_yang0_body h up yspec (strip_body_objects r.st.yang r.xt))
    (fun s => s._yang_unknown_anydata = 0) hty (strip_body_objects r.st.yang r.xt).x_childvec
    (fun c _ s x0 hs => by
      unfold xml_bind_yang0_body
      rw [xml_bind_yang0_opt_st h hm c s _ _ _ _ hs]
      exact hs)
    (fun c _ s x0 hs hr => by
      unfold xml_bind_yang0_body at hr ⊢
      exact xml_bind_yang0_opt_idem h hm c s _ _ _ _ hs hr)
    r.st none hoff hret
  generalize hxs : strip_body_objects r.st.yang r.xt = xs at hfix hattr hidem
  generalize hrc : xml_bind_loop (xml_bind_yang0_body h up yspec xs) r.st none
    xs.x_childvec = rc at hfix hattr hidem
  have hup : xml_up { xs with x_childvec := rc.xt } = xml_up xs :=
    xml_up_same (x := xs) ⟨rfl, rfl, rfl, rfl, hattr, rfl, rfl⟩ rfl
  have hF : xml_bind_yang0_body h up yspec { xs with x_childvec := rc.xt } =
      xml_bind_yang0_body h up yspec xs :=
    congrArg (fun u => fun s (_ : Option cxobj) xc =>
      xml_bind_yang0_opt h s (u :: up) xc YB_PARENT yspec none) hup
  rw [hfix]
  dsimp only
  rw [hF, hidem]

theorem populate_shape_trace {st : clixon_state} {xt : cxobj} {r : bind_result cxobj}
    (hs : populate_shape st xt r) : r.trace ≠ [] := by
  rcases hs with ⟨e, rfl⟩ | ⟨y, rfl⟩ | ⟨_, yp, rfl⟩ | rfl <;>
    simp [populate_fail, populate_set, populate_anydata]

theorem xml_bind_yang0_self_rel (st : clixon_state) (up : List cxobj) {x x' : cxobj}
    (hh : xml_same_head x x') (yb : yang_bind) (yspec : Option Nat) {y : Option Nat}
    (hr : xml_bind_yang0_self st up x yb yspec = some (populate_set st x y)) :
    xml_bind_yang0_self st up x' yb yspec = some (populate_set st x' y) := by
  unfold xml_bind_yang0_self at hr ⊢
  cases yb with
  | YB_MODULE =>
    simp only [Option.some.injEq] at hr ⊢
    exact populate_rel_set (populate_self_top_rel st up hh yspec) hr
  | YB_PARENT =>
    simp only [Option.some.injEq] at hr ⊢
    exact populate_rel_set (populate_self_parent_rel st up hh none yspec) hr
  | YB_NONE =>
    have := congrArg (fun o => o.map (fun r => r.trace)) hr
    simp [populate_set] at this
  | YB_RPC => cases hr

theorem xml_bind_yang0_self_none (st : clixon_state) (up : List cxobj) (x x' : cxobj)
    (yb : yang_bind) (yspec : Option Nat)
    (hr : xml_bind_yang0_self st up x yb yspec =
      some { retval := 1, xt := x, st := st, xerr := [], trace := [] }) :
    xml_bind_yang0_self st up x' yb yspec =
      some { retval := 1, xt := x', st := st, xerr := [], trace := [] } := by
  unfold xml_bind_yang0_self at hr ⊢
  cases yb with
  | YB_MODULE =>
    simp only [Option.some.injEq] at hr
    have := populate_shape_trace (populate_self_top_shape st up x yspec)
    rw [hr] at this
    exact absurd rfl this
  | YB_PARENT =>
    simp only [Option.some.injEq] at hr
    have := populate_shape_trace (populate_self_parent_shape st up x none yspec)
    rw [hr] at this
    exact absurd rfl this
  | YB_NONE => rfl
  | YB_RPC => cases hr

/-- With the anydata fallback and schema mount off, a call of `xml_bind_yang0` that
succeeded leaves the process state as it was. -/
theorem xml_bind_yang0_st (h : Option clicon_handle) (hm : mount_disabled h)
    (st : clixon_state) (up : List cxobj) (xt : cxobj) (yb : yang_bind) (yspec : Option Nat)
    (hoff : st._yang_unknown_anydata = 0) :
    (xml_bind_yang0 h st up xt yb yspec).st = st := by
  rw [xml_bind_yang0_eq_descend]
  cases hself : xml_bind_yang0_self st up xt yb yspec with
  | none => rfl
  | some r =>
    have hst : r.st = st := by
      rcases xml_bind_yang0_self_shape _ _ _ _ _ _ hself with hs | rfl
      · exact populate_shape_st hs hoff
      · rfl
    dsimp only
    split
    · exact hst
    · split
      · exact hst
      · split
        · exact hst
        · unfold xml_bind_yang0_descend
          dsimp only
          rw [hst]
          exact xml_bind_loop_st _ (fun s => s._yang_unknown_anydata = 0) _
            (fun c _ s x0 hs => xml_bind_yang0_opt_st h hm c s _ _ _ _ hs) st none hoff

/-- With the anydata fallback and schema mount off, `xml_bind_yang0` is idempotent. -/
theorem xml_bind_yang0_idem (h : Option clicon_handle) (hm : mount_disabled h)
    (st : clixon_state) (up : List cxobj) (xt : cxobj) (yb : yang_bind) (yspec : Option Nat)
    (hoff : st._yang_unknown_anydata = 0)
    (hret : ¬ ((xml_bind_yang0 h st up xt yb yspec).retval < 0 ∨
      (xml_bind_yang0 h st up xt yb yspec).retval = 0)) :
    xml_bind_yang0 h st up (xml_bind_yang0 h st up xt yb yspec).xt yb yspec =
      xml_bind_yang0 h st up xt yb yspec := by
  cases hself : xml_bind_yang0_self st up xt yb yspec with
  | none =>
    exfalso
    apply hret
    rw [xml_bind_yang0_eq_descend, hself]
    left
    dsimp only
    omega
  | some r0 =>
    rcases xml_bind_yang0_self_shape _ _ _ _ _ _ hself with
      (⟨e, rfl⟩ | ⟨y, rfl⟩ | ⟨hon, _⟩ | rfl) | rfl
    · exfalso
      apply hret
      rw [xml_bind_yang0_eq_descend, hself]
      simp [populate_fail]
    · have hR : xml_bind_yang0 h st up xt yb yspec =
          xml_bind_yang0_descend h up yspec (populate_set st xt y) := by
        rw [xml_bind_yang0_eq_descend, hself]
        simp [populate_set]
      rw [hR] at hret ⊢
      have hty : ∀ s x0 c, (xml_bind_yang0_body h up yspec
          (strip_body_objects st.yang (xml_spec_set xt y)) s x0 c).xt.x_type = c.x_type :=
        fun s x0 c => (xml_bind_yang0_opt_head h s _ c _ _ _).2.1
      have hattr := xml_bind_loop_attrs _ hty
        (strip_body_objects st.yang (xml_spec_set xt y)).x_childvec st none
      have hhead : xml_same_head xt
          (xml_bind_yang0_descend h up yspec (populate_set st xt y)).xt := by
        refine ⟨by simp [xml_bind_yang0_descend, populate_set],
          by simp [xml_bind_yang0_descend, populate_set],
          by simp [xml_bind_yang0_descend, populate_set],
          by simp [xml_bind_yang0_descend, populate_set], ?_, ?_, ?_⟩
        · have := strip_body_objects_attrs st.yang (xml_spec_set xt y)
          unfold xml_attrs at this ⊢
          simp only [xml_bind_yang0_descend, populate_set]
          rw [hattr, this]
          simp
        · exact (xml_same_head_result st.yang xt y xt.x_childvec rfl).2.2.2.2.2.1
        · exact (xml_same_head_result st.yang xt y xt.x_childvec rfl).2.2.2.2.2.2
      have hself' := xml_bind_yang0_self_rel st up hhead yb yspec hself
      have hspec : (xml_bind_yang0_descend h up yspec (populate_set st xt y)).xt.x_spec = y := by
        simp [xml_bind_yang0_descend, populate_set]
      have haddr : (xml_bind_yang0_descend h up yspec (populate_set st xt y)).xt.addr =
          xt.addr := hhead.1
      have hset : ∀ X : cxobj, X.x_spec = y → X.addr = xt.addr →
          populate_set st X y = { populate_set st xt y with xt := X } := by
        intro X h1 h2
        unfold populate_set
        rw [xml_spec_set_self _ _ h1, h2]
      have hd := xml_bind_yang0_descend_idem h hm up yspec (populate_set st xt y) hoff hret
      rw [xml_bind_yang0_eq_descend, hself', hset _ hspec haddr]
      simp only [populate_set] at hd ⊢
      simpa using hd
    · exact absurd hoff hon
    · have hR : xml_bind_yang0 h st up xt yb yspec =
          { retval := 1, xt := xt, st := st, xerr := [],
            trace := [bind_event.populate xt.addr 2] } := by
        rw [xml_bind_yang0_eq_descend, hself]
        simp
      rw [hR]
      dsimp only
      exact hR
    · have hR : xml_bind_yang0 h st up xt yb yspec =
          xml_bind_yang0_descend h up yspec
            { retval := 1, xt := xt, st := st, xerr := [], trace := [] } := by
        rw [xml_bind_yang0_eq_descend, hself]
        simp
      rw [hR] at hret ⊢
      have hd := xml_bind_yang0_descend_idem h hm up yspec
        { retval := 1, xt := xt, st := st, xerr := [], trace := [] } hoff hret
      rw [xml_bind_yang0_eq_descend, xml_bind_yang0_self_none st up xt _ yb yspec hself]
      simpa using hd

/-! ### C6: the statement -/

/-- C6: with the anydata fallback and schema mount off, if `xml_bind_yang0` returns `1` on
a tree `t`, the schema and the process state are as before the call, and a second call on
the returned tree, with the same parent chain, binding mode and schema, returns `1` and
returns the same tree: every node has the schema reference and the content it had after
the first call. -/
theorem C6_second_pass_identical (h : Option clicon_handle) (st : clixon_state)
    (up : List cxobj) (t : cxobj) (yb : yang_bind) (yspec : Option Nat)
    (hm : mount_disabled h) (hoff : st._yang_unknown_anydata = 0)
    (h1 : (xml_bind_yang0 h st up t yb yspec).retval = 1) :
    (xml_bind_yang0 h st up t yb yspec).st = st ∧
    (xml_bind_yang0 h (xml_bind_yang0 h st up t yb yspec).st up
      (xml_bind_yang0 h st up t yb yspec).xt yb yspec).retval = 1 ∧
    (xml_bind_yang0 h (xml_bind_yang0 h st up t yb yspec).st up
      (xml_bind_yang0 h st up t yb yspec).xt yb yspec).xt =
      (xml_bind_yang0 h st up t yb yspec).xt := by
  have hst := xml_bind_yang0_st h hm st up t yb yspec hoff
  have hret : ¬ ((xml_bind_yang0 h st up t yb yspec).retval < 0 ∨
      (xml_bind_yang0 h st up t yb yspec).retval = 0) := by
    rw [h1]
    decide
  have hi := xml_bind_yang0_idem h hm st up t yb yspec hoff hret
  rw [hst, hi]
  exact ⟨rfl, h1, rfl⟩

/-- C6 at the document
`<c xmlns="urn:n"><n:p xmlns:n="urn:n" xmlns="urn:other"><a xmlns="urn:n"/><a/></n:p></c>`
bound in module mode. -/
theorem C6_second_pass_identical_witness :
    (xml_bind_yang0 none example_state [] example_c YB_MODULE (some 0)).retval = 1 ∧
    (xml_bind_yang0 none example_state []
      (xml_bind_yang0 none example_state [] example_c YB_MODULE (some 0)).xt
      YB_MODULE (some 0)).xt =
      (xml_bind_yang0 none example_state [] example_c YB_MODULE (some 0)).xt :=
  ⟨by decide,
    ((C6_second_pass_identical none example_state [] example_c YB_MODULE (some 0)
      (fun _ hh => nomatch hh) (by decide) (by decide)).2.2)⟩

/-! ## C7: no rollback, immediate abort -/

theorem trace_specs_append (a b : List bind_event) :
    trace_specs (a ++ b) = trace_specs a ++ trace_specs b := by
  induction a with
  | nil => rfl
  | cons e a ih => cases e <;> simp [trace_specs, ih]

theorem trace_populate_append (a b : List bind_event) :
    trace_populate (a ++ b) = trace_populate a ++ trace_populate b := by
  induction a with
  | nil => rfl
  | cons e a ih => cases e <;> simp [trace_populate, ih]

theorem xml_specs_eq (x : cxobj) :
    xml_specs x = (x.addr, x.x_spec) :: xml_specs_list x.x_childvec := by
  cases x; simp [xml_specs]

theorem xml_specs_list_elmnt (c : cxobj) (cs : List cxobj) (hc : c.x_type = CX_ELMNT) :
    xml_specs_list (c :: cs) = xml_specs c ++ xml_specs_list cs := by
  simp [xml_specs_list, hc]

theorem xml_specs_list_other (c : cxobj) (cs : List cxobj) (hc : c.x_type ≠ CX_ELMNT) :
    xml_specs_list (c :: cs) = xml_specs_list cs := by
  rw [xml_specs_list]
  split
  · rename_i heq
    exact absurd heq hc
  · rfl

theorem xml_specs_list_strip : ∀ cs : List cxobj,
    xml_specs_list (strip_body_loop cs) = xml_specs_list cs := by
  intro cs
  induction cs with
  | nil => rfl
  | cons c cs ih =>
    by_cases hb : c.x_type = CX_BODY ∧ c.x_name = "body"
    · have hne : c.x_type ≠ CX_ELMNT := by rw [hb.1]; decide
      by_cases hk : xml_flag_bodykey c = true
      · simp [strip_body_loop, hb, hk]
      · simp only [strip_body_loop, hb, and_self, ↓reduceIte, hk, Bool.false_eq_true]
        rw [ih, xml_specs_list_other c cs hne]
    · simp only [strip_body_loop, hb, ↓reduceIte]
      by_cases hel : c.x_type = CX_ELMNT
      · rw [xml_specs_list_elmnt _ _ hel, xml_specs_list_elmnt _ _ hel, ih]
      · rw [xml_specs_list_other _ _ hel, xml_specs_list_other _ _ hel, ih]

theorem xml_specs_strip (Y : List yang_stmt) (x : cxobj) :
    xml_specs (strip_body_objects Y x) = xml_specs x := by
  rw [xml_specs_eq, xml_specs_eq]
  simp only [strip_body_objects_addr, strip_body_objects_spec]
  rcases strip_body_objects_childvec_cases Y x with hc | hc
  · rw [hc]
  · rw [hc, xml_specs_list_strip]

theorem xml_bind_yang0_opt_mount_specs (h : Option clicon_handle) (st : clixon_state)
    (up : List cxobj) (xt : cxobj) (yspec : Option Nat) :
    trace_specs (xml_bind_yang0_opt_mount h st up xt yspec).2.2 = [] ∧
      trace_populate (xml_bind_yang0_opt_mount h st up xt yspec).2.2 = [] := by
  unfold xml_bind_yang0_opt_mount
  repeat' split
  all_goals exact ⟨rfl, rfl⟩

theorem xml_below_trans {x c t : cxobj} (h1 : xml_below x c) (h2 : xml_below c t) :
    xml_below x t := by
  induction h2 with
  | self => exact h1
  | child hm _ ih => exact xml_below.child hm ih

theorem bind_abort_append_right {s0 s1 : List (Nat × Option Nat)} {tr : List bind_event}
    {xerr : List rpc_error} {c : Nat} {e : rpc_error} (z : List (Nat × Option Nat))
    (ha : bind_abort s0 s1 tr xerr c e) : bind_abort (s0 ++ z) (s1 ++ z) tr xerr c e := by
  obtain ⟨sc, pre, pre1, post, tr0, h0, h1, hf, ht, hp, hs, he⟩ := ha
  refine ⟨sc, pre, pre1, post ++ z, tr0, ?_, ?_, hf, ht, hp, hs, he⟩
  · rw [h0]; simp
  · rw [h1]; simp

theorem bind_abort_append_left {s0 s1 : List (Nat × Option Nat)} {tr : List bind_event}
    {xerr : List rpc_error} {c : Nat} {e : rpc_error} (s0a s1a : List (Nat × Option Nat))
    (tra : List bind_event) (hfa : s1a.map Prod.fst = s0a.map Prod.fst)
    (hsa : List.Sublist (trace_specs tra) s1a)
    (hpa : List.Sublist (trace_populate tra) (s0a.map Prod.fst))
    (ha : bind_abort s0 s1 tr xerr c e) :
    bind_abort (s0a ++ s0) (s1a ++ s1) (tra ++ tr) xerr c e := by
  obtain ⟨sc, pre, pre1, post, tr0, h0, h1, hf, ht, hp, hs, he⟩ := ha
  refine ⟨sc, s0a ++ pre, s1a ++ pre1, post, tra ++ tr0, ?_, ?_, ?_, ?_, ?_, ?_, he⟩
  · rw [h0]; simp
  · rw [h1]; simp
  · simp [hfa, hf]
  · rw [ht]; simp
  · rw [trace_populate_append, List.map_append]
    exact List.Sublist.append hpa hp
  · rw [trace_specs_append]
    exact List.Sublist.append hsa hs

theorem bind_inv_mono {B B1 : cxobj → Prop} (hB : ∀ x, B x → B1 x)
    {s0 s1 : List (Nat × Option Nat)} {retval : Int} {xerr : List rpc_error}
    {tr : List bind_event} (hi : bind_inv B s0 s1 retval xerr tr) :
    bind_inv B1 s0 s1 retval xerr tr := by
  obtain ⟨h1, h2, h3, h4, h5⟩ := hi
  refine ⟨h1, h2, h3, h4, fun hr => ?_⟩
  obtain ⟨xc, e, hb, hf, ha⟩ := h5 hr
  exact ⟨xc, e, hB xc hb, hf, ha⟩

/-- The loop over the children keeps `bind_inv` when its body does. -/
theorem xml_bind_loop_inv (f : clixon_state → Option cxobj → cxobj → bind_result cxobj)
    (hty : ∀ s x0 c, (f s x0 c).xt.x_type = c.x_type) :
    ∀ (cs : List cxobj),
      (∀ c ∈ cs, ∀ s x0, bind_inv (fun x => xml_below x c) (xml_specs c)
        (xml_specs (f s x0 c).xt) (f s x0 c).retval (f s x0 c).xerr (f s x0 c).trace) →
      ∀ st x0, bind_inv (fun x => ∃ c ∈ cs, xml_below x c) (xml_specs_list cs)
        (xml_specs_list (xml_bind_loop f st x0 cs).xt) (xml_bind_loop f st x0 cs).retval
        (xml_bind_loop f st x0 cs).xerr (xml_bind_loop f st x0 cs).trace := by
  intro cs
  induction cs with
  | nil =>
    intro _ st x0
    refine ⟨rfl, ?_, ?_, fun _ => rfl, fun hr => ?_⟩
    · simp [xml_bind_loop, trace_specs]
    · simp [xml_bind_loop, trace_populate]
    · simp [xml_bind_loop] at hr
  | cons c cs ih =>
    intro hf st x0
    have ih' := ih (fun d hd => hf d (List.mem_cons_of_mem _ hd))
    have hc := hf c (List.mem_cons_self _ _)
    by_cases hel : c.x_type = CX_ELMNT
    · have hel' : xml_type c = CX_ELMNT := hel
      have helr : (f st x0 c).xt.x_type = CX_ELMNT := by rw [hty, hel]
      obtain ⟨c1, c2, c3, c4, c5⟩ := hc st x0
      simp only [xml_bind_loop, hel', ne_eq, not_true_eq_false, ↓reduceIte]
      split
      · dsimp only
        rw [xml_specs_list_elmnt _ _ hel, xml_specs_list_elmnt _ _ helr]
        refine ⟨by simp [c1], c2.trans (List.sublist_append_left _ _),
          c3.trans (by simp), c4, fun hr => ?_⟩
        obtain ⟨xc, e, hb, hfl, ha⟩ := c5 hr
        exact ⟨xc, e, ⟨c, List.mem_cons_self _ _, hb⟩, hfl, bind_abort_append_right _ ha⟩
      · rename_i hnr
        dsimp only
        rw [xml_specs_list_elmnt _ _ hel, xml_specs_list_elmnt _ _ helr]
        obtain ⟨r1, r2, r3, r4, r5⟩ := ih' (f st x0 c).st (some (f st x0 c).xt)
        have hx : (f st x0 c).xerr = [] := c4 (fun h0 => hnr (Or.inr h0))
        refine ⟨by simp [c1, r1], ?_, ?_, fun hr => by rw [hx, r4 hr]; rfl, fun hr => ?_⟩
        · rw [trace_specs_append]
          exact List.Sublist.append c2 r2
        · rw [trace_populate_append, List.map_append]
          exact List.Sublist.append c3 r3
        · obtain ⟨xc, e, ⟨d, hd, hb⟩, hfl, ha⟩ := r5 hr
          rw [hx, List.nil_append]
          exact ⟨xc, e, ⟨d, List.mem_cons_of_mem _ hd, hb⟩, hfl,
            bind_abort_append_left _ _ _ c1 c2 c3 ha⟩
    · have hel' : xml_type c ≠ CX_ELMNT := hel
      simp only [xml_bind_loop, hel', ne_eq, not_false_eq_true, ↓reduceIte]
      rw [xml_specs_list_other _ _ hel, xml_specs_list_other _ _ hel]
      exact bind_inv_mono (fun x ⟨d, hd, hb⟩ => ⟨d, List.mem_cons_of_mem _ hd, hb⟩) (ih' st x0)

theorem bind_inv_skip (B : cxobj → Prop) (s : List (Nat × Option Nat)) (rv : Int)
    (hrv : rv ≠ 0) : bind_inv B s s rv [] [] :=
  ⟨rfl, List.nil_sublist _, List.nil_sublist _, fun _ => rfl, fun h0 => absurd h0 hrv⟩

theorem bind_inv_cons {B B1 : cxobj → Prop} {s0 s1 : List (Nat × Option Nat)} {rv : Int}
    {xerr : List rpc_error} {tr : List bind_event} (hi : bind_inv B s0 s1 rv xerr tr)
    (a : Nat) (sp y : Option Nat) (tra : List bind_event)
    (hs : List.Sublist (trace_specs tra) [(a, y)])
    (hp : List.Sublist (trace_populate tra) [a]) (hB : ∀ x, B x → B1 x) :
    bind_inv B1 ((a, sp) :: s0) ((a, y) :: s1) rv xerr (tra ++ tr) := by
  obtain ⟨h1, h2, h3, h4, h5⟩ := hi
  refine ⟨by simp [h1], ?_, ?_, h4, fun hr => ?_⟩
  · rw [trace_specs_append]
    exact List.Sublist.append hs h2
  · rw [trace_populate_append]
    exact List.Sublist.append hp h3
  · obtain ⟨xc, e, hb, hf, ha⟩ := h5 hr
    exact ⟨xc, e, hB xc hb, hf,
      bind_abort_append_left [(a, sp)] [(a, y)] tra rfl hs hp ha⟩

/-- The result of the self-binder satisfies `bind_inv`, also when its return value `2`
is replaced by `1`. -/
theorem populate_shape_inv {st : clixon_state} {xt : cxobj} {r : bind_result cxobj}
    (hs : populate_shape st xt r)
    (hf : ∀ e, r = populate_fail st xt e → populate_failed xt e) (rv : Int)
    (hrv : rv = 0 ↔ r.retval = 0) :
    bind_inv (fun x => xml_below x xt) (xml_specs xt) (xml_specs r.xt) rv r.xerr r.trace := by
  rcases hs with ⟨e, rfl⟩ | ⟨y, rfl⟩ | ⟨_, yp, rfl⟩ | rfl
  · refine ⟨rfl, ?_, ?_, fun hn => absurd (hrv.2 rfl) hn, fun _ => ?_⟩
    · simp [populate_fail, trace_specs]
    · rw [xml_specs_eq]
      simp [populate_fail, trace_populate]
    · refine ⟨xt, e, xml_below.self xt, hf e rfl, xt.x_spec, [], [],
        xml_specs_list xt.x_childvec, [], ?_, ?_, rfl, rfl, ?_, ?_, rfl⟩
      · rw [xml_specs_eq]; rfl
      · rw [xml_specs_eq]; rfl
      · simp [trace_populate]
      · simp [trace_specs]
  · refine ⟨?_, ?_, ?_, fun _ => rfl, fun h0 => ?_⟩
    · rw [xml_specs_eq, xml_specs_eq]
      simp [populate_set]
    · rw [xml_specs_eq]
      simp [populate_set, trace_specs]
    · rw [xml_specs_eq]
      simp [populate_set, trace_populate]
    · have := hrv.1 h0
      simp [populate_set] at this
  · refine ⟨?_, ?_, ?_, fun _ => rfl, fun h0 => ?_⟩
    · rw [xml_specs_eq, xml_specs_eq]
      simp [populate_anydata]
    · rw [xml_specs_eq]
      simp [populate_anydata, trace_specs]
    · rw [xml_specs_eq]
      simp [populate_anydata, trace_populate]
    · have := hrv.1 h0
      simp [populate_anydata] at this
  · refine ⟨rfl, ?_, ?_, fun _ => rfl, fun h0 => ?_⟩
    · simp [trace_specs]
    · rw [xml_specs_eq]
      simp [trace_populate]
    · have := hrv.1 h0
      simp at this

theorem xml_bind_yang0_opt_descend_inv (h : Option clicon_handle) (up : List cxobj)
    (yspec : Option Nat) (xsibling : Option cxobj) (st : clixon_state) (xt : cxobj)
    (y : Option Nat)
    (ih : ∀ c ∈ xt.x_childvec, ∀ (st : clixon_state) (up : List cxobj) (yb : yang_bind)
      (yspec : Option Nat) (xsibling : Option cxobj),
      bind_inv (fun x => xml_below x c) (xml_specs c)
        (xml_specs (xml_bind_yang0_opt h st up c yb yspec xsibling).xt)
        (xml_bind_yang0_opt h st up c yb yspec xsibling).retval
        (xml_bind_yang0_opt h st up c yb yspec xsibling).xerr
        (xml_bind_yang0_opt h st up c yb yspec xsibling).trace) :
    bind_inv (fun x => xml_below x xt) (xml_specs xt)
      (xml_specs (xml_bind_yang0_opt_descend h up yspec xsibling (populate_set st xt y)).xt)
      (xml_bind_yang0_opt_descend h up yspec xsibling (populate_set st xt y)).retval
      (xml_bind_yang0_opt_descend h up yspec xsibling (populate_set st xt y)).xerr
      (xml_bind_yang0_opt_descend h up yspec xsibling (populate_set st xt y)).trace := by
  have hm := xml_bind_yang0_opt_mount_specs h st up
    (strip_body_objects st.yang (xml_spec_set xt y)) yspec
  have hB : ∀ x, (∃ c ∈ xt.x_childvec, xml_below x c) → xml_below x xt :=
    fun x ⟨c, hc, hb⟩ => xml_below.child hc hb
  have hs0 : xml_specs xt = (xt.addr, xt.x_spec) :: xml_specs_list xt.x_childvec :=
    xml_specs_eq xt
  unfold xml_bind_yang0_opt_descend
  simp only [populate_set]
  split
  · rename_i st1 tr heq
    rw [heq] at hm
    have hi := bind_inv_cons (bind_inv_skip (fun x => ∃ c ∈ xt.x_childvec, xml_below x c)
      (xml_specs_list xt.x_childvec) (-1) (by decide)) xt.addr xt.x_spec y
      ([bind_event.populate xt.addr 1, bind_event.spec_set xt.addr y] ++ tr)
      (by rw [trace_specs_append, hm.1]; simp [trace_specs])
      (by rw [trace_populate_append, hm.2]; simp [trace_populate]) hB
    rw [xml_specs_strip, xml_specs_eq (xml_spec_set xt y), hs0]
    simpa using hi
  · rename_i st1 tr heq
    rw [heq] at hm
    have hi := bind_inv_cons (bind_inv_skip (fun x => ∃ c ∈ xt.x_childvec, xml_below x c)
      (xml_specs_list xt.x_childvec) 1 (by decide)) xt.addr xt.x_spec y
      ([bind_event.populate xt.addr 1, bind_event.spec_set xt.addr y] ++ tr)
      (by rw [trace_specs_append, hm.1]; simp [trace_specs])
      (by rw [trace_populate_append, hm.2]; simp [trace_populate]) hB
    rw [xml_specs_strip, xml_specs_eq (xml_spec_set xt y), hs0]
    simpa using hi
  · rename_i ybc yspec1 st1 tr heq
    rw [heq] at hm
    have hl := xml_bind_loop_inv (fun s x0 xc => xml_bind_yang0_opt h s
      (xml_up (strip_body_objects st.yang (xml_spec_set xt y)) :: up) xc ybc yspec1
      (xml_bind_yang0_opt_sibling x0 xsibling xc))
      (fun s x0 c => (xml_bind_yang0_opt_head h s _ c _ _ _).2.1) xt.x_childvec
      (fun c hc s x0 => ih c hc _ _ _ _ _) st1 none
    have hi := bind_inv_cons hl xt.addr xt.x_spec y
      ([bind_event.populate xt.addr 1, bind_event.spec_set xt.addr y] ++ tr)
      (by rw [trace_specs_append, hm.1]; simp [trace_specs])
      (by rw [trace_populate_append, hm.2]; simp [trace_populate]) hB
    rw [xml_specs_strip, hs0, xml_specs_eq]
    simpa using hi

/-- Every call of `xml_bind_yang0_opt` satisfies `bind_inv`. -/
theorem xml_bind_yang0_opt_inv (h : Option clicon_handle) :
    ∀ (xt : cxobj) (st : clixon_state) (up : List cxobj) (yb : yang_bind) (yspec : Option Nat)
      (xsibling : Option cxobj),
      bind_inv (fun x => xml_below x xt) (xml_specs xt)
        (xml_specs (xml_bind_yang0_opt h st up xt yb yspec xsibling).xt)
        (xml_bind_yang0_opt h st up xt yb yspec xsibling).retval
        (xml_bind_yang0_opt h st up xt yb yspec xsibling).xerr
        (xml_bind_yang0_opt h st up xt yb yspec xsibling).trace := by
  intro xt
  induction xt using cxobj_induction with
  | step xt ih =>
    intro st up yb yspec xsibling
    rw [xml_bind_yang0_opt_eq]
    cases hself : xml_bind_yang0_opt_self st up xt yb yspec xsibling with
    | none =>
      dsimp only
      exact bind_inv_skip _ _ (-1) (by decide)
    | some r =>
      have hshape := xml_bind_yang0_opt_self_shape _ _ _ _ _ _ _ hself
      have hfail : ∀ e, r = populate_fail st xt e → populate_failed xt e := by
        intro e he
        subst he
        unfold xml_bind_yang0_opt_self at hself
        cases yb with
        | YB_MODULE =>
          simp only [Option.some.injEq] at hself
          exact ⟨st, up, xsibling, yspec, Or.inl hself⟩
        | YB_PARENT =>
          simp only [Option.some.injEq] at hself
          exact ⟨st, up, xsibling, yspec, Or.inr hself⟩
        | YB_NONE => cases hself
        | YB_RPC => cases hself
      dsimp only
      split
      · exact populate_shape_inv hshape hfail _ Iff.rfl
      · split
        · exact populate_shape_inv hshape hfail _ Iff.rfl
        · split
          · rename_i h2
            exact populate_shape_inv hshape hfail 1
              ⟨fun h0 => absurd h0 (by decide), fun h0 => by rw [h2] at h0; exact absurd h0 (by decide)⟩
          · rename_i hn1 hn0 hn2
            rcases hshape with ⟨e, rfl⟩ | ⟨y, rfl⟩ | ⟨_, yp, rfl⟩ | rfl
            · exact absurd rfl hn0
            · exact xml_bind_yang0_opt_descend_inv h up yspec xsibling st xt y ih
            · exact absurd rfl hn2
            · exact absurd rfl hn2

theorem xml_bind_yang0_descend_inv (h : Option clicon_handle) (up : List cxobj)
    (yspec : Option Nat) (xt : cxobj) (r : bind_result cxobj) (hx : r.xerr = [])
    (ha : r.xt.addr = xt.addr) (hc : r.xt.x_childvec = xt.x_childvec)
    (hs : List.Sublist (trace_specs r.trace) [(xt.addr, r.xt.x_spec)])
    (hp : List.Sublist (trace_populate r.trace) [xt.addr]) :
    bind_inv (fun x => xml_below x xt) (xml_specs xt)
      (xml_specs (xml_bind_yang0_descend h up yspec r).xt)
      (xml_bind_yang0_descend h up yspec r).retval
      (xml_bind_yang0_descend h up yspec r).xerr
      (xml_bind_yang0_descend h up yspec r).trace := by
  have hl := xml_bind_loop_inv
    (xml_bind_yang0_body h up yspec (strip_body_objects r.st.yang r.xt))
    (fun s x0 c => (xml_bind_yang0_opt_head h s _ c _ _ _).2.1)
    (strip_body_objects r.st.yang r.xt).x_childvec
    (fun c _ s x0 => xml_bind_yang0_opt_inv h c _ _ _ _ _) r.st none
  have hsl : xml_specs_list (strip_body_objects r.st.yang r.xt).x_childvec =
      xml_specs_list xt.x_childvec := by
    rcases strip_body_objects_childvec_cases r.st.yang r.xt with hh | hh
    · rw [hh, hc]
    · rw [hh, xml_specs_list_strip, hc]
  rw [hsl] at hl
  have hB : ∀ x, (∃ c ∈ (strip_body_objects r.st.yang r.xt).x_childvec, xml_below x c) →
      xml_below x xt := fun x ⟨c, hcm, hb⟩ =>
    xml_below.child (hc ▸ (strip_body_objects_childvec_sublist _ _).subset hcm) hb
  have hi := bind_inv_cons hl xt.addr xt.x_spec r.xt.x_spec r.trace hs hp hB
  unfold xml_bind_yang0_descend
  dsimp only
  rw [hx, xml_specs_eq xt, xml_specs_eq]
  simpa [ha] using hi

theorem xml_bind_yang0_type (h : Option clicon_handle) (st : clixon_state) (up : List cxobj)
    (xt : cxobj) (yb : yang_bind) (yspec : Option Nat) :
    (xml_bind_yang0 h st up xt yb yspec).xt.x_type = xt.x_type := by
  rw [xml_bind_yang0_eq_descend]
  cases hself : xml_bind_yang0_self st up xt yb yspec with
  | none => rfl
  | some r =>
    have ht : r.xt.x_type = xt.x_type := by
      rcases xml_bind_yang0_self_shape _ _ _ _ _ _ hself with hs | rfl
      · exact (populate_shape_type hs).2.1
      · rfl
    dsimp only
    split
    · exact ht
    · split
      · exact ht
      · split
        · exact ht
        · unfold xml_bind_yang0_descend
          dsimp only
          rw [strip_body_objects_type, ht]

/-- Every call of `xml_bind_yang0` satisfies `bind_inv`. -/
theorem xml_bind_yang0_inv (h : Option clicon_handle) (st : clixon_state) (up : List cxobj)
    (xt : cxobj) (yb : yang_bind) (yspec : Option Nat) :
    bind_inv (fun x => xml_below x xt) (xml_specs xt)
      (xml_specs (xml_bind_yang0 h st up xt yb yspec).xt)
      (xml_bind_yang0 h st up xt yb yspec).retval
      (xml_bind_yang0 h st up xt yb yspec).xerr
      (xml_bind_yang0 h st up xt yb yspec).trace := by
  rw [xml_bind_yang0_eq_descend]
  cases hself : xml_bind_yang0_self st up xt yb yspec with
  | none =>
    dsimp only
    exact bind_inv_skip _ _ (-1) (by decide)
  | some r =>
    rcases xml_bind_yang0_self_shape _ _ _ _ _ _ hself with hshape | rfl
    · have hfail : ∀ e, r = populate_fail st xt e → populate_failed xt e := by
        intro e he
        subst he
        unfold xml_bind_yang0_self at hself
        cases yb with
        | YB_MODULE =>
          simp only [Option.some.injEq] at hself
          exact ⟨st, up, none, yspec, Or.inl hself⟩
        | YB_PARENT =>
          simp only [Option.some.injEq] at hself
          exact ⟨st, up, none, yspec, Or.inr hself⟩
        | YB_NONE =>
          have := congrArg (fun o => o.map (fun r => r.retval)) hself
          simp [populate_fail] at this
        | YB_RPC => cases hself
      dsimp only
      split
      · exact populate_shape_inv hshape hfail _ Iff.rfl
      · split
        · exact populate_shape_inv hshape hfail _ Iff.rfl
        · split
          · rename_i h2
            exact populate_shape_inv hshape hfail 1
              ⟨fun h0 => absurd h0 (by decide),
                fun h0 => by rw [h2] at h0; exact absurd h0 (by decide)⟩
          · rename_i hn1 hn0 hn2
            rcases hshape with ⟨e, rfl⟩ | ⟨y, rfl⟩ | ⟨_, yp, rfl⟩ | rfl
            · exact absurd rfl hn0
            · exact xml_bind_yang0_descend_inv h up yspec xt (populate_set st xt y) rfl rfl rfl
                (by simp [populate_set, trace_specs]) (by simp [populate_set, trace_populate])
            · exact absurd rfl hn2
            · exact absurd rfl hn2
    · simp only [show ¬ ((1 : Int) < 0) by decide, show ¬ ((1 : Int) = 0) by decide,
        show ¬ ((1 : Int) = 2) by decide, ↓reduceIte]
      exact xml_bind_yang0_descend_inv h up yspec xt _ rfl rfl rfl
        (by simp [trace_specs]) (by simp [trace_populate])

/-- Every call of `xml_bind_yang` satisfies `bind_inv`. -/
theorem xml_bind_yang_inv (h : Option clicon_handle) (st : clixon_state) (up : List cxobj)
    (xt : cxobj) (yb : yang_bind) (yspec : Option Nat) :
    bind_inv (fun x => xml_below x xt) (xml_specs xt)
      (xml_specs (xml_bind_yang h st up xt yb yspec).xt)
      (xml_bind_yang h st up xt yb yspec).retval
      (xml_bind_yang h st up xt yb yspec).xerr
      (xml_bind_yang h st up xt yb yspec).trace := by
  have hl := xml_bind_loop_inv
    (fun s _ xc => xml_bind_yang0 h s (xml_up (strip_body_objects st.yang xt) :: up) xc yb yspec)
    (fun s x0 c => xml_bind_yang0_type h s _ c _ _)
    (strip_body_objects st.yang xt).x_childvec
    (fun c _ s x0 => xml_bind_yang0_inv h s _ c _ _) st none
  have hsl : xml_specs_list (strip_body_objects st.yang xt).x_childvec =
      xml_specs_list xt.x_childvec := by
    rcases strip_body_objects_childvec_cases st.yang xt with hh | hh
    · rw [hh]
    · rw [hh, xml_specs_list_strip]
  rw [hsl] at hl
  have hB : ∀ x, (∃ c ∈ (strip_body_objects st.yang xt).x_childvec, xml_below x c) →
      xml_below x xt := fun x ⟨c, hcm, hb⟩ =>
    xml_below.child ((strip_body_objects_childvec_sublist _ _).subset hcm) hb
  have hi := bind_inv_cons hl xt.addr xt.x_spec xt.x_spec [] (by simp [trace_specs])
    (by simp [trace_populate]) hB
  unfold xml_bind_yang
  dsimp only
  rw [xml_specs_eq xt, xml_specs_eq]
  simpa using hi

/-- C7: if `xml_bind_yang0` or `xml_bind_yang` returns `0` on a tree `t`, there is an
element `xc` of `t` on which the self-binder failed with an error `e`, and:
the error returned is `e` alone (iii); the last event of the pass is that failed call, and
the self-binder calls before it are on elements before `xc` in document order, so no
element after `xc` is visited (ii); `xc` and the elements after it have the schema
reference they had before the pass (ii); and every assignment of the pass is found, with
its address and schema reference and in order, among the elements before `xc` of the
returned tree (i). -/
theorem C7_abort_no_rollback (h : Option clicon_handle) (st : clixon_state) (up : List cxobj)
    (t : cxobj) (yb : yang_bind) (yspec : Option Nat) (r : bind_result cxobj)
    (hr : r = xml_bind_yang0 h st up t yb yspec ∨ r = xml_bind_yang h st up t yb yspec)
    (h0 : r.retval = 0) :
    ∃ xc e, xml_below xc t ∧ populate_failed xc e ∧ r.xerr = [e] ∧
      ∃ sc pre pre1 post tr0,
        xml_specs t = pre ++ (xc.addr, sc) :: post ∧
        xml_specs r.xt = pre1 ++ (xc.addr, sc) :: post ∧
        pre1.map Prod.fst = pre.map Prod.fst ∧
        r.trace = tr0 ++ [bind_event.populate xc.addr 0] ∧
        List.Sublist (trace_populate tr0) (pre.map Prod.fst) ∧
        List.Sublist (trace_specs tr0) pre1 := by
  have hi : bind_inv (fun x => xml_below x t) (xml_specs t) (xml_specs r.xt) r.retval r.xerr
      r.trace := by
    rcases hr with rfl | rfl
    · exact xml_bind_yang0_inv h st up t yb yspec
    · exact xml_bind_yang_inv h st up t yb yspec
  obtain ⟨xc, e, hb, hf, sc, pre, pre1, post, tr0, e0, e1, ef, et, ep, es, ex⟩ := hi.2.2.2.2 h0
  exact ⟨xc, e, hb, hf, ex, sc, pre, pre1, post, tr0, e0, e1, ef, et, ep, es⟩

/-- C7 at the document `<c xmlns="urn:n"><p><a/><bogus/><a/></p><p/></c>` bound in module
mode: the pass aborts at `bogus` (address 34); `c`, the first `p` and the first `a` keep
their schema references, the second `a` and the second `p` are not visited. -/
theorem C7_abort_no_rollback_witness :
    (xml_bind_yang0 none example_state [] example_abort YB_MODULE (some 0)).retval = 0 ∧
    (xml_bind_yang0 none example_state [] example_abort YB_MODULE (some 0)).trace =
      [bind_event.populate 30 1, bind_event.spec_set 30 (some 3),
       bind_event.populate 32 1, bind_event.spec_set 32 (some 4),
       bind_event.populate 33 1, bind_event.spec_set 33 (some 5),
       bind_event.populate 34 0] ∧
    xml_specs (xml_bind_yang0 none example_state [] example_abort YB_MODULE (some 0)).xt =
      [(30, some 3), (32, some 4), (33, some 5), (34, none), (35, none), (36, none)] ∧
    ∃ xc e, xml_below xc example_abort ∧ populate_failed xc e ∧
      (xml_bind_yang0 none example_state [] example_abort YB_MODULE (some 0)).xerr = [e] ∧
      ∃ sc pre pre1 post tr0,
        xml_specs example_abort = pre ++ (xc.addr, sc) :: post ∧
        xml_specs (xml_bind_yang0 none example_state [] example_abort YB_MODULE (some 0)).xt =
          pre1 ++ (xc.addr, sc) :: post ∧
        pre1.map Prod.fst = pre.map Prod.fst ∧
        (xml_bind_yang0 none example_state [] example_abort YB_MODULE (some 0)).trace =
          tr0 ++ [bind_event.populate xc.addr 0] ∧
        List.Sublist (trace_populate tr0) (pre.map Prod.fst) ∧
        List.Sublist (trace_specs tr0) pre1 :=
  ⟨by decide, by decide, by decide,
    C7_abort_no_rollback none example_state [] example_abort YB_MODULE (some 0) _
      (Or.inl rfl) (by decide)⟩

/-! ## C11: a failed call leaves exactly one error -/

theorem xerr_one_ok (rv : Int) (hrv : rv ≠ 0) : xerr_one rv [] :=
  ⟨fun h0 => absurd h0 hrv, fun _ => rfl⟩

theorem xerr_one_fail (e : rpc_error) : xerr_one 0 [e] :=
  ⟨fun _ => ⟨e, rfl⟩, fun hn => absurd rfl hn⟩

theorem bind_inv_xerr_one {B : cxobj → Prop} {s0 s1 : List (Nat × Option Nat)} {rv : Int}
    {xerr : List rpc_error} {tr : List bind_event} (hi : bind_inv B s0 s1 rv xerr tr) :
    xerr_one rv xerr := by
  refine ⟨fun h0 => ?_, hi.2.2.2.1⟩
  obtain ⟨xc, e, _, _, _, _, _, _, _, _, _, _, _, _, _, he⟩ := hi.2.2.2.2 h0
  exact ⟨e, he⟩

theorem xml_bind_yang_xerr_one (h : Option clicon_handle) (st : clixon_state)
    (up : List cxobj) (xt : cxobj) (yb : yang_bind) (yspec : Option Nat) :
    xerr_one (xml_bind_yang h st up xt yb yspec).retval
      (xml_bind_yang h st up xt yb yspec).xerr :=
  bind_inv_xerr_one (xml_bind_yang_inv h st up xt yb yspec)

theorem xml_bind_yang_rpc_rpc_xerr_one (h : Option clicon_handle) (st : clixon_state)
    (up : List cxobj) (x : cxobj) (yrpc : Nat) (rpcname : String) :
    xerr_one (xml_bind_yang_rpc_rpc h st up x yrpc rpcname).retval
      (xml_bind_yang_rpc_rpc h st up x yrpc rpcname).xerr := by
  unfold xml_bind_yang_rpc_rpc
  dsimp only
  split
  · split
    · exact xerr_one_fail _
    · exact xerr_one_ok 1 (by decide)
  · exact xml_bind_yang_xerr_one h st up _ _ _

theorem xml_bind_yang_rpc_action_xerr_one (h : Option clicon_handle) (st : clixon_state)
    (up : List cxobj) (xn : cxobj) (yspec : Option Nat) :
    xerr_one (xml_bind_yang_rpc_action h st up xn yspec).retval
      (xml_bind_yang_rpc_action h st up xn yspec).xerr := by
  have hy := xml_bind_yang_xerr_one h st up xn YB_MODULE yspec
  unfold xml_bind_yang_rpc_action
  dsimp only
  split
  · exact hy
  · rename_i hn
    have hx : (xml_bind_yang h st up xn YB_MODULE yspec).xerr = [] :=
      hy.2 (fun h0 => hn (Or.inr h0))
    split
    · exact hx ▸ xerr_one_ok 1 (by decide)
    · exact hx ▸ xerr_one_ok 1 (by decide)

theorem xml_bind_yang_rpc_children_xerr_one (isaction : List cxobj → cxobj → Int)
    (h : Option clicon_handle) (up : List cxobj) (yspec : Option Nat) :
    ∀ (cs : List cxobj) (st : clixon_state),
      xerr_one (xml_bind_yang_rpc_children isaction h st up yspec cs).retval
        (xml_bind_yang_rpc_children isaction h st up yspec cs).xerr := by
  intro cs
  induction cs with
  | nil =>
    intro st
    exact xerr_one_ok 1 (by decide)
  | cons x rest ih =>
    intro st
    unfold xml_bind_yang_rpc_children
    split
    · exact ih st
    · split
      · exact xerr_one_ok (-1) (by decide)
      · split
        · exact xml_bind_yang_rpc_action_xerr_one h st up x yspec
        · split
          · exact xerr_one_fail _
          · split
            · exact xerr_one_fail _
            · rename_i yrpc _
              have hr := xml_bind_yang_rpc_rpc_xerr_one h st up x yrpc (xml_name x)
              dsimp only
              split
              · exact hr
              · rename_i hn
                have hx := hr.2 (fun h0 => hn (Or.inr h0))
                have hs := ih (xml_bind_yang_rpc_rpc h st up x yrpc (xml_name x)).st
                dsimp only
                rw [hx, List.nil_append]
                exact hs

theorem xml_bind_yang_rpc_xerr_one (isaction : List cxobj → cxobj → Int)
    (h : Option clicon_handle) (st : clixon_state) (up : List cxobj) (xrpc : cxobj)
    (yspec : Option Nat) :
    xerr_one (xml_bind_yang_rpc isaction h st up xrpc yspec).retval
      (xml_bind_yang_rpc isaction h st up xrpc yspec).xerr := by
  unfold xml_bind_yang_rpc
  split
  · split
    · exact xerr_one_fail _
    · exact xerr_one_ok 1 (by decide)
  · split
    · exact xerr_one_ok 1 (by decide)
    · split
      · split
        · exact xerr_one_fail _
        · exact xml_bind_yang_rpc_children_xerr_one isaction h _ yspec _ st
      · exact xerr_one_fail _

theorem xml_bind_yang_rpc_reply_xerr_one (err2cb : List rpc_error → String)
    (h : Option clicon_handle) (st : clixon_state) (up : List cxobj) (xrpc : cxobj)
    (name : String) (yspec : Option Nat) :
    xerr_one (xml_bind_yang_rpc_reply err2cb h st up xrpc name yspec).retval
      (xml_bind_yang_rpc_reply err2cb h st up xrpc name yspec).xerr := by
  unfold xml_bind_yang_rpc_reply
  split
  · exact xerr_one_fail _
  · split
    · exact xerr_one_ok 1 (by decide)
    · dsimp only
      split
      · exact xerr_one_ok 1 (by decide)
      · split
        · exact xerr_one_ok (-1) (by decide)
        · split
          · exact xerr_one_fail _
          · exact xerr_one_ok 1 (by decide)

/-- C11: a call of `xml_bind_yang0`, `xml_bind_yang`, `xml_bind_yang_rpc` or
`xml_bind_yang_rpc_reply` that returns `0` has produced exactly one error, on every path
(and a call that returns another value has produced none). -/
theorem C11_failed_one_error (isaction : List cxobj → cxobj → Int)
    (err2cb : List rpc_error → String) (h : Option clicon_handle) (st : clixon_state)
    (up : List cxobj) (t : cxobj) (yb : yang_bind) (yspec : Option Nat) (name : String)
    (r : bind_result cxobj)
    (hr : r = xml_bind_yang0 h st up t yb yspec ∨ r = xml_bind_yang h st up t yb yspec ∨
      r = xml_bind_yang_rpc isaction h st up t yspec ∨
      r = xml_bind_yang_rpc_reply err2cb h st up t name yspec) :
    (r.retval = 0 → ∃ e, r.xerr = [e]) ∧ (r.retval ≠ 0 → r.xerr = []) := by
  rcases hr with rfl | rfl | rfl | rfl
  · exact bind_inv_xerr_one (xml_bind_yang0_inv h st up t yb yspec)
  · exact xml_bind_yang_xerr_one h st up t yb yspec
  · exact xml_bind_yang_rpc_xerr_one isaction h st up t yspec
  · exact xml_bind_yang_rpc_reply_xerr_one err2cb h st up t name yspec

/-- C11 at
`<rpc message-id="1"><get-config xmlns="urn:n"><source><bogus/></source></get-config></rpc>`:
`xml_bind_yang_rpc` returns `0` with the one error of the self-binder for `bogus`. -/
theorem C11_failed_one_error_witness :
    (xml_bind_yang_rpc example_isaction none example_state [] example_rpc_bogus
      (some 0)).retval = 0 ∧
    (xml_bind_yang_rpc example_isaction none example_state [] example_rpc_bogus
      (some 0)).xerr.length = 1 ∧
    ∃ e, (xml_bind_yang_rpc example_isaction none example_state [] example_rpc_bogus
      (some 0)).xerr = [e] :=
  ⟨by decide, by decide,
    (C11_failed_one_error example_isaction (fun _ => "") none example_state []
      example_rpc_bogus YB_MODULE (some 0) "" _ (Or.inr (Or.inr (Or.inl rfl)))).1 (by decide)⟩

/-! ## C12: content below an anyxml node and the sibling fast path -/

/-- Without sibling, or with an attribute on the element, the self-binder returns `2`
below a parent bound to an anyxml or anydata statement and leaves the element as it
is. -/
theorem populate_self_parent_anyxml (st : clixon_state) (up : List cxobj) (xt xp : cxobj)
    (xsibling : Option cxobj) (yspec : Option Nat) (yparent : Nat)
    (hp : xml_parent up = some xp) (hy : xml_spec xp = some yparent)
    (hk : yang_keyword_get st.yang yparent = Y_ANYXML ∨
      yang_keyword_get st.yang yparent = Y_ANYDATA)
    (hs : xsibling = none ∨ xml_child_nr_type xt CX_ATTR ≠ 0) :
    populate_self_parent st up xt xsibling yspec =
      { retval := 2, xt := xt, st := st, xerr := [],
        trace := [bind_event.populate xt.addr 2] } := by
  have hslow : populate_self_parent_slow st up xt =
      { retval := 2, xt := xt, st := st, xerr := [],
        trace := [bind_event.populate xt.addr 2] } := by
    unfold populate_self_parent_slow
    rw [hp]
    dsimp only
    rw [hy]
    dsimp only
    rw [if_pos hk]
  unfold populate_self_parent
  rcases hs with rfl | hs
  · exact hslow
  · cases xsibling with
    | none => exact hslow
    | some xs =>
      dsimp only
      rw [if_neg hs]
      exact hslow

/-- C12 at a failing input: binding
`<c xmlns="urn:n"><p><l><data><u/></data></l><l><data><u><v/></u></data></l></p></c>`
in module mode against `container c { container p { list l { anyxml data; } } }` (anydata
fallback off, no mount) returns `0` with the error "Missing parent yang node" for `v`,
an element below the anyxml node `data` of the second list entry. Both `data` elements
are bound to the anyxml statement `6`. For `<u>` in the second entry the self-binder is
called with `<u/>` of the first entry as sibling and returns `1`, not `2`: it assigns the
schema reference of that sibling, which has none, and the driver goes on into `<u>`.
Called without sibling it returns `2`. The second list entry alone binds with `1`. -/
theorem C12_anyxml_content_fails :
    (xml_bind_yang0 none example_state_any [] example_any YB_MODULE (some 0)).retval = 0 ∧
    (xml_bind_yang0 none example_state_any [] example_any YB_MODULE (some 0)).xerr =
      [netconf_bad_element_xml "application" "v" "Missing parent yang node"] ∧
    (xml_bind_yang0 none example_state_any [] example_any YB_MODULE (some 0)).trace =
      [bind_event.populate 40 1, bind_event.spec_set 40 (some 3),
       bind_event.populate 42 1, bind_event.spec_set 42 (some 4),
       bind_event.populate 43 1, bind_event.spec_set 43 (some 5),
       bind_event.populate 44 1, bind_event.spec_set 44 (some 6),
       bind_event.populate 45 2,
       bind_event.populate 47 1, bind_event.spec_set 47 (some 5),
       bind_event.populate 48 1, bind_event.spec_set 48 (some 6),
       bind_event.populate 49 1, bind_event.spec_set 49 none,
       bind_event.populate 50 0] ∧
    yang_keyword_get example_state_any.yang 6 = Y_ANYXML ∧
    (populate_self_parent example_state_any
      [xml_up (xml_spec_set (xml_elmnt 48 none "data" []) (some 6)),
       xml_up (xml_spec_set example_l2 (some 5)),
       xml_up (xml_spec_set (xml_elmnt 42 none "p" []) (some 4)),
       xml_up (xml_spec_set example_any (some 3))]
      example_u2 (some example_u1) (some 0)).retval = 1 ∧
    (populate_self_parent example_state_any
      [xml_up (xml_spec_set (xml_elmnt 48 none "data" []) (some 6)),
       xml_up (xml_spec_set example_l2 (some 5)),
       xml_up (xml_spec_set (xml_elmnt 42 none "p" []) (some 4)),
       xml_up (xml_spec_set example_any (some 3))]
      example_u2 none (some 0)).retval = 2 ∧
    (xml_bind_yang0 none example_state_any [] example_any_single YB_MODULE (some 0)).retval
      = 1 ∧
    xml_specs (xml_bind_yang0 none example_state_any [] example_any_single YB_MODULE
      (some 0)).xt =
      [(40, some 3), (42, some 4), (47, some 5), (48, some 6), (49, none), (50, none)] :=
  ⟨by decide, by decide, by decide, by decide, by decide, by decide, by decide, by decide⟩

/-! ## C13, C15: the operation child of `<rpc>` -/

/-- The result of `xml_bind_yang_rpc` on a root named `rpc` that passes the `message-id`
check is the result of the loop over the operations. -/
theorem xml_bind_yang_rpc_eq_children (isaction : List cxobj → cxobj → Int)
    (h : Option clicon_handle) (st : clixon_state) (up : List cxobj) (xrpc : cxobj)
    (yspec : Option Nat) (hname : xml_name xrpc = "rpc")
    (hmsg : st._netconf_message_id_optional ≠ 0 ∨
      (xml_find_type xrpc none "message-id" CX_ATTR).isSome = true) :
    xml_bind_yang_rpc isaction h st up xrpc yspec =
      { retval := (xml_bind_yang_rpc_children isaction h st (xml_up xrpc :: up) yspec
          xrpc.x_childvec).retval,
        xt := { xrpc with x_childvec := (xml_bind_yang_rpc_children isaction h st
          (xml_up xrpc :: up) yspec xrpc.x_childvec).xt },
        st := (xml_bind_yang_rpc_children isaction h st (xml_up xrpc :: up) yspec
          xrpc.x_childvec).st,
        xerr := (xml_bind_yang_rpc_children isaction h st (xml_up xrpc :: up) yspec
          xrpc.x_childvec).xerr,
        trace := (xml_bind_yang_rpc_children isaction h st (xml_up xrpc :: up) yspec
          xrpc.x_childvec).trace } := by
  have hm : ¬ (st._netconf_message_id_optional = 0 ∧
      (xml_find_type xrpc none "message-id" CX_ATTR).isNone = true) := by
    rintro ⟨h0, hnone⟩
    rcases hmsg with hmsg | hmsg
    · exact hmsg h0
    · cases hx : xml_find_type xrpc none "message-id" CX_ATTR <;> simp [hx] at hmsg hnone
  unfold xml_bind_yang_rpc
  simp only [hname, hm, ↓reduceIte]
  simp only [show ¬ ("rpc" = "hello") by decide, show ¬ ("rpc" = "notification") by decide,
    ↓reduceIte]

theorem xml_bind_yang_rpc_children_other (isaction : List cxobj → cxobj → Int)
    (h : Option clicon_handle) (st : clixon_state) (up : List cxobj) (yspec : Option Nat)
    (x : cxobj) (rest : List cxobj) (hel : xml_type x ≠ CX_ELMNT) :
    xml_bind_yang_rpc_children isaction h st up yspec (x :: rest) =
      { xml_bind_yang_rpc_children isaction h st up yspec rest with
        xt := x :: (xml_bind_yang_rpc_children isaction h st up yspec rest).xt } := by
  rw [xml_bind_yang_rpc_children]
  simp only [hel, ne_eq, not_false_eq_true, ↓reduceIte]

theorem xml_bind_yang_rpc_children_neg (isaction : List cxobj → cxobj → Int)
    (h : Option clicon_handle) (st : clixon_state) (up : List cxobj) (yspec : Option Nat)
    (x : cxobj) (rest : List cxobj) (hel : xml_type x = CX_ELMNT)
    (hneg : isaction up x < 0) :
    xml_bind_yang_rpc_children isaction h st up yspec (x :: rest) =
      { retval := -1, xt := x :: rest, st := st, xerr := [], trace := [] } := by
  rw [xml_bind_yang_rpc_children]
  simp only [hel, ne_eq, not_true_eq_false, ↓reduceIte, hneg]

theorem xml_bind_yang_rpc_children_action (isaction : List cxobj → cxobj → Int)
    (h : Option clicon_handle) (st : clixon_state) (up : List cxobj) (yspec : Option Nat)
    (x : cxobj) (rest : List cxobj) (hel : xml_type x = CX_ELMNT)
    (hact : isaction up x = 1) :
    xml_bind_yang_rpc_children isaction h st up yspec (x :: rest) =
      { retval := (xml_bind_yang_rpc_action h st up x yspec).retval,
        xt := (xml_bind_yang_rpc_action h st up x yspec).xt :: rest,
        st := (xml_bind_yang_rpc_action h st up x yspec).st,
        xerr := (xml_bind_yang_rpc_action h st up x yspec).xerr,
        trace := (xml_bind_yang_rpc_action h st up x yspec).trace } := by
  rw [xml_bind_yang_rpc_children]
  simp only [hel, ne_eq, not_true_eq_false, ↓reduceIte, hact,
    show ¬ ((1 : Int) < 0) by decide]

theorem xml_bind_yang_rpc_children_nomod (isaction : List cxobj → cxobj → Int)
    (h : Option clicon_handle) (st : clixon_state) (up : List cxobj) (yspec : Option Nat)
    (x : cxobj) (rest : List cxobj) (hel : xml_type x = CX_ELMNT)
    (hneg : ¬ isaction up x < 0) (hact : isaction up x ≠ 1)
    (hmod : ys_module_by_xml st.yang yspec up x = none) :
    xml_bind_yang_rpc_children isaction h st up yspec (x :: rest) =
      { retval := 0, xt := x :: rest, st := st,
        xerr := [netconf_unknown_element_xml "application" (xml_name x)
          "Unrecognized RPC (wrong namespace?)"],
        trace := [] } := by
  rw [xml_bind_yang_rpc_children]
  simp only [hel, ne_eq, not_true_eq_false, ↓reduceIte, hneg, hact, hmod]

theorem xml_bind_yang_rpc_children_norpc (isaction : List cxobj → cxobj → Int)
    (h : Option clicon_handle) (st : clixon_state) (up : List cxobj) (yspec : Option Nat)
    (x : cxobj) (rest : List cxobj) (ymod : Nat) (hel : xml_type x = CX_ELMNT)
    (hneg : ¬ isaction up x < 0) (hact : isaction up x ≠ 1)
    (hmod : ys_module_by_xml st.yang yspec up x = some ymod)
    (hrpc : yang_find st.yang ymod Y_RPC (some (xml_name x)) = none) :
    xml_bind_yang_rpc_children isaction h st up yspec (x :: rest) =
      { retval := 0, xt := x :: rest, st := st,
        xerr := [netconf_unknown_element_xml "application" (xml_name x) "Unrecognized RPC"],
        trace := [] } := by
  rw [xml_bind_yang_rpc_children]
  simp only [hel, ne_eq, not_true_eq_false, ↓reduceIte, hneg, hact, hmod, hrpc]

theorem xml_bind_yang_rpc_children_rpc (isaction : List cxobj → cxobj → Int)
    (h : Option clicon_handle) (st : clixon_state) (up : List cxobj) (yspec : Option Nat)
    (x : cxobj) (rest : List cxobj) (ymod yrpc : Nat) (hel : xml_type x = CX_ELMNT)
    (hneg : ¬ isaction up x < 0) (hact : isaction up x ≠ 1)
    (hmod : ys_module_by_xml st.yang yspec up x = some ymod)
    (hrpc : yang_find st.yang ymod Y_RPC (some (xml_name x)) = some yrpc) :
    xml_bind_yang_rpc_children isaction h st up yspec (x :: rest) =
      if (xml_bind_yang_rpc_rpc h st up x yrpc (xml_name x)).retval < 0 ∨
          (xml_bind_yang_rpc_rpc h st up x yrpc (xml_name x)).retval = 0 then
        { retval := (xml_bind_yang_rpc_rpc h st up x yrpc (xml_name x)).retval,
          xt := (xml_bind_yang_rpc_rpc h st up x yrpc (xml_name x)).xt :: rest,
          st := (xml_bind_yang_rpc_rpc h st up x yrpc (xml_name x)).st,
          xerr := (xml_bind_yang_rpc_rpc h st up x yrpc (xml_name x)).xerr,
          trace := (xml_bind_yang_rpc_rpc h st up x yrpc (xml_name x)).trace }
      else
        { retval := (xml_bind_yang_rpc_children isaction h
            (xml_bind_yang_rpc_rpc h st up x yrpc (xml_name x)).st up yspec rest).retval,
          xt := (xml_bind_yang_rpc_rpc h st up x yrpc (xml_name x)).xt ::
            (xml_bind_yang_rpc_children isaction h
              (xml_bind_yang_rpc_rpc h st up x yrpc (xml_name x)).st up yspec rest).xt,
          st := (xml_bind_yang_rpc_children isaction h
            (xml_bind_yang_rpc_rpc h st up x yrpc (xml_name x)).st up yspec rest).st,
          xerr := (xml_bind_yang_rpc_rpc h st up x yrpc (xml_name x)).xerr ++
            (xml_bind_yang_rpc_children isaction h
              (xml_bind_yang_rpc_rpc h st up x yrpc (xml_name x)).st up yspec rest).xerr,
          trace := (xml_bind_yang_rpc_rpc h st up x yrpc (xml_name x)).trace ++
            (xml_bind_yang_rpc_children isaction h
              (xml_bind_yang_rpc_rpc h st up x yrpc (xml_name x)).st up yspec rest).trace } := by
  rw [xml_bind_yang_rpc_children]
  simp only [hel, ne_eq, not_true_eq_false, ↓reduceIte, hneg, hact, hmod, hrpc]

/-- The loop over the operations goes on after operations that are no actions and
succeeded: the result on `pre ++ l` is the result on `pre` followed by the result on `l`
from the state that `pre` left. -/
theorem xml_bind_yang_rpc_children_append (isaction : List cxobj → cxobj → Int)
    (h : Option clicon_handle) (up : List cxobj) (yspec : Option Nat) (l : List cxobj) :
    ∀ (pre : List cxobj) (st : clixon_state),
      (∀ c ∈ pre, xml_type c = CX_ELMNT → isaction up c ≠ 1) →
      ¬ ((xml_bind_yang_rpc_children isaction h st up yspec pre).retval < 0 ∨
        (xml_bind_yang_rpc_children isaction h st up yspec pre).retval = 0) →
      xml_bind_yang_rpc_children isaction h st up yspec (pre ++ l) =
        { retval := (xml_bind_yang_rpc_children isaction h
            (xml_bind_yang_rpc_children isaction h st up yspec pre).st up yspec l).retval,
          xt := (xml_bind_yang_rpc_children isaction h st up yspec pre).xt ++
            (xml_bind_yang_rpc_children isaction h
              (xml_bind_yang_rpc_children isaction h st up yspec pre).st up yspec l).xt,
          st := (xml_bind_yang_rpc_children isaction h
            (xml_bind_yang_rpc_children isaction h st up yspec pre).st up yspec l).st,
          xerr := (xml_bind_yang_rpc_children isaction h st up yspec pre).xerr ++
            (xml_bind_yang_rpc_children isaction h
              (xml_bind_yang_rpc_children isaction h st up yspec pre).st up yspec l).xerr,
          trace := (xml_bind_yang_rpc_children isaction h st up yspec pre).trace ++
            (xml_bind_yang_rpc_children isaction h
              (xml_bind_yang_rpc_children isaction h st up yspec pre).st up yspec l).trace } := by
  intro pre
  induction pre with
  | nil =>
    intro st _ _
    simp [xml_bind_yang_rpc_children]
  | cons x rest ih =>
    intro st hact hret
    have hact' : ∀ c ∈ rest, xml_type c = CX_ELMNT → isaction up c ≠ 1 :=
      fun c hc => hact c (List.mem_cons_of_mem _ hc)
    rw [List.cons_append]
    by_cases hel : xml_type x = CX_ELMNT
    · have hx1 : isaction up x ≠ 1 := hact x (List.mem_cons_self _ _) hel
      by_cases hneg : isaction up x < 0
      · rw [xml_bind_yang_rpc_children_neg isaction h st up yspec x rest hel hneg] at hret
        exact (hret (Or.inl (show (-1 : Int) < 0 by decide))).elim
      · cases hmod : ys_module_by_xml st.yang yspec up x with
        | none =>
          rw [xml_bind_yang_rpc_children_nomod isaction h st up yspec x rest hel hneg hx1
            hmod] at hret
          exact absurd (Or.inr rfl) hret
        | some ymod =>
          cases hrpc : yang_find st.yang ymod Y_RPC (some (xml_name x)) with
          | none =>
            rw [xml_bind_yang_rpc_children_norpc isaction h st up yspec x rest ymod hel hneg
              hx1 hmod hrpc] at hret
            exact absurd (Or.inr rfl) hret
          | some yrpc =>
            rw [xml_bind_yang_rpc_children_rpc isaction h st up yspec x rest ymod yrpc hel
              hneg hx1 hmod hrpc] at hret ⊢
            rw [xml_bind_yang_rpc_children_rpc isaction h st up yspec x (rest ++ l) ymod yrpc
              hel hneg hx1 hmod hrpc]
            by_cases hr : (xml_bind_yang_rpc_rpc h st up x yrpc (xml_name x)).retval < 0 ∨
                (xml_bind_yang_rpc_rpc h st up x yrpc (xml_name x)).retval = 0
            · rw [if_pos hr] at hret
              exact absurd hr hret
            · rw [if_neg hr] at hret ⊢
              rw [if_neg hr]
              dsimp only at hret ⊢
              rw [ih _ hact' hret]
              simp
    · rw [xml_bind_yang_rpc_children_other isaction h st up yspec x rest hel] at hret ⊢
      rw [xml_bind_yang_rpc_children_other isaction h st up yspec x (rest ++ l) hel]
      dsimp only at hret ⊢
      rw [ih st hact' hret]
      simp

theorem xml_bind_yang_rpc_children_no_elmnt (isaction : List cxobj → cxobj → Int)
    (h : Option clicon_handle) (st : clixon_state) (up : List cxobj) (yspec : Option Nat) :
    ∀ (pre : List cxobj), (∀ c ∈ pre, xml_type c ≠ CX_ELMNT) →
      xml_bind_yang_rpc_children isaction h st up yspec pre =
        { retval := 1, xt := pre, st := st, xerr := [], trace := [] } := by
  intro pre
  induction pre with
  | nil => intro _; rfl
  | cons c pre ih =>
    intro hpre
    rw [xml_bind_yang_rpc_children_other isaction h st up yspec c pre
      (hpre c (List.mem_cons_self _ _)), ih (fun d hd => hpre d (List.mem_cons_of_mem _ hd))]

/-- The loop over the operations when the first element child is `x`: the result on
`pre ++ x :: rest` is `pre` followed by the result on `x :: rest`. -/
theorem xml_bind_yang_rpc_children_first (isaction : List cxobj → cxobj → Int)
    (h : Option clicon_handle) (st : clixon_state) (up : List cxobj) (yspec : Option Nat)
    (pre l : List cxobj) (hpre : ∀ c ∈ pre, xml_type c ≠ CX_ELMNT) :
    xml_bind_yang_rpc_children isaction h st up yspec (pre ++ l) =
      { xml_bind_yang_rpc_children isaction h st up yspec l with
        xt := pre ++ (xml_bind_yang_rpc_children isaction h st up yspec l).xt } := by
  have hp := xml_bind_yang_rpc_children_no_elmnt isaction h st up yspec pre hpre
  have hret : ¬ ((xml_bind_yang_rpc_children isaction h st up yspec pre).retval < 0 ∨
      (xml_bind_yang_rpc_children isaction h st up yspec pre).retval = 0) := by
    rw [hp]
    dsimp only
    omega
  rw [xml_bind_yang_rpc_children_append isaction h up yspec l pre st
    (fun c hc hel => absurd hel (hpre c hc)) hret, hp]
  simp

/-- C13: in an `<rpc>` that passes the `message-id` check, let `x` be the first element
child; it is no action, its namespace selects a module that has an rpc statement of its
name, and that rpc declares no input. If `x` has an element child, `xml_bind_yang_rpc`
returns `0` with the one error unknown-element for the first element child `xc` of `x`,
message "Unrecognized parameter: <xc> in rpc: <x>". If `x` has no element child the
binding of `x` returns `1` and assigns the rpc statement to `x`, and `xml_bind_yang_rpc`
returns what the loop returns on the operations after `x`. -/
theorem C13_rpc_without_input (isaction : List cxobj → cxobj → Int)
    (h : Option clicon_handle) (st : clixon_state) (up : List cxobj) (xrpc : cxobj)
    (yspec : Option Nat) (pre rest : List cxobj) (x : cxobj) (ymod yrpc : Nat)
    (hname : xml_name xrpc = "rpc")
    (hmsg : st._netconf_message_id_optional ≠ 0 ∨
      (xml_find_type xrpc none "message-id" CX_ATTR).isSome = true)
    (hcs : xrpc.x_childvec = pre ++ x :: rest)
    (hpre : ∀ c ∈ pre, xml_type c ≠ CX_ELMNT)
    (hx : xml_type x = CX_ELMNT) (hact : isaction (xml_up xrpc :: up) x = 0)
    (hmod : ys_module_by_xml st.yang yspec (xml_up xrpc :: up) x = some ymod)
    (hrpc : yang_find st.yang ymod Y_RPC (some (xml_name x)) = some yrpc)
    (hin : yang_find st.yang yrpc Y_INPUT none = none) :
    (∀ xc, xml_child_i_type x 0 CX_ELMNT = some xc →
      (xml_bind_yang_rpc isaction h st up xrpc yspec).retval = 0 ∧
      (xml_bind_yang_rpc isaction h st up xrpc yspec).xerr =
        [netconf_unknown_element_xml "application" (xml_name xc)
          ("Unrecognized parameter: " ++ xml_name xc ++ " in rpc: " ++ xml_name x)]) ∧
    (xml_child_i_type x 0 CX_ELMNT = none →
      xml_bind_yang_rpc_rpc h st (xml_up xrpc :: up) x yrpc (xml_name x) =
        { retval := 1, xt := xml_spec_set x (some yrpc), st := st, xerr := [],
          trace := [bind_event.spec_set x.addr (some yrpc)] } ∧
      (xml_bind_yang_rpc isaction h st up xrpc yspec).retval =
        (xml_bind_yang_rpc_children isaction h st (xml_up xrpc :: up) yspec rest).retval ∧
      (xml_bind_yang_rpc isaction h st up xrpc yspec).xerr =
        (xml_bind_yang_rpc_children isaction h st (xml_up xrpc :: up) yspec rest).xerr ∧
      (xml_bind_yang_rpc isaction h st up xrpc yspec).xt =
        { xrpc with x_childvec := pre ++ xml_spec_set x (some yrpc) ::
          (xml_bind_yang_rpc_children isaction h st (xml_up xrpc :: up) yspec rest).xt }) := by
  have hneg : ¬ isaction (xml_up xrpc :: up) x < 0 := by rw [hact]; decide
  have hn1 : isaction (xml_up xrpc :: up) x ≠ 1 := by rw [hact]; decide
  have hR := xml_bind_yang_rpc_eq_children isaction h st up xrpc yspec hname hmsg
  rw [hcs, xml_bind_yang_rpc_children_first isaction h st (xml_up xrpc :: up) yspec pre
    (x :: rest) hpre,
    xml_bind_yang_rpc_children_rpc isaction h st (xml_up xrpc :: up) yspec x rest ymod yrpc
      hx hneg hn1 hmod hrpc] at hR
  refine ⟨fun xc hxc => ?_, fun hxc => ?_⟩
  · have hr : xml_bind_yang_rpc_rpc h st (xml_up xrpc :: up) x yrpc (xml_name x) =
        { retval := 0, xt := xml_spec_set x (some yrpc), st := st,
          xerr := [netconf_unknown_element_xml "application" (xml_name xc)
            ("Unrecognized parameter: " ++ xml_name xc ++ " in rpc: " ++ xml_name x)],
          trace := [bind_event.spec_set x.addr (some yrpc)] } := by
      have hxc' : xml_child_i_type (xml_spec_set x (some yrpc)) 0 CX_ELMNT = some xc := hxc
      unfold xml_bind_yang_rpc_rpc
      simp only [hin, hxc']
    rw [hr] at hR
    rw [hR]
    exact ⟨rfl, rfl⟩
  · have hr : xml_bind_yang_rpc_rpc h st (xml_up xrpc :: up) x yrpc (xml_name x) =
        { retval := 1, xt := xml_spec_set x (some yrpc), st := st, xerr := [],
          trace := [bind_event.spec_set x.addr (some yrpc)] } := by
      have hxc' : xml_child_i_type (xml_spec_set x (some yrpc)) 0 CX_ELMNT = none := hxc
      unfold xml_bind_yang_rpc_rpc
      simp only [hin, hxc']
    rw [hr] at hR
    rw [hR]
    exact ⟨hr, rfl, rfl, rfl⟩

/-- C13 at `<rpc message-id="1"><reset xmlns="urn:n"><source/></reset></rpc>` and at
`<rpc message-id="1"><reset xmlns="urn:n"/></rpc>` against `rpc reset`, which declares no
input. -/
theorem C13_rpc_without_input_witness :
    xml_child_i_type example_reset_source 0 CX_ELMNT = some (xml_elmnt 65 none "source" []) ∧
    ((xml_bind_yang_rpc example_isaction none example_state [] example_rpc_reset_source
        (some 0)).retval = 0 ∧
      (xml_bind_yang_rpc example_isaction none example_state [] example_rpc_reset_source
        (some 0)).xerr =
        [netconf_unknown_element_xml "application" "source"
          "Unrecognized parameter: source in rpc: reset"]) ∧
    (xml_bind_yang_rpc example_isaction none example_state [] example_rpc_reset
      (some 0)).retval = 1 ∧
    (xml_bind_yang_rpc example_isaction none example_state [] example_rpc_reset (some 0)).xt =
      { example_rpc_reset with
        x_childvec := [xml_attr 62 none "message-id" "1", xml_spec_set example_reset (some 10)] } :=
  ⟨rfl,
    (C13_rpc_without_input example_isaction none example_state [] example_rpc_reset_source
      (some 0) [xml_attr 62 none "message-id" "1"] [] example_reset_source 1 10 rfl
      (Or.inr (by decide)) rfl (by decide) rfl rfl (by decide) (by decide) (by decide)).1
      _ rfl,
    by decide, rfl⟩

/-! ## C14: the `message-id` attribute

The binder reads of the parent chain the innermost ancestor and the namespace
declarations. Two chains with the same innermost ancestor and the same namespaces give
the same results. -/

theorem xml2ns_chain (ch ch1 : List cxobj)
    (hn : ∀ pfx, xml2ns_recurse ch pfx = xml2ns_recurse ch1 pfx) (x : cxobj)
    (pfx : Option String) : xml2ns ch x pfx = xml2ns ch1 x pfx := by
  unfold xml2ns xml2ns_recurse
  rw [hn pfx]

theorem xml2ns_recurse_cons (ch ch1 : List cxobj)
    (hn : ∀ pfx, xml2ns_recurse ch pfx = xml2ns_recurse ch1 pfx) (d : cxobj)
    (pfx : Option String) : xml2ns_recurse (d :: ch) pfx = xml2ns_recurse (d :: ch1) pfx := by
  unfold xml2ns_recurse
  rw [hn pfx]

theorem ys_module_by_xml_chain (Y : List yang_stmt) (yspec : Option Nat) (ch ch1 : List cxobj)
    (hn : ∀ pfx, xml2ns_recurse ch pfx = xml2ns_recurse ch1 pfx) (x : cxobj) :
    ys_module_by_xml Y yspec ch x = ys_module_by_xml Y yspec ch1 x := by
  unfold ys_module_by_xml
  rw [xml2ns_chain ch ch1 hn]

theorem populate_self_parent_chain (st : clixon_state) (ch ch1 : List cxobj)
    (hp : xml_parent ch = xml_parent ch1)
    (hn : ∀ pfx, xml2ns_recurse ch pfx = xml2ns_recurse ch1 pfx) (xt : cxobj)
    (xsibling : Option cxobj) (yspec : Option Nat) :
    populate_self_parent st ch xt xsibling yspec =
      populate_self_parent st ch1 xt xsibling yspec := by
  have hs : populate_self_parent_slow st ch xt = populate_self_parent_slow st ch1 xt := by
    unfold populate_self_parent_slow
    rw [hp, xml2ns_chain ch ch1 hn]
  unfold populate_self_parent
  rw [hs]

theorem populate_self_top_chain (st : clixon_state) (ch ch1 : List cxobj)
    (hp : xml_parent ch = xml_parent ch1)
    (hn : ∀ pfx, xml2ns_recurse ch pfx = xml2ns_recurse ch1 pfx) (xt : cxobj)
    (yspec : Option Nat) :
    populate_self_top st ch xt yspec = populate_self_top st ch1 xt yspec := by
  unfold populate_self_top
  cases yspec with
  | none => rfl
  | some ysp =>
    dsimp only
    rw [ys_module_by_xml_chain st.yang (some ysp) ch ch1 hn, hp, xml2ns_chain ch ch1 hn]

theorem xml_bind_loop_congr (f g : clixon_state → Option cxobj → cxobj → bind_result cxobj) :
    ∀ (cs : List cxobj), (∀ c ∈ cs, ∀ s x0, f s x0 c = g s x0 c) →
      ∀ st x0, xml_bind_loop f st x0 cs = xml_bind_loop g st x0 cs := by
  intro cs
  induction cs with
  | nil => intro _ st x0; rfl
  | cons c cs ih =>
    intro hf st x0
    have ih' := ih (fun d hd => hf d (List.mem_cons_of_mem _ hd))
    simp only [xml_bind_loop, hf c (List.mem_cons_self _ _), ih']

/-- With schema mount off `xml_bind_yang0_opt` gives the same result on two parent chains
with the same innermost ancestor and the same namespaces. -/
theorem xml_bind_yang0_opt_chain (h : Option clicon_handle) (hm : mount_disabled h) :
    ∀ (xt : cxobj) (st : clixon_state) (ch ch1 : List cxobj) (yb : yang_bind)
      (yspec : Option Nat) (xsibling : Option cxobj),
      xml_parent ch = xml_parent ch1 →
      (∀ pfx, xml2ns_recurse ch pfx = xml2ns_recurse ch1 pfx) →
      xml_bind_yang0_opt h st ch xt yb yspec xsibling =
        xml_bind_yang0_opt h st ch1 xt yb yspec xsibling := by
  intro xt
  induction xt using cxobj_induction with
  | step xt ih =>
    intro st ch ch1 yb yspec xsibling hp hn
    have hself : xml_bind_yang0_opt_self st ch xt yb yspec xsibling =
        xml_bind_yang0_opt_self st ch1 xt yb yspec xsibling := by
      unfold xml_bind_yang0_opt_self
      rw [populate_self_top_chain st ch ch1 hp hn, populate_self_parent_chain st ch ch1 hp hn]
    rw [xml_bind_yang0_opt_eq, xml_bind_yang0_opt_eq, hself]
    cases hr : xml_bind_yang0_opt_self st ch1 xt yb yspec xsibling with
    | none => rfl
    | some r =>
      have hcv := populate_shape_childvec (xml_bind_yang0_opt_self_shape _ _ _ _ _ _ _ hr)
      dsimp only
      rw [xml_bind_yang0_opt_descend_disabled h hm, xml_bind_yang0_opt_descend_disabled h hm]
      have hl := xml_bind_loop_congr
        (fun s x0 xc => xml_bind_yang0_opt h s
          (xml_up (strip_body_objects r.st.yang r.xt) :: ch) xc YB_PARENT yspec
          (xml_bind_yang0_opt_sibling x0 xsibling xc))
        (fun s x0 xc => xml_bind_yang0_opt h s
          (xml_up (strip_body_objects r.st.yang r.xt) :: ch1) xc YB_PARENT yspec
          (xml_bind_yang0_opt_sibling x0 xsibling xc))
        r.xt.x_childvec
        (fun c hc s x0 => ih c (hcv ▸ hc) s _ _ _ _ _ rfl
          (xml2ns_recurse_cons ch ch1 hn _))
        r.st none
      rw [hl]

theorem xml_bind_yang0_chain (h : Option clicon_handle) (hm : mount_disabled h)
    (st : clixon_state) (ch ch1 : List cxobj) (xt : cxobj) (yb : yang_bind)
    (yspec : Option Nat) (hp : xml_parent ch = xml_parent ch1)
    (hn : ∀ pfx, xml2ns_recurse ch pfx = xml2ns_recurse ch1 pfx) :
    xml_bind_yang0 h st ch xt yb yspec = xml_bind_yang0 h st ch1 xt yb yspec := by
  have hself : xml_bind_yang0_self st ch xt yb yspec = xml_bind_yang0_self st ch1 xt yb yspec := by
    unfold xml_bind_yang0_self
    rw [populate_self_top_chain st ch ch1 hp hn, populate_self_parent_chain st ch ch1 hp hn]
  have hd : ∀ r, xml_bind_yang0_descend h ch yspec r = xml_bind_yang0_descend h ch1 yspec r := by
    intro r
    have hl := xml_bind_loop_congr
      (xml_bind_yang0_body h ch yspec (strip_body_objects r.st.yang r.xt))
      (xml_bind_yang0_body h ch1 yspec (strip_body_objects r.st.yang r.xt))
      (strip_body_objects r.st.yang r.xt).x_childvec
      (fun c _ s x0 => xml_bind_yang0_opt_chain h hm c s _ _ _ _ _ rfl
        (xml2ns_recurse_cons ch ch1 hn _))
      r.st none
    unfold xml_bind_yang0_descend
    rw [hl]
  rw [xml_bind_yang0_eq_descend, xml_bind_yang0_eq_descend, hself]
  cases xml_bind_yang0_self st ch1 xt yb yspec with
  | none => rfl
  | some r =>
    dsimp only
    rw [hd]

/-- With schema mount off `xml_bind_yang` gives the same result on two parent chains with
the same namespaces. -/
theorem xml_bind_yang_chain (h : Option clicon_handle) (hm : mount_disabled h)
    (st : clixon_state) (ch ch1 : List cxobj) (xt : cxobj) (yb : yang_bind)
    (yspec : Option Nat) (hn : ∀ pfx, xml2ns_recurse ch pfx = xml2ns_recurse ch1 pfx) :
    xml_bind_yang h st ch xt yb yspec = xml_bind_yang h st ch1 xt yb yspec := by
  have hl := xml_bind_loop_congr
    (fun s _ xc => xml_bind_yang0 h s (xml_up (strip_body_objects st.yang xt) :: ch) xc yb yspec)
    (fun s _ xc => xml_bind_yang0 h s (xml_up (strip_body_objects st.yang xt) :: ch1) xc yb yspec)
    (strip_body_objects st.yang xt).x_childvec
    (fun c _ s x0 => xml_bind_yang0_chain h hm s _ _ c yb yspec rfl
      (xml2ns_recurse_cons ch ch1 hn _))
    st none
  unfold xml_bind_yang
  dsimp only
  rw [hl]

theorem xml_bind_yang_rpc_rpc_chain (h : Option clicon_handle) (hm : mount_disabled h)
    (st : clixon_state) (ch ch1 : List cxobj) (x : cxobj) (yrpc : Nat) (rpcname : String)
    (hn : ∀ pfx, xml2ns_recurse ch pfx = xml2ns_recurse ch1 pfx) :
    xml_bind_yang_rpc_rpc h st ch x yrpc rpcname =
      xml_bind_yang_rpc_rpc h st ch1 x yrpc rpcname := by
  unfold xml_bind_yang_rpc_rpc
  dsimp only
  split
  · rfl
  · rw [xml_bind_yang_chain h hm st ch ch1 _ _ _ hn]

theorem xml_bind_yang_rpc_action_chain (h : Option clicon_handle) (hm : mount_disabled h)
    (st : clixon_state) (ch ch1 : List cxobj) (xn : cxobj) (yspec : Option Nat)
    (hn : ∀ pfx, xml2ns_recurse ch pfx = xml2ns_recurse ch1 pfx) :
    xml_bind_yang_rpc_action h st ch xn yspec = xml_bind_yang_rpc_action h st ch1 xn yspec := by
  unfold xml_bind_yang_rpc_action
  rw [xml_bind_yang_chain h hm st ch ch1 _ _ _ hn]

/-- With schema mount off, the loop over the operations gives the same result on two
parent chains with the same namespaces, when the action predicate does. -/
theorem xml_bind_yang_rpc_children_chain (isaction : List cxobj → cxobj → Int)
    (h : Option clicon_handle) (hm : mount_disabled h) (ch ch1 : List cxobj)
    (yspec : Option Nat) (hn : ∀ pfx, xml2ns_recurse ch pfx = xml2ns_recurse ch1 pfx)
    (ha : ∀ x, isaction ch x = isaction ch1 x) :
    ∀ (cs : List cxobj) (st : clixon_state),
      xml_bind_yang_rpc_children isaction h st ch yspec cs =
        xml_bind_yang_rpc_children isaction h st ch1 yspec cs := by
  intro cs
  induction cs with
  | nil => intro st; rfl
  | cons x rest ih =>
    intro st
    rw [xml_bind_yang_rpc_children, xml_bind_yang_rpc_children]
    simp only [ha x, ys_module_by_xml_chain st.yang yspec ch ch1 hn,
      xml_bind_yang_rpc_action_chain h hm st ch ch1 x yspec hn,
      xml_bind_yang_rpc_rpc_chain h hm st ch ch1 x _ _ hn, ih]

/-- An attribute `message-id` without prefix declares no namespace: with it as first child
the namespaces of the parent chain are the same. -/
theorem xml2ns_recurse_message_id (xrpc a : cxobj) (up : List cxobj)
    (hty : a.x_type = CX_ATTR) (hnm : a.x_name = "message-id") (hpf : a.x_pfx = none)
    (pfx : Option String) :
    xml2ns_recurse (xml_up { xrpc with x_childvec := a :: xrpc.x_childvec } :: up) pfx =
      xml2ns_recurse (xml_up xrpc :: up) pfx := by
  have hs : xml2ns_self (xml_up { xrpc with x_childvec := a :: xrpc.x_childvec }) pfx =
      xml2ns_self (xml_up xrpc) pfx := by
    unfold xml2ns_self xml_find_type_value xml_find_type xml_up
    cases pfx with
    | some p => simp [hty, hpf, List.find?]
    | none => simp [hty, hnm, List.find?]
  unfold xml2ns_recurse
  rw [hs]

/-- C14: for a root named `rpc` without `message-id` attribute. With the policy off
`xml_bind_yang_rpc` returns `0` with the one error missing-attribute for `message-id`, and
returns the tree as it was. With the policy on (schema mount off, and an action predicate
that does not depend on the attribute) the result is the one for the same tree with a
`message-id` attribute `a` added as first child: same return value, same errors, same
trace, and the same tree but for the attribute. -/
theorem C14_message_id (isaction : List cxobj → cxobj → Int) (h : Option clicon_handle)
    (st : clixon_state) (up : List cxobj) (xrpc a : cxobj) (yspec : Option Nat)
    (hname : xml_name xrpc = "rpc")
    (hno : xml_find_type xrpc none "message-id" CX_ATTR = none)
    (hm : mount_disabled h)
    (hty : a.x_type = CX_ATTR) (hnm : a.x_name = "message-id") (hpf : a.x_pfx = none)
    (ha : ∀ x, isaction (xml_up { xrpc with x_childvec := a :: xrpc.x_childvec } :: up) x =
      isaction (xml_up xrpc :: up) x) :
    (st._netconf_message_id_optional = 0 →
      xml_bind_yang_rpc isaction h st up xrpc yspec =
        { retval := 0, xt := xrpc, st := st,
          xerr := [netconf_missing_attribute_xml "rpc" "message-id" "Incoming rpc"],
          trace := [] }) ∧
    (st._netconf_message_id_optional ≠ 0 →
      xml_bind_yang_rpc isaction h st up { xrpc with x_childvec := a :: xrpc.x_childvec } yspec =
        { xml_bind_yang_rpc isaction h st up xrpc yspec with
          xt := { (xml_bind_yang_rpc isaction h st up xrpc yspec).xt with
            x_childvec := a :: (xml_bind_yang_rpc isaction h st up xrpc yspec).xt.x_childvec } }) := by
  refine ⟨fun h0 => ?_, fun hon => ?_⟩
  · unfold xml_bind_yang_rpc
    simp only [hname, h0, hno, Option.isNone_none, and_self, ↓reduceIte]
    simp only [show ¬ ("rpc" = "hello") by decide, show ¬ ("rpc" = "notification") by decide,
      ↓reduceIte]
  · have hname1 : xml_name { xrpc with x_childvec := a :: xrpc.x_childvec } = "rpc" := hname
    have hel : xml_type a ≠ CX_ELMNT := by
      unfold xml_type
      rw [hty]
      decide
    rw [xml_bind_yang_rpc_eq_children isaction h st up _ yspec hname1 (Or.inl hon),
      xml_bind_yang_rpc_eq_children isaction h st up xrpc yspec hname (Or.inl hon)]
    dsimp only
    rw [xml_bind_yang_rpc_children_other isaction h st _ yspec a xrpc.x_childvec hel,
      xml_bind_yang_rpc_children_chain isaction h hm _ (xml_up xrpc :: up) yspec
        (xml2ns_recurse_message_id xrpc a up hty hnm hpf) ha]

/-- C14 at `<rpc><reset xmlns="urn:n"/></rpc>`: with the policy off the call fails and the
tree is as it was; with the policy on the call returns `1`, with and without the
attribute. -/
theorem C14_message_id_witness :
    xml_bind_yang_rpc example_isaction none example_state [] example_rpc_nomsg (some 0) =
      { retval := 0, xt := example_rpc_nomsg, st := example_state,
        xerr := [netconf_missing_attribute_xml "rpc" "message-id" "Incoming rpc"],
        trace := [] } ∧
    (xml_bind_yang_rpc example_isaction none example_state_optional [] example_rpc_nomsg
      (some 0)).retval = 1 ∧
    (xml_bind_yang_rpc example_isaction none example_state_optional []
      { example_rpc_nomsg with
        x_childvec := xml_attr 62 none "message-id" "1" :: example_rpc_nomsg.x_childvec }
      (some 0)).retval = 1 ∧
    (xml_bind_yang_rpc example_isaction none example_state_optional []
      { example_rpc_nomsg with
        x_childvec := xml_attr 62 none "message-id" "1" :: example_rpc_nomsg.x_childvec }
      (some 0)).xt.x_childvec =
      xml_attr 62 none "message-id" "1" ::
        (xml_bind_yang_rpc example_isaction none example_state_optional [] example_rpc_nomsg
          (some 0)).xt.x_childvec :=
  ⟨(C14_message_id example_isaction none example_state [] example_rpc_nomsg
      (xml_attr 62 none "message-id" "1") (some 0) rfl rfl (fun _ hh => nomatch hh)
      rfl rfl rfl (fun _ => rfl)).1 rfl,
    by decide, by decide,
    congrArg (fun r => r.xt.x_childvec)
      ((C14_message_id example_isaction none example_state_optional [] example_rpc_nomsg
        (xml_attr 62 none "message-id" "1") (some 0) rfl rfl (fun _ hh => nomatch hh)
        rfl rfl rfl (fun _ => rfl)).2 (by decide))⟩

/-! ## C15: an operation that is no rpc of the schema -/

/-- C15: in an `<rpc>` that passes the `message-id` check, let `x` be the first element
child, and no action. If no module of the spec has the namespace of `x`,
`xml_bind_yang_rpc` returns `0` with the one error unknown-element for `x`, message
"Unrecognized RPC (wrong namespace?)"; if a module has the namespace but no rpc statement
of the name of `x`, it returns `0` with the one error unknown-element for `x`, message
"Unrecognized RPC". In both cases the tree is returned as it was, so `x` has the schema
reference it had before (none, if it had none), and nothing is assigned. -/
theorem C15_unrecognized_rpc (isaction : List cxobj → cxobj → Int)
    (h : Option clicon_handle) (st : clixon_state) (up : List cxobj) (xrpc : cxobj)
    (yspec : Option Nat) (pre rest : List cxobj) (x : cxobj)
    (hname : xml_name xrpc = "rpc")
    (hmsg : st._netconf_message_id_optional ≠ 0 ∨
      (xml_find_type xrpc none "message-id" CX_ATTR).isSome = true)
    (hcs : xrpc.x_childvec = pre ++ x :: rest)
    (hpre : ∀ c ∈ pre, xml_type c ≠ CX_ELMNT)
    (hx : xml_type x = CX_ELMNT) (hact : isaction (xml_up xrpc :: up) x = 0) :
    (ys_module_by_xml st.yang yspec (xml_up xrpc :: up) x = none →
      xml_bind_yang_rpc isaction h st up xrpc yspec =
        { retval := 0, xt := xrpc, st := st,
          xerr := [netconf_unknown_element_xml "application" (xml_name x)
            "Unrecognized RPC (wrong namespace?)"],
          trace := [] }) ∧
    (∀ ymod, ys_module_by_xml st.yang yspec (xml_up xrpc :: up) x = some ymod →
      yang_find st.yang ymod Y_RPC (some (xml_name x)) = none →
      xml_bind_yang_rpc isaction h st up xrpc yspec =
        { retval := 0, xt := xrpc, st := st,
          xerr := [netconf_unknown_element_xml "application" (xml_name x) "Unrecognized RPC"],
          trace := [] }) := by
  have hneg : ¬ isaction (xml_up xrpc :: up) x < 0 := by rw [hact]; decide
  have hn1 : isaction (xml_up xrpc :: up) x ≠ 1 := by rw [hact]; decide
  have hR := xml_bind_yang_rpc_eq_children isaction h st up xrpc yspec hname hmsg
  have heta : ({ xrpc with x_childvec := pre ++ x :: rest } : cxobj) = xrpc := by
    rw [← hcs]
    exact cxobj_eta xrpc
  rw [hcs, xml_bind_yang_rpc_children_first isaction h st (xml_up xrpc :: up) yspec pre
    (x :: rest) hpre] at hR
  refine ⟨fun hmod => ?_, fun ymod hmod hrpc => ?_⟩
  · rw [xml_bind_yang_rpc_children_nomod isaction h st (xml_up xrpc :: up) yspec x rest hx
      hneg hn1 hmod] at hR
    rw [hR]
    dsimp only
    rw [heta]
  · rw [xml_bind_yang_rpc_children_norpc isaction h st (xml_up xrpc :: up) yspec x rest ymod
      hx hneg hn1 hmod hrpc] at hR
    rw [hR]
    dsimp only
    rw [heta]

/-- C15 at `<rpc message-id="1"><reset xmlns="urn:other"/></rpc>` (no module with that
namespace) and at `<rpc message-id="1"><restart xmlns="urn:n"/></rpc>` (no such rpc in
module `m`). -/
theorem C15_unrecognized_rpc_witness :
    xml_bind_yang_rpc example_isaction none example_state [] example_rpc_other (some 0) =
      { retval := 0, xt := example_rpc_other, st := example_state,
        xerr := [netconf_unknown_element_xml "application" "reset"
          "Unrecognized RPC (wrong namespace?)"],
        trace := [] } ∧
    xml_bind_yang_rpc example_isaction none example_state [] example_rpc_restart (some 0) =
      { retval := 0, xt := example_rpc_restart, st := example_state,
        xerr := [netconf_unknown_element_xml "application" "restart" "Unrecognized RPC"],
        trace := [] } :=
  ⟨(C15_unrecognized_rpc example_isaction none example_state [] example_rpc_other (some 0)
      [xml_attr 62 none "message-id" "1"] [] example_reset_other rfl (Or.inr (by decide)) rfl
      (by decide) rfl rfl).1 (by decide),
    (C15_unrecognized_rpc example_isaction none example_state [] example_rpc_restart (some 0)
      [xml_attr 62 none "message-id" "1"] [] example_restart rfl (Or.inr (by decide)) rfl
      (by decide) rfl rfl).2 1 (by decide) (by decide)⟩

/-! ## C16, C17, C18: the root element of a NETCONF message -/

/-- C16: on a root named neither `hello` nor `notification` nor `rpc`, `xml_bind_yang_rpc`
returns `0` with the one protocol error unknown-element for the root, message
"Unrecognized netconf operation", whatever the action predicate, the handle, the state
(schema and both policy flags) and the spec are; the tree and the state are returned as
they were and nothing is assigned. -/
theorem C16_unrecognized_operation (isaction : List cxobj → cxobj → Int)
    (h : Option clicon_handle) (st : clixon_state) (up : List cxobj) (xrpc : cxobj)
    (yspec : Option Nat) (h1 : xml_name xrpc ≠ "hello")
    (h2 : xml_name xrpc ≠ "notification") (h3 : xml_name xrpc ≠ "rpc") :
    xml_bind_yang_rpc isaction h st up xrpc yspec =
      { retval := 0, xt := xrpc, st := st,
        xerr := [netconf_unknown_element_xml "protocol" (xml_name xrpc)
          "Unrecognized netconf operation"],
        trace := [] } := by
  unfold xml_bind_yang_rpc
  simp only [h1, h2, h3, ↓reduceIte]

/-- C16 at `<rpc-reply xmlns="urn:n"><ok/></rpc-reply>`. -/
theorem C16_unrecognized_operation_witness :
    xml_bind_yang_rpc example_isaction none example_state [] example_reply_ok (some 0) =
      { retval := 0, xt := example_reply_ok, st := example_state,
        xerr := [netconf_unknown_element_xml "protocol" "rpc-reply"
          "Unrecognized netconf operation"],
        trace := [] } :=
  C16_unrecognized_operation example_isaction none example_state [] example_reply_ok (some 0)
    (by decide) (by decide) (by decide)

theorem head_filter_eq_find {α : Type} (p : α → Bool) :
    ∀ l : List α, (l.filter p).head? = l.find? p := by
  intro l
  induction l with
  | nil => rfl
  | cons a l ih =>
    by_cases ha : p a = true
    · simp [List.filter, List.find?, ha]
    · simp [List.filter, List.find?, ha, ih]

theorem hello_offenders_cons (x : cxobj) (rest : List cxobj) :
    hello_offenders (x :: rest) = hello_offenders_of x ++ hello_offenders rest := by
  simp [hello_offenders]

/-- The check of the code finds the first error of the specification. -/
theorem xml_bind_yang_rpc_hello_eq : ∀ cs : List cxobj,
    xml_bind_yang_rpc_hello cs = (hello_offenders cs).head? := by
  intro cs
  induction cs with
  | nil => rfl
  | cons x rest ih =>
    rw [hello_offenders_cons, xml_bind_yang_rpc_hello]
    unfold hello_offenders_of
    by_cases hel : xml_type x ≠ CX_ELMNT
    · simp only [hel, ne_eq, not_false_eq_true, ↓reduceIte, List.nil_append, ih]
    · simp only [hel, ↓reduceIte]
      by_cases hs : xml_name x = "session-id"
      · simp only [hs, ↓reduceIte, List.nil_append, ih]
      · simp only [hs, ↓reduceIte]
        by_cases hc : xml_name x = "capabilities"
        · simp only [hc, ↓reduceIte]
          cases hf : x.x_childvec.find? (fun xc =>
              decide (xml_type xc = CX_ELMNT) && decide (xml_name xc ≠ "capability")) with
          | none =>
            have hnil : x.x_childvec.filter (fun xc =>
                decide (xml_type xc = CX_ELMNT) && decide (xml_name xc ≠ "capability")) = [] := by
              rw [List.filter_eq_nil_iff]
              intro a ha
              exact List.find?_eq_none.1 hf a ha
            rw [hnil]
            simp only [List.map_nil, List.nil_append, ih]
          | some xc =>
            have hh := head_filter_eq_find (fun xc =>
              decide (xml_type xc = CX_ELMNT) && decide (xml_name xc ≠ "capability")) x.x_childvec
            rw [hf] at hh
            cases hl : x.x_childvec.filter (fun xc =>
                decide (xml_type xc = CX_ELMNT) && decide (xml_name xc ≠ "capability")) with
            | nil => rw [hl] at hh; cases hh
            | cons b l =>
              rw [hl] at hh
              simp only [List.head?_cons, Option.some.injEq] at hh
              subst hh
              rfl
        · simp only [hc, ↓reduceIte]
          rfl

theorem hello_offenders_of_nil_iff (x : cxobj) :
    hello_offenders_of x = [] ↔
      (xml_type x = CX_ELMNT →
        xml_name x = "session-id" ∨
        (xml_name x = "capabilities" ∧
          ∀ xc ∈ x.x_childvec, xml_type xc = CX_ELMNT → xml_name xc = "capability")) := by
  unfold hello_offenders_of
  by_cases hel : xml_type x = CX_ELMNT
  · by_cases hs : xml_name x = "session-id"
    · simp [hel, hs]
    · by_cases hc : xml_name x = "capabilities"
      · simp only [hel, ne_eq, not_true_eq_false, ↓reduceIte, hc,
          show ¬ ("capabilities" = "session-id") by decide, List.map_eq_nil_iff,
          List.filter_eq_nil_iff, Bool.and_eq_true, decide_eq_true_eq, not_and, not_not,
          true_and, forall_const, false_or]
      · simp [hel, hs, hc]
  · simp [hel]

theorem hello_offenders_nil_iff (xrpc : cxobj) :
    hello_offenders xrpc.x_childvec = [] ↔ hello_permitted xrpc := by
  unfold hello_offenders hello_permitted
  rw [List.flatten_eq_nil_iff]
  constructor
  · intro hall x hx
    exact (hello_offenders_of_nil_iff x).1 (hall _ (List.mem_map_of_mem _ hx))
  · intro hall l hl
    obtain ⟨x, hx, rfl⟩ := List.mem_map.1 hl
    exact (hello_offenders_of_nil_iff x).2 (hall x hx)

/-- C17: on a root named `hello`, `xml_bind_yang_rpc` returns `1` if and only if every
element child of the root is named `session-id` or `capabilities` and every element child
of a `capabilities` element is named `capability`; then there is no error. Otherwise it
returns `0` (not `-1`) with one error: the protocol error unknown-element for the first
offending element in document order, "Unrecognized hello element" for a child of `hello`,
"Unrecognized hello/capabilities element" for a child of `capabilities`. -/
theorem C17_hello (isaction : List cxobj → cxobj → Int) (h : Option clicon_handle)
    (st : clixon_state) (up : List cxobj) (xrpc : cxobj) (yspec : Option Nat)
    (hname : xml_name xrpc = "hello") :
    ((xml_bind_yang_rpc isaction h st up xrpc yspec).retval = 1 ↔ hello_permitted xrpc) ∧
    (hello_permitted xrpc → (xml_bind_yang_rpc isaction h st up xrpc yspec).xerr = []) ∧
    (¬ hello_permitted xrpc →
      (xml_bind_yang_rpc isaction h st up xrpc yspec).retval = 0 ∧
      ∃ e, (hello_offenders xrpc.x_childvec).head? = some e ∧
        (xml_bind_yang_rpc isaction h st up xrpc yspec).xerr = [e]) := by
  have hp := hello_offenders_nil_iff xrpc
  have hR : xml_bind_yang_rpc isaction h st up xrpc yspec =
      match (hello_offenders xrpc.x_childvec).head? with
      | some e => { retval := 0, xt := xrpc, st := st, xerr := [e], trace := [] }
      | none => { retval := 1, xt := xrpc, st := st, xerr := [], trace := [] } := by
    unfold xml_bind_yang_rpc
    simp only [hname, ↓reduceIte, xml_bind_yang_rpc_hello_eq]
  rw [hR]
  cases hl : hello_offenders xrpc.x_childvec with
  | nil =>
    have hperm : hello_permitted xrpc := hp.1 hl
    simp [hperm]
  | cons e l =>
    have hperm : ¬ hello_permitted xrpc := fun hh => by
      have := hp.2 hh
      rw [hl] at this
      cases this
    simp [hperm]

/-- C17 at `<hello><bogus/></hello>`, at
`<hello><capabilities><capability/><extra/></capabilities><session-id/><bogus/></hello>`
(the first offending element is `extra`) and at a well-formed `hello`. -/
theorem C17_hello_witness :
    (xml_bind_yang_rpc example_isaction none example_state [] example_hello_bogus
      (some 0)).retval = 0 ∧
    (xml_bind_yang_rpc example_isaction none example_state [] example_hello_bogus
      (some 0)).xerr =
      [netconf_unknown_element_xml "protocol" "bogus" "Unrecognized hello element"] ∧
    (xml_bind_yang_rpc example_isaction none example_state [] example_hello_extra
      (some 0)).xerr =
      [netconf_unknown_element_xml "protocol" "extra"
        "Unrecognized hello/capabilities element"] ∧
    hello_offenders example_hello_extra.x_childvec =
      [netconf_unknown_element_xml "protocol" "extra" "Unrecognized hello/capabilities element",
       netconf_unknown_element_xml "protocol" "bogus" "Unrecognized hello element"] ∧
    ((xml_bind_yang_rpc example_isaction none example_state [] example_hello (some 0)).retval
      = 1 ↔ hello_permitted example_hello) ∧
    (xml_bind_yang_rpc example_isaction none example_state [] example_hello (some 0)).retval
      = 1 :=
  ⟨by decide, by decide, by decide, by decide,
    (C17_hello example_isaction none example_state [] example_hello (some 0) rfl).1,
    by decide⟩

/-- C18: on a root named `notification`, `xml_bind_yang_rpc` returns `1` without error,
whatever the content, the schema and the policy flags are; and on a root named `hello` or
`notification` it returns the tree and the state as they were and assigns nothing
(empty trace), whether it returns `1` or `0`. -/
theorem C18_hello_notification_frame (isaction : List cxobj → cxobj → Int)
    (h : Option clicon_handle) (st : clixon_state) (up : List cxobj) (xrpc : cxobj)
    (yspec : Option Nat)
    (hname : xml_name xrpc = "hello" ∨ xml_name xrpc = "notification") :
    (xml_bind_yang_rpc isaction h st up xrpc yspec).xt = xrpc ∧
    (xml_bind_yang_rpc isaction h st up xrpc yspec).st = st ∧
    (xml_bind_yang_rpc isaction h st up xrpc yspec).trace = [] ∧
    (xml_name xrpc = "notification" →
      (xml_bind_yang_rpc isaction h st up xrpc yspec).retval = 1 ∧
      (xml_bind_yang_rpc isaction h st up xrpc yspec).xerr = []) := by
  unfold xml_bind_yang_rpc
  rcases hname with hn | hn
  · simp only [hn, ↓reduceIte]
    split
    · exact ⟨rfl, rfl, rfl, fun h0 => absurd h0 (by decide)⟩
    · exact ⟨rfl, rfl, rfl, fun h0 => absurd h0 (by decide)⟩
  · simp [hn]

/-- C18 at `<notification><bogus/></notification>` and at `<hello><bogus/></hello>`. -/
theorem C18_hello_notification_frame_witness :
    xml_bind_yang_rpc example_isaction none example_state [] example_notification none =
      { retval := 1, xt := example_notification, st := example_state, xerr := [],
        trace := [] } ∧
    (xml_bind_yang_rpc example_isaction none example_state [] example_notification
      none).retval = 1 ∧
    (xml_bind_yang_rpc example_isaction none example_state [] example_hello_bogus
      (some 0)).xt = example_hello_bogus :=
  ⟨rfl,
    ((C18_hello_notification_frame example_isaction none example_state []
      example_notification none (Or.inr rfl)).2.2.2 rfl).1,
    (C18_hello_notification_frame example_isaction none example_state []
      example_hello_bogus (some 0) (Or.inl rfl)).1⟩

/-! ## C19: an action -/

theorem ys_module_walk_keyword (Y : List yang_stmt) :
    ∀ (fuel y m : Nat), ys_module_walk Y fuel y = some m →
      yang_keyword_get Y m = Y_MODULE ∨ yang_keyword_get Y m = Y_SUBMODULE := by
  intro fuel
  induction fuel with
  | zero => intro y m hm; simp [ys_module_walk] at hm
  | succ fuel ih =>
    intro y m hm
    unfold ys_module_walk at hm
    cases hy : Y[y]? with
    | none => simp [hy] at hm
    | some c =>
      simp only [hy] at hm
      split at hm
      · rename_i hk
        cases hm
        unfold yang_keyword_get
        rw [hy]
        exact hk
      · cases hp : c.ys_parent with
        | none => simp [hp] at hm
        | some p =>
          simp only [hp] at hm
          exact ih p m hm

/-- What `ys_module` returns is a module or submodule statement. -/
theorem ys_module_keyword (Y : List yang_stmt) (y m : Nat) (hm : ys_module Y y = some m) :
    yang_keyword_get Y m = Y_MODULE ∨ yang_keyword_get Y m = Y_SUBMODULE :=
  ys_module_walk_keyword Y _ y m hm

/-- After a loop that succeeded, every element of the result is what the body returned
for a child, with success. -/
theorem xml_bind_loop_mem (f : clixon_state → Option cxobj → cxobj → bind_result cxobj) :
    ∀ (cs : List cxobj) (st : clixon_state) (x0 : Option cxobj),
      ¬ ((xml_bind_loop f st x0 cs).retval < 0 ∨ (xml_bind_loop f st x0 cs).retval = 0) →
      ∀ c1 ∈ (xml_bind_loop f st x0 cs).xt, xml_type c1 = CX_ELMNT →
        ∃ c ∈ cs, ∃ s x1, c1 = (f s x1 c).xt ∧
          ¬ ((f s x1 c).retval < 0 ∨ (f s x1 c).retval = 0) := by
  intro cs
  induction cs with
  | nil =>
    intro st x0 _ c1 hc1
    simp [xml_bind_loop] at hc1
  | cons c cs ih =>
    intro st x0 hret c1 hc1 hty
    by_cases hel : xml_type c = CX_ELMNT
    · simp only [xml_bind_loop, hel, ne_eq, not_true_eq_false, ↓reduceIte] at hret hc1
      by_cases hr : (f st x0 c).retval < 0 ∨ (f st x0 c).retval = 0
      · simp only [hr, ↓reduceIte] at hret
        exact absurd trivial hret
      · simp only [hr, ↓reduceIte] at hret hc1
        rcases List.mem_cons.1 hc1 with rfl | hc1
        · exact ⟨c, List.mem_cons_self _ _, st, x0, rfl, hr⟩
        · obtain ⟨d, hd, s, x1, h1, h2⟩ := ih _ _ hret c1 hc1 hty
          exact ⟨d, List.mem_cons_of_mem _ hd, s, x1, h1, h2⟩
    · simp only [xml_bind_loop, hel, ne_eq, not_false_eq_true, ↓reduceIte] at hret hc1
      rcases List.mem_cons.1 hc1 with rfl | hc1
      · exact absurd hty hel
      · obtain ⟨d, hd, s, x1, h1, h2⟩ := ih _ _ hret c1 hc1 hty
        exact ⟨d, List.mem_cons_of_mem _ hd, s, x1, h1, h2⟩

theorem populate_check_ns_spec (st : clixon_state) (xt : cxobj) (ns : Option String) (y : Nat)
    (hr : (populate_check_ns st xt ns y).retval ≠ 0) :
    (populate_check_ns st xt ns y).xt.x_spec = some y := by
  cases ns with
  | none => simp [populate_check_ns, populate_fail] at hr
  | some n =>
    cases hy : yang_find_mynamespace st.yang y with
    | none => simp [populate_check_ns, hy, populate_fail] at hr
    | some nsy =>
      by_cases he : n = nsy
      · simp [populate_check_ns, hy, he, populate_set, xml_spec_set]
      · simp [populate_check_ns, hy, he, populate_fail] at hr

/-- The module-mode self-binder assigns a schema whenever it does not return `0`. -/
theorem populate_self_top_spec (st : clixon_state) (up : List cxobj) (xt : cxobj)
    (yspec : Option Nat) (hr : (populate_self_top st up xt yspec).retval ≠ 0) :
    ∃ y, (populate_self_top st up xt yspec).xt.x_spec = some y := by
  unfold populate_self_top at hr ⊢
  cases yspec with
  | none => simp [populate_fail] at hr
  | some ysp =>
    dsimp only at hr ⊢
    cases hmod : ys_module_by_xml st.yang (some ysp) up xt with
    | none => simp [hmod, populate_fail] at hr
    | some ymod =>
      simp only [hmod] at hr ⊢
      cases hy : yang_find_schemanode st.yang ymod (xml_name xt) with
      | none =>
        simp only [hy] at hr ⊢
        split
        · exact ⟨_, rfl⟩
        · rename_i hoff
          simp [hoff, populate_fail] at hr
      | some y =>
        simp only [hy] at hr ⊢
        exact ⟨y, populate_check_ns_spec st xt _ y hr⟩

/-- After a call of `xml_bind_yang0` in module mode that succeeded the object has a schema
reference. -/
theorem xml_bind_yang0_module_spec (h : Option clicon_handle) (st : clixon_state)
    (up : List cxobj) (c : cxobj) (yspec : Option Nat)
    (hr : ¬ ((xml_bind_yang0 h st up c YB_MODULE yspec).retval < 0 ∨
      (xml_bind_yang0 h st up c YB_MODULE yspec).retval = 0)) :
    ∃ y, (xml_bind_yang0 h st up c YB_MODULE yspec).xt.x_spec = some y := by
  have hself : xml_bind_yang0_self st up c YB_MODULE yspec =
      some (populate_self_top st up c yspec) := rfl
  rw [xml_bind_yang0_eq_descend, hself] at hr ⊢
  dsimp only at hr ⊢
  by_cases h1 : (populate_self_top st up c yspec).retval < 0
  · rw [if_pos h1] at hr
    exact absurd (Or.inl h1) hr
  · by_cases h0 : (populate_self_top st up c yspec).retval = 0
    · rw [if_neg h1, if_pos h0] at hr
      exact absurd (Or.inr h0) hr
    · obtain ⟨y, hy⟩ := populate_self_top_spec st up c yspec h0
      rw [if_neg h1, if_neg h0]
      split
      · exact ⟨y, hy⟩
      · unfold xml_bind_yang0_descend
        dsimp only
        rw [strip_body_objects_spec]
        exact ⟨y, hy⟩

/-- After a call of `xml_bind_yang` in module mode that succeeded every element child has
a schema reference. -/
theorem xml_bind_yang_module_spec (h : Option clicon_handle) (st : clixon_state)
    (up : List cxobj) (x : cxobj) (yspec : Option Nat)
    (hr : ¬ ((xml_bind_yang h st up x YB_MODULE yspec).retval < 0 ∨
      (xml_bind_yang h st up x YB_MODULE yspec).retval = 0)) :
    ∀ xi ∈ (xml_bind_yang h st up x YB_MODULE yspec).xt.x_childvec, xml_type xi = CX_ELMNT →
      ∃ yi, xml_spec xi = some yi := by
  intro xi hxi hty
  unfold xml_bind_yang at hr hxi
  dsimp only at hr hxi
  obtain ⟨c, _, s, x1, h1, h2⟩ := xml_bind_loop_mem _ _ _ _ hr xi hxi hty
  obtain ⟨y, hy⟩ := xml_bind_yang0_module_spec h s _ c yspec h2
  exact ⟨y, by rw [h1]; exact hy⟩

theorem xml_child_i_type_mem {x xi : cxobj} {i : Nat} {type : cxobj_type}
    (hi : xml_child_i_type x i type = some xi) : xi ∈ x.x_childvec ∧ xi.x_type = type := by
  unfold xml_child_i_type at hi
  have hm := List.getElem?_mem hi
  rw [List.mem_filter] at hm
  exact ⟨hm.1, by simpa using hm.2⟩

/-- C19, as the code has it: in an `<rpc>` that passes the `message-id` check, let `x` be
the first element child, and an action for the action predicate; `ra` is the result of
`xml_bind_yang` on `x` in module mode against the spec, which binds the element children
of `x` and what is below them and leaves the schema reference of `x` itself as it is.
If this returns `0`, so does `xml_bind_yang_rpc`, with the same error. If it returns `1`,
`xml_bind_yang_rpc` returns `1` without error and does not go on to the operations after
`x`; when `x` has an element child, the first element child `xi` has a schema reference
`yi` and the schema reference of `x` is afterwards `ys_module` of `yi`, a module or
submodule statement; when `x` has no element child, `x` is as `xml_bind_yang` left it,
with the schema reference it had before. -/
theorem C19_action (isaction : List cxobj → cxobj → Int) (h : Option clicon_handle)
    (st : clixon_state) (up : List cxobj) (xrpc : cxobj) (yspec : Option Nat)
    (pre rest : List cxobj) (x : cxobj) (ra : bind_result cxobj)
    (hname : xml_name xrpc = "rpc")
    (hmsg : st._netconf_message_id_optional ≠ 0 ∨
      (xml_find_type xrpc none "message-id" CX_ATTR).isSome = true)
    (hcs : xrpc.x_childvec = pre ++ x :: rest)
    (hpre : ∀ c ∈ pre, xml_type c ≠ CX_ELMNT)
    (hx : xml_type x = CX_ELMNT) (hact : isaction (xml_up xrpc :: up) x = 1)
    (hra : ra = xml_bind_yang h st (xml_up xrpc :: up) x YB_MODULE yspec) :
    ra.xt.x_spec = x.x_spec ∧
    (ra.retval = 0 →
      (xml_bind_yang_rpc isaction h st up xrpc yspec).retval = 0 ∧
      (xml_bind_yang_rpc isaction h st up xrpc yspec).xerr = ra.xerr) ∧
    (ra.retval = 1 →
      (xml_bind_yang_rpc isaction h st up xrpc yspec).retval = 1 ∧
      (xml_bind_yang_rpc isaction h st up xrpc yspec).xerr = [] ∧
      (∀ xi, xml_child_i_type ra.xt 0 CX_ELMNT = some xi →
        ∃ yi, xml_spec xi = some yi ∧
          (xml_bind_yang_rpc isaction h st up xrpc yspec).xt =
            { xrpc with x_childvec :=
              pre ++ xml_spec_set ra.xt (ys_module ra.st.yang yi) :: rest } ∧
          ∀ m, ys_module ra.st.yang yi = some m →
            yang_keyword_get ra.st.yang m = Y_MODULE ∨
              yang_keyword_get ra.st.yang m = Y_SUBMODULE) ∧
      (xml_child_i_type ra.xt 0 CX_ELMNT = none →
        (xml_bind_yang_rpc isaction h st up xrpc yspec).xt =
          { xrpc with x_childvec := pre ++ ra.xt :: rest })) := by
  have hR := xml_bind_yang_rpc_eq_children isaction h st up xrpc yspec hname hmsg
  rw [hcs, xml_bind_yang_rpc_children_first isaction h st (xml_up xrpc :: up) yspec pre
    (x :: rest) hpre,
    xml_bind_yang_rpc_children_action isaction h st (xml_up xrpc :: up) yspec x rest hx
      hact] at hR
  have hone := xml_bind_yang_xerr_one h st (xml_up xrpc :: up) x YB_MODULE yspec
  rw [← hra] at hone
  refine ⟨?_, fun h0 => ?_, fun h1 => ?_⟩
  · rw [hra]
    unfold xml_bind_yang
    dsimp only
    rw [strip_body_objects_spec]
  · have ha : xml_bind_yang_rpc_action h st (xml_up xrpc :: up) x yspec = ra := by
      unfold xml_bind_yang_rpc_action
      rw [← hra]
      dsimp only
      rw [if_pos (Or.inr h0)]
    rw [ha] at hR
    rw [hR]
    exact ⟨h0, rfl⟩
  · have hnf : ¬ (ra.retval < 0 ∨ ra.retval = 0) := by rw [h1]; decide
    have hx0 : ra.xerr = [] := hone.2 (by rw [h1]; decide)
    have ha : xml_bind_yang_rpc_action h st (xml_up xrpc :: up) x yspec =
        match (xml_child_i_type ra.xt 0 CX_ELMNT).bind xml_spec with
        | some yi =>
          { retval := 1, xt := xml_spec_set ra.xt (ys_module ra.st.yang yi), st := ra.st,
            xerr := ra.xerr,
            trace := ra.trace ++ [bind_event.spec_set x.addr (ys_module ra.st.yang yi)] }
        | none => { ra with retval := 1 } := by
      unfold xml_bind_yang_rpc_action
      rw [← hra]
      dsimp only
      rw [if_neg hnf]
    rw [ha] at hR
    have hspec := xml_bind_yang_module_spec h st (xml_up xrpc :: up) x yspec (hra ▸ hnf)
    rw [← hra] at hspec
    refine ⟨?_, ?_, fun xi hxi => ?_, fun hxi => ?_⟩
    · rw [hR]
      dsimp only
      split <;> rfl
    · rw [hR]
      dsimp only
      split <;> exact hx0
    · obtain ⟨hmem, hty⟩ := xml_child_i_type_mem hxi
      obtain ⟨yi, hyi⟩ := hspec xi hmem hty
      refine ⟨yi, hyi, ?_, fun m hm => ys_module_keyword _ yi m hm⟩
      rw [hR, hxi]
      simp only [Option.bind, hyi]
    · rw [hR, hxi]
      simp only [Option.bind]

/-- C19 at `<rpc message-id="1"><action xmlns="urn:ietf:params:xml:ns:yang:1">
<c xmlns="urn:n"><p/></c></action></rpc>`: `c` is bound to `container c` of module `m`,
and `action` to the module statement `1`. -/
theorem C19_action_witness :
    example_isaction_name [xml_up example_rpc_action] example_action = 1 ∧
    (xml_bind_yang_rpc example_isaction_name none example_state [] example_rpc_action
      (some 0)).retval = 1 ∧
    xml_specs (xml_bind_yang_rpc example_isaction_name none example_state [] example_rpc_action
      (some 0)).xt = [(90, none), (92, some 1), (94, some 3), (96, some 4)] ∧
    yang_keyword_get example_state.yang 1 = Y_MODULE :=
  ⟨rfl,
    ((C19_action example_isaction_name none example_state [] example_rpc_action (some 0)
      [xml_attr 91 none "message-id" "1"] [] example_action _ rfl (Or.inr (by decide)) rfl
      (by decide) rfl rfl rfl).2.2 (by decide)).1,
    by decide, by decide⟩

/-- C19 as stated fails: in
`<rpc message-id="1"><action xmlns="urn:ietf:params:xml:ns:yang:1"/></rpc>` the operation
child is an action for the action predicate and `xml_bind_yang_rpc` returns `1`, but the
action element has no element child, so no module is assigned: the tree is returned as it
was and the action element has no schema reference. -/
theorem C19_counterexample :
    xml_name example_rpc_action_empty = "rpc" ∧
    (xml_find_type example_rpc_action_empty none "message-id" CX_ATTR).isSome = true ∧
    example_isaction_name [xml_up example_rpc_action_empty] example_action_empty = 1 ∧
    (xml_bind_yang_rpc example_isaction_name none example_state [] example_rpc_action_empty
      (some 0)).retval = 1 ∧
    (xml_bind_yang_rpc example_isaction_name none example_state [] example_rpc_action_empty
      (some 0)).xt = example_rpc_action_empty ∧
    (xml_bind_yang_rpc example_isaction_name none example_state [] example_rpc_action_empty
      (some 0)).trace = [] ∧
    xml_specs example_rpc_action_empty = [(90, none), (92, none)] :=
  ⟨rfl, by decide, rfl, by decide, rfl, by decide, by decide⟩

/-! ## C20: a reply without payload -/

/-- The search for the output statement finds nothing when no element child selects, by
its namespace, a module that has the rpc with an output statement. -/
theorem xml_bind_yang_rpc_reply_output_none (Y : List yang_stmt) (yspec : Option Nat)
    (up : List cxobj) (name : String) :
    ∀ (cs : List cxobj),
      (∀ x ∈ cs, xml_type x = CX_ELMNT → ∀ ymod yrpc,
        ys_module_by_xml Y yspec up x = some ymod →
        yang_find Y ymod Y_RPC (some name) = some yrpc →
        yang_find Y yrpc Y_OUTPUT none = none) →
      xml_bind_yang_rpc_reply_output Y yspec up name cs = none := by
  intro cs
  induction cs with
  | nil => intro _; rfl
  | cons x rest ih =>
    intro hno
    have ih' := ih (fun c hc => hno c (List.mem_cons_of_mem _ hc))
    have hx := hno x (List.mem_cons_self _ _)
    unfold xml_bind_yang_rpc_reply_output
    by_cases hel : xml_type x = CX_ELMNT
    · simp only [hel, ne_eq, not_true_eq_false, ↓reduceIte]
      cases hmod : ys_module_by_xml Y yspec up x with
      | none => exact ih'
      | some ymod =>
        dsimp only
        cases hrpc : yang_find Y ymod Y_RPC (some name) with
        | none => exact ih'
        | some yrpc =>
          dsimp only
          rw [hx hel ymod yrpc hmod hrpc]
          exact ih'
    · simp only [hel, ne_eq, not_false_eq_true, ↓reduceIte]
      exact ih'

/-- C20, as the code has it, for a root named `rpc-reply`. If no element child selects, by
its namespace, a module that has the rpc `name` with an output statement,
`xml_bind_yang_rpc_reply` returns `1` without error and returns the tree as it was:
nothing is assigned. If an output statement `yo` is found and the first element child is
named `rpc-error` or `ok`, it returns `1` without error and the root `rpc-reply` is
assigned `yo`; no other object is visited or assigned. -/
theorem C20_reply_short_circuit (err2cb : List rpc_error → String)
    (h : Option clicon_handle) (st : clixon_state) (up : List cxobj) (xrpc : cxobj)
    (name : String) (yspec : Option Nat) (hname : xml_name xrpc = "rpc-reply") :
    ((∀ x ∈ xrpc.x_childvec, xml_type x = CX_ELMNT → ∀ ymod yrpc,
        ys_module_by_xml st.yang yspec (xml_up xrpc :: up) x = some ymod →
        yang_find st.yang ymod Y_RPC (some name) = some yrpc →
        yang_find st.yang yrpc Y_OUTPUT none = none) →
      xml_bind_yang_rpc_reply err2cb h st up xrpc name yspec =
        { retval := 1, xt := xrpc, st := st, xerr := [], trace := [] }) ∧
    (∀ yo xc,
      xml_bind_yang_rpc_reply_output st.yang yspec (xml_up xrpc :: up) name xrpc.x_childvec
        = some yo →
      xml_child_i_type xrpc 0 CX_ELMNT = some xc →
      xml_name xc = "rpc-error" ∨ xml_name xc = "ok" →
      xml_bind_yang_rpc_reply err2cb h st up xrpc name yspec =
        { retval := 1, xt := xml_spec_set xrpc (some yo), st := st, xerr := [],
          trace := [bind_event.spec_set xrpc.addr (some yo)] }) := by
  refine ⟨fun hno => ?_, fun yo xc hyo hxc hn => ?_⟩
  · have ho := xml_bind_yang_rpc_reply_output_none st.yang yspec (xml_up xrpc :: up) name
      xrpc.x_childvec hno
    unfold xml_bind_yang_rpc_reply
    simp only [hname, ne_eq, not_true_eq_false, ↓reduceIte, ho]
  · have hxc1 : xml_child_i_type (xml_spec_set xrpc (some yo)) 0 CX_ELMNT = some xc := hxc
    unfold xml_bind_yang_rpc_reply
    simp only [hname, ne_eq, not_true_eq_false, ↓reduceIte, hyo, hxc1, hn, decide_True]

/-- C20 at `<rpc-reply xmlns="urn:n"><ok/></rpc-reply>` for the rpc `get-config`: against
the schema where `get-config` declares no output nothing is assigned. -/
theorem C20_reply_short_circuit_witness :
    xml_bind_yang_rpc_reply (fun _ => "") none example_state [] example_reply_ok "get-config"
      (some 0) =
      { retval := 1, xt := example_reply_ok, st := example_state, xerr := [], trace := [] } :=
  (C20_reply_short_circuit (fun _ => "") none example_state [] example_reply_ok "get-config"
    (some 0) rfl).1 (by
      intro x hx hty ymod yrpc hmod hrpc
      simp only [example_reply_ok, xml_elmnt, List.mem_cons, List.mem_singleton,
        List.not_mem_nil, or_false] at hx
      rcases hx with rfl | rfl
      · exact absurd hty (by decide)
      · have h1 : ys_module_by_xml example_state.yang (some 0) [xml_up example_reply_ok]
            (xml_elmnt 82 none "ok" []) = some 1 := by decide
        have h2 : yang_find example_state.yang 1 Y_RPC (some "get-config") = some 6 := by
          decide
        have e1 : ymod = 1 := Option.some.inj (h1.symm.trans hmod).symm
        subst e1
        have e2 : yrpc = 6 := Option.some.inj (h2.symm.trans hrpc).symm
        subst e2
        decide)

/-- C20 as stated fails: against `rpc get-config { output { container data; } }` the reply
`<rpc-reply xmlns="urn:n"><ok/></rpc-reply>` has the single child `ok`, and
`xml_bind_yang_rpc_reply` returns `1` without error, but the root `rpc-reply`, which had
no schema reference, is assigned the output statement `4` (line 878 comes before the
test for `ok` and `rpc-error`). -/
theorem C20_counterexample :
    xml_name example_reply_ok = "rpc-reply" ∧
    (example_reply_ok.x_childvec.filter (fun c => decide (xml_type c = CX_ELMNT))).map xml_name
      = ["ok"] ∧
    xml_spec example_reply_ok = none ∧
    (xml_bind_yang_rpc_reply (fun _ => "") none example_state_out [] example_reply_ok
      "get-config" (some 0)).retval = 1 ∧
    (xml_bind_yang_rpc_reply (fun _ => "") none example_state_out [] example_reply_ok
      "get-config" (some 0)).xerr = [] ∧
    xml_spec (xml_bind_yang_rpc_reply (fun _ => "") none example_state_out [] example_reply_ok
      "get-config" (some 0)).xt = some 4 ∧
    yang_keyword_get example_state_out.yang 4 = Y_OUTPUT ∧
    (xml_bind_yang_rpc_reply (fun _ => "") none example_state_out [] example_reply_ok
      "get-config" (some 0)).trace = [bind_event.spec_set 80 (some 4)] :=
  ⟨rfl, by decide, rfl, by decide, by decide, by decide, by decide, by decide⟩

/-! ## C21: the error of a failed reply -/

/-- C21: the errors of `xml_bind_yang_rpc_reply`. (1) Whenever it returns `0` it has produced
exactly one error, an application error with tag operation-failed. (2) On a root not named
`rpc-reply` it returns `0` and the message names the root. (3) On a root named `rpc-reply`
for which an output statement `yo` is found and whose first element child is neither `ok`
nor `rpc-error`, when the binding of the body (`xml_bind_yang` in parent mode below the
root bound to `yo`) returns `0` with its one error `e`, it returns `0` with the one error
operation-failed and the message "Internal error in backend reply: " followed by the text
that `netconf_err2cb` gives for `e`; `e` itself is not returned. (4) There is no other way
for a root named `rpc-reply` to get `0`. -/
theorem C21_reply_operation_failed (err2cb : List rpc_error → String)
    (h : Option clicon_handle) (st : clixon_state) (up : List cxobj) (xrpc : cxobj)
    (name : String) (yspec : Option Nat) :
    ((xml_bind_yang_rpc_reply err2cb h st up xrpc name yspec).retval = 0 →
      ∃ msg, (xml_bind_yang_rpc_reply err2cb h st up xrpc name yspec).xerr =
        [{ error_type := "application", error_tag := "operation-failed", error_info := none,
           error_message := msg }]) ∧
    (xml_name xrpc ≠ "rpc-reply" →
      (xml_bind_yang_rpc_reply err2cb h st up xrpc name yspec).retval = 0 ∧
      (xml_bind_yang_rpc_reply err2cb h st up xrpc name yspec).xerr =
        [netconf_operation_failed_xml "application"
          ("Internal error, unrecognized netconf operation in backend reply, " ++
            "expected rpc-reply but received: " ++ xml_name xrpc)]) ∧
    (xml_name xrpc = "rpc-reply" → ∀ yo,
      xml_bind_yang_rpc_reply_output st.yang yspec (xml_up xrpc :: up) name xrpc.x_childvec
        = some yo →
      (∀ xc, xml_child_i_type xrpc 0 CX_ELMNT = some xc →
        ¬ (xml_name xc = "rpc-error" ∨ xml_name xc = "ok")) →
      (xml_bind_yang h st up (xml_spec_set xrpc (some yo)) YB_PARENT none).retval = 0 →
      (xml_bind_yang_rpc_reply err2cb h st up xrpc name yspec).retval = 0 ∧
      ∃ e, (xml_bind_yang h st up (xml_spec_set xrpc (some yo)) YB_PARENT none).xerr = [e] ∧
        (xml_bind_yang_rpc_reply err2cb h st up xrpc name yspec).xerr =
          [netconf_operation_failed_xml "application"
            ("Internal error in backend reply: " ++ err2cb [e])]) ∧
    (xml_name xrpc = "rpc-reply" →
      (xml_bind_yang_rpc_reply err2cb h st up xrpc name yspec).retval = 0 →
      ∃ yo,
        xml_bind_yang_rpc_reply_output st.yang yspec (xml_up xrpc :: up) name xrpc.x_childvec
          = some yo ∧
        (xml_bind_yang h st up (xml_spec_set xrpc (some yo)) YB_PARENT none).retval = 0) := by
  by_cases hn : xml_name xrpc = "rpc-reply"
  · have hne : ¬ (xml_name xrpc ≠ "rpc-reply") := not_not.mpr hn
    -- the result when the body is bound
    have hbody : ∀ yo,
        xml_bind_yang_rpc_reply_output st.yang yspec (xml_up xrpc :: up) name xrpc.x_childvec
          = some yo →
        (∀ xc, xml_child_i_type xrpc 0 CX_ELMNT = some xc →
          ¬ (xml_name xc = "rpc-error" ∨ xml_name xc = "ok")) →
        (xml_bind_yang h st up (xml_spec_set xrpc (some yo)) YB_PARENT none).retval = 0 →
        (xml_bind_yang_rpc_reply err2cb h st up xrpc name yspec).retval = 0 ∧
        ∃ e, (xml_bind_yang h st up (xml_spec_set xrpc (some yo)) YB_PARENT none).xerr = [e] ∧
          (xml_bind_yang_rpc_reply err2cb h st up xrpc name yspec).xerr =
            [netconf_operation_failed_xml "application"
              ("Internal error in backend reply: " ++ err2cb [e])] := by
      intro yo ho hfirst h0
      obtain ⟨e, he⟩ := (xml_bind_yang_xerr_one h st up (xml_spec_set xrpc (some yo))
        YB_PARENT none).1 h0
      have hsc : ¬ ((match xml_child_i_type (xml_spec_set xrpc (some yo)) 0 CX_ELMNT with
          | some xc => decide (xml_name xc = "rpc-error" ∨ xml_name xc = "ok")
          | none => false) = true) := by
        have hx : xml_child_i_type (xml_spec_set xrpc (some yo)) 0 CX_ELMNT =
            xml_child_i_type xrpc 0 CX_ELMNT := rfl
        rw [hx]
        cases hc : xml_child_i_type xrpc 0 CX_ELMNT with
        | none => simp
        | some xc => simpa using hfirst xc hc
      have h1 : ¬ (xml_bind_yang h st up (xml_spec_set xrpc (some yo)) YB_PARENT none).retval
          < 0 := by omega
      unfold xml_bind_yang_rpc_reply
      rw [if_neg hne]
      simp only [ho]
      split
      · rename_i hsc1
        exact absurd hsc1 hsc
      · refine ⟨rfl, e, he, ?_⟩
        dsimp only
        rw [he]
    -- a return value `0` comes from the body
    have hzero : (xml_bind_yang_rpc_reply err2cb h st up xrpc name yspec).retval = 0 →
        ∃ yo,
          xml_bind_yang_rpc_reply_output st.yang yspec (xml_up xrpc :: up) name xrpc.x_childvec
            = some yo ∧
          (∀ xc, xml_child_i_type xrpc 0 CX_ELMNT = some xc →
            ¬ (xml_name xc = "rpc-error" ∨ xml_name xc = "ok")) ∧
          (xml_bind_yang h st up (xml_spec_set xrpc (some yo)) YB_PARENT none).retval = 0 := by
      intro h0
      unfold xml_bind_yang_rpc_reply at h0
      rw [if_neg hne] at h0
      cases ho : xml_bind_yang_rpc_reply_output st.yang yspec (xml_up xrpc :: up) name
          xrpc.x_childvec with
      | none => simp [ho] at h0
      | some yo =>
        simp only [ho] at h0
        split at h0
        · simp at h0
        · rename_i hsc
          by_cases h1 : (xml_bind_yang h st up (xml_spec_set xrpc (some yo)) YB_PARENT
              none).retval < 0
          · simp [h1] at h0
          · by_cases h2 : (xml_bind_yang h st up (xml_spec_set xrpc (some yo)) YB_PARENT
                none).retval = 0
            · refine ⟨yo, rfl, ?_, h2⟩
              intro xc hc hor
              apply hsc
              have hx : xml_child_i_type (xml_spec_set xrpc (some yo)) 0 CX_ELMNT =
                  some xc := hc
              rw [hx]
              simpa using hor
            · simp [h1, h2] at h0
    refine ⟨?_, fun hf => absurd hn hf, fun _ => hbody, ?_⟩
    · intro h0
      obtain ⟨yo, ho, hfirst, h2⟩ := hzero h0
      obtain ⟨_, e, _, hx⟩ := hbody yo ho hfirst h2
      exact ⟨_, hx⟩
    · intro _ h0
      obtain ⟨yo, ho, _, h2⟩ := hzero h0
      exact ⟨yo, ho, h2⟩
  · have hr : xml_bind_yang_rpc_reply err2cb h st up xrpc name yspec =
        { retval := 0, xt := xrpc, st := st,
          xerr := [netconf_operation_failed_xml "application"
            ("Internal error, unrecognized netconf operation in backend reply, " ++
              "expected rpc-reply but received: " ++ xml_name xrpc)],
          trace := [] } := by
      unfold xml_bind_yang_rpc_reply
      rw [if_pos hn]
    rw [hr]
    exact ⟨fun _ => ⟨_, rfl⟩, fun _ => ⟨rfl, rfl⟩, fun hf => absurd hf hn,
      fun hf => absurd hf hn⟩

/-- C21 at `<rpc-reply xmlns="urn:n"><bogus/></rpc-reply>` for the rpc `get-config` with
`output { container data; }`: the nested error for `bogus` is wrapped. -/
theorem C21_reply_operation_failed_witness :
    ((xml_bind_yang_rpc_reply example_err2cb none example_state_out [] example_reply_bogus
        "get-config" (some 0)).retval = 0 ∧
      ∃ e, (xml_bind_yang none example_state_out [] (xml_spec_set example_reply_bogus (some 4))
          YB_PARENT none).xerr = [e] ∧
        (xml_bind_yang_rpc_reply example_err2cb none example_state_out [] example_reply_bogus
          "get-config" (some 0)).xerr =
          [netconf_operation_failed_xml "application"
            ("Internal error in backend reply: " ++ example_err2cb [e])]) ∧
    (xml_bind_yang none example_state_out [] (xml_spec_set example_reply_bogus (some 4))
      YB_PARENT none).xerr =
      [netconf_unknown_element_xml "application" "bogus"
        "Failed to find YANG spec of XML node: bogus with parent: rpc-reply in namespace: urn:n"] ∧
    (xml_bind_yang_rpc_reply example_err2cb none example_state_out [] example_reply_bogus
      "get-config" (some 0)).xerr =
      [netconf_operation_failed_xml "application"
        ("Internal error in backend reply: " ++
          "Failed to find YANG spec of XML node: bogus with parent: rpc-reply in namespace: urn:n")] :=
  ⟨(C21_reply_operation_failed example_err2cb none example_state_out [] example_reply_bogus
      "get-config" (some 0)).2.2.1 (by decide) 4 (by decide)
      (by
        intro xc hc
        have hx : xml_child_i_type example_reply_bogus 0 CX_ELMNT =
            some (xml_elmnt 82 none "bogus" []) := rfl
        rw [hx] at hc
        cases hc
        decide)
      (by decide),
    by decide, by decide⟩

/-! ## C22: the frame of a binding pass -/

theorem yang_keeps_refl (Y : List yang_stmt) : yang_keeps Y Y := fun _ h => h

theorem yang_keeps_trans {Y1 Y2 Y3 : List yang_stmt} (h12 : yang_keeps Y1 Y2)
    (h23 : yang_keeps Y2 Y3) : yang_keeps Y1 Y3 := fun y h => h23 y (h12 y h)

/-- `yang_anydata_add` keeps the keyword of every statement there is. -/
theorem yang_anydata_add_keyword (Y : List yang_stmt) (yp : Nat) (name : String) (y : Nat)
    (hy : y < Y.length) :
    yang_keyword_get (yang_anydata_add Y yp name).2 y = yang_keyword_get Y y := by
  unfold yang_anydata_add yang_keyword_get
  cases hp : Y[yp]? with
  | none =>
    simp only
    rw [List.getElem?_append_left hy]
  | some c =>
    simp only
    rw [List.getElem?_append_left (by simpa using hy)]
    by_cases he : yp = y
    · subst he
      simp [List.getElem?_set, hy, hp]
    · simp [List.getElem?_set, he]

theorem yang_anydata_add_keeps (Y : List yang_stmt) (yp : Nat) (name : String) :
    yang_keeps Y (yang_anydata_add Y yp name).2 := by
  intro y hk
  by_cases hy : y < Y.length
  · rw [yang_anydata_add_keyword Y yp name y hy]
    exact hk
  · have : yang_keyword_get Y y = Y_UNKNOWN := by
      unfold yang_keyword_get
      rw [List.getElem?_eq_none (by omega)]
    rw [this] at hk
    rcases hk with hk | hk <;> cases hk

theorem populate_shape_keeps {st : clixon_state} {xt : cxobj} {r : bind_result cxobj}
    (hs : populate_shape st xt r) : yang_keeps st.yang r.st.yang := by
  rcases hs with ⟨e, rfl⟩ | ⟨y, rfl⟩ | ⟨_, yp, rfl⟩ | rfl
  · exact yang_keeps_refl _
  · exact yang_keeps_refl _
  · exact yang_anydata_add_keeps _ _ _
  · exact yang_keeps_refl _

theorem xml_bound_cl_keeps {Y Y' : List yang_stmt} (hk : yang_keeps Y Y') {x x' : cxobj}
    (hs : x'.x_spec = x.x_spec) (hb : xml_bound_cl Y x = true) : xml_bound_cl Y' x' = true := by
  unfold xml_bound_cl xml_spec at hb ⊢
  rw [hs]
  cases hx : x.x_spec with
  | none => rw [hx] at hb; cases hb
  | some yt =>
    rw [hx] at hb
    simp only [decide_eq_true_eq] at hb ⊢
    exact hk yt hb

theorem xml_same_node_refl (x : cxobj) : xml_same_node x x := ⟨rfl, rfl, rfl, rfl, rfl, rfl⟩

theorem xml_same_node_trans {x y z : cxobj} (h1 : xml_same_node x y) (h2 : xml_same_node y z) :
    xml_same_node x z :=
  ⟨h2.1.trans h1.1, h2.2.1.trans h1.2.1, h2.2.2.1.trans h1.2.2.1,
    h2.2.2.2.1.trans h1.2.2.2.1, h2.2.2.2.2.1.trans h1.2.2.2.2.1,
    h2.2.2.2.2.2.trans h1.2.2.2.2.2⟩

theorem populate_shape_same_node {st : clixon_state} {xt : cxobj} {r : bind_result cxobj}
    (hs : populate_shape st xt r) : xml_same_node xt r.xt := by
  rcases hs with ⟨e, rfl⟩ | ⟨y, rfl⟩ | ⟨_, yp, rfl⟩ | rfl <;> exact ⟨rfl, rfl, rfl, rfl, rfl, rfl⟩

theorem strip_body_objects_same_node (Y : List yang_stmt) (x : cxobj) :
    xml_same_node x (strip_body_objects Y x) := by
  unfold strip_body_objects
  split
  · exact xml_same_node_refl x
  · split
    · exact ⟨rfl, rfl, rfl, rfl, rfl, rfl⟩
    · exact xml_same_node_refl x

/-- The purge of bodies does nothing on an object that is not bound to a list or a
container, and runs the loop on the children of one that is. -/
theorem strip_body_objects_bound_cases (Y : List yang_stmt) (x : cxobj) :
    strip_body_objects Y x = x ∨
      (xml_bound_cl Y x = true ∧
        strip_body_objects Y x = { x with x_childvec := strip_body_loop x.x_childvec }) := by
  unfold strip_body_objects xml_bound_cl
  cases hx : xml_spec x with
  | none => exact Or.inl rfl
  | some yt =>
    dsimp only
    by_cases hk : yang_keyword_get Y yt = Y_LIST ∨ yang_keyword_get Y yt = Y_CONTAINER
    · right
      rw [if_pos hk]
      exact ⟨by simpa using hk, rfl⟩
    · left
      rw [if_neg hk]

theorem xml_frame_list_refl (Y : List yang_stmt) (b : Bool) :
    ∀ cs : List cxobj, (∀ c ∈ cs, xml_frame Y c c) → xml_frame_list Y b cs cs
  | [], _ => xml_frame_list.nil b
  | c :: cs, hc => by
    have hrest := xml_frame_list_refl Y b cs (fun d hd => hc d (List.mem_cons_of_mem _ hd))
    by_cases hel : c.x_type = CX_ELMNT
    · exact xml_frame_list.elmnt b c c cs cs hel (hc c (List.mem_cons_self _ _)) hrest
    · exact xml_frame_list.keep b c cs cs hel hrest

/-- Every object is in the frame of itself. -/
theorem xml_frame_refl (Y : List yang_stmt) : ∀ x : cxobj, xml_frame Y x x := by
  intro x
  induction x using cxobj_induction with
  | step x ih =>
    exact xml_frame.node x x (xml_same_node_refl x) (xml_frame_list_refl Y _ _ ih)

/-- The loop of `strip_body_objects` stays in the frame of a child vector below a list or a
container. -/
theorem xml_frame_list_strip_self (Y : List yang_stmt) :
    ∀ cs : List cxobj, xml_frame_list Y true cs (strip_body_loop cs)
  | [] => xml_frame_list.nil true
  | c :: cs => by
    have hrest := xml_frame_list_strip_self Y cs
    unfold strip_body_loop
    by_cases hb : c.x_type = CX_BODY ∧ c.x_name = "body"
    · have hne : c.x_type ≠ CX_ELMNT := by rw [hb.1]; decide
      rw [if_pos hb]
      by_cases hk : xml_flag_bodykey c = true
      · rw [if_pos hk]
        exact xml_frame_list_refl Y true _ (fun d _ => xml_frame_refl Y d)
      · rw [if_neg hk]
        exact xml_frame_list.purge true c cs _ rfl hb.1 (by simpa [xml_flag_bodykey] using hk) hrest
    · rw [if_neg hb]
      by_cases hel : c.x_type = CX_ELMNT
      · exact xml_frame_list.elmnt true c c cs _ hel (xml_frame_refl Y c) hrest
      · exact xml_frame_list.keep true c cs _ hel hrest

theorem xml_bind_loop_keeps (f : clixon_state → Option cxobj → cxobj → bind_result cxobj) :
    ∀ (cs : List cxobj),
      (∀ c ∈ cs, ∀ s x0, yang_keeps s.yang (f s x0 c).st.yang) →
      ∀ st x0, yang_keeps st.yang (xml_bind_loop f st x0 cs).st.yang := by
  intro cs
  induction cs with
  | nil => intro _ st x0; exact yang_keeps_refl _
  | cons c cs ih =>
    intro hf st x0
    have ih' := ih (fun d hd => hf d (List.mem_cons_of_mem _ hd))
    have hc := hf c (List.mem_cons_self _ _)
    simp only [xml_bind_loop]
    split
    · exact ih' st x0
    · split
      · exact hc st x0
      · exact yang_keeps_trans (hc st x0) (ih' _ _)

/-- The loop over the children stays in the frame: every element is left in its frame by
the body of the loop, the other children are as they were; and so after the purge of
bodies, below a list or a container. -/
theorem xml_bind_loop_frame (f : clixon_state → Option cxobj → cxobj → bind_result cxobj)
    (hty : ∀ s x0 c, (f s x0 c).xt.x_type = c.x_type) (Yf : List yang_stmt) :
    ∀ (cs : List cxobj),
      (∀ c ∈ cs, ∀ s x0, yang_keeps s.yang (f s x0 c).st.yang) →
      (∀ c ∈ cs, ∀ s x0, yang_keeps (f s x0 c).st.yang Yf → xml_frame Yf c (f s x0 c).xt) →
      ∀ st x0, yang_keeps (xml_bind_loop f st x0 cs).st.yang Yf →
        (∀ b, xml_frame_list Yf b cs (xml_bind_loop f st x0 cs).xt) ∧
        xml_frame_list Yf true cs (strip_body_loop (xml_bind_loop f st x0 cs).xt) := by
  intro cs
  induction cs with
  | nil =>
    intro _ _ st x0 _
    exact ⟨fun b => xml_frame_list.nil b, xml_frame_list.nil true⟩
  | cons c cs ih =>
    intro hk hf st x0 hY
    have hk' : ∀ d ∈ cs, ∀ s x0, yang_keeps s.yang (f s x0 d).st.yang :=
      fun d hd => hk d (List.mem_cons_of_mem _ hd)
    have ih' := ih hk' (fun d hd => hf d (List.mem_cons_of_mem _ hd))
    have hc := hf c (List.mem_cons_self _ _)
    by_cases hel : xml_type c = CX_ELMNT
    · have hel' : c.x_type = CX_ELMNT := hel
      have helr : (f st x0 c).xt.x_type = CX_ELMNT := by rw [hty, hel']
      have hnb : ¬ ((f st x0 c).xt.x_type = CX_BODY ∧ (f st x0 c).xt.x_name = "body") := by
        rw [helr]
        simp
      by_cases hr : (f st x0 c).retval < 0 ∨ (f st x0 c).retval = 0
      · simp only [xml_bind_loop, hel, ne_eq, not_true_eq_false, ↓reduceIte, hr] at hY ⊢
        have hfc := hc st x0 hY
        refine ⟨fun b => xml_frame_list.elmnt b c _ cs cs hel' hfc
          (xml_frame_list_refl Yf b cs (fun d _ => xml_frame_refl Yf d)), ?_⟩
        rw [strip_body_loop, if_neg hnb]
        exact xml_frame_list.elmnt true c _ cs _ hel' hfc (xml_frame_list_strip_self Yf cs)
      · simp only [xml_bind_loop, hel, ne_eq, not_true_eq_false, ↓reduceIte, hr] at hY ⊢
        have hrest := ih' (f st x0 c).st (some (f st x0 c).xt) hY
        have hfc := hc st x0 (yang_keeps_trans (xml_bind_loop_keeps f cs hk' _ _) hY)
        refine ⟨fun b => xml_frame_list.elmnt b c _ cs _ hel' hfc (hrest.1 b), ?_⟩
        rw [strip_body_loop, if_neg hnb]
        exact xml_frame_list.elmnt true c _ cs _ hel' hfc hrest.2
    · have hel' : c.x_type ≠ CX_ELMNT := hel
      simp only [xml_bind_loop, hel, ne_eq, not_false_eq_true, ↓reduceIte] at hY ⊢
      have hrest := ih' st x0 hY
      refine ⟨fun b => xml_frame_list.keep b c cs _ hel' (hrest.1 b), ?_⟩
      rw [strip_body_loop]
      by_cases hb : c.x_type = CX_BODY ∧ c.x_name = "body"
      · rw [if_pos hb]
        by_cases hkey : xml_flag_bodykey c = true
        · rw [if_pos hkey]
          exact xml_frame_list.keep true c cs _ hel' (hrest.1 true)
        · rw [if_neg hkey]
          exact xml_frame_list.purge true c cs _ rfl hb.1
            (by simpa [xml_flag_bodykey] using hkey) hrest.2
      · rw [if_neg hb]
        exact xml_frame_list.keep true c cs _ hel' hrest.2

theorem xml_bind_yang0_opt_mount_keeps (h : Option clicon_handle) (hk : mount_keeps h)
    (st : clixon_state) (up : List cxobj) (xt : cxobj) (yspec : Option Nat) :
    yang_keeps st.yang (xml_bind_yang0_opt_mount h st up xt yspec).2.1.yang := by
  unfold xml_bind_yang0_opt_mount
  cases h with
  | none => exact yang_keeps_refl _
  | some hh =>
    have hp := hk hh rfl st up xt
    dsimp only
    repeat' split
    all_goals first | exact yang_keeps_refl _ | exact hp

/-- A pass of `xml_bind_yang0_opt` keeps the lists and containers of the schema. -/
theorem xml_bind_yang0_opt_keeps (h : Option clicon_handle) (hk : mount_keeps h) :
    ∀ (xt : cxobj) (st : clixon_state) (up : List cxobj) (yb : yang_bind) (yspec : Option Nat)
      (xsibling : Option cxobj),
      yang_keeps st.yang (xml_bind_yang0_opt h st up xt yb yspec xsibling).st.yang := by
  intro xt
  induction xt using cxobj_induction with
  | step xt ih =>
    intro st up yb yspec xsibling
    rw [xml_bind_yang0_opt_eq]
    cases hself : xml_bind_yang0_opt_self st up xt yb yspec xsibling with
    | none => exact yang_keeps_refl _
    | some r =>
      have hshape := xml_bind_yang0_opt_self_shape _ _ _ _ _ _ _ hself
      have hr := populate_shape_keeps hshape
      dsimp only
      split
      · exact hr
      · split
        · exact hr
        · split
          · exact hr
          · unfold xml_bind_yang0_opt_descend
            have hm := xml_bind_yang0_opt_mount_keeps h hk r.st up
              (strip_body_objects r.st.yang r.xt) yspec
            split
            · rename_i st1 tr heq
              rw [heq] at hm
              exact yang_keeps_trans hr hm
            · rename_i st1 tr heq
              rw [heq] at hm
              exact yang_keeps_trans hr hm
            · rename_i ybc yspec1 st1 tr heq
              rw [heq] at hm
              dsimp only
              rw [populate_shape_childvec hshape]
              exact yang_keeps_trans hr (yang_keeps_trans hm
                (xml_bind_loop_keeps _ xt.x_childvec (fun c hc s x0 => ih c hc _ _ _ _ _) _ _))

/-- The frame of an object after the self-binder, the purge of bodies and the binding of
its children: `X` is the object the self-binder left with the children `cs'` that the loop
left. -/
theorem xml_frame_strip (Yf Y : List yang_stmt) (x X : cxobj) (hn : xml_same_node x X)
    (hk : yang_keeps Y Yf)
    (h1 : ∀ b, xml_frame_list Yf b x.x_childvec X.x_childvec)
    (h2 : xml_frame_list Yf true x.x_childvec (strip_body_loop X.x_childvec)) :
    xml_frame Yf x (strip_body_objects Y X) := by
  rcases strip_body_objects_bound_cases Y X with he | ⟨hb, he⟩
  · rw [he]
    exact xml_frame.node x X hn (h1 _)
  · rw [he]
    have hb' : xml_bound_cl Yf { X with x_childvec := strip_body_loop X.x_childvec } = true :=
      xml_bound_cl_keeps hk rfl hb
    refine xml_frame.node x _ hn ?_
    rw [hb']
    exact h2

/-- The frame of `xml_bind_yang0_opt`: the result differs from `xt` in schema references
and in unmarked bodies purged below elements bound to a list or a container. -/
theorem xml_bind_yang0_opt_frame (h : Option clicon_handle) (hk : mount_keeps h)
    (Yf : List yang_stmt) :
    ∀ (xt : cxobj) (st : clixon_state) (up : List cxobj) (yb : yang_bind) (yspec : Option Nat)
      (xsibling : Option cxobj),
      yang_keeps (xml_bind_yang0_opt h st up xt yb yspec xsibling).st.yang Yf →
      xml_frame Yf xt (xml_bind_yang0_opt h st up xt yb yspec xsibling).xt := by
  intro xt
  induction xt using cxobj_induction with
  | step xt ih =>
    intro st up yb yspec xsibling
    rw [xml_bind_yang0_opt_eq]
    cases hself : xml_bind_yang0_opt_self st up xt yb yspec xsibling with
    | none => intro _; exact xml_frame_refl Yf xt
    | some r =>
      have hshape := xml_bind_yang0_opt_self_shape _ _ _ _ _ _ _ hself
      have hn := populate_shape_same_node hshape
      have hcv := populate_shape_childvec hshape
      have hrefl : ∀ b, xml_frame_list Yf b xt.x_childvec r.xt.x_childvec := by
        intro b
        rw [hcv]
        exact xml_frame_list_refl Yf b _ (fun d _ => xml_frame_refl Yf d)
      have hr : xml_frame Yf xt r.xt := xml_frame.node xt r.xt hn (hrefl _)
      dsimp only
      split
      · intro _; exact hr
      · split
        · intro _; exact hr
        · split
          · intro _; exact hr
          · unfold xml_bind_yang0_opt_descend
            have hm := xml_bind_yang0_opt_mount_keeps h hk r.st up
              (strip_body_objects r.st.yang r.xt) yspec
            have hself2 : xml_frame_list Yf true xt.x_childvec
                (strip_body_loop r.xt.x_childvec) := by
              rw [hcv]
              exact xml_frame_list_strip_self Yf _
            split
            · rename_i st1 tr heq
              rw [heq] at hm
              intro hY
              exact xml_frame_strip Yf r.st.yang xt r.xt hn (yang_keeps_trans hm hY)
                hrefl hself2
            · rename_i st1 tr heq
              rw [heq] at hm
              intro hY
              exact xml_frame_strip Yf r.st.yang xt r.xt hn (yang_keeps_trans hm hY)
                hrefl hself2
            · rename_i ybc yspec1 st1 tr heq
              rw [heq] at hm
              dsimp only
              rw [hcv]
              intro hY
              have hl := xml_bind_loop_frame (fun s x0 xc => xml_bind_yang0_opt h s
                (xml_up (strip_body_objects r.st.yang r.xt) :: up) xc ybc yspec1
                (xml_bind_yang0_opt_sibling x0 xsibling xc))
                (fun s x0 c => (xml_bind_yang0_opt_head h s _ c _ _ _).2.1) Yf xt.x_childvec
                (fun c hc s x0 => xml_bind_yang0_opt_keeps h hk c _ _ _ _ _)
                (fun c hc s x0 => ih c hc _ _ _ _ _) st1 none hY
              have hkY : yang_keeps r.st.yang Yf :=
                yang_keeps_trans hm (yang_keeps_trans
                  (xml_bind_loop_keeps _ xt.x_childvec
                    (fun c hc s x0 => xml_bind_yang0_opt_keeps h hk c _ _ _ _ _) _ _) hY)
              exact xml_frame_strip Yf r.st.yang xt _ hn hkY hl.1 hl.2

/-- The frame of an object whose bodies are purged first and whose children are bound
then, as in `xml_bind_yang0` and `xml_bind_yang`. -/
theorem xml_frame_strip_loop (Yf Y : List yang_stmt)
    (f : clixon_state → Option cxobj → cxobj → bind_result cxobj)
    (hty : ∀ s x0 c, (f s x0 c).xt.x_type = c.x_type) (x X : cxobj)
    (hn : xml_same_node x X) (hcv : X.x_childvec = x.x_childvec)
    (hkf : ∀ c ∈ x.x_childvec, ∀ s x0, yang_keeps s.yang (f s x0 c).st.yang)
    (hff : ∀ c ∈ x.x_childvec, ∀ s x0, yang_keeps (f s x0 c).st.yang Yf →
      xml_frame Yf c (f s x0 c).xt)
    (hkY : yang_keeps Y Yf) (st : clixon_state) (x0 : Option cxobj)
    (hY : yang_keeps (xml_bind_loop f st x0 (strip_body_objects Y X).x_childvec).st.yang Yf) :
    xml_frame Yf x { strip_body_objects Y X with
      x_childvec := (xml_bind_loop f st x0 (strip_body_objects Y X).x_childvec).xt } := by
  rcases strip_body_objects_bound_cases Y X with he | ⟨hb, he⟩
  · rw [he] at hY ⊢
    rw [hcv] at hY ⊢
    have hl := xml_bind_loop_frame f hty Yf x.x_childvec hkf hff st x0 hY
    exact xml_frame.node x _ hn (hl.1 _)
  · rw [he] at hY ⊢
    dsimp only at hY ⊢
    rw [hcv, xml_bind_loop_strip f hty] at hY ⊢
    dsimp only at hY ⊢
    have hl := xml_bind_loop_frame f hty Yf x.x_childvec hkf hff st x0 hY
    have hb' : xml_bound_cl Yf { X with
        x_childvec := strip_body_loop (xml_bind_loop f st x0 x.x_childvec).xt } = true :=
      xml_bound_cl_keeps hkY rfl hb
    refine xml_frame.node x _ hn ?_
    rw [hb']
    exact hl.2

theorem xml_bind_yang0_self_keeps {st : clixon_state} {up : List cxobj} {xt : cxobj}
    {yb : yang_bind} {yspec : Option Nat} {r : bind_result cxobj}
    (hself : xml_bind_yang0_self st up xt yb yspec = some r) :
    yang_keeps st.yang r.st.yang ∧ xml_same_node xt r.xt ∧ r.xt.x_childvec = xt.x_childvec := by
  rcases xml_bind_yang0_self_shape _ _ _ _ _ _ hself with hs | rfl
  · exact ⟨populate_shape_keeps hs, populate_shape_same_node hs, populate_shape_childvec hs⟩
  · exact ⟨yang_keeps_refl _, xml_same_node_refl _, rfl⟩

/-- A pass of `xml_bind_yang0` keeps the lists and containers of the schema. -/
theorem xml_bind_yang0_keeps (h : Option clicon_handle) (hk : mount_keeps h)
    (st : clixon_state) (up : List cxobj) (xt : cxobj) (yb : yang_bind) (yspec : Option Nat) :
    yang_keeps st.yang (xml_bind_yang0 h st up xt yb yspec).st.yang := by
  rw [xml_bind_yang0_eq_descend]
  cases hself : xml_bind_yang0_self st up xt yb yspec with
  | none => exact yang_keeps_refl _
  | some r =>
    have hr := (xml_bind_yang0_self_keeps hself).1
    dsimp only
    split
    · exact hr
    · split
      · exact hr
      · split
        · exact hr
        · unfold xml_bind_yang0_descend
          exact yang_keeps_trans hr (xml_bind_loop_keeps _ _
            (fun c hc s x0 => xml_bind_yang0_opt_keeps h hk c _ _ _ _ _) _ _)

/-- The frame of `xml_bind_yang0`. -/
theorem xml_bind_yang0_frame (h : Option clicon_handle) (hk : mount_keeps h)
    (Yf : List yang_stmt) (st : clixon_state) (up : List cxobj) (xt : cxobj) (yb : yang_bind)
    (yspec : Option Nat)
    (hY : yang_keeps (xml_bind_yang0 h st up xt yb yspec).st.yang Yf) :
    xml_frame Yf xt (xml_bind_yang0 h st up xt yb yspec).xt := by
  rw [xml_bind_yang0_eq_descend] at hY ⊢
  cases hself : xml_bind_yang0_self st up xt yb yspec with
  | none => exact xml_frame_refl Yf xt
  | some r =>
    rw [hself] at hY
    obtain ⟨hkr, hn, hcv⟩ := xml_bind_yang0_self_keeps hself
    have hr : xml_frame Yf xt r.xt := by
      refine xml_frame.node xt r.xt hn ?_
      rw [hcv]
      exact xml_frame_list_refl Yf _ _ (fun d _ => xml_frame_refl Yf d)
    dsimp only at hY ⊢
    split
    · exact hr
    · split
      · exact hr
      · split
        · exact hr
        · rename_i h1 h2 h3
          rw [if_neg h1, if_neg h2, if_neg h3] at hY
          unfold xml_bind_yang0_descend at hY ⊢
          dsimp only at hY ⊢
          have hkY : yang_keeps r.st.yang Yf :=
            yang_keeps_trans (xml_bind_loop_keeps _ _
              (fun c hc s x0 => xml_bind_yang0_opt_keeps h hk c _ _ _ _ _) _ _) hY
          exact xml_frame_strip_loop Yf r.st.yang _
            (fun s x0 c => (xml_bind_yang0_opt_head h s _ c _ _ _).2.1) xt r.xt hn hcv
            (fun c hc s x0 => xml_bind_yang0_opt_keeps h hk c _ _ _ _ _)
            (fun c hc s x0 => xml_bind_yang0_opt_frame h hk Yf c _ _ _ _ _) hkY r.st none hY

/-- A pass of `xml_bind_yang` keeps the lists and containers of the schema. -/
theorem xml_bind_yang_keeps (h : Option clicon_handle) (hk : mount_keeps h)
    (st : clixon_state) (up : List cxobj) (xt : cxobj) (yb : yang_bind) (yspec : Option Nat) :
    yang_keeps st.yang (xml_bind_yang h st up xt yb yspec).st.yang := by
  unfold xml_bind_yang
  exact xml_bind_loop_keeps _ _ (fun c hc s x0 => xml_bind_yang0_keeps h hk _ _ c _ _) _ _

/-- The frame of `xml_bind_yang`. -/
theorem xml_bind_yang_frame (h : Option clicon_handle) (hk : mount_keeps h)
    (Yf : List yang_stmt) (st : clixon_state) (up : List cxobj) (xt : cxobj) (yb : yang_bind)
    (yspec : Option Nat)
    (hY : yang_keeps (xml_bind_yang h st up xt yb yspec).st.yang Yf) :
    xml_frame Yf xt (xml_bind_yang h st up xt yb yspec).xt := by
  unfold xml_bind_yang at hY ⊢
  dsimp only at hY ⊢
  have hkY : yang_keeps st.yang Yf :=
    yang_keeps_trans (xml_bind_loop_keeps _ _
      (fun c hc s x0 => xml_bind_yang0_keeps h hk _ _ c _ _) _ _) hY
  exact xml_frame_strip_loop Yf st.yang _
    (fun s x0 c => xml_bind_yang0_type h s _ c _ _) xt xt (xml_same_node_refl xt) rfl
    (fun c hc s x0 => xml_bind_yang0_keeps h hk _ _ c _ _)
    (fun c hc s x0 => xml_bind_yang0_frame h hk Yf _ _ c _ _) hkY st none hY

/-- What the frame says of a child vector: the elements and attributes are the same, under
the same names and in the same order; the attributes are untouched; the bodies left are
bodies that were there; and when nothing may be purged every child that is not an element
is untouched. -/
theorem xml_frame_list_children (Y : List yang_stmt) (b : Bool) :
    ∀ (cs cs' : List cxobj), xml_frame_list Y b cs cs' →
      (cs'.filter (fun c => !decide (c.x_type = CX_BODY))).map xml_ident =
        (cs.filter (fun c => !decide (c.x_type = CX_BODY))).map xml_ident ∧
      cs'.filter (fun c => decide (c.x_type = CX_ATTR)) =
        cs.filter (fun c => decide (c.x_type = CX_ATTR)) ∧
      List.Sublist (cs'.filter (fun c => decide (c.x_type = CX_BODY)))
        (cs.filter (fun c => decide (c.x_type = CX_BODY))) ∧
      (b = false → cs'.filter (fun c => !decide (c.x_type = CX_ELMNT)) =
        cs.filter (fun c => !decide (c.x_type = CX_ELMNT))) := by
  intro cs
  induction cs with
  | nil =>
    intro cs' hf
    cases hf
    exact ⟨rfl, rfl, List.Sublist.refl _, fun _ => rfl⟩
  | cons c cs ih =>
    intro cs' hf
    cases hf with
    | purge _ _ _ _ hb hty hkey hrest =>
      obtain ⟨h1, h2, h3, h4⟩ := ih _ hrest
      refine ⟨?_, ?_, ?_, ?_⟩
      · simp [List.filter_cons, hty, h1]
      · simp [List.filter_cons, hty, h2]
      · simp only [List.filter_cons, hty, decide_True, ↓reduceIte]
        exact h3.trans (List.sublist_cons_self _ _)
      · intro hb'
        rw [hb'] at hb
        cases hb
    | keep _ _ _ cs'' hne hrest =>
      obtain ⟨h1, h2, h3, h4⟩ := ih _ hrest
      refine ⟨?_, ?_, ?_, ?_⟩
      · by_cases hty : c.x_type = CX_BODY <;> simp [List.filter_cons, hty, h1]
      · by_cases hty : c.x_type = CX_ATTR <;> simp [List.filter_cons, hty, h2]
      · by_cases hty : c.x_type = CX_BODY
        · simp only [List.filter_cons, hty, decide_True, ↓reduceIte]
          exact h3.cons₂ _
        · simp only [List.filter_cons, hty, decide_False, Bool.false_eq_true, ↓reduceIte]
          exact h3
      · intro hb'
        simp [List.filter_cons, hne, h4 hb']
    | elmnt _ _ c' _ cs'' hel hfr hrest =>
      obtain ⟨h1, h2, h3, h4⟩ := ih _ hrest
      cases hfr with
      | node _ _ hn hch =>
        have hel' : c'.x_type = CX_ELMNT := hn.2.1.trans hel
        refine ⟨?_, ?_, ?_, ?_⟩
        · simp [List.filter_cons, hel, hel', h1, xml_ident, hn.1, hn.2.2.1, hn.2.2.2.1]
        · simp [List.filter_cons, hel, hel', h2]
        · simp only [List.filter_cons, hel, hel']
          exact h3
        · intro hb'
          simp [List.filter_cons, hel, hel', h4 hb']

/-- What the frame says of an object: it is the same node, with the children as the frame
of its child vector allows, every element child again in its frame. -/
theorem xml_frame_children (Y : List yang_stmt) (x x' : cxobj) (hf : xml_frame Y x x') :
    xml_same_node x x' ∧
    (x'.x_childvec.filter (fun c => !decide (c.x_type = CX_BODY))).map xml_ident =
      (x.x_childvec.filter (fun c => !decide (c.x_type = CX_BODY))).map xml_ident ∧
    x'.x_childvec.filter (fun c => decide (c.x_type = CX_ATTR)) =
      x.x_childvec.filter (fun c => decide (c.x_type = CX_ATTR)) ∧
    List.Sublist (x'.x_childvec.filter (fun c => decide (c.x_type = CX_BODY)))
      (x.x_childvec.filter (fun c => decide (c.x_type = CX_BODY))) ∧
    (xml_bound_cl Y x' = false →
      x'.x_childvec.filter (fun c => !decide (c.x_type = CX_ELMNT)) =
        x.x_childvec.filter (fun c => !decide (c.x_type = CX_ELMNT))) := by
  cases hf with
  | node _ _ hn hch =>
    exact ⟨hn, xml_frame_list_children Y _ _ _ hch⟩

/-- C22: the frame of a binding pass. When the loads of mount modules keep the lists and
containers of the schema, the object that `xml_bind_yang0` returns, and the object that
`xml_bind_yang` returns, is in the frame of `xt`, with the statements of the state after
the pass: at every level the nodes have the address, type, name, prefix, value and
key-body mark they had; the child vectors hold the same elements and attributes in the
same order, the attributes and the bodies kept being untouched; and children are gone only
where an unmarked body stood directly under an element that is bound to a list or a
container after the pass. -/
theorem C22_frame (h : Option clicon_handle) (st : clixon_state) (up : List cxobj)
    (xt : cxobj) (yb : yang_bind) (yspec : Option Nat) (hk : mount_keeps h) :
    xml_frame (xml_bind_yang0 h st up xt yb yspec).st.yang xt
      (xml_bind_yang0 h st up xt yb yspec).xt ∧
    xml_frame (xml_bind_yang h st up xt yb yspec).st.yang xt
      (xml_bind_yang h st up xt yb yspec).xt :=
  ⟨xml_bind_yang0_frame h hk _ st up xt yb yspec (yang_keeps_refl _),
    xml_bind_yang_frame h hk _ st up xt yb yspec (yang_keeps_refl _)⟩

/-- C22 at `<c xmlns="urn:n">x<p><l>y<k>v</k></l></p></c>` bound against
`container c { container p { list l { leaf k; } } }`: the pass returns `1`; the text `x`
under the container (address `152`) and `y` under the list entry (address `155`) are gone,
the text `v` of the leaf (address `157`) and everything else is there. -/
theorem C22_frame_witness :
    (xml_frame (xml_bind_yang0 none example_state_list [] example_c_text YB_MODULE
        (some 0)).st.yang example_c_text
      (xml_bind_yang0 none example_state_list [] example_c_text YB_MODULE (some 0)).xt ∧
     xml_frame (xml_bind_yang none example_state_list [] example_c_text YB_MODULE
        (some 0)).st.yang example_c_text
      (xml_bind_yang none example_state_list [] example_c_text YB_MODULE (some 0)).xt) ∧
    (xml_bind_yang0 none example_state_list [] example_c_text YB_MODULE (some 0)).retval = 1 ∧
    xml_addrs example_c_text = [150, 151, 152, 153, 154, 155, 156, 157] ∧
    xml_addrs (xml_bind_yang0 none example_state_list [] example_c_text YB_MODULE
      (some 0)).xt = [150, 151, 153, 154, 156, 157] :=
  ⟨C22_frame none example_state_list [] example_c_text YB_MODULE (some 0)
      (fun _ hh => nomatch hh),
    by decide, by decide, by decide⟩

/-! ## C23: the schema-mount switch -/

theorem populate_shape_count_mount {st : clixon_state} {xt : cxobj} {r : bind_result cxobj}
    (hs : populate_shape st xt r) (a : Nat) :
    List.count (bind_event.parse_mount a) r.trace = 0 ∧
      List.count (bind_event.mount_get a) r.trace = 0 := by
  rcases hs with ⟨e, rfl⟩ | ⟨y, rfl⟩ | ⟨_, yp, rfl⟩ | rfl <;>
    simp [populate_fail, populate_set, populate_anydata, List.count_cons]

/-- The trace of the schema-mount switch: no call, one lookup, a lookup and a load, or a
lookup, a load and a second lookup. -/
theorem xml_bind_yang0_opt_mount_trace (h : Option clicon_handle) (st : clixon_state)
    (up : List cxobj) (xt : cxobj) (yspec : Option Nat) :
    (xml_bind_yang0_opt_mount h st up xt yspec).2.2 = [] ∨
    (xml_bind_yang0_opt_mount h st up xt yspec).2.2 = [bind_event.mount_get xt.addr] ∨
    (xml_bind_yang0_opt_mount h st up xt yspec).2.2 =
      [bind_event.mount_get xt.addr, bind_event.parse_mount xt.addr] ∨
    (xml_bind_yang0_opt_mount h st up xt yspec).2.2 =
      [bind_event.mount_get xt.addr, bind_event.parse_mount xt.addr,
        bind_event.mount_get xt.addr] := by
  unfold xml_bind_yang0_opt_mount
  repeat' split
  all_goals simp

theorem xml_bind_yang0_opt_mount_count (h : Option clicon_handle) (st : clixon_state)
    (up : List cxobj) (xt : cxobj) (yspec : Option Nat) (a : Nat) :
    List.count (bind_event.parse_mount a) (xml_bind_yang0_opt_mount h st up xt yspec).2.2 ≤
        List.count a [xt.addr] ∧
      List.count (bind_event.mount_get a) (xml_bind_yang0_opt_mount h st up xt yspec).2.2 ≤
        2 * List.count a [xt.addr] := by
  rcases xml_bind_yang0_opt_mount_trace h st up xt yspec with ht | ht | ht | ht <;>
    rw [ht] <;> by_cases ha : xt.addr = a <;> simp [List.count_cons, ha]

theorem xml_bind_loop_count (f : clixon_state → Option cxobj → cxobj → bind_result cxobj)
    (e : bind_event) (a k : Nat) :
    ∀ (cs : List cxobj),
      (∀ c ∈ cs, ∀ s x0, List.count e (f s x0 c).trace ≤ k * List.count a (xml_addrs c)) →
      ∀ st x0, List.count e (xml_bind_loop f st x0 cs).trace ≤
        k * List.count a (xml_addrs_list cs) := by
  intro cs
  induction cs with
  | nil => intro _ st x0; simp [xml_bind_loop]
  | cons c cs ih =>
    intro hf st x0
    have ih' := ih (fun d hd => hf d (List.mem_cons_of_mem _ hd))
    have hc := hf c (List.mem_cons_self _ _)
    simp only [xml_bind_loop, xml_addrs_list, List.count_append, Nat.mul_add]
    split
    · exact (ih' st x0).trans (Nat.le_add_left _ _)
    · split
      · exact (hc st x0).trans (Nat.le_add_right _ _)
      · simp only [List.count_append]
        exact Nat.add_le_add (hc st x0) (ih' _ _)

/-- In one pass of `xml_bind_yang0_opt` the load is triggered at most once and the lookup
at most twice for an object of the tree. -/
theorem xml_bind_yang0_opt_count (h : Option clicon_handle) (a : Nat) :
    ∀ (xt : cxobj) (st : clixon_state) (up : List cxobj) (yb : yang_bind) (yspec : Option Nat)
      (xsibling : Option cxobj),
      List.count (bind_event.parse_mount a)
          (xml_bind_yang0_opt h st up xt yb yspec xsibling).trace ≤
          1 * List.count a (xml_addrs xt) ∧
        List.count (bind_event.mount_get a)
          (xml_bind_yang0_opt h st up xt yb yspec xsibling).trace ≤
          2 * List.count a (xml_addrs xt) := by
  intro xt
  induction xt using cxobj_induction with
  | step xt ih =>
    intro st up yb yspec xsibling
    rw [xml_bind_yang0_opt_eq, xml_addrs_eq]
    cases hself : xml_bind_yang0_opt_self st up xt yb yspec xsibling with
    | none => simp
    | some r =>
      have hshape := xml_bind_yang0_opt_self_shape _ _ _ _ _ _ _ hself
      have hr := populate_shape_count_mount hshape a
      have hr' : List.count (bind_event.parse_mount a) r.trace ≤
            1 * List.count a (xt.addr :: xml_addrs_list xt.x_childvec) ∧
          List.count (bind_event.mount_get a) r.trace ≤
            2 * List.count a (xt.addr :: xml_addrs_list xt.x_childvec) := by
        rw [hr.1, hr.2]
        exact ⟨Nat.zero_le _, Nat.zero_le _⟩
      dsimp only
      split
      · exact hr'
      · split
        · exact hr'
        · split
          · exact hr'
          · unfold xml_bind_yang0_opt_descend
            have hm := xml_bind_yang0_opt_mount_count h r.st up
              (strip_body_objects r.st.yang r.xt) yspec a
            rw [strip_body_objects_addr, (populate_shape_type hshape).1] at hm
            have hcons : List.count a (xt.addr :: xml_addrs_list xt.x_childvec) =
                List.count a [xt.addr] + List.count a (xml_addrs_list xt.x_childvec) := by
              rw [← List.count_append]
              rfl
            rw [hcons]
            split
            · rename_i st1 tr heq
              rw [heq] at hm
              dsimp only at hm
              simp only [List.count_append, hr.1, hr.2, Nat.zero_add]
              exact ⟨by omega, by omega⟩
            · rename_i st1 tr heq
              rw [heq] at hm
              dsimp only at hm
              simp only [List.count_append, hr.1, hr.2, Nat.zero_add]
              exact ⟨by omega, by omega⟩
            · rename_i ybc yspec1 st1 tr heq
              rw [heq] at hm
              dsimp only at hm
              simp only [List.count_append, hr.1, hr.2, Nat.zero_add]
              rw [populate_shape_childvec hshape]
              have hl1 := xml_bind_loop_count (fun s x0 xc => xml_bind_yang0_opt h s
                (xml_up (strip_body_objects r.st.yang r.xt) :: up) xc ybc yspec1
                (xml_bind_yang0_opt_sibling x0 xsibling xc)) (bind_event.parse_mount a) a 1
                xt.x_childvec (fun c hc s x0 => (ih c hc _ _ _ _ _).1) st1 none
              have hl2 := xml_bind_loop_count (fun s x0 xc => xml_bind_yang0_opt h s
                (xml_up (strip_body_objects r.st.yang r.xt) :: up) xc ybc yspec1
                (xml_bind_yang0_opt_sibling x0 xsibling xc)) (bind_event.mount_get a) a 2
                xt.x_childvec (fun c hc s x0 => (ih c hc _ _ _ _ _).2) st1 none
              exact ⟨by omega, by omega⟩

/-- C24: `xml_bind_yang0_opt` with schema mount enabled. (1) In the whole pass over `xt`
the load `yang_schema_yanglib_parse_mount` is triggered at most once and the lookup
`xml_yang_mount_get` at most twice for every object of the tree (as often as its address
occurs in the tree, resp. twice that). (2) On an element for which the self-binder returned
`1`, the calls of the mount switch are, in this order, a lookup, or a lookup and a load, or
a lookup, a load and a second lookup; the load is triggered exactly when the first lookup
reports a mount point (a positive value) without a mounted spec. (3) If the load then
reports nothing to load (`0`), or the second lookup resolves no spec either, the result is
`1`, the object is the one left by the self-binder and `strip_body_objects`, with its
children as they were, and the trace ends with the calls of the mount switch: no child is
visited. -/
theorem C24_bounded_mount_retry (hh : clicon_handle) (st : clixon_state) (up : List cxobj)
    (xt : cxobj) (yb : yang_bind) (yspec : Option Nat) (xsibling : Option cxobj)
    (hflag : hh.CLICON_YANG_SCHEMA_MOUNT = true) :
    (∀ a, List.count (bind_event.parse_mount a)
          (xml_bind_yang0_opt (some hh) st up xt yb yspec xsibling).trace ≤
          List.count a (xml_addrs xt) ∧
        List.count (bind_event.mount_get a)
          (xml_bind_yang0_opt (some hh) st up xt yb yspec xsibling).trace ≤
          2 * List.count a (xml_addrs xt)) ∧
    (∀ r, xml_bind_yang0_opt_self st up xt yb yspec xsibling = some r → r.retval = 1 →
      ((xml_bind_yang0_opt_mount (some hh) r.st up (strip_body_objects r.st.yang r.xt)
            yspec).2.2 = [bind_event.mount_get xt.addr] ∨
        (xml_bind_yang0_opt_mount (some hh) r.st up (strip_body_objects r.st.yang r.xt)
            yspec).2.2 = [bind_event.mount_get xt.addr, bind_event.parse_mount xt.addr] ∨
        (xml_bind_yang0_opt_mount (some hh) r.st up (strip_body_objects r.st.yang r.xt)
            yspec).2.2 = [bind_event.mount_get xt.addr, bind_event.parse_mount xt.addr,
              bind_event.mount_get xt.addr]) ∧
      (bind_event.parse_mount xt.addr ∈
          (xml_bind_yang0_opt_mount (some hh) r.st up (strip_body_objects r.st.yang r.xt)
            yspec).2.2 ↔
        (0 < (hh.xml_yang_mount_get r.st up (strip_body_objects r.st.yang r.xt)).1 ∧
          (hh.xml_yang_mount_get r.st up (strip_body_objects r.st.yang r.xt)).2 = none)) ∧
      (0 < (hh.xml_yang_mount_get r.st up (strip_body_objects r.st.yang r.xt)).1 →
        (hh.xml_yang_mount_get r.st up (strip_body_objects r.st.yang r.xt)).2 = none →
        (hh.yang_schema_yanglib_parse_mount r.st up (strip_body_objects r.st.yang r.xt)).1 = 0 →
        xml_bind_yang0_opt (some hh) st up xt yb yspec xsibling =
          { retval := 1, xt := strip_body_objects r.st.yang r.xt,
            st := (hh.yang_schema_yanglib_parse_mount r.st up
              (strip_body_objects r.st.yang r.xt)).2,
            xerr := r.xerr,
            trace := r.trace ++
              [bind_event.mount_get xt.addr, bind_event.parse_mount xt.addr] }) ∧
      (0 < (hh.xml_yang_mount_get r.st up (strip_body_objects r.st.yang r.xt)).1 →
        (hh.xml_yang_mount_get r.st up (strip_body_objects r.st.yang r.xt)).2 = none →
        0 < (hh.yang_schema_yanglib_parse_mount r.st up
          (strip_body_objects r.st.yang r.xt)).1 →
        0 ≤ (hh.xml_yang_mount_get (hh.yang_schema_yanglib_parse_mount r.st up
          (strip_body_objects r.st.yang r.xt)).2 up (strip_body_objects r.st.yang r.xt)).1 →
        (hh.xml_yang_mount_get (hh.yang_schema_yanglib_parse_mount r.st up
          (strip_body_objects r.st.yang r.xt)).2 up (strip_body_objects r.st.yang r.xt)).2
          = none →
        xml_bind_yang0_opt (some hh) st up xt yb yspec xsibling =
          { retval := 1, xt := strip_body_objects r.st.yang r.xt,
            st := (hh.yang_schema_yanglib_parse_mount r.st up
              (strip_body_objects r.st.yang r.xt)).2,
            xerr := r.xerr,
            trace := r.trace ++
              [bind_event.mount_get xt.addr, bind_event.parse_mount xt.addr,
                bind_event.mount_get xt.addr] })) := by
  constructor
  · intro a
    have hc := xml_bind_yang0_opt_count (some hh) a xt st up yb yspec xsibling
    rw [Nat.one_mul] at hc
    exact hc
  · intro r hself hret
    have haddr : (strip_body_objects r.st.yang r.xt).addr = xt.addr := by
      rw [strip_body_objects_addr]
      exact (populate_shape_type (xml_bind_yang0_opt_self_shape _ _ _ _ _ _ _ hself)).1
    have hdesc : xml_bind_yang0_opt (some hh) st up xt yb yspec xsibling =
        xml_bind_yang0_opt_descend (some hh) up yspec xsibling r := by
      rw [xml_bind_yang0_opt_eq, hself]
      simp only [hret]
      rfl
    generalize hx1 : strip_body_objects r.st.yang r.xt = xt1 at haddr ⊢
    refine ⟨?_, ?_, ?_, ?_⟩
    · rw [← haddr]
      unfold xml_bind_yang0_opt_mount
      simp only [hflag, ↓reduceIte]
      repeat' split
      all_goals simp
    · rw [← haddr]
      unfold xml_bind_yang0_opt_mount
      simp only [hflag, ↓reduceIte]
      by_cases h1 : (hh.xml_yang_mount_get r.st up xt1).1 < 0
      · simp only [h1, ↓reduceIte]
        simp
        intro h2
        omega
      · by_cases h2 : (hh.xml_yang_mount_get r.st up xt1).1 = 0
        · simp [h1, h2]
        · have h3 : 0 < (hh.xml_yang_mount_get r.st up xt1).1 := by omega
          simp only [h1, h2, ↓reduceIte, h3, true_and]
          cases hy : (hh.xml_yang_mount_get r.st up xt1).2 with
          | some y1 => simp
          | none =>
            simp only
            repeat' split
            all_goals simp
    · intro h1 h2 h3
      have hm : xml_bind_yang0_opt_mount (some hh) r.st up xt1 yspec =
          (mount_next.ok, (hh.yang_schema_yanglib_parse_mount r.st up xt1).2,
            [bind_event.mount_get xt.addr, bind_event.parse_mount xt.addr]) := by
        unfold xml_bind_yang0_opt_mount
        simp only [hflag, ↓reduceIte, not_lt.2 (le_of_lt h1), ne_of_gt h1, h2, h3,
          lt_self_iff_false, haddr]
      rw [hdesc]
      unfold xml_bind_yang0_opt_descend
      rw [hx1, hm]
    · intro h1 h2 h3 h4 h5
      have hm : xml_bind_yang0_opt_mount (some hh) r.st up xt1 yspec =
          (mount_next.ok, (hh.yang_schema_yanglib_parse_mount r.st up xt1).2,
            [bind_event.mount_get xt.addr, bind_event.parse_mount xt.addr,
              bind_event.mount_get xt.addr]) := by
        unfold xml_bind_yang0_opt_mount
        simp only [hflag, ↓reduceIte, not_lt.2 (le_of_lt h1), ne_of_gt h1, h2,
          not_lt.2 (le_of_lt h3), ne_of_gt h3, not_lt.2 h4, h5, haddr]
      rw [hdesc]
      unfold xml_bind_yang0_opt_descend
      rw [hx1, hm]

/-- C24 at `<root xmlns="urn:n"><sys xmlns="urn:mm"/></root>` before the mounted modules are
loaded. With nothing to load, the pass makes one lookup and one load on `root`, returns `1`
and does not visit `sys`. With a load that brings no mounted spec there is one more
lookup, and `sys` is not visited either. With a load that brings the mounted spec the
second lookup resolves it and `sys` is bound against it. -/
theorem C24_bounded_mount_retry_witness :
    xml_bind_yang0_opt (some example_handle_nothing) example_state_outer [] example_root
        YB_MODULE (some 0) none =
      { retval := 1, xt := xml_spec_set example_root (some 3), st := example_state_outer,
        xerr := [],
        trace := [bind_event.populate 140 1, bind_event.spec_set 140 (some 3),
          bind_event.mount_get 140, bind_event.parse_mount 140] } ∧
    (xml_bind_yang0_opt (some example_handle_unresolved) example_state_outer [] example_root
        YB_MODULE (some 0) none).retval = 1 ∧
    (xml_bind_yang0_opt (some example_handle_unresolved) example_state_outer [] example_root
        YB_MODULE (some 0) none).trace =
      [bind_event.populate 140 1, bind_event.spec_set 140 (some 3),
        bind_event.mount_get 140, bind_event.parse_mount 140, bind_event.mount_get 140] ∧
    (xml_bind_yang0_opt (some example_handle_load) example_state_outer [] example_root
        YB_MODULE (some 0) none).retval = 1 ∧
    (xml_bind_yang0_opt (some example_handle_load) example_state_outer [] example_root
        YB_MODULE (some 0) none).trace =
      [bind_event.populate 140 1, bind_event.spec_set 140 (some 3),
        bind_event.mount_get 140, bind_event.parse_mount 140, bind_event.mount_get 140,
        bind_event.populate 142 1, bind_event.spec_set 142 (some 7),
        bind_event.mount_get 142] :=
  ⟨((C24_bounded_mount_retry example_handle_nothing example_state_outer [] example_root
        YB_MODULE (some 0) none rfl).2
      (populate_self_top example_state_outer [] example_root (some 0)) rfl (by decide)).2.2.1
      (by decide) (by decide) (by decide),
    by decide, by decide, by decide, by decide⟩

/-! ## C25: namespaces in module mode -/

/-- C25: `populate_self_top` with a spec `ysp`. (1) Without a namespace in scope for `xt`
no module is found; a namespace of no module finds none either. (2) When no module is
found the result is `0` with one error with tag unknown-element and the message "Failed to
find YANG spec of XML node ...", whatever the name of `xt` is: the name is not looked up.
(3) When a module is found, the name is looked up in it first: if it is not there (and the
anydata fallback is off) the result is `0` with unknown-element again; if it is there, the
result is that of the namespace check on the statement found, which gives bad-element
with "Missing namespace" or "Namespace mismatch". (4) Without spec the result is `0` with
bad-element and "Missing yang spec". -/
theorem C25_module_scope_namespace (st : clixon_state) (up : List cxobj) (xt : cxobj)
    (ysp : Nat) :
    (xml2ns up xt ( xml_prefix xt) = none → ys_module_by_xml st.yang (some ysp) up xt = none) ∧
    (∀ n, xml2ns up xt ( xml_prefix xt) = some n →
      yang_find_module_by_namespace st.yang ysp n = none →
      ys_module_by_xml st.yang (some ysp) up xt = none) ∧
    (ys_module_by_xml st.yang (some ysp) up xt = none →
      populate_self_top st up xt (some ysp) =
        populate_fail st xt
          (netconf_unknown_element_xml "application" (xml_name xt)
            (unknown_element_message (xml_name xt) (xml_parent up)
              (xml2ns up xt ( xml_prefix xt))))) ∧
    (∀ ymod, ys_module_by_xml st.yang (some ysp) up xt = some ymod →
      (yang_find_schemanode st.yang ymod (xml_name xt) = none →
        st._yang_unknown_anydata = 0 →
        populate_self_top st up xt (some ysp) =
          populate_fail st xt
            (netconf_unknown_element_xml "application" (xml_name xt)
              (unknown_element_message (xml_name xt) (xml_parent up)
                (xml2ns up xt ( xml_prefix xt))))) ∧
      (∀ y, yang_find_schemanode st.yang ymod (xml_name xt) = some y →
        populate_self_top st up xt (some ysp) =
          populate_check_ns st xt (xml2ns up xt ( xml_prefix xt)) y ∧
        (∀ n nsy, xml2ns up xt ( xml_prefix xt) = some n →
          yang_find_mynamespace st.yang y = some nsy → n ≠ nsy →
          populate_self_top st up xt (some ysp) =
            populate_fail st xt
              (netconf_bad_element_xml "application" (xml_name xt) "Namespace mismatch")))) ∧
    populate_self_top st up xt none =
      populate_fail st xt
        (netconf_bad_element_xml "application" (xml_name xt) "Missing yang spec") := by
  refine ⟨?_, ?_, ?_, ?_, rfl⟩
  · intro hn
    simp only [ys_module_by_xml, hn]
  · intro n hn hm
    simp only [ys_module_by_xml, hn, hm]
  · intro hm
    simp only [populate_self_top, hm]
  · intro ymod hm
    refine ⟨?_, ?_⟩
    · intro hy hoff
      simp only [populate_self_top, hm, hy, hoff, ne_eq, not_true_eq_false, ↓reduceIte]
    · intro y hy
      have he : populate_self_top st up xt (some ysp) =
          populate_check_ns st xt (xml2ns up xt ( xml_prefix xt)) y := by
        simp only [populate_self_top, hm, hy]
      refine ⟨he, ?_⟩
      intro n nsy hn hnsy hne
      rw [he, hn]
      simp only [populate_check_ns, hnsy, ne_eq, hne, not_false_eq_true, ↓reduceIte]

/-- C25 at `<c/>` with no namespace in scope, bound against `example_yang`: no module is
found, and the result is the unknown-element failure. -/
theorem C25_module_scope_namespace_witness :
    populate_self_top example_state [] example_c_nons (some 0) =
      populate_fail example_state example_c_nons
        (netconf_unknown_element_xml "application" "c"
          "Failed to find YANG spec of XML node: c") :=
  (C25_module_scope_namespace example_state [] example_c_nons 0).2.2.1
    ((C25_module_scope_namespace example_state [] example_c_nons 0).1 (by decide))

/-- C25 fails on the error tag. `<c/>` without namespace and `<c xmlns="urn:unknown"/>` in a
namespace of no module, both named like the top-level `container c` of module `m`, fail
in module mode with tag unknown-element, not bad-element; and `<foo xmlns="urn:n"/>` in
the namespace of module `m`, which has no `foo`, fails by the lookup of its name. -/
theorem C25_counterexample :
    (populate_self_top example_state [] example_c_nons (some 0)).retval = 0 ∧
    (populate_self_top example_state [] example_c_nons (some 0)).xerr =
      [netconf_unknown_element_xml "application" "c"
        "Failed to find YANG spec of XML node: c"] ∧
    (populate_self_top example_state [] example_c_unknown (some 0)).retval = 0 ∧
    (populate_self_top example_state [] example_c_unknown (some 0)).xerr =
      [netconf_unknown_element_xml "application" "c"
        "Failed to find YANG spec of XML node: c in namespace: urn:unknown"] ∧
    (populate_self_top example_state [] example_c_unknown (some 0)).xerr.map
      (fun e => e.error_tag) ≠ ["bad-element"] ∧
    (populate_self_top example_state [] example_foo_m (some 0)).xerr =
      [netconf_unknown_element_xml "application" "foo"
        "Failed to find YANG spec of XML node: foo in namespace: urn:n"] :=
  ⟨by decide, by decide, by decide, by decide, by decide, by decide⟩

/-! ## C26: the lookup of the derivation from the parent -/

/-- The statement found by `yang_find` with an argument has that argument. -/
theorem yang_find_argument (Y : List yang_stmt) (yn : Nat) (k : rfc_6020) (name : String)
    (y : Nat) (hf : yang_find Y yn k (some name) = some y) :
    yang_argument_get Y y = some name := by
  unfold yang_find at hf
  have h := List.find?_some hf
  simp only [Option.isNone_some, Bool.false_or, Bool.and_eq_true, decide_eq_true_eq] at h
  exact h.2

/-- The statement found by `yang_find_datanode` is a data node of that name. -/
theorem yang_find_datanode_argument (Y : List yang_stmt) (yn : Nat) (name : String) (y : Nat)
    (hf : yang_find_datanode Y yn name = some y) :
    yang_datanode (yang_keyword_get Y y) = true ∧ yang_argument_get Y y = some name := by
  unfold yang_find_datanode at hf
  have h := List.find?_some hf
  simp only [Bool.and_eq_true, decide_eq_true_eq] at h
  exact h

/-- The statement found by `yang_find_child` has the name looked for. -/
theorem yang_find_child_argument (Y : List yang_stmt) (yn : Nat) (name : String) (y : Nat)
    (hf : yang_find_child Y yn name = some y) : yang_argument_get Y y = some name := by
  unfold yang_find_child at hf
  cases ha : yang_find Y yn Y_ACTION (some name) with
  | some ya =>
    rw [ha] at hf
    cases hf
    exact yang_find_argument Y yn Y_ACTION name _ ha
  | none =>
    rw [ha] at hf
    exact (yang_find_datanode_argument Y yn name y hf).2

/-- C26: `populate_self_parent` without hint on `xt` whose parent is bound to `yparent`,
neither anyxml nor anydata. If `yparent` has an action statement `ya` named like `xt`, the
outcome is that of the namespace check on `ya`, whatever data nodes `yparent` has; if it
has none and has a data node `yd` of that name, the outcome is that of the namespace check
on `yd`. When the return value is `1`, the schema reference of `xt` is the statement that
this lookup gives: the action if there is one, else the data node; its name is the name
of `xt`. -/
theorem C26_lookup_precedence (st : clixon_state) (up : List cxobj) (xt xp : cxobj)
    (yparent : Nat) (yspec : Option Nat)
    (hp : xml_parent up = some xp) (hs : xml_spec xp = some yparent)
    (hk : ¬ (yang_keyword_get st.yang yparent = Y_ANYXML ∨
      yang_keyword_get st.yang yparent = Y_ANYDATA)) :
    (∀ ya, yang_find st.yang yparent Y_ACTION (some (xml_name xt)) = some ya →
      populate_self_parent st up xt none yspec =
        populate_check_ns st xt (xml2ns up xt ( xml_prefix xt)) ya) ∧
    (yang_find st.yang yparent Y_ACTION (some (xml_name xt)) = none →
      ∀ yd, yang_find_datanode st.yang yparent (xml_name xt) = some yd →
        populate_self_parent st up xt none yspec =
          populate_check_ns st xt (xml2ns up xt ( xml_prefix xt)) yd) ∧
    ((populate_self_parent st up xt none yspec).retval = 1 →
      ∃ y, xml_spec (populate_self_parent st up xt none yspec).xt = some y ∧
        yang_argument_get st.yang y = some (xml_name xt) ∧
        (yang_find st.yang yparent Y_ACTION (some (xml_name xt)) = some y ∨
          (yang_find st.yang yparent Y_ACTION (some (xml_name xt)) = none ∧
            yang_find_datanode st.yang yparent (xml_name xt) = some y))) := by
  have hsome : ∀ y, yang_find_child st.yang yparent (xml_name xt) = some y →
      populate_self_parent st up xt none yspec =
        populate_check_ns st xt (xml2ns up xt ( xml_prefix xt)) y := by
    intro y hy
    simp only [populate_self_parent, populate_self_parent_slow, hp, hs, if_neg hk, hy]
  have hnone : yang_find_child st.yang yparent (xml_name xt) = none →
      (populate_self_parent st up xt none yspec).retval ≠ 1 := by
    intro hy
    simp only [populate_self_parent, populate_self_parent_slow, hp, hs, if_neg hk, hy]
    by_cases hf : st._yang_unknown_anydata ≠ 0
    · simp [hf, populate_anydata]
    · simp [hf, populate_fail]
  refine ⟨?_, ?_, ?_⟩
  · intro ya ha
    exact hsome ya (by simp only [yang_find_child, ha])
  · intro ha yd hd
    exact hsome yd (by simp only [yang_find_child, ha, hd])
  · intro hret
    cases hc : yang_find_child st.yang yparent (xml_name xt) with
    | none => exact absurd hret (hnone hc)
    | some y =>
      rw [hsome y hc] at hret ⊢
      refine ⟨y, ?_, yang_find_child_argument _ _ _ _ hc, ?_⟩
      · exact populate_check_ns_spec st xt (xml2ns up xt ( xml_prefix xt)) y
          (by rw [hret]; decide)
      · unfold yang_find_child at hc
        cases ha : yang_find st.yang yparent Y_ACTION (some (xml_name xt)) with
        | some ya =>
          rw [ha] at hc
          cases hc
          exact Or.inl rfl
        | none =>
          rw [ha] at hc
          exact Or.inr ⟨rfl, hc⟩

/-- C26 at `<ping/>` and `<pong/>` below `<c xmlns="urn:n">` bound to
`container c { leaf ping; action ping; leaf pong; }`: `ping` gets the action (statement
`5`) although the leaf `ping` (statement `4`) comes first, `pong` gets the leaf `pong`. -/
theorem C26_lookup_precedence_witness :
    (populate_self_parent example_state_act example_up_c example_ping none (some 0) =
        populate_check_ns example_state_act example_ping
          (xml2ns example_up_c example_ping ( xml_prefix example_ping)) 5 ∧
      xml_spec (populate_self_parent example_state_act example_up_c example_ping none
        (some 0)).xt = some 5 ∧
      yang_find_datanode example_yang_act 3 "ping" = some 4) ∧
    populate_self_parent example_state_act example_up_c example_pong none (some 0) =
      populate_check_ns example_state_act example_pong
        (xml2ns example_up_c example_pong ( xml_prefix example_pong)) 6 :=
  ⟨⟨(C26_lookup_precedence example_state_act example_up_c example_ping
        (xml_spec_set (xml_elmnt 100 none "c" [xml_attr 101 none "xmlns" "urn:n"]) (some 3))
        3 (some 0) rfl rfl (by decide)).1 5 (by decide), by decide, by decide⟩,
   (C26_lookup_precedence example_state_act example_up_c example_pong
        (xml_spec_set (xml_elmnt 100 none "c" [xml_attr 101 none "xmlns" "urn:n"]) (some 3))
        3 (some 0) rfl rfl (by decide)).2.1 (by decide) 6 (by decide)⟩

/-! ## C27: the sibling handed to the binding of a child -/

/-- The object found by `xml_find_type` is a child of that type and name, and of that
prefix when one is given. -/
theorem xml_find_type_some (xt : cxobj) (pfx : Option String) (name : String)
    (type : cxobj_type) (c : cxobj) (hf : xml_find_type xt pfx name type = some c) :
    c ∈ xt.x_childvec ∧ c.x_type = type ∧ c.x_name = name ∧
      (∀ p, pfx = some p → c.x_pfx = some p) := by
  unfold xml_find_type at hf
  have h := List.find?_some hf
  have hm := List.mem_of_find?_eq_some hf
  simp only [Bool.and_eq_true, decide_eq_true_eq] at h
  refine ⟨hm, h.1.1, h.2, ?_⟩
  intro p hp
  have h2 := h.1.2
  rw [hp] at h2
  simpa using h2

/-- C27: the sibling handed to the binding of the element child `xc` in the loop of
`xml_bind_yang0_opt`, where `xc0` is the child bound in the previous iteration and
`xsibling` the sibling that the parent itself was bound with. (1) In the loop the child is
bound by `xml_bind_yang0_opt` with the sibling `xml_bind_yang0_opt_sibling xc0 xsibling xc`.
(2) When the previous child is bound and has the name and the prefix of `xc`, it is the
sibling. (3) Otherwise, for the first child and after a change of name or prefix as well,
the sibling is the first element child of `xsibling` named like `xc` (and with the prefix
of `xc` when `xc` has one), when there is one. (4) So when the parent was bound without
sibling, `xc` gets a sibling only by (2). (5) Every sibling has the name of `xc`, and the
prefix of `xc` when `xc` has a prefix. -/
theorem C27_sibling_hint (h : Option clicon_handle) (st : clixon_state) (up : List cxobj)
    (ybc : yang_bind) (yspec1 : Option Nat) (xc0 xsibling : Option cxobj) (xc : cxobj)
    (rest : List cxobj) :
    (xml_type xc = CX_ELMNT →
      (xml_bind_yang0_opt_children h st up (xc :: rest) ybc yspec1 xc0 xsibling).xt.head? =
        some (xml_bind_yang0_opt h st up xc ybc yspec1
          (xml_bind_yang0_opt_sibling xc0 xsibling xc)).xt) ∧
    (∀ x0, xc0 = some x0 → xml_spec x0 ≠ none → xml_name x0 = xml_name xc →
      xml_prefix x0 = xml_prefix xc → xml_bind_yang0_opt_sibling xc0 xsibling xc = some x0) ∧
    ((∀ x0, xc0 = some x0 →
        ¬ (xml_spec x0 ≠ none ∧ xml_name x0 = xml_name xc ∧ xml_prefix x0 = xml_prefix xc)) →
      xml_bind_yang0_opt_sibling xc0 xsibling xc =
        xsibling.bind (fun xs => xml_find_type xs ( xml_prefix xc) (xml_name xc) CX_ELMNT)) ∧
    (xsibling = none → ∀ xs, xml_bind_yang0_opt_sibling xc0 xsibling xc = some xs →
      xc0 = some xs ∧ xml_spec xs ≠ none ∧ xml_name xs = xml_name xc ∧
        xml_prefix xs = xml_prefix xc) ∧
    (∀ xs, xml_bind_yang0_opt_sibling xc0 xsibling xc = some xs →
      xml_name xs = xml_name xc ∧ ( xml_prefix xc ≠ none → xml_prefix xs = xml_prefix xc)) := by
  have hb : ∀ xs, xsibling.bind (fun xs => xml_find_type xs ( xml_prefix xc) (xml_name xc)
      CX_ELMNT) = some xs →
      xml_name xs = xml_name xc ∧ ( xml_prefix xc ≠ none → xml_prefix xs = xml_prefix xc) := by
    intro xs hxs
    cases xsibling with
    | none => cases hxs
    | some xp =>
      have hf := xml_find_type_some xp _ _ _ xs hxs
      refine ⟨hf.2.2.1, fun hne => ?_⟩
      cases hp : xml_prefix xc with
      | none => exact absurd hp hne
      | some p => rw [hp] at hf; exact hf.2.2.2 p rfl
  have hroute : (∀ x0, xc0 = some x0 →
        ¬ (xml_spec x0 ≠ none ∧ xml_name x0 = xml_name xc ∧ xml_prefix x0 = xml_prefix xc)) →
      xml_bind_yang0_opt_sibling xc0 xsibling xc =
        xsibling.bind (fun xs => xml_find_type xs ( xml_prefix xc) (xml_name xc) CX_ELMNT) := by
    intro hno
    unfold xml_bind_yang0_opt_sibling
    cases xc0 with
    | none => cases xsibling <;> rfl
    | some x0 =>
      dsimp only
      rw [if_neg (hno x0 rfl)]
      cases xsibling <;> rfl
  have hprev : ∀ x0, xc0 = some x0 → xml_spec x0 ≠ none → xml_name x0 = xml_name xc →
      xml_prefix x0 = xml_prefix xc → xml_bind_yang0_opt_sibling xc0 xsibling xc = some x0 := by
    intro x0 h0 h1 h2 h3
    subst h0
    unfold xml_bind_yang0_opt_sibling
    dsimp only
    rw [if_pos ⟨h1, h2, h3⟩]
  have hcases : ∀ xs, xml_bind_yang0_opt_sibling xc0 xsibling xc = some xs →
      (xc0 = some xs ∧ xml_spec xs ≠ none ∧ xml_name xs = xml_name xc ∧
        xml_prefix xs = xml_prefix xc) ∨
      xsibling.bind (fun xs => xml_find_type xs ( xml_prefix xc) (xml_name xc) CX_ELMNT)
        = some xs := by
    intro xs hxs
    by_cases hno : ∀ x0, xc0 = some x0 →
        ¬ (xml_spec x0 ≠ none ∧ xml_name x0 = xml_name xc ∧ xml_prefix x0 = xml_prefix xc)
    · right
      rw [← hroute hno]
      exact hxs
    · left
      push_neg at hno
      obtain ⟨x0, h0, h1, h2, h3⟩ := hno
      rw [hprev x0 h0 h1 h2 h3] at hxs
      cases hxs
      exact ⟨h0, h1, h2, h3⟩
  refine ⟨?_, hprev, hroute, ?_, ?_⟩
  · intro hel
    rw [xml_bind_yang0_opt_children]
    simp only [hel, ne_eq, not_true_eq_false, ↓reduceIte]
    split <;> rfl
  · intro hn xs hxs
    rcases hcases xs hxs with hc | hc
    · exact hc
    · rw [hn] at hc
      cases hc
  · intro xs hxs
    rcases hcases xs hxs with hc | hc
    · exact ⟨hc.2.2.1, fun _ => hc.2.2.2⟩
    · exact hb xs hc

/-- C27 at the second entry of `example_p` after the first: the previous child
`<a xmlns="urn:n"/>`, bound to `list a`, is the sibling of `<a/>`. -/
theorem C27_sibling_hint_witness :
    xml_bind_yang0_opt_sibling (some (xml_spec_set example_a1 (some 5))) none example_a2 =
      some (xml_spec_set example_a1 (some 5)) :=
  (C27_sibling_hint none example_state [] YB_PARENT (some 0)
    (some (xml_spec_set example_a1 (some 5))) none example_a2 []).2.1
    (xml_spec_set example_a1 (some 5)) rfl (by decide) (by decide) (by decide)

/-- C27 fails for the first child of an element that was itself bound with a sibling. In
`<c xmlns="urn:n" xmlns:n="urn:n"><p><n:l><n:k/></n:l><n:l xmlns="urn:other"><k/></n:l></p></c>`
the element `<k/>` is the first child of the second list entry; there is no previous
child, and it is bound with `<n:k/>` of the first entry as sibling, an element with
another prefix. The pass returns `1` and binds `<k/>`, whose namespace is `urn:other`, to
`leaf k` (statement `6`) of module `m` with namespace `urn:n`; bound with no sibling at
all, it fails with "Namespace mismatch". -/
theorem C27_counterexample :
    xml_bind_yang0_opt_sibling none (some example_nl1_bound) example_k_other
      = some (xml_spec_set example_nk (some 6)) ∧
    xml_prefix (xml_spec_set example_nk (some 6)) = some "n" ∧
    xml_prefix example_k_other = none ∧
    (xml_bind_yang0 none example_state_list [] example_c_pfx YB_MODULE (some 0)).retval = 1 ∧
    (xml_bind_yang0 none example_state_list [] example_c_pfx YB_MODULE (some 0)).trace =
      [bind_event.populate 110 1, bind_event.spec_set 110 (some 3),
       bind_event.populate 118 1, bind_event.spec_set 118 (some 4),
       bind_event.populate 112 1, bind_event.spec_set 112 (some 5),
       bind_event.populate 113 1, bind_event.spec_set 113 (some 6),
       bind_event.populate 114 1, bind_event.spec_set 114 (some 5),
       bind_event.populate 116 1, bind_event.spec_set 116 (some 6)] ∧
    populate_self_parent example_state_list
      [xml_up (xml_spec_set example_nl2 (some 5)), xml_up (xml_spec_set example_p_pfx (some 4)),
       xml_up (xml_spec_set example_c_pfx (some 3))]
      example_k_other none (some 0) =
      populate_fail example_state_list example_k_other
        (netconf_bad_element_xml "application" "k" "Namespace mismatch") :=
  ⟨rfl, by decide, by decide, by decide, by decide, rfl⟩

/-! ## C28: attributes disable the fast path -/

/-- C28: for an element `xt` with at least one attribute `populate_self_parent` with a
sibling hint `xs` is `populate_self_parent` without hint (same return value, object, error
and trace); for an element without attribute and with a hint the result is the `set` exit
with the schema reference of the hint: it returns `1`, the schema reference of `xt` is that
of the hint, and neither the parent chain nor the YANG store is read. -/
theorem C28_attributes_disable_fast_path (st : clixon_state) (up : List cxobj) (xt xs : cxobj)
    (yspec : Option Nat) :
    (xml_child_nr_type xt CX_ATTR ≠ 0 →
      populate_self_parent st up xt (some xs) yspec = populate_self_parent st up xt none yspec) ∧
    (xml_child_nr_type xt CX_ATTR = 0 →
      populate_self_parent st up xt (some xs) yspec = populate_set st xt (xml_spec xs) ∧
      (populate_self_parent st up xt (some xs) yspec).retval = 1 ∧
      xml_spec (populate_self_parent st up xt (some xs) yspec).xt = xml_spec xs ∧
      (populate_self_parent st up xt (some xs) yspec).xerr = []) := by
  constructor
  · intro ha
    simp only [populate_self_parent, if_neg ha]
  · intro ha
    have he : populate_self_parent st up xt (some xs) yspec = populate_set st xt (xml_spec xs) := by
      simp only [populate_self_parent, if_pos ha]
    rw [he]
    exact ⟨rfl, rfl, rfl, rfl⟩

/-- C28 at the list entries of `example_p` with a hint bound to `leaf running`: the entry
`<a xmlns="urn:n"/>` is looked up as without hint and bound to `list a` (statement `5`),
the entry `<a/>` takes statement `9` from the hint. -/
theorem C28_attributes_disable_fast_path_witness :
    (populate_self_parent example_state [xml_spec_set (xml_up example_p) (some 4)] example_a1
        (some example_hint) (some 0) =
      populate_self_parent example_state [xml_spec_set (xml_up example_p) (some 4)] example_a1
        none (some 0) ∧
     xml_spec (populate_self_parent example_state [xml_spec_set (xml_up example_p) (some 4)]
        example_a1 (some example_hint) (some 0)).xt = some 5) ∧
    xml_spec (populate_self_parent example_state [xml_spec_set (xml_up example_p) (some 4)]
        example_a2 (some example_hint) (some 0)).xt = some 9 :=
  ⟨⟨(C28_attributes_disable_fast_path example_state
        [xml_spec_set (xml_up example_p) (some 4)] example_a1 example_hint (some 0)).1
      (by decide), by decide⟩,
   ((C28_attributes_disable_fast_path example_state
        [xml_spec_set (xml_up example_p) (some 4)] example_a2 example_hint (some 0)).2
      (by decide)).2.2.1.trans (by decide)⟩

/-! ## C29: which bodies `strip_body_objects` purges -/

/-- The loop of `strip_body_objects` purges the bodies before the first marked body and
keeps everything from the first marked body on. -/
theorem strip_body_loop_eq (cs : List cxobj) :
    strip_body_loop cs =
      (cs.takeWhile (fun c => !(xml_is_body c && xml_flag_bodykey c))).filter
          (fun c => !(xml_is_body c)) ++
        cs.dropWhile (fun c => !(xml_is_body c && xml_flag_bodykey c)) := by
  induction cs with
  | nil => rfl
  | cons c cs ih =>
    by_cases hb : c.x_type = CX_BODY ∧ c.x_name = "body"
    · have hb' : xml_is_body c = true := by simp [xml_is_body, hb]
      by_cases hk : xml_flag_bodykey c = true
      · simp [strip_body_loop, hb, hk, hb', List.takeWhile, List.dropWhile]
      · simp only [Bool.not_eq_true] at hk
        simp [strip_body_loop, hb, hk, hb', List.takeWhile, List.dropWhile, ih]
    · have hb' : xml_is_body c = false := by simp [xml_is_body, hb]
      simp only [strip_body_loop, hb, ↓reduceIte, hb', Bool.false_and, Bool.not_false,
        List.takeWhile, List.dropWhile, List.filter_cons, List.cons_append]
      rw [ih]

/-- Before the first marked body a child passes the normalisation of the specification
exactly when it is not a body. -/
theorem strip_body_all_takeWhile (cs : List cxobj) :
    (cs.takeWhile (fun c => !(xml_is_body c && xml_flag_bodykey c))).filter
        (fun c => !(xml_is_body c) || xml_flag_bodykey c) =
      (cs.takeWhile (fun c => !(xml_is_body c && xml_flag_bodykey c))).filter
        (fun c => !(xml_is_body c)) := by
  apply List.filter_congr
  intro c hc
  have hp := List.mem_takeWhile_imp hc
  cases hb : xml_is_body c <;> cases hk : xml_flag_bodykey c <;> simp [hb, hk] at hp ⊢

/-- The normalisation of the specification, split at the first marked body. -/
theorem strip_body_all_eq (cs : List cxobj) :
    strip_body_all cs =
      (cs.takeWhile (fun c => !(xml_is_body c && xml_flag_bodykey c))).filter
          (fun c => !(xml_is_body c)) ++
        (cs.dropWhile (fun c => !(xml_is_body c && xml_flag_bodykey c))).filter
          (fun c => !(xml_is_body c) || xml_flag_bodykey c) := by
  rw [← strip_body_all_takeWhile, ← List.filter_append, List.takeWhile_append_dropWhile]
  rfl

/-- C29: on an element bound to a container or list, `strip_body_objects` (1) purges the
body children before the first marked body and keeps every child from the first marked
body on, marked or not; (2) keeps every marked body and every child that is not a body,
in their order; (3) so after it every body child is marked exactly when no unmarked body
follows a marked one, and then it is the normalisation that removes every unmarked body;
(4) without a marked body no body child is left. -/
theorem C29_body_normalisation (Y : List yang_stmt) (xt : cxobj) (yt : Nat)
    (hs : xml_spec xt = some yt)
    (hk : yang_keyword_get Y yt = Y_LIST ∨ yang_keyword_get Y yt = Y_CONTAINER) :
    (strip_body_objects Y xt).x_childvec =
      (xt.x_childvec.takeWhile (fun c => !(xml_is_body c && xml_flag_bodykey c))).filter
          (fun c => !(xml_is_body c)) ++
        xt.x_childvec.dropWhile (fun c => !(xml_is_body c && xml_flag_bodykey c)) ∧
    List.Sublist (strip_body_all xt.x_childvec) (strip_body_objects Y xt).x_childvec ∧
    List.Sublist (strip_body_objects Y xt).x_childvec xt.x_childvec ∧
    ((∀ c ∈ (strip_body_objects Y xt).x_childvec, xml_is_body c = true →
        xml_flag_bodykey c = true) ↔
      ∀ c ∈ xt.x_childvec.dropWhile (fun c => !(xml_is_body c && xml_flag_bodykey c)),
        xml_is_body c = true → xml_flag_bodykey c = true) ∧
    ((∀ c ∈ (strip_body_objects Y xt).x_childvec, xml_is_body c = true →
        xml_flag_bodykey c = true) →
      (strip_body_objects Y xt).x_childvec = strip_body_all xt.x_childvec) ∧
    ((∀ c ∈ xt.x_childvec, xml_is_body c = true → xml_flag_bodykey c = false) →
      ∀ c ∈ (strip_body_objects Y xt).x_childvec, xml_is_body c = false) := by
  have hcv : (strip_body_objects Y xt).x_childvec = strip_body_loop xt.x_childvec := by
    unfold strip_body_objects
    rw [hs]
    dsimp only
    rw [if_pos hk]
  rw [hcv]
  generalize xt.x_childvec = cs
  have hF : ∀ c ∈ (cs.takeWhile (fun c => !(xml_is_body c && xml_flag_bodykey c))).filter
      (fun c => !(xml_is_body c)), xml_is_body c = false := by
    intro c hc
    have := (List.mem_filter.1 hc).2
    simpa using this
  have hiff : (∀ c ∈ strip_body_loop cs, xml_is_body c = true → xml_flag_bodykey c = true) ↔
      ∀ c ∈ cs.dropWhile (fun c => !(xml_is_body c && xml_flag_bodykey c)),
        xml_is_body c = true → xml_flag_bodykey c = true := by
    rw [strip_body_loop_eq]
    constructor
    · intro hall c hc
      exact hall c (List.mem_append_right _ hc)
    · intro hall c hc hb
      rcases List.mem_append.1 hc with h1 | h1
      · rw [hF c h1] at hb
        cases hb
      · exact hall c h1 hb
  refine ⟨strip_body_loop_eq cs, ?_, strip_body_loop_sublist cs, hiff, ?_, ?_⟩
  · rw [strip_body_loop_eq, strip_body_all_eq]
    exact List.Sublist.append (List.Sublist.refl _) (List.filter_sublist _)
  · intro hall
    have hD := hiff.1 hall
    rw [strip_body_loop_eq, strip_body_all_eq]
    congr 1
    symm
    apply List.filter_eq_self.2
    intro c hc
    cases hb : xml_is_body c
    · rfl
    · simp [hD c hc hb]
  · intro hno c hc
    rw [strip_body_loop_eq] at hc
    have hD : cs.dropWhile (fun c => !(xml_is_body c && xml_flag_bodykey c)) = [] := by
      apply List.dropWhile_eq_nil_iff.2
      intro d hd
      cases hb : xml_is_body d
      · rfl
      · simp [hno d hd hb]
    rw [hD, List.append_nil] at hc
    exact hF c hc

/-- C29 at `<c xmlns="urn:n">` bound to `container c`, with an unmarked body followed by a
marked body: the unmarked body is purged and the marked body is kept. -/
theorem C29_body_normalisation_witness :
    (strip_body_objects example_yang (xml_spec_set example_c_bodies_rev (some 3))).x_childvec =
      ((xml_spec_set example_c_bodies_rev (some 3)).x_childvec.takeWhile
          (fun c => !(xml_is_body c && xml_flag_bodykey c))).filter (fun c => !(xml_is_body c)) ++
        (xml_spec_set example_c_bodies_rev (some 3)).x_childvec.dropWhile
          (fun c => !(xml_is_body c && xml_flag_bodykey c)) ∧
    (strip_body_objects example_yang (xml_spec_set example_c_bodies_rev (some 3))).x_childvec.map
      (fun c => c.addr) = [131, 132] :=
  ⟨(C29_body_normalisation example_yang (xml_spec_set example_c_bodies_rev (some 3)) 3 rfl
      (by decide)).1, by decide⟩

/-- C29 fails when an unmarked body follows a marked body. Binding `<c xmlns="urn:n">` with
the body children `k` (marked) and `text` (unmarked), in this order, returns `1` and binds
the element to `container c` (statement `3`); the unmarked body `text` (address `133`) is
still a child afterwards. With the two bodies in the other order it is purged. -/
theorem C29_counterexample :
    (xml_bind_yang0 none example_state [] example_c_bodies YB_MODULE (some 0)).retval = 1 ∧
    xml_spec (xml_bind_yang0 none example_state [] example_c_bodies YB_MODULE (some 0)).xt
      = some 3 ∧
    yang_keyword_get example_yang 3 = Y_CONTAINER ∧
    (xml_bind_yang0 none example_state [] example_c_bodies YB_MODULE (some 0)).xt.x_childvec.map
      (fun c => (c.addr, xml_is_body c, xml_flag_bodykey c)) =
      [(131, false, false), (132, true, true), (133, true, false)] ∧
    (xml_bind_yang0 none example_state [] example_c_bodies_rev YB_MODULE
      (some 0)).xt.x_childvec.map (fun c => (c.addr, xml_is_body c, xml_flag_bodykey c)) =
      [(131, false, false), (132, true, true)] :=
  ⟨by decide, by decide, by decide, by decide, by decide⟩

/-! ## C30: completeness of a successful pass -/

theorem xml_wf_list_iff (Y : List yang_stmt) (strict : Bool) (ps : Option Nat) :
    ∀ cs : List cxobj, xml_wf_list Y strict ps cs ↔
      ∀ c ∈ cs, c.x_type = CX_ELMNT → xml_wf Y strict ps c
  | [] => by simp [xml_wf_list]
  | c :: cs => by
    rw [xml_wf_list, xml_wf_list_iff Y strict ps cs]
    simp

theorem xml_complete_list_iff (Y : List yang_stmt) (strict under : Bool) :
    ∀ cs : List cxobj, xml_complete_list Y strict under cs ↔
      ∀ c ∈ cs, c.x_type = CX_ELMNT → xml_complete Y strict under c
  | [] => by simp [xml_complete_list]
  | c :: cs => by
    rw [xml_complete_list, xml_complete_list_iff Y strict under cs]
    simp

theorem xml_unbound_list_iff :
    ∀ cs : List cxobj, xml_unbound_list cs ↔ ∀ c ∈ cs, c.x_type = CX_ELMNT → xml_unbound c
  | [] => by simp [xml_unbound_list]
  | c :: cs => by
    rw [xml_unbound_list, xml_unbound_list_iff cs]
    simp

/-- The invariant below a parent bound to a statement that is neither anyxml nor
anydata. -/
theorem xml_wf_some (Y : List yang_stmt) (strict : Bool) (yp : Nat) (x : cxobj)
    (hany : yang_is_any Y (some yp) = false) :
    xml_wf Y strict (some yp) x ↔
      ∃ y, x.x_spec = some y ∧ yang_find_child Y yp x.x_name = some y ∧
        ∀ c ∈ x.x_childvec, c.x_type = CX_ELMNT → xml_wf Y strict (some y) c := by
  cases x
  simp only [xml_wf, hany, Bool.false_eq_true, ↓reduceIte, xml_wf_list_iff]

/-- The invariant below any other parent. -/
theorem xml_wf_other (Y : List yang_stmt) (strict : Bool) (ps : Option Nat) (x : cxobj)
    (hany : ps = none ∨ yang_is_any Y ps = true) :
    xml_wf Y strict ps x ↔
      (strict = true → x.x_spec = none ∧
        ∀ c ∈ x.x_childvec, c.x_type = CX_ELMNT → xml_wf Y strict none c) := by
  cases x
  cases ps with
  | none => simp only [xml_wf, xml_wf_list_iff]
  | some yp =>
    rcases hany with hany | hany
    · cases hany
    · simp only [xml_wf, hany, ↓reduceIte, xml_wf_list_iff]

theorem xml_complete_eq (Y : List yang_stmt) (strict under : Bool) (x : cxobj) :
    xml_complete Y strict under x ↔
      (under = false → ∃ y, x.x_spec = some y ∧ yang_argument_get Y y = some x.x_name) ∧
      (under = true → strict = true → x.x_spec = none) ∧
      ∀ c ∈ x.x_childvec, c.x_type = CX_ELMNT →
        xml_complete Y strict (under || yang_is_any Y x.x_spec) c := by
  cases x
  simp only [xml_complete, xml_complete_list_iff]

theorem xml_unbound_eq (x : cxobj) :
    xml_unbound x ↔
      x.x_spec = none ∧ ∀ c ∈ x.x_childvec, c.x_type = CX_ELMNT → xml_unbound c := by
  cases x
  simp only [xml_unbound, xml_unbound_list_iff]

/-- A tree without schema references satisfies the strict invariant below a parent
without schema reference. -/
theorem xml_unbound_wf (Y : List yang_stmt) : ∀ x : cxobj, xml_unbound x →
    xml_wf Y true none x := by
  intro x
  induction x using cxobj_induction with
  | step x ih =>
    intro hu
    rw [xml_unbound_eq] at hu
    rw [xml_wf_other Y true none x (Or.inl rfl)]
    intro _
    exact ⟨hu.1, fun c hc hel => ih c hc (hu.2 c hc hel)⟩

/-- Without `strict` nothing is said below a parent that is not bound, or bound to anyxml
or anydata. -/
theorem xml_wf_trivial (Y : List yang_stmt) (ps : Option Nat) (x : cxobj)
    (hany : ps = none ∨ yang_is_any Y ps = true) : xml_wf Y false ps x := by
  rw [xml_wf_other Y false ps x hany]
  intro hf
  cases hf

/-- The strict invariant below a parent without schema reference and below a parent bound
to anyxml or anydata are the same. -/
theorem xml_wf_other_eq (Y : List yang_stmt) (strict : Bool) (ps ps' : Option Nat) (x : cxobj)
    (hany : ps = none ∨ yang_is_any Y ps = true) (hany' : ps' = none ∨ yang_is_any Y ps' = true)
    (hw : xml_wf Y strict ps x) : xml_wf Y strict ps' x := by
  rw [xml_wf_other Y strict ps x hany] at hw
  rw [xml_wf_other Y strict ps' x hany']
  exact hw

/-- Without `strict` nothing is said of an object that has an ancestor bound to anyxml or
anydata. -/
theorem xml_complete_under (Y : List yang_stmt) : ∀ x : cxobj, xml_complete Y false true x := by
  intro x
  induction x using cxobj_induction with
  | step x ih =>
    rw [xml_complete_eq]
    refine ⟨fun hf => (by cases hf), fun _ hf => (by cases hf), fun c hc _ => ?_⟩
    rw [Bool.true_or]
    exact ih c hc

/-- The invariant gives completeness. -/
theorem xml_complete_of_wf (Y : List yang_stmt) (strict : Bool) :
    ∀ (x : cxobj) (ps : Option Nat) (under : Bool),
      (under = false → ∃ yp, ps = some yp ∧ yang_is_any Y ps = false) →
      (under = true → strict = true → ps = none ∨ yang_is_any Y ps = true) →
      xml_wf Y strict ps x → xml_complete Y strict under x := by
  intro x
  induction x using cxobj_induction with
  | step x ih =>
    intro ps under h1 h2 hw
    cases under with
    | false =>
      obtain ⟨yp, hps, hany⟩ := h1 rfl
      subst hps
      rw [xml_wf_some Y strict yp x hany] at hw
      obtain ⟨y, hspec, hfind, hch⟩ := hw
      rw [xml_complete_eq]
      refine ⟨fun _ => ⟨y, hspec, yang_find_child_argument Y yp _ y hfind⟩,
        fun hf => (by cases hf), fun c hc hel => ?_⟩
      rw [hspec, Bool.false_or]
      refine ih c hc (some y) _ ?_ ?_ (hch c hc hel)
      · intro hu
        exact ⟨y, rfl, hu⟩
      · intro hu _
        exact Or.inr hu
    | true =>
      cases strict with
      | false => exact xml_complete_under Y x
      | true =>
        have hany := h2 rfl rfl
        rw [xml_wf_other Y true ps x hany] at hw
        obtain ⟨hspec, hch⟩ := hw rfl
        rw [xml_complete_eq]
        refine ⟨fun hf => (by cases hf), fun _ _ => hspec, fun c hc hel => ?_⟩
        rw [Bool.true_or]
        exact ih c hc none true (fun hf => (by cases hf)) (fun _ _ => Or.inl rfl) (hch c hc hel)

/-- The children of an object that satisfies the invariant satisfy it below the schema
reference of the object. -/
theorem xml_wf_children (Y : List yang_stmt) (strict : Bool) (ps : Option Nat) (x : cxobj)
    (hcare : strict = true ∨ ∃ yp, ps = some yp ∧ yang_is_any Y ps = false)
    (hw : xml_wf Y strict ps x) :
    ∀ c ∈ x.x_childvec, c.x_type = CX_ELMNT → xml_wf Y strict x.x_spec c := by
  by_cases hp : ∃ yp, ps = some yp ∧ yang_is_any Y ps = false
  · obtain ⟨yp, hps, hany⟩ := hp
    subst hps
    rw [xml_wf_some Y strict yp x hany] at hw
    obtain ⟨y, hspec, _, hch⟩ := hw
    rw [hspec]
    exact hch
  · have hs : strict = true := by
      rcases hcare with hs | hp'
      · exact hs
      · exact absurd hp' hp
    have hany : ps = none ∨ yang_is_any Y ps = true := by
      cases ps with
      | none => exact Or.inl rfl
      | some yp =>
        right
        cases hb : yang_is_any Y (some yp) with
        | true => rfl
        | false => exact absurd ⟨yp, rfl, hb⟩ hp
    rw [xml_wf_other Y strict ps x hany] at hw
    obtain ⟨hspec, hch⟩ := hw hs
    rw [hspec]
    exact hch

/-- The sibling handed to the binding of a child is the previous child, bound and of the
same name and prefix, or an element child of that name of the sibling of the parent. -/
theorem xml_bind_yang0_opt_sibling_cases (xc0 xsibling : Option cxobj) (xc xs : cxobj)
    (hs : xml_bind_yang0_opt_sibling xc0 xsibling xc = some xs) :
    (xc0 = some xs ∧ xml_spec xs ≠ none ∧ xml_name xs = xml_name xc ∧
      xml_prefix xs = xml_prefix xc) ∨
    (∃ xp, xsibling = some xp ∧ xs ∈ xp.x_childvec ∧ xs.x_type = CX_ELMNT ∧
      xs.x_name = xc.x_name) := by
  have hb : ∀ (o : Option cxobj),
      (match o with
        | some xp => xml_find_type xp ( xml_prefix xc) (xml_name xc) CX_ELMNT
        | none => none) = some xs →
      ∃ xp, o = some xp ∧ xs ∈ xp.x_childvec ∧ xs.x_type = CX_ELMNT ∧ xs.x_name = xc.x_name := by
    intro o ho
    cases o with
    | none => cases ho
    | some xp =>
      have hf := xml_find_type_some xp _ _ _ xs ho
      exact ⟨xp, rfl, hf.1, hf.2.1, hf.2.2.1⟩
  unfold xml_bind_yang0_opt_sibling at hs
  cases xc0 with
  | none => exact Or.inr (hb xsibling hs)
  | some x0 =>
    dsimp only at hs
    by_cases hc : xml_spec x0 ≠ none ∧ xml_name x0 = xml_name xc ∧ xml_prefix x0 = xml_prefix xc
    · rw [if_pos hc] at hs
      cases hs
      exact Or.inl ⟨rfl, hc⟩
    · rw [if_neg hc] at hs
      exact Or.inr (hb xsibling hs)

/-- The namespace check assigns the statement whenever it returns a positive value. -/
theorem populate_check_ns_pos (st : clixon_state) (xt : cxobj) (ns : Option String) (y : Nat)
    (hr : 0 < (populate_check_ns st xt ns y).retval) :
    populate_check_ns st xt ns y = populate_set st xt (some y) := by
  cases ns with
  | none => simp [populate_check_ns, populate_fail] at hr
  | some n =>
    cases hy : yang_find_mynamespace st.yang y with
    | none => simp [populate_check_ns, hy, populate_fail] at hr
    | some nsy =>
      by_cases he : n = nsy
      · simp [populate_check_ns, hy, he]
      · simp [populate_check_ns, hy, he, populate_fail] at hr

/-- The derivation from the parent, when it returns a positive value with the anydata
fallback off: below anyxml or anydata it returns `2`, else it assigns the statement that
the lookup finds under the statement of the parent. -/
theorem populate_self_parent_slow_pos (st : clixon_state) (up : List cxobj) (xt : cxobj)
    (hoff : st._yang_unknown_anydata = 0)
    (hr : 0 < (populate_self_parent_slow st up xt).retval) :
    (populate_self_parent_slow st up xt =
        { retval := 2, xt := xt, st := st, xerr := [],
          trace := [bind_event.populate xt.addr 2] } ∧
      yang_is_any st.yang ((xml_parent up).bind xml_spec) = true) ∨
    (∃ yp y, (xml_parent up).bind xml_spec = some yp ∧
      yang_is_any st.yang (some yp) = false ∧
      yang_find_child st.yang yp (xml_name xt) = some y ∧
      populate_self_parent_slow st up xt = populate_set st xt (some y)) := by
  unfold populate_self_parent_slow at hr ⊢
  cases hp : xml_parent up with
  | none => simp [hp, populate_fail] at hr
  | some xp =>
    simp only [hp] at hr ⊢
    cases hs : xml_spec xp with
    | none => simp [hs, populate_fail] at hr
    | some yparent =>
      simp only [hs] at hr ⊢
      by_cases hk : yang_keyword_get st.yang yparent = Y_ANYXML ∨
          yang_keyword_get st.yang yparent = Y_ANYDATA
      · left
        rw [if_pos hk]
        refine ⟨rfl, ?_⟩
        simp [yang_is_any, hs, hk]
      · right
        rw [if_neg hk] at hr ⊢
        cases hc : yang_find_child st.yang yparent (xml_name xt) with
        | none =>
          simp [hc, hoff, populate_fail] at hr
        | some y =>
          simp only [hc] at hr ⊢
          refine ⟨yparent, y, ?_, ?_, hc, populate_check_ns_pos _ _ _ _ hr⟩
          · simp [hs]
          · simp [yang_is_any, hk]

/-- The self-binder in parent mode, when it returns a positive value with the anydata
fallback off, below a parent with the schema reference `ps` and with a sibling that
satisfies the invariant: below anyxml or anydata it returns `2` and leaves the object as
it is; or it assigns a schema reference `y'`, which is what the invariant asks for and is
the schema reference of the sibling. -/
theorem populate_self_parent_wf (strict : Bool) (st : clixon_state) (up : List cxobj)
    (xt : cxobj) (xsibling : Option cxobj) (yspec : Option Nat) (ps : Option Nat)
    (hps : (xml_parent up).bind xml_spec = ps) (hoff : st._yang_unknown_anydata = 0)
    (hcare : strict = true ∨ ∃ yp, ps = some yp ∧ yang_is_any st.yang ps = false)
    (hhint : ∀ xs, xsibling = some xs → xml_wf st.yang strict ps xs ∧ xs.x_name = xt.x_name)
    (hr : 0 < (populate_self_parent st up xt xsibling yspec).retval) :
    (populate_self_parent st up xt xsibling yspec =
        { retval := 2, xt := xt, st := st, xerr := [],
          trace := [bind_event.populate xt.addr 2] } ∧
      yang_is_any st.yang ps = true) ∨
    (∃ y', populate_self_parent st up xt xsibling yspec = populate_set st xt y' ∧
      (∀ yp, ps = some yp → yang_is_any st.yang ps = false →
        ∃ y, y' = some y ∧ yang_find_child st.yang yp xt.x_name = some y) ∧
      ((ps = none ∨ yang_is_any st.yang ps = true) → y' = none) ∧
      (∀ xs, xsibling = some xs → xml_spec xs = y')) := by
  -- what the invariant says of the schema reference of a sibling
  have hxs : ∀ xs, xsibling = some xs →
      (∀ yp, ps = some yp → yang_is_any st.yang ps = false →
        ∃ y, xml_spec xs = some y ∧ yang_find_child st.yang yp xt.x_name = some y) ∧
      ((ps = none ∨ yang_is_any st.yang ps = true) → xml_spec xs = none) := by
    intro xs hx
    obtain ⟨hw, hname⟩ := hhint xs hx
    constructor
    · intro yp hp hany
      subst hp
      rw [xml_wf_some st.yang strict yp xs hany] at hw
      obtain ⟨y, hspec, hfind, _⟩ := hw
      rw [hname] at hfind
      exact ⟨y, hspec, hfind⟩
    · intro hany
      have hs : strict = true := by
        rcases hcare with hs | ⟨yp, hp, hb⟩
        · exact hs
        · rcases hany with hn | ht
          · rw [hn] at hp
            cases hp
          · rw [hb] at ht
            cases ht
      rw [xml_wf_other st.yang strict ps xs hany] at hw
      exact (hw hs).1
  -- the derivation from the parent
  have hslow : populate_self_parent st up xt xsibling yspec = populate_self_parent_slow st up xt →
      (populate_self_parent st up xt xsibling yspec =
          { retval := 2, xt := xt, st := st, xerr := [],
            trace := [bind_event.populate xt.addr 2] } ∧
        yang_is_any st.yang ps = true) ∨
      (∃ y', populate_self_parent st up xt xsibling yspec = populate_set st xt y' ∧
        (∀ yp, ps = some yp → yang_is_any st.yang ps = false →
          ∃ y, y' = some y ∧ yang_find_child st.yang yp xt.x_name = some y) ∧
        ((ps = none ∨ yang_is_any st.yang ps = true) → y' = none) ∧
        (∀ xs, xsibling = some xs → xml_spec xs = y')) := by
    intro he
    rw [he] at hr ⊢
    rcases populate_self_parent_slow_pos st up xt hoff hr with ⟨h2, hany⟩ | ⟨yp, y, hp, hany, hf, hset⟩
    · left
      rw [hps] at hany
      exact ⟨h2, hany⟩
    · right
      rw [hps] at hp
      subst hp
      refine ⟨some y, hset, ?_, ?_, ?_⟩
      · intro yp' hp' _
        cases hp'
        exact ⟨y, rfl, hf⟩
      · intro hany'
        rcases hany' with hn | ht
        · cases hn
        · rw [hany] at ht
          cases ht
      · intro xs hx
        obtain ⟨y2, hspec, hfind⟩ := (hxs xs hx).1 yp rfl hany
        rw [hspec]
        have hf' : yang_find_child st.yang yp xt.x_name = some y := hf
        rw [hf'] at hfind
        exact hfind.symm
  cases hsib : xsibling with
  | none =>
    subst hsib
    exact hslow rfl
  | some xs =>
    subst hsib
    by_cases ha : xml_child_nr_type xt CX_ATTR = 0
    · right
      refine ⟨xml_spec xs, ?_, ?_, ?_, ?_⟩
      · simp only [populate_self_parent, if_pos ha]
      · intro yp hp hany
        exact (hxs xs rfl).1 yp hp hany
      · intro hany
        exact (hxs xs rfl).2 hany
      · intro xs' hx
        cases hx
        rfl
    · exact hslow (by simp only [populate_self_parent, if_neg ha])

/-- After a loop that returned a positive value every element of the result is what the
body of the loop returned for a child, and satisfies what the body ensures. `I` is what is
known of the child bound in the previous iteration, `P` of the state. -/
theorem xml_bind_loop_all (f : clixon_state → Option cxobj → cxobj → bind_result cxobj)
    (Q : cxobj → Prop) (I : Option cxobj → Prop) (P : clixon_state → Prop) :
    ∀ (cs : List cxobj),
      (∀ c ∈ cs, c.x_type = CX_ELMNT → ∀ s x0, P s → I x0 → 0 < (f s x0 c).retval →
        Q (f s x0 c).xt ∧ I (some (f s x0 c).xt) ∧ P (f s x0 c).st) →
      ∀ st x0, P st → I x0 → 0 < (xml_bind_loop f st x0 cs).retval →
        ∀ c1 ∈ (xml_bind_loop f st x0 cs).xt, c1.x_type = CX_ELMNT → Q c1 := by
  intro cs
  induction cs with
  | nil =>
    intro _ st x0 _ _ _ c1 hc1
    simp [xml_bind_loop] at hc1
  | cons c cs ih =>
    intro hf st x0 hP hI hret c1 hc1 hty
    have ih' := ih (fun d hd => hf d (List.mem_cons_of_mem _ hd))
    by_cases hel : xml_type c = CX_ELMNT
    · have hel' : c.x_type = CX_ELMNT := hel
      by_cases hr : (f st x0 c).retval < 0 ∨ (f st x0 c).retval = 0
      · simp only [xml_bind_loop, hel, ne_eq, not_true_eq_false, ↓reduceIte, hr] at hret
        omega
      · simp only [xml_bind_loop, hel, ne_eq, not_true_eq_false, ↓reduceIte, hr] at hret hc1
        have hpos : 0 < (f st x0 c).retval := by omega
        obtain ⟨hQ, hI', hP'⟩ := hf c (List.mem_cons_self _ _) hel' st x0 hP hI hpos
        rcases List.mem_cons.1 hc1 with rfl | hc1
        · exact hQ
        · exact ih' _ _ hP' hI' hret c1 hc1 hty
    · have hel' : c.x_type ≠ CX_ELMNT := hel
      simp only [xml_bind_loop, hel, ne_eq, not_false_eq_true, ↓reduceIte] at hret hc1
      rcases List.mem_cons.1 hc1 with rfl | hc1
      · exact absurd hty hel'
      · exact ih' st x0 hP hI hret c1 hc1 hty

/-- The invariant of `xml_bind_yang0_opt` in parent mode, with schema mount and the anydata
fallback off: below a parent with the schema reference `ps` and with a sibling that
satisfies the invariant, the object returned with a positive value satisfies it. -/
theorem xml_bind_yang0_opt_wf (h : Option clicon_handle) (hm : mount_disabled h)
    (strict : Bool) (st : clixon_state) (hoff : st._yang_unknown_anydata = 0) :
    ∀ (xt : cxobj) (up : List cxobj) (ps : Option Nat) (xsibling : Option cxobj)
      (yspec : Option Nat),
      (xml_parent up).bind xml_spec = ps →
      (strict = true → xml_unbound xt) →
      (∀ xs, xsibling = some xs → xml_wf st.yang strict ps xs ∧ xs.x_name = xt.x_name) →
      0 < (xml_bind_yang0_opt h st up xt YB_PARENT yspec xsibling).retval →
      xml_wf st.yang strict ps (xml_bind_yang0_opt h st up xt YB_PARENT yspec xsibling).xt := by
  intro xt
  induction xt using cxobj_induction with
  | step xt ih =>
    intro up ps xsibling yspec hps hfresh hhint hret
    have hdich : (∃ yp, ps = some yp ∧ yang_is_any st.yang ps = false) ∨
        (ps = none ∨ yang_is_any st.yang ps = true) := by
      cases ps with
      | none => exact Or.inr (Or.inl rfl)
      | some yp =>
        rcases Bool.eq_false_or_eq_true (yang_is_any st.yang (some yp)) with hb | hb
        · exact Or.inr (Or.inr hb)
        · exact Or.inl ⟨yp, rfl, hb⟩
    by_cases hcare : strict = true ∨ ∃ yp, ps = some yp ∧ yang_is_any st.yang ps = false
    swap
    · have hs : strict = false := by
        cases strict with
        | false => rfl
        | true => exact absurd (Or.inl rfl) hcare
      have hany : ps = none ∨ yang_is_any st.yang ps = true := by
        rcases hdich with hp | hany
        · exact absurd (Or.inr hp) hcare
        · exact hany
      rw [hs]
      exact xml_wf_trivial st.yang ps _ hany
    have hself : xml_bind_yang0_opt_self st up xt YB_PARENT yspec xsibling =
        some (populate_self_parent st up xt xsibling yspec) := rfl
    rw [xml_bind_yang0_opt_eq, hself] at hret ⊢
    dsimp only at hret ⊢
    by_cases h1 : (populate_self_parent st up xt xsibling yspec).retval < 0
    · rw [if_pos h1] at hret
      omega
    by_cases h0 : (populate_self_parent st up xt xsibling yspec).retval = 0
    · rw [if_neg h1, if_pos h0] at hret
      omega
    have hpos : 0 < (populate_self_parent st up xt xsibling yspec).retval := by omega
    rw [if_neg h1, if_neg h0] at hret ⊢
    rcases populate_self_parent_wf strict st up xt xsibling yspec ps hps hoff hcare hhint hpos
      with ⟨h2, hany⟩ | ⟨y', hset, hproper, hother, hsib⟩
    · -- below anyxml or anydata: the object is as it was
      rw [h2]
      dsimp only
      rw [if_pos rfl]
      dsimp only
      rw [xml_wf_other st.yang strict ps xt (Or.inr hany)]
      intro hs
      have hw := xml_unbound_wf st.yang xt (hfresh hs)
      rw [xml_wf_other st.yang true none xt (Or.inl rfl)] at hw
      rw [hs]
      exact hw rfl
    · -- a schema reference is assigned and the children are bound
      rw [hset] at hret ⊢
      have hne2 : ¬ (populate_set st xt y').retval = 2 := by
        simp [populate_set]
      rw [if_neg hne2] at hret ⊢
      rw [xml_bind_yang0_opt_descend_disabled h hm] at hret ⊢
      dsimp only at hret ⊢
      have hfreshc : strict = true → ∀ c ∈ xt.x_childvec, c.x_type = CX_ELMNT → xml_unbound c := by
        intro hs
        exact ((xml_unbound_eq xt).1 (hfresh hs)).2
      have hloop := xml_bind_loop_all
        (fun s x0 xc => xml_bind_yang0_opt h s
          (xml_up (strip_body_objects (populate_set st xt y').st.yang (populate_set st xt y').xt)
            :: up) xc YB_PARENT yspec (xml_bind_yang0_opt_sibling x0 xsibling xc))
        (xml_wf st.yang strict y')
        (fun x0 => ∀ x, x0 = some x → xml_wf st.yang strict y' x)
        (fun s => s = st) xt.x_childvec
        (by
          intro c hc hel s x0 hs hI hr
          have hs' : st = s := hs.symm
          subst hs'
          have hw := ih c hc _ y' (xml_bind_yang0_opt_sibling x0 xsibling c) yspec
            (by simp [xml_parent, xml_up, xml_spec, populate_set, xml_spec_set])
            (fun hs => hfreshc hs c hc hel)
            (by
              intro xs' hxs'
              rcases xml_bind_yang0_opt_sibling_cases x0 xsibling c xs' hxs' with
                ⟨hx0, _, hn, _⟩ | ⟨xp, hxp, hmem, hty, hn⟩
              · exact ⟨hI xs' hx0, hn⟩
              · have hwp := (hhint xp hxp).1
                have hch := xml_wf_children st.yang strict ps xp hcare hwp xs' hmem hty
                have hsp : xp.x_spec = y' := hsib xp hxp
                rw [hsp] at hch
                exact ⟨hch, hn⟩)
            hr
          refine ⟨hw, ?_, xml_bind_yang0_opt_st h hm c st _ _ _ _ hoff⟩
          intro x hx
          cases hx
          exact hw)
        st none rfl (by intro x hx; cases hx) hret
      -- the object returned
      generalize hL : (xml_bind_loop (fun s x0 xc => xml_bind_yang0_opt h s
          (xml_up (strip_body_objects (populate_set st xt y').st.yang (populate_set st xt y').xt)
            :: up) xc YB_PARENT yspec (xml_bind_yang0_opt_sibling x0 xsibling xc))
          (populate_set st xt y').st none (populate_set st xt y').xt.x_childvec).xt = L
      have hL' : ∀ c1 ∈ L, c1.x_type = CX_ELMNT → xml_wf st.yang strict y' c1 := by
        rw [← hL]
        exact hloop
      have hch : ∀ c1 ∈ (strip_body_objects (populate_set st xt y').st.yang
          { (populate_set st xt y').xt with x_childvec := L }).x_childvec,
          c1.x_type = CX_ELMNT → xml_wf st.yang strict y' c1 := by
        intro c1 hc1
        exact hL' c1 (strip_body_objects_childvec_mem hc1)
      have hspec : (strip_body_objects (populate_set st xt y').st.yang
          { (populate_set st xt y').xt with x_childvec := L }).x_spec = y' := by
        rw [strip_body_objects_spec]
        rfl
      have hname : (strip_body_objects (populate_set st xt y').st.yang
          { (populate_set st xt y').xt with x_childvec := L }).x_name = xt.x_name := by
        rw [strip_body_objects_name]
        rfl
      rcases hdich with ⟨yp, hp, hany⟩ | hany
      · subst hp
        obtain ⟨y, hy, hfind⟩ := hproper yp rfl hany
        rw [xml_wf_some st.yang strict yp _ hany, hspec, hname]
        refine ⟨y, hy, hfind, ?_⟩
        rw [← hy]
        exact hch
      · rw [xml_wf_other st.yang strict ps _ hany, hspec]
        intro hs
        have hn := hother hany
        refine ⟨hn, ?_⟩
        rw [← hn]
        exact hch

/-- The statement found by `yang_find_schemanode` has the name looked for. -/
theorem yang_find_schemanode_argument (Y : List yang_stmt) (yn : Nat) (name : String) (y : Nat)
    (hf : yang_find_schemanode Y yn name = some y) : yang_argument_get Y y = some name := by
  unfold yang_find_schemanode at hf
  have h := List.find?_some hf
  simp only [Bool.and_eq_true, decide_eq_true_eq] at h
  exact h.2

/-- The self-binder in module mode, when it returns a positive value with the anydata
fallback off, assigns a statement of the name of the object. -/
theorem populate_self_top_pos (st : clixon_state) (up : List cxobj) (xt : cxobj)
    (yspec : Option Nat) (hoff : st._yang_unknown_anydata = 0)
    (hr : 0 < (populate_self_top st up xt yspec).retval) :
    ∃ y, populate_self_top st up xt yspec = populate_set st xt (some y) ∧
      yang_argument_get st.yang y = some xt.x_name := by
  unfold populate_self_top at hr ⊢
  cases yspec with
  | none => simp [populate_fail] at hr
  | some ysp =>
    dsimp only at hr ⊢
    cases hmod : ys_module_by_xml st.yang (some ysp) up xt with
    | none => simp [hmod, populate_fail] at hr
    | some ymod =>
      simp only [hmod] at hr ⊢
      cases hy : yang_find_schemanode st.yang ymod (xml_name xt) with
      | none => simp [hy, hoff, populate_fail] at hr
      | some y =>
        simp only [hy] at hr ⊢
        exact ⟨y, populate_check_ns_pos _ _ _ _ hr,
          yang_find_schemanode_argument _ _ _ _ hy⟩

/-- Completeness of `xml_bind_yang0` in module mode, with schema mount and the anydata
fallback off; with `strict` for a tree that carried no schema reference. -/
theorem xml_bind_yang0_complete (h : Option clicon_handle) (hm : mount_disabled h)
    (strict : Bool) (st : clixon_state) (up : List cxobj) (t : cxobj) (yspec : Option Nat)
    (hoff : st._yang_unknown_anydata = 0)
    (hfresh : strict = true → xml_unbound t)
    (hret : (xml_bind_yang0 h st up t YB_MODULE yspec).retval = 1) :
    xml_complete st.yang strict false (xml_bind_yang0 h st up t YB_MODULE yspec).xt := by
  have hself : xml_bind_yang0_self st up t YB_MODULE yspec =
      some (populate_self_top st up t yspec) := rfl
  rw [xml_bind_yang0_eq_descend, hself] at hret ⊢
  dsimp only at hret ⊢
  by_cases h1 : (populate_self_top st up t yspec).retval < 0
  · rw [if_pos h1] at hret
    omega
  by_cases h0 : (populate_self_top st up t yspec).retval = 0
  · rw [if_neg h1, if_pos h0] at hret
    omega
  have hpos : 0 < (populate_self_top st up t yspec).retval := by omega
  rw [if_neg h1, if_neg h0] at hret ⊢
  obtain ⟨y, hset, harg⟩ := populate_self_top_pos st up t yspec hoff hpos
  rw [hset] at hret ⊢
  have hne2 : ¬ (populate_set st t (some y)).retval = 2 := by
    simp [populate_set]
  rw [if_neg hne2] at hret ⊢
  unfold xml_bind_yang0_descend at hret ⊢
  dsimp only at hret ⊢
  have hmem : ∀ c ∈ (strip_body_objects (populate_set st t (some y)).st.yang
      (populate_set st t (some y)).xt).x_childvec, c ∈ t.x_childvec :=
    fun c hc => (strip_body_objects_childvec_mem hc :
      c ∈ (populate_set st t (some y)).xt.x_childvec)
  have hloop := xml_bind_loop_all
    (xml_bind_yang0_body h up yspec
      (strip_body_objects (populate_set st t (some y)).st.yang (populate_set st t (some y)).xt))
    (xml_wf st.yang strict (some y)) (fun _ => True) (fun s => s = st)
    (strip_body_objects (populate_set st t (some y)).st.yang
      (populate_set st t (some y)).xt).x_childvec
    (by
      intro c hc hel s x0 hs _ hr
      have hs' : st = s := hs.symm
      subst hs'
      refine ⟨?_, trivial, xml_bind_yang0_opt_st h hm c st _ _ _ _ hoff⟩
      exact xml_bind_yang0_opt_wf h hm strict st hoff c _ (some y) none yspec
        (by simp [xml_parent, xml_up, xml_spec, populate_set, xml_spec_set])
        (fun hs => ((xml_unbound_eq t).1 (hfresh hs)).2 c (hmem c hc) hel)
        (by intro xs hxs; cases hxs) hr)
    st none rfl trivial (lt_of_lt_of_eq (by decide : (0 : Int) < 1) hret.symm)
  rw [xml_complete_eq]
  refine ⟨fun _ => ⟨y, ?_, ?_⟩, fun hf => (by cases hf), ?_⟩
  · dsimp only
    rw [strip_body_objects_spec]
    rfl
  · dsimp only
    rw [strip_body_objects_name]
    exact harg
  · intro c hc hel
    dsimp only at hc ⊢
    rw [strip_body_objects_spec]
    have hsp : (populate_set st t (some y)).xt.x_spec = some y := rfl
    rw [hsp, Bool.false_or]
    refine xml_complete_of_wf st.yang strict c (some y) _ ?_ ?_ (hloop c hc hel)
    · intro hu
      exact ⟨y, rfl, hu⟩
    · intro hu _
      exact Or.inr hu

/-- C30: with the anydata fallback and schema mount off, when
`xml_bind_yang0(t, YB_MODULE, yspec)` returns `1`, every element of the tree returned
carries a schema reference to a statement named like the element, or has a proper ancestor
bound to an anyxml or anydata statement; and when no element of `t` carried a schema
reference before, an element with such an ancestor carries none after. -/
theorem C30_completeness (h : Option clicon_handle) (st : clixon_state) (up : List cxobj)
    (t : cxobj) (yspec : Option Nat) (hm : mount_disabled h)
    (hoff : st._yang_unknown_anydata = 0)
    (hret : (xml_bind_yang0 h st up t YB_MODULE yspec).retval = 1) :
    xml_complete st.yang false false (xml_bind_yang0 h st up t YB_MODULE yspec).xt ∧
    (xml_unbound t →
      xml_complete st.yang true false (xml_bind_yang0 h st up t YB_MODULE yspec).xt) :=
  ⟨xml_bind_yang0_complete h hm false st up t yspec hoff (fun hf => (by cases hf)) hret,
    fun hu => xml_bind_yang0_complete h hm true st up t yspec hoff (fun _ => hu) hret⟩

/-- C30 at `<c xmlns="urn:n"><p><l><data><u><v/></u></data></l></p></c>` bound against
`container c { container p { list l { anyxml data; } } }`: the pass returns `1`; `c`, `p`,
`l` and `data` are bound to the statements of their names, `u` and `v` below the anyxml
node `data` carry no schema reference. -/
theorem C30_completeness_witness :
    (xml_complete example_state_any.yang false false
        (xml_bind_yang0 none example_state_any [] example_any_single YB_MODULE (some 0)).xt ∧
      xml_complete example_state_any.yang true false
        (xml_bind_yang0 none example_state_any [] example_any_single YB_MODULE (some 0)).xt) ∧
    xml_specs (xml_bind_yang0 none example_state_any [] example_any_single YB_MODULE
      (some 0)).xt =
      [(40, some 3), (42, some 4), (47, some 5), (48, some 6), (49, none), (50, none)] :=
  ⟨⟨(C30_completeness none example_state_any [] example_any_single (some 0)
        (fun _ hh => nomatch hh) rfl (by decide)).1,
     (C30_completeness none example_state_any [] example_any_single (some 0)
        (fun _ hh => nomatch hh) rfl (by decide)).2
        (by simp [xml_unbound, xml_unbound_list, example_any_single, example_l2, example_u2,
              example_v, xml_elmnt, xml_attr])⟩,
    by decide⟩

/-- C30 fails in its last part on a tree that carried a schema reference below an anyxml
node. In `<c xmlns="urn:n"><p><l><data><u><v/></u></data></l></p></c>` with the reference
`3` (`container c`) left on `<u>` by an earlier binding, the pass returns `1`; `data` is
bound to the anyxml statement `6`, and `<u>` below it still carries the reference `3`,
to a statement of another name. -/
theorem C30_counterexample :
    (xml_bind_yang0 none example_state_any [] example_any_stale YB_MODULE (some 0)).retval
      = 1 ∧
    xml_specs (xml_bind_yang0 none example_state_any [] example_any_stale YB_MODULE
      (some 0)).xt =
      [(40, some 3), (42, some 4), (47, some 5), (48, some 6), (49, some 3), (50, none)] ∧
    yang_keyword_get example_state_any.yang 6 = Y_ANYXML ∧
    yang_argument_get example_state_any.yang 3 = some "c" ∧
    ¬ xml_complete example_state_any.yang true false
      (xml_bind_yang0 none example_state_any [] example_any_stale YB_MODULE (some 0)).xt := by
  refine ⟨by decide, by decide, by decide, by decide, ?_⟩
  have hx : (xml_bind_yang0 none example_state_any [] example_any_stale YB_MODULE (some 0)).xt =
      xml_spec_set (xml_elmnt 40 none "c"
        [xml_attr 41 none "xmlns" "urn:n",
         xml_spec_set (xml_elmnt 42 none "p"
           [xml_spec_set (xml_elmnt 47 none "l"
             [xml_spec_set (xml_elmnt 48 none "data"
               [xml_spec_set (xml_elmnt 49 none "u" [example_v]) (some 3)]) (some 6)])
             (some 5)]) (some 4)]) (some 3) := rfl
  rw [hx]
  intro hc
  simp [xml_complete, xml_complete_list, xml_spec_set, xml_elmnt, xml_attr, yang_is_any,
    yang_keyword_get, example_state_any, example_yang_any] at hc

/-! ## C1: an rpc with declared input -/

theorem xml_declared_list_iff (Y : List yang_stmt) (yp : Nat) (up : List cxobj) :
    ∀ cs : List cxobj, xml_declared_list Y yp up cs ↔
      ∀ c ∈ cs, c.x_type = CX_ELMNT → xml_declared Y yp up c
  | [] => by simp [xml_declared_list]
  | c :: cs => by
    rw [xml_declared_list, xml_declared_list_iff Y yp up cs]
    simp

/-- What declared content is, in terms of the fields of the element. -/
theorem xml_declared_eq (Y : List yang_stmt) (yp : Nat) (up : List cxobj) (x : cxobj) :
    xml_declared Y yp up x ↔
      ∃ y ns, yang_find_child Y yp (xml_name x) = some y ∧
        xml2ns up x ( xml_prefix x) = some ns ∧
        yang_find_mynamespace Y y = some ns ∧
        (yang_is_any Y (some y) = true →
          ∀ c ∈ x.x_childvec, c.x_type = CX_ELMNT →
            xml_child_nr_type c CX_ATTR ≠ 0 ∨ ∀ q ∈ c.x_childvec, q.x_type ≠ CX_ELMNT) ∧
        (yang_is_any Y (some y) = false →
          ∀ c ∈ x.x_childvec, c.x_type = CX_ELMNT → xml_declared Y y (xml_up x :: up) c) := by
  cases x
  simp only [xml_declared, xml_declared_list_iff, xml_name, xml_prefix]
  constructor
  · rintro ⟨y, ns, h1, h2, h3, h4⟩
    refine ⟨y, ns, h1, h2, h3, ?_, ?_⟩
    · intro hany
      rw [if_pos hany] at h4
      exact h4
    · intro hany
      rw [if_neg (by simp [hany])] at h4
      exact h4
  · rintro ⟨y, ns, h1, h2, h3, h4, h5⟩
    refine ⟨y, ns, h1, h2, h3, ?_⟩
    rcases Bool.eq_false_or_eq_true (yang_is_any Y (some y)) with hany | hany
    · rw [if_pos hany]
      exact h4 hany
    · rw [if_neg (by simp [hany])]
      exact h5 hany

/-- A loop whose body returns `1` for every element child, without error and without
change of the state, returns `1` without error and without change of the state; every
element of the result is what the body returned for a child. `I` is what is known of the
child bound in the previous iteration. -/
theorem xml_bind_loop_ok (f : clixon_state → Option cxobj → cxobj → bind_result cxobj)
    (Q : cxobj → Prop) (I : Option cxobj → Prop) (st : clixon_state) :
    ∀ (cs : List cxobj),
      (∀ c ∈ cs, c.x_type = CX_ELMNT → ∀ x0, I x0 →
        (f st x0 c).retval = 1 ∧ (f st x0 c).st = st ∧ (f st x0 c).xerr = [] ∧
          Q (f st x0 c).xt ∧ I (some (f st x0 c).xt)) →
      ∀ x0, I x0 →
        (xml_bind_loop f st x0 cs).retval = 1 ∧ (xml_bind_loop f st x0 cs).st = st ∧
        (xml_bind_loop f st x0 cs).xerr = [] ∧
        ∀ c1 ∈ (xml_bind_loop f st x0 cs).xt, c1.x_type = CX_ELMNT → Q c1 := by
  intro cs
  induction cs with
  | nil =>
    intro _ x0 _
    refine ⟨rfl, rfl, rfl, ?_⟩
    intro c1 hc1
    simp [xml_bind_loop] at hc1
  | cons c cs ih =>
    intro hf x0 hI
    have ih' := ih (fun d hd => hf d (List.mem_cons_of_mem _ hd))
    by_cases hel : xml_type c = CX_ELMNT
    · have hel' : c.x_type = CX_ELMNT := hel
      obtain ⟨r1, r2, r3, hQ, hI'⟩ := hf c (List.mem_cons_self _ _) hel' x0 hI
      have hr : ¬ ((f st x0 c).retval < 0 ∨ (f st x0 c).retval = 0) := by
        rw [r1]
        decide
      obtain ⟨i1, i2, i3, i4⟩ := ih' (some (f st x0 c).xt) hI'
      simp only [xml_bind_loop, hel, ne_eq, not_true_eq_false, ↓reduceIte, hr, r2, r3,
        List.nil_append]
      refine ⟨i1, i2, i3, ?_⟩
      intro c1 hc1 hty
      rcases List.mem_cons.1 hc1 with rfl | hc1
      · exact hQ
      · exact i4 c1 hc1 hty
    · have hel' : c.x_type ≠ CX_ELMNT := hel
      obtain ⟨i1, i2, i3, i4⟩ := ih' x0 hI
      simp only [xml_bind_loop, hel, ne_eq, not_false_eq_true, ↓reduceIte]
      refine ⟨i1, i2, i3, ?_⟩
      intro c1 hc1 hty
      rcases List.mem_cons.1 hc1 with rfl | hc1
      · exact absurd hty hel'
      · exact i4 c1 hc1 hty

theorem yang_is_any_false_iff (Y : List yang_stmt) (y : Nat) :
    yang_is_any Y (some y) = false ↔
      ¬ (yang_keyword_get Y y = Y_ANYXML ∨ yang_keyword_get Y y = Y_ANYDATA) := by
  simp [yang_is_any]

theorem yang_is_any_true_iff (Y : List yang_stmt) (y : Nat) :
    yang_is_any Y (some y) = true ↔
      (yang_keyword_get Y y = Y_ANYXML ∨ yang_keyword_get Y y = Y_ANYDATA) := by
  simp [yang_is_any]

/-- With schema mount off, an element below a parent bound to anyxml or anydata that
carries an attribute or has no element child is passed with `1`, whatever its sibling. -/
theorem xml_bind_yang0_opt_any (h : Option clicon_handle) (hm : mount_disabled h)
    (st : clixon_state) (up : List cxobj) (c xp : cxobj) (yp : Nat) (yspec : Option Nat)
    (xsibling : Option cxobj) (hp : xml_parent up = some xp) (hs : xml_spec xp = some yp)
    (hk : yang_keyword_get st.yang yp = Y_ANYXML ∨ yang_keyword_get st.yang yp = Y_ANYDATA)
    (hsafe : xml_child_nr_type c CX_ATTR ≠ 0 ∨ ∀ q ∈ c.x_childvec, q.x_type ≠ CX_ELMNT) :
    (xml_bind_yang0_opt h st up c YB_PARENT yspec xsibling).retval = 1 ∧
    (xml_bind_yang0_opt h st up c YB_PARENT yspec xsibling).st = st ∧
    (xml_bind_yang0_opt h st up c YB_PARENT yspec xsibling).xerr = [] := by
  have hself : xml_bind_yang0_opt_self st up c YB_PARENT yspec xsibling =
      some (populate_self_parent st up c xsibling yspec) := rfl
  rw [xml_bind_yang0_opt_eq, hself]
  dsimp only
  by_cases hslow : xsibling = none ∨ xml_child_nr_type c CX_ATTR ≠ 0
  · rw [populate_self_parent_anyxml st up c xp xsibling yspec yp hp hs hk hslow]
    simp
  · have hx : ∃ xs, xsibling = some xs := by
      cases xsibling with
      | none => exact absurd (Or.inl rfl) hslow
      | some xs => exact ⟨xs, rfl⟩
    obtain ⟨xs, rfl⟩ := hx
    have ha : xml_child_nr_type c CX_ATTR = 0 := by
      by_contra hne
      exact hslow (Or.inr hne)
    have hleaf : ∀ q ∈ c.x_childvec, xml_type q ≠ CX_ELMNT := by
      rcases hsafe with hne | hl
      · exact absurd ha hne
      · exact hl
    have hpop : populate_self_parent st up c (some xs) yspec =
        populate_set st c (xml_spec xs) := by
      simp only [populate_self_parent, if_pos ha]
    rw [hpop]
    have h1 : ¬ (populate_set st c (xml_spec xs)).retval < 0 := by simp [populate_set]
    have h0 : ¬ (populate_set st c (xml_spec xs)).retval = 0 := by simp [populate_set]
    have h2 : ¬ (populate_set st c (xml_spec xs)).retval = 2 := by simp [populate_set]
    rw [if_neg h1, if_neg h0, if_neg h2, xml_bind_yang0_opt_descend_disabled h hm]
    dsimp only
    have hleaf' : ∀ q ∈ (populate_set st c (xml_spec xs)).xt.x_childvec, xml_type q ≠ CX_ELMNT :=
      hleaf
    rw [xml_bind_loop_no_elmnt _ _ _ _ hleaf']
    exact ⟨rfl, rfl, rfl⟩

/-- The self-binder in parent mode on an element that matches the statement `y` under the
statement `yp` of its parent in its own namespace, with a sibling that satisfies the
invariant: it assigns `y`. -/
theorem populate_self_parent_declared (st : clixon_state) (up : List cxobj) (x : cxobj)
    (yp y : Nat) (ns : String) (xsibling : Option cxobj) (yspec : Option Nat)
    (hps : (xml_parent up).bind xml_spec = some yp)
    (hany : yang_is_any st.yang (some yp) = false)
    (hfind : yang_find_child st.yang yp (xml_name x) = some y)
    (hns : xml2ns up x ( xml_prefix x) = some ns)
    (hnsy : yang_find_mynamespace st.yang y = some ns)
    (hhint : ∀ xs, xsibling = some xs →
      xml_wf st.yang false (some yp) xs ∧ xs.x_name = x.x_name) :
    populate_self_parent st up x xsibling yspec = populate_set st x (some y) := by
  have hk := (yang_is_any_false_iff st.yang yp).1 hany
  have hslow : populate_self_parent_slow st up x = populate_set st x (some y) := by
    cases hxp : xml_parent up with
    | none => rw [hxp] at hps; cases hps
    | some xp =>
      rw [hxp] at hps
      exact populate_self_parent_slow_found st up x xp yp y ns hxp hps hk hfind hns hnsy
  unfold populate_self_parent
  cases xsibling with
  | none => exact hslow
  | some xs =>
    dsimp only
    by_cases ha : xml_child_nr_type x CX_ATTR = 0
    · rw [if_pos ha]
      obtain ⟨hw, hname⟩ := hhint xs rfl
      rw [xml_wf_some st.yang false yp xs hany] at hw
      obtain ⟨y2, hspec, hfind2, _⟩ := hw
      rw [hname] at hfind2
      have hfind' : yang_find_child st.yang yp x.x_name = some y := hfind
      rw [hfind'] at hfind2
      cases hfind2
      have hsp : xml_spec xs = some y := hspec
      rw [hsp]
    · rw [if_neg ha]
      exact hslow

/-- With schema mount off, `xml_bind_yang0_opt` in parent mode on an element with declared
content, below a parent bound to `yp` and with a sibling that satisfies the invariant,
returns `1` without error and without change of the state, and the object returned
satisfies the invariant: it and every element below it is bound to the statement that the
lookup finds under the statement of its parent. `up0` is a parent chain with the
namespaces of the parent chain `up`. -/
theorem xml_bind_yang0_opt_declared (h : Option clicon_handle) (hm : mount_disabled h)
    (st : clixon_state) :
    ∀ (x : cxobj) (up up0 : List cxobj) (yp : Nat) (xsibling : Option cxobj)
      (yspec : Option Nat),
      (xml_parent up).bind xml_spec = some yp →
      yang_is_any st.yang (some yp) = false →
      (∀ pfx, xml2ns_recurse up pfx = xml2ns_recurse up0 pfx) →
      xml_declared st.yang yp up0 x →
      (∀ xs, xsibling = some xs →
        xml_wf st.yang false (some yp) xs ∧ xs.x_name = x.x_name) →
      (xml_bind_yang0_opt h st up x YB_PARENT yspec xsibling).retval = 1 ∧
      (xml_bind_yang0_opt h st up x YB_PARENT yspec xsibling).st = st ∧
      (xml_bind_yang0_opt h st up x YB_PARENT yspec xsibling).xerr = [] ∧
      xml_wf st.yang false (some yp)
        (xml_bind_yang0_opt h st up x YB_PARENT yspec xsibling).xt := by
  intro x
  induction x using cxobj_induction with
  | step x ih =>
    intro up up0 yp xsibling yspec hps hany hn hdecl hhint
    rw [xml_declared_eq] at hdecl
    obtain ⟨y, ns, hfind, hns, hnsy, hsafe, hch⟩ := hdecl
    have hns' : xml2ns up x ( xml_prefix x) = some ns := by
      rw [xml2ns_chain up up0 hn]
      exact hns
    have hpop := populate_self_parent_declared st up x yp y ns xsibling yspec hps hany hfind
      hns' hnsy hhint
    have hself : xml_bind_yang0_opt_self st up x YB_PARENT yspec xsibling =
        some (populate_set st x (some y)) := by
      rw [← hpop]
      rfl
    rw [xml_bind_yang0_opt_eq, hself]
    dsimp only
    have h1 : ¬ (populate_set st x (some y)).retval < 0 := by simp [populate_set]
    have h0 : ¬ (populate_set st x (some y)).retval = 0 := by simp [populate_set]
    have h2 : ¬ (populate_set st x (some y)).retval = 2 := by simp [populate_set]
    rw [if_neg h1, if_neg h0, if_neg h2, xml_bind_yang0_opt_descend_disabled h hm]
    dsimp only
    -- the parent chain of the children
    have hpar : (xml_parent (xml_up (strip_body_objects (populate_set st x (some y)).st.yang
        (populate_set st x (some y)).xt) :: up)).bind xml_spec = some y := by
      simp [xml_parent, xml_up, xml_spec, populate_set, xml_spec_set]
    have hchain : ∀ pfx, xml2ns_recurse (xml_up (strip_body_objects
        (populate_set st x (some y)).st.yang (populate_set st x (some y)).xt) :: up) pfx =
        xml2ns_recurse (xml_up x :: up0) pfx := by
      intro pfx
      rw [xml_up_strip]
      unfold xml2ns_recurse
      have hs : xml2ns_self (xml_up (populate_set st x (some y)).xt) pfx =
          xml2ns_self (xml_up x) pfx := xml2ns_self_congr rfl pfx
      rw [hs, hn pfx]
    have hloop := xml_bind_loop_ok
      (fun s x0 xc => xml_bind_yang0_opt h s
        (xml_up (strip_body_objects (populate_set st x (some y)).st.yang
          (populate_set st x (some y)).xt) :: up) xc YB_PARENT yspec
        (xml_bind_yang0_opt_sibling x0 xsibling xc))
      (xml_wf st.yang false (some y))
      (fun x0 => ∀ x1, x0 = some x1 → xml_wf st.yang false (some y) x1)
      st x.x_childvec
      (by
        intro c hc hel x0 hI
        rcases Bool.eq_false_or_eq_true (yang_is_any st.yang (some y)) with hy | hy
        · -- below anyxml or anydata
          obtain ⟨r1, r2, r3⟩ := xml_bind_yang0_opt_any h hm st
            (xml_up (strip_body_objects (populate_set st x (some y)).st.yang
              (populate_set st x (some y)).xt) :: up) c
            (xml_up (strip_body_objects (populate_set st x (some y)).st.yang
              (populate_set st x (some y)).xt)) y yspec
            (xml_bind_yang0_opt_sibling x0 xsibling c) rfl
            (by simp [xml_up, xml_spec, populate_set, xml_spec_set])
            ((yang_is_any_true_iff st.yang y).1 hy) (hsafe hy c hc hel)
          refine ⟨r1, r2, r3, xml_wf_trivial st.yang (some y) _ (Or.inr hy), ?_⟩
          intro x1 _
          exact xml_wf_trivial st.yang (some y) _ (Or.inr hy)
        · -- declared content
          obtain ⟨r1, r2, r3, r4⟩ := ih c hc
            (xml_up (strip_body_objects (populate_set st x (some y)).st.yang
              (populate_set st x (some y)).xt) :: up) (xml_up x :: up0) y
            (xml_bind_yang0_opt_sibling x0 xsibling c) yspec hpar hy hchain
            (hch hy c hc hel)
            (by
              intro xs1 hxs1
              rcases xml_bind_yang0_opt_sibling_cases x0 xsibling c xs1 hxs1 with
                ⟨hx0, _, hname, _⟩ | ⟨xp, hxp, hmem, hty, hname⟩
              · exact ⟨hI xs1 hx0, hname⟩
              · obtain ⟨hwp, hnp⟩ := hhint xp hxp
                have hchp := xml_wf_children st.yang false (some yp) xp
                  (Or.inr ⟨yp, rfl, hany⟩) hwp xs1 hmem hty
                rw [xml_wf_some st.yang false yp xp hany] at hwp
                obtain ⟨y2, hspec, hfind2, _⟩ := hwp
                rw [hnp] at hfind2
                have hfind' : yang_find_child st.yang yp x.x_name = some y := hfind
                rw [hfind'] at hfind2
                cases hfind2
                rw [hspec] at hchp
                exact ⟨hchp, hname⟩)
          refine ⟨r1, r2, r3, r4, ?_⟩
          intro x1 hx1
          cases hx1
          exact r4)
      none (by intro x1 hx1; cases hx1)
    obtain ⟨l1, l2, l3, l4⟩ := hloop
    refine ⟨l1, l2, l3, ?_⟩
    · rw [xml_wf_some st.yang false yp _ hany]
      refine ⟨y, ?_, ?_, ?_⟩
      · rw [strip_body_objects_spec]
        rfl
      · rw [strip_body_objects_name]
        exact hfind
      · intro c1 hc1 hty
        exact l4 c1 (strip_body_objects_childvec_mem hc1) hty

/-- Without sibling, an element below a parent bound to anyxml or anydata is passed with
`1` and left as it is. -/
theorem xml_bind_yang0_opt_any_none (h : Option clicon_handle) (st : clixon_state)
    (up : List cxobj) (c xp : cxobj) (yp : Nat) (yspec : Option Nat)
    (hp : xml_parent up = some xp) (hs : xml_spec xp = some yp)
    (hk : yang_keyword_get st.yang yp = Y_ANYXML ∨ yang_keyword_get st.yang yp = Y_ANYDATA) :
    xml_bind_yang0_opt h st up c YB_PARENT yspec none =
      { retval := 1, xt := c, st := st, xerr := [],
        trace := [bind_event.populate c.addr 2] } := by
  have hself : xml_bind_yang0_opt_self st up c YB_PARENT yspec none =
      some (populate_self_parent st up c none yspec) := rfl
  rw [xml_bind_yang0_opt_eq, hself]
  dsimp only
  rw [populate_self_parent_anyxml st up c xp none yspec yp hp hs hk (Or.inl rfl)]
  simp

/-- A loop whose body returns `1` for every element child, without error and without
change of the state, returns `1` without error and without change of the state, and the
result holds, child by child, what the body returned for an element and the child itself
otherwise. -/
theorem xml_bind_loop_forall (f : clixon_state → Option cxobj → cxobj → bind_result cxobj)
    (R : cxobj → cxobj → Prop) (st : clixon_state)
    (hother : ∀ c, xml_type c ≠ CX_ELMNT → R c c) :
    ∀ (cs : List cxobj),
      (∀ c ∈ cs, xml_type c = CX_ELMNT → ∀ x0,
        (f st x0 c).retval = 1 ∧ (f st x0 c).st = st ∧ (f st x0 c).xerr = [] ∧
          R c (f st x0 c).xt) →
      ∀ x0,
        (xml_bind_loop f st x0 cs).retval = 1 ∧ (xml_bind_loop f st x0 cs).st = st ∧
        (xml_bind_loop f st x0 cs).xerr = [] ∧
        List.Forall₂ R cs (xml_bind_loop f st x0 cs).xt := by
  intro cs
  induction cs with
  | nil =>
    intro _ x0
    exact ⟨rfl, rfl, rfl, List.Forall₂.nil⟩
  | cons c cs ih =>
    intro hf x0
    have ih' := ih (fun d hd => hf d (List.mem_cons_of_mem _ hd))
    by_cases hel : xml_type c = CX_ELMNT
    · obtain ⟨r1, r2, r3, hR⟩ := hf c (List.mem_cons_self _ _) hel x0
      have hr : ¬ ((f st x0 c).retval < 0 ∨ (f st x0 c).retval = 0) := by
        rw [r1]
        decide
      obtain ⟨i1, i2, i3, i4⟩ := ih' (some (f st x0 c).xt)
      simp only [xml_bind_loop, hel, ne_eq, not_true_eq_false, ↓reduceIte, hr, r2, r3,
        List.nil_append]
      exact ⟨i1, i2, i3, List.Forall₂.cons hR i4⟩
    · obtain ⟨i1, i2, i3, i4⟩ := ih' x0
      simp only [xml_bind_loop, hel, ne_eq, not_false_eq_true, ↓reduceIte]
      exact ⟨i1, i2, i3, List.Forall₂.cons (hother c hel) i4⟩

/-- `xml_bind_yang0` in parent mode on a parameter that satisfies `rpc_param_ok`, below a
parent bound to `yi`: it returns `1` without error and without change of the state, and
the parameter is bound as `rpc_param_bound` says. `up0` is a parent chain with the
namespaces of the parent chain `up`. -/
theorem xml_bind_yang0_param (h : Option clicon_handle) (st : clixon_state)
    (up up0 : List cxobj) (p : cxobj) (yi : Nat) (yspec : Option Nat)
    (hps : (xml_parent up).bind xml_spec = some yi)
    (hany : yang_is_any st.yang (some yi) = false)
    (hn : ∀ pfx, xml2ns_recurse up pfx = xml2ns_recurse up0 pfx)
    (hty : xml_type p = CX_ELMNT)
    (hok : rpc_param_ok h st.yang yi up0 p) :
    (xml_bind_yang0 h st up p YB_PARENT yspec).retval = 1 ∧
    (xml_bind_yang0 h st up p YB_PARENT yspec).st = st ∧
    (xml_bind_yang0 h st up p YB_PARENT yspec).xerr = [] ∧
    rpc_param_bound st.yang yi p (xml_bind_yang0 h st up p YB_PARENT yspec).xt := by
  obtain ⟨y, ns, hfind, hns, hnsy, hcases⟩ := hok
  have hns' : xml2ns up p ( xml_prefix p) = some ns := by
    rw [xml2ns_chain up up0 hn]
    exact hns
  have hk := (yang_is_any_false_iff st.yang yi).1 hany
  obtain ⟨xp, hxp, hsp⟩ : ∃ xp, xml_parent up = some xp ∧ xml_spec xp = some yi := by
    cases hxp : xml_parent up with
    | none => rw [hxp] at hps; cases hps
    | some xp =>
      rw [hxp] at hps
      exact ⟨xp, rfl, hps⟩
  have hpop := populate_self_parent_declared st up p yi y ns none yspec hps hany hfind
    hns' hnsy (by intro xs hxs; cases hxs)
  -- the result on a parameter without element child
  have hleafeq : (∀ q ∈ p.x_childvec, xml_type q ≠ CX_ELMNT) →
      xml_bind_yang0 h st up p YB_PARENT yspec =
        { retval := 1, xt := strip_body_objects st.yang (xml_spec_set p (some y)), st := st,
          xerr := [],
          trace := [bind_event.populate p.addr 1, bind_event.spec_set p.addr (some y)] } :=
    fun hleaf => xml_bind_yang0_leaf h st up p xp yi y ns yspec hxp hsp hk hfind hns' hnsy hleaf
  have hself : xml_bind_yang0_self st up p YB_PARENT yspec =
      some (populate_set st p (some y)) := by
    rw [← hpop]
    rfl
  have h1 : ¬ (populate_set st p (some y)).retval < 0 := by simp [populate_set]
  have h0 : ¬ (populate_set st p (some y)).retval = 0 := by simp [populate_set]
  have h2 : ¬ (populate_set st p (some y)).retval = 2 := by simp [populate_set]
  have heq : xml_bind_yang0 h st up p YB_PARENT yspec =
      xml_bind_yang0_descend h up yspec (populate_set st p (some y)) := by
    rw [xml_bind_yang0_eq_descend, hself]
    dsimp only
    rw [if_neg h1, if_neg h0, if_neg h2]
  have hmem : ∀ c ∈ (strip_body_objects (populate_set st p (some y)).st.yang
      (populate_set st p (some y)).xt).x_childvec, c ∈ p.x_childvec :=
    fun c hc => (strip_body_objects_childvec_mem hc :
      c ∈ (populate_set st p (some y)).xt.x_childvec)
  have hpar : (xml_parent (xml_up (strip_body_objects (populate_set st p (some y)).st.yang
      (populate_set st p (some y)).xt) :: up)).bind xml_spec = some y := by
    simp [xml_parent, xml_up, xml_spec, populate_set, xml_spec_set]
  have hchain : ∀ pfx, xml2ns_recurse (xml_up (strip_body_objects
      (populate_set st p (some y)).st.yang (populate_set st p (some y)).xt) :: up) pfx =
      xml2ns_recurse (xml_up p :: up0) pfx := by
    intro pfx
    rw [xml_up_strip]
    unfold xml2ns_recurse
    have hs : xml2ns_self (xml_up (populate_set st p (some y)).xt) pfx =
        xml2ns_self (xml_up p) pfx := xml2ns_self_congr rfl pfx
    rw [hs, hn pfx]
  have hloop := xml_bind_loop_ok
    (xml_bind_yang0_body h up yspec
      (strip_body_objects (populate_set st p (some y)).st.yang (populate_set st p (some y)).xt))
    (xml_wf st.yang false (some y)) (fun _ => True) st
    (strip_body_objects (populate_set st p (some y)).st.yang
      (populate_set st p (some y)).xt).x_childvec
    (by
      intro c hc hel x0 _
      rcases hcases with hy | hleaf | ⟨hm, hy, hdecl⟩
      · have he := xml_bind_yang0_opt_any_none h st
          (xml_up (strip_body_objects (populate_set st p (some y)).st.yang
            (populate_set st p (some y)).xt) :: up) c
          (xml_up (strip_body_objects (populate_set st p (some y)).st.yang
            (populate_set st p (some y)).xt)) y yspec rfl
          (by simp [xml_up, xml_spec, populate_set, xml_spec_set])
          ((yang_is_any_true_iff st.yang y).1 hy)
        unfold xml_bind_yang0_body
        rw [he]
        exact ⟨rfl, rfl, rfl, xml_wf_trivial st.yang (some y) _ (Or.inr hy), trivial⟩
      · exact absurd hel (hleaf c (hmem c hc))
      · obtain ⟨r1, r2, r3, r4⟩ := xml_bind_yang0_opt_declared h hm st c
          (xml_up (strip_body_objects (populate_set st p (some y)).st.yang
            (populate_set st p (some y)).xt) :: up) (xml_up p :: up0) y none yspec hpar hy
          hchain (hdecl c (hmem c hc) hel) (by intro xs hxs; cases hxs)
        exact ⟨r1, r2, r3, r4, trivial⟩)
    none trivial
  obtain ⟨l1, l2, l3, l4⟩ := hloop
  rw [heq]
  unfold xml_bind_yang0_descend
  refine ⟨l1, l2, l3, fun hne => absurd hty hne, fun _ => ⟨y, hfind, ?_, ?_, ?_, ?_⟩⟩
  · show (strip_body_objects (populate_set st p (some y)).st.yang
      (populate_set st p (some y)).xt).x_spec = some y
    rw [strip_body_objects_spec]
    rfl
  · have hsn := strip_body_objects_same_node (populate_set st p (some y)).st.yang
      (populate_set st p (some y)).xt
    exact ⟨hsn.1, hsn.2.1, hsn.2.2.1, hsn.2.2.2.1, hsn.2.2.2.2.1, hsn.2.2.2.2.2⟩
  · rw [xml_wf_some st.yang false yi _ hany]
    refine ⟨y, ?_, ?_, l4⟩
    · show (strip_body_objects (populate_set st p (some y)).st.yang
        (populate_set st p (some y)).xt).x_spec = some y
      rw [strip_body_objects_spec]
      rfl
    · show yang_find_child st.yang yi (strip_body_objects (populate_set st p (some y)).st.yang
        (populate_set st p (some y)).xt).x_name = some y
      rw [strip_body_objects_name]
      exact hfind
  · intro hleaf
    have hx := congrArg bind_result.xt (hleafeq hleaf)
    rw [heq] at hx
    exact hx

/-- `xml_bind_yang_rpc_rpc` on an operation whose rpc declares the input `yi` and whose
parameters all satisfy `rpc_param_ok`. -/
theorem xml_bind_yang_rpc_rpc_input (h : Option clicon_handle) (st : clixon_state)
    (up : List cxobj) (x : cxobj) (yrpc yi : Nat)
    (hin : yang_find st.yang yrpc Y_INPUT none = some yi)
    (hpar : ∀ p ∈ x.x_childvec, xml_type p = CX_ELMNT →
      rpc_param_ok h st.yang yi (xml_up x :: up) p) :
    (xml_bind_yang_rpc_rpc h st up x yrpc (xml_name x)).retval = 1 ∧
    (xml_bind_yang_rpc_rpc h st up x yrpc (xml_name x)).st = st ∧
    (xml_bind_yang_rpc_rpc h st up x yrpc (xml_name x)).xerr = [] ∧
    ∃ cs, (xml_bind_yang_rpc_rpc h st up x yrpc (xml_name x)).xt =
        { xml_spec_set x (some yi) with x_childvec := cs } ∧
      List.Forall₂ (rpc_param_bound st.yang yi) x.x_childvec cs := by
  have hk : yang_keyword_get st.yang yi = Y_INPUT := yang_find_keyword hin
  have hany : yang_is_any st.yang (some yi) = false := by
    rw [yang_is_any_false_iff, hk]
    simp
  have hstrip : strip_body_objects st.yang (xml_spec_set (xml_spec_set x (some yrpc)) (some yi))
      = xml_spec_set x (some yi) := by
    rw [strip_body_objects_input st.yang
      (xml_spec_set (xml_spec_set x (some yrpc)) (some yi)) yi rfl hk]; rfl
  have hchain : ∀ pfx, xml2ns_recurse (xml_up (xml_spec_set x (some yi)) :: up) pfx =
      xml2ns_recurse (xml_up x :: up) pfx := by
    intro pfx
    unfold xml2ns_recurse
    have hs : xml2ns_self (xml_up (xml_spec_set x (some yi))) pfx =
        xml2ns_self (xml_up x) pfx := xml2ns_self_congr rfl pfx
    rw [hs]
  obtain ⟨l1, l2, l3, l4⟩ := xml_bind_loop_forall
    (fun s _ xc => xml_bind_yang0 h s (xml_up (xml_spec_set x (some yi)) :: up) xc
      YB_PARENT none)
    (rpc_param_bound st.yang yi) st
    (fun c hc => ⟨fun _ => rfl, fun ht => absurd ht hc⟩)
    x.x_childvec
    (fun p hp hty _ => xml_bind_yang0_param h st (xml_up (xml_spec_set x (some yi)) :: up)
      (xml_up x :: up) p yi none rfl hany hchain hty (hpar p hp hty))
    none
  unfold xml_bind_yang_rpc_rpc
  simp only [hin, xml_bind_yang, hstrip, xml_spec_set_childvec]
  exact ⟨l1, l2, l3, _, rfl, l4⟩

/-- The loop of `xml_bind_yang_rpc` over operations that all satisfy `rpc_op_ok`. -/
theorem xml_bind_yang_rpc_children_ok (isaction : List cxobj → cxobj → Int)
    (h : Option clicon_handle) (st : clixon_state) (up : List cxobj) (yspec : Option Nat) :
    ∀ (cs : List cxobj), (∀ x ∈ cs, rpc_op_ok isaction h st.yang yspec up x) →
      (xml_bind_yang_rpc_children isaction h st up yspec cs).retval = 1 ∧
      (xml_bind_yang_rpc_children isaction h st up yspec cs).st = st ∧
      (xml_bind_yang_rpc_children isaction h st up yspec cs).xerr = [] ∧
      List.Forall₂ (rpc_op_bound st.yang yspec up) cs
        (xml_bind_yang_rpc_children isaction h st up yspec cs).xt := by
  intro cs
  induction cs with
  | nil => intro _; simp [xml_bind_yang_rpc_children]
  | cons c cs ih =>
    intro hall
    obtain ⟨i1, i2, i3, i4⟩ := ih (fun x hx => hall x (List.mem_cons_of_mem _ hx))
    by_cases hty : xml_type c = CX_ELMNT
    · obtain ⟨hact, ymod, yrpc, yi, hmod, hrpc, hin, hpar⟩ :=
        hall c (List.mem_cons_self _ _) hty
      obtain ⟨r1, r2, r3, cs', r4, r5⟩ :=
        xml_bind_yang_rpc_rpc_input h st up c yrpc yi hin hpar
      simp only [xml_bind_yang_rpc_children, hty, ne_eq, not_true_eq_false, ↓reduceIte, hact,
        Int.lt_irrefl, Int.reduceEq, hmod, hrpc, r1, r2, r3, Int.reduceLT, or_self,
        List.nil_append]
      refine ⟨i1, i2, i3, List.Forall₂.cons ⟨fun hn => absurd hty hn, fun _ => ?_⟩ i4⟩
      exact ⟨ymod, yrpc, yi, cs', hmod, hrpc, hin, r4, r5⟩
    · simp only [xml_bind_yang_rpc_children, hty, ne_eq, not_false_eq_true, ↓reduceIte]
      exact ⟨i1, i2, i3, List.Forall₂.cons ⟨fun _ => rfl, fun ht => absurd ht hty⟩ i4⟩

/-- C1, as the code has it: for an `<rpc>` root that carries a `message-id` attribute (or
when `message-id` is optional) and whose operation children are no actions and name an rpc
statement of the module selected by their namespace, where that rpc declares an input and
every parameter matches a child of the input in its own namespace and has content that
binds (`rpc_param_ok`: the parameter matches an anyxml or anydata statement, or has no
element child, or schema mount is off and every element below it, at every depth, matches
a child of the statement of its parent in its own namespace): `xml_bind_yang_rpc` returns
`1` without error, the schema reference of every operation element is the input statement
of its rpc, and every parameter is bound to the child of the input with its name, with
every element below it bound to the matching child of the statement of its parent. -/
theorem C1_rpc_input_bound (isaction : List cxobj → cxobj → Int) (h : Option clicon_handle)
    (st : clixon_state) (up : List cxobj) (xrpc : cxobj) (yspec : Option Nat)
    (hname : xml_name xrpc = "rpc")
    (hmsg : st._netconf_message_id_optional ≠ 0 ∨
      (xml_find_type xrpc none "message-id" CX_ATTR).isSome = true)
    (hops : ∀ x ∈ xrpc.x_childvec, rpc_op_ok isaction h st.yang yspec (xml_up xrpc :: up) x) :
    (xml_bind_yang_rpc isaction h st up xrpc yspec).retval = 1 ∧
    (xml_bind_yang_rpc isaction h st up xrpc yspec).xerr = [] ∧
    ∃ cs, (xml_bind_yang_rpc isaction h st up xrpc yspec).xt = { xrpc with x_childvec := cs } ∧
      List.Forall₂ (rpc_op_bound st.yang yspec (xml_up xrpc :: up)) xrpc.x_childvec cs := by
  obtain ⟨l1, l2, l3, l4⟩ :=
    xml_bind_yang_rpc_children_ok isaction h st (xml_up xrpc :: up) yspec xrpc.x_childvec hops
  have hm : ¬ (st._netconf_message_id_optional = 0 ∧
      (xml_find_type xrpc none "message-id" CX_ATTR).isNone = true) := by
    rintro ⟨h0, hnone⟩
    rcases hmsg with hmsg | hmsg
    · exact hmsg h0
    · cases hx : xml_find_type xrpc none "message-id" CX_ATTR <;> simp [hx] at hmsg hnone
  unfold xml_bind_yang_rpc
  simp only [hname, hm, ↓reduceIte]
  simp only [show ¬ ("rpc" = "hello") by decide, show ¬ ("rpc" = "notification") by decide,
    ↓reduceIte]
  exact ⟨l1, l3, _, rfl, l4⟩

theorem example_rpc_running_ops :
    ∀ x ∈ example_rpc_running.x_childvec,
      rpc_op_ok example_isaction none example_state.yang (some 0)
        (xml_up example_rpc_running :: []) x := by
  intro x hx
  simp only [example_rpc_running, xml_elmnt, List.mem_cons, List.mem_singleton,
    List.not_mem_nil, or_false] at hx
  rcases hx with rfl | rfl
  · intro hty
    exact absurd hty (by decide)
  · intro _
    refine ⟨rfl, 1, 6, 7, by decide, by decide, by decide, ?_⟩
    intro p hp hty
    simp only [example_get_config_running, xml_elmnt, List.mem_cons, List.mem_singleton,
      List.not_mem_nil, or_false] at hp
    rcases hp with rfl | rfl
    · exact absurd hty (by decide)
    · refine ⟨8, "urn:n", by decide, by decide, by decide,
        Or.inr (Or.inr ⟨(fun _ hh => nomatch hh), by decide, ?_⟩)⟩
      intro c hc hel
      simp only [example_source_running, xml_elmnt, List.mem_cons, List.mem_singleton,
        List.not_mem_nil, or_false] at hc
      subst hc
      rw [xml_declared_eq]
      refine ⟨9, "urn:n", by decide, by decide, by decide, ?_, ?_⟩
      · intro _ q hq
        simp at hq
      · intro _ q hq
        simp at hq

/-- C1 at the example of the specification,
`<rpc message-id="1"><get-config xmlns="urn:n"><source><running/></source></get-config></rpc>`
against `rpc get-config { input { container source { leaf running; } } }`: the call
returns `1`, `get-config` carries the input statement (`7`), `source` is bound to
`container source` (`8`) and `running` to `leaf running` (`9`). -/
theorem C1_rpc_input_bound_witness :
    xml_name example_rpc_running = "rpc" ∧
    ((xml_bind_yang_rpc example_isaction none example_state [] example_rpc_running
        (some 0)).retval = 1 ∧
      (xml_bind_yang_rpc example_isaction none example_state [] example_rpc_running
        (some 0)).xerr = []) ∧
    (xml_bind_yang_rpc example_isaction none example_state [] example_rpc_running
        (some 0)).xt.x_childvec
      = [xml_attr 2 none "message-id" "1",
         { xml_elmnt 3 none "get-config"
             [xml_attr 4 none "xmlns" "urn:n",
              { xml_elmnt 5 none "source"
                  [{ xml_elmnt 6 none "running" [] with x_spec := some 9 }]
                with x_spec := some 8 }]
           with x_spec := some 7 }] :=
  ⟨rfl,
    ⟨(C1_rpc_input_bound example_isaction none example_state [] example_rpc_running (some 0)
        rfl (Or.inr (by decide)) example_rpc_running_ops).1,
     (C1_rpc_input_bound example_isaction none example_state [] example_rpc_running (some 0)
        rfl (Or.inr (by decide)) example_rpc_running_ops).2.1⟩,
    rfl⟩

/-- C1 as stated fails: in
`<rpc message-id="1"><get-config xmlns="urn:n"><source><bogus/></source></get-config></rpc>`
the root carries `message-id`, `get-config` names an rpc of the module of its namespace,
the rpc declares an input, and the only parameter `source` matches the input child
`source` in the same namespace; `xml_bind_yang_rpc` returns `0` all the same, because
`bogus` below `source` has no schema. -/
theorem C1_counterexample :
    xml_name example_rpc_bogus = "rpc" ∧
    (xml_find_type example_rpc_bogus none "message-id" CX_ATTR).isSome = true ∧
    example_isaction [xml_up example_rpc_bogus] example_get_config_bogus = 0 ∧
    ys_module_by_xml example_state.yang (some 0) [xml_up example_rpc_bogus]
      example_get_config_bogus = some 1 ∧
    yang_find example_state.yang 1 Y_RPC (some "get-config") = some 6 ∧
    yang_find example_state.yang 6 Y_INPUT none = some 7 ∧
    (example_get_config_bogus.x_childvec.filter (fun p => decide (xml_type p = CX_ELMNT)))
      = [example_source_bogus] ∧
    yang_find_child example_state.yang 7 (xml_name example_source_bogus) = some 8 ∧
    xml2ns [xml_up example_get_config_bogus, xml_up example_rpc_bogus] example_source_bogus
      ( xml_prefix example_source_bogus) = some "urn:n" ∧
    yang_find_mynamespace example_state.yang 8 = some "urn:n" ∧
    (xml_bind_yang_rpc example_isaction none example_state [] example_rpc_bogus
      (some 0)).retval = 0 ∧
    (xml_bind_yang_rpc example_isaction none example_state [] example_rpc_bogus
      (some 0)).xerr =
      [netconf_unknown_element_xml "application" "bogus"
        "Failed to find YANG spec of XML node: bogus with parent: source in namespace: urn:n"] :=
  ⟨rfl, by decide, rfl, by decide, by decide, by decide, rfl, by decide, by decide, by decide,
    by decide, by decide⟩
